import Mathlib

/-!
# GBEmu: memory bus and CPU interpreter

A shallow embedding of `GBEmuNative/MemoryBus.h` and `GBEmuNative/Cpu.h`.

* `Uint8` / `Uint16` values are natural numbers; every place where the C++ code
  narrows an `int` back to `Uint8` / `Uint16` is an explicit `toUint8` / `toUint16`
  (the value modulo 256 / 65536), and `int` arithmetic that can go negative is done in `Int`.
* Member functions that mutate the object take the object and return an `Outcome`:
  either the returned value with the new object, or the exception that was thrown
  together with the object as the throw left it (C++ exceptions do not roll back).
  A failed `SDL_assert` ends the call in the same way, with the object as it is at the
  assertion; it is kept apart from the exceptions, which it is not.
* Fixed-size arrays are functions from the index to the stored byte.
-/

namespace GBEmu

/-! ## Utils.h -/

/-- Modelled from the spec: `Utils.h` is not part of the sources; `Bit0` is the mask of bit 0. -/
def Bit0 : Nat := 0x01

/-- Modelled from the spec: `Utils.h` is not part of the sources; `Bit7` is the mask of bit 7. -/
def Bit7 : Nat := 0x80

/-- Modelled from the spec: `Utils.h` is not part of the sources; a region is given by its
first address and its size, and holds the addresses `base .. base + size - 1`
(VRAM 0x8000-0x9FFF has base 0x8000 and size 0x2000). -/
def IsAddressInRange (address base size : Nat) : Bool :=
  decide (base ≤ address) && decide (address < base + size)

/-- Modelled from the spec: `Utils.h` is not part of the sources; low byte of a 16-bit value
(16-bit accesses are little-endian: the low byte is the one stored first). -/
def GetLow8 (value : Nat) : Nat := value &&& 0xFF

/-- Modelled from the spec: `Utils.h` is not part of the sources; high byte of a 16-bit value. -/
def GetHigh8 (value : Nat) : Nat := (value >>> 8) &&& 0xFF

/-- Modelled from the spec: `Utils.h` is not part of the sources; `Make16(high, low)` is the
16-bit value with the given high and low bytes. -/
def Make16 (high low : Nat) : Nat := (high <<< 8) ||| low

/-- Modelled from the spec: `Utils.h` is not part of the sources; the low nibble `x & 0xF`. -/
def GetLow4 (value : Nat) : Nat := value &&& 0x0F

/-- Modelled from the spec: `Utils.h` is not part of the sources; the low 12 bits `x & 0xFFF`. -/
def GetLow12 (value : Nat) : Nat := value &&& 0xFFF

/-! ## Exceptions and outcomes -/

/-- What ends a call before its return: the exceptions thrown by the bus and the CPU, and
the failed assertion of the unknown-opcode block. -/
inductive Exception where
  /-- `Exception("Two memory devices handle address 0x%04lX", address)` -/
  | TwoDevices (address : Nat)
  /-- `Exception("Read from write-only register")` -/
  | ReadFromWriteOnly
  /-- `Exception("Write to read-only register")` -/
  | WriteToReadOnly
  /-- `NotImplementedException()` -/
  | NotImplemented
  /-- `Exception("Illegal opcode executed: 0x%02lX", N)` -/
  | IllegalOpcode (N : Nat)
  /-- `Exception("HALT with IME disabled")` -/
  | HaltWithImeDisabled
  /-- `SDL_assert(false && "Unknown opcode encountered")` has failed.  This is not a C++
  exception and no `catch` sees it: SDL reports the failed assertion and its handler stops
  the program at that statement. -/
  | AssertionFailed
  /-- Indexing `m_devicesUnsafe` past its end (undefined behaviour in the source). -/
  | DeviceIndexOutOfRange
  deriving DecidableEq

namespace Exception

/-- The end of the call is one of the two the opcode dispatch makes itself: the
illegal-opcode exception or the failed assertion of the unknown-opcode block. -/
def isDispatchError : Exception → Bool
  | .IllegalOpcode _ => true
  | .AssertionFailed => true
  | _ => false

end Exception

/-- Result of running a member function on an object of type `σ`. -/
inductive Outcome (σ α : Type) where
  | ok (value : α) (state : σ)
  | thrown (e : Exception) (state : σ)

namespace Outcome

variable {σ α β : Type}

/-- Sequencing: run `f` on the value and state of a normal return, propagate a throw. -/
def andThen (r : Outcome σ α) (f : α → σ → Outcome σ β) : Outcome σ β :=
  match r with
  | .ok a s => f a s
  | .thrown e s => .thrown e s

/-- The object the call left behind. -/
def state : Outcome σ α → σ
  | .ok _ s => s
  | .thrown _ s => s

/-- The returned value, when the call returned. -/
def value? : Outcome σ α → Option α
  | .ok a _ => some a
  | .thrown _ _ => none

/-- The call returns, or fails with an exception other than illegal opcode (and not at the
assertion of the unknown-opcode block). -/
def NoDispatchError : Outcome σ α → Prop
  | .ok _ _ => True
  | .thrown e _ => e.isDispatchError = false

end Outcome

/-! ## IMemoryBusDevice.h -/

inductive MemoryRequestType where
  | Read
  | Write
  deriving DecidableEq

/-- Modelled from the spec: `IMemoryBusDevice.h` is not part of the sources; a device has a
single entry point taking (kind, address, byte slot) and returning "handled" or
"not handled"; on a handled Read it fills the byte slot.  `δ` is the type of the
state of the device; the entry point returns the flag, the byte slot and the new state. -/
structure IMemoryBusDevice (δ : Type) where
  state : δ
  HandleRequest : MemoryRequestType → Nat → Nat → δ → Bool × Nat × δ

/-! ## MemoryBus.h -/

/-- The three macros of `MemoryMappedRegisters.inc`. -/
inductive RegisterAccess where
  | RW
  | R
  | W
  deriving DecidableEq

namespace MemoryDeviceStatus

def Unknown : Int := -2
def Unset : Int := -1

end MemoryDeviceStatus

/-- State of `class MemoryBus`.  `MemoryMappedRegisters.inc` is not part of the sources: the
table it defines is the parameter `registers` (for each address, whether a register is
defined there and with which macro); `mmr` holds the storage declared for them. -/
structure MemoryBus (δ : Type) where
  registers : Nat → Option RegisterAccess
  mmr : Nat → Nat
  m_devicesUnsafe : List (IMemoryBusDevice δ)
  m_deviceIndexAtAddress : Nat → Int
  m_vram : Nat → Nat
  m_workMemory : Nat → Nat
  m_hram : Nat → Nat

namespace MemoryBus

variable {δ : Type}

def kVramBase : Nat := 0x8000
def kVramSize : Nat := 0x2000
def kWorkMemoryBase : Nat := 0xC000
def kWorkMemorySize : Nat := 0x2000
def kEchoBase : Nat := 0xE000
def kEchoSize : Nat := 0xFE00 - kEchoBase
def kHramMemoryBase : Nat := 0xFF80
def kHramMemorySize : Nat := 0xFFFF - kHramMemoryBase
def kAddressSpaceSize : Nat := 0x10000

def AddDevice (bus : MemoryBus δ) (pDevice : IMemoryBusDevice δ) : MemoryBus δ :=
  { bus with m_devicesUnsafe := bus.m_devicesUnsafe ++ [pDevice] }

def Reset (bus : MemoryBus δ) : MemoryBus δ :=
  { bus with
    mmr := fun _ => 0x00
    m_vram := fun _ => 0xFD
    m_workMemory := fun _ => 0xFD
    m_hram := fun _ => 0xFD
    m_deviceIndexAtAddress := fun _ => MemoryDeviceStatus.Unknown }

/-- The probing loop of `EnsureDeviceIsProbed`, with `n` devices left to probe starting at
`deviceIndex`.  The probe passes an uninitialised byte slot, taken as 0. -/
def probeDevices (address : Nat) : Nat → Nat → MemoryBus δ → Outcome (MemoryBus δ) Unit
  | 0, _, bus => .ok () bus
  | n + 1, deviceIndex, bus =>
    match bus.m_devicesUnsafe[deviceIndex]? with
    | none => .thrown .DeviceIndexOutOfRange bus
    | some pDevice =>
      let r := pDevice.HandleRequest .Read address 0 pDevice.state
      let bus1 := { bus with
        m_devicesUnsafe := bus.m_devicesUnsafe.set deviceIndex { pDevice with state := r.2.2 } }
      if r.1 then
        if bus1.m_deviceIndexAtAddress address = MemoryDeviceStatus.Unknown then
          probeDevices address n (deviceIndex + 1)
            { bus1 with m_deviceIndexAtAddress :=
                Function.update bus1.m_deviceIndexAtAddress address (deviceIndex : Int) }
        else
          .thrown (.TwoDevices address) bus1
      else
        probeDevices address n (deviceIndex + 1) bus1

def EnsureDeviceIsProbed (bus : MemoryBus δ) (address : Nat) : Outcome (MemoryBus δ) Unit :=
  if bus.m_deviceIndexAtAddress address = MemoryDeviceStatus.Unknown then
    (probeDevices address bus.m_devicesUnsafe.length 0 bus).andThen fun _ bus1 =>
      if bus1.m_deviceIndexAtAddress address = MemoryDeviceStatus.Unknown then
        let unset := Function.update bus1.m_deviceIndexAtAddress address MemoryDeviceStatus.Unset
        .ok () { bus1 with m_deviceIndexAtAddress := unset }
      else
        .ok () bus1
  else
    .ok () bus

/-- Returns the byte and the value left in `*pSuccess`. -/
def ReadMemoryMappedRegister (bus : MemoryBus δ) (address : Nat) (throwIfFailed : Bool) :
    Outcome (MemoryBus δ) (Nat × Bool) :=
  match bus.registers address with
  | some .RW => .ok (bus.mmr address, true) bus
  | some .R => .ok (bus.mmr address, true) bus
  | some .W => if throwIfFailed then .thrown .ReadFromWriteOnly bus else .ok (0xFF, false) bus
  | none => if throwIfFailed then .thrown .NotImplemented bus else .ok (0xFF, false) bus

def WriteMemoryMappedRegister (bus : MemoryBus δ) (address value : Nat) :
    Outcome (MemoryBus δ) Unit :=
  match bus.registers address with
  | some .RW => .ok () { bus with mmr := Function.update bus.mmr address value }
  | some .R => .thrown .WriteToReadOnly bus
  | some .W => .ok () { bus with mmr := Function.update bus.mmr address value }
  | none => .thrown .NotImplemented bus

/-- Calls `HandleRequest` on the device at `deviceIndex` and returns the byte slot. -/
def callDevice (bus : MemoryBus δ) (deviceIndex : Nat) (requestType : MemoryRequestType)
    (address value : Nat) : Outcome (MemoryBus δ) Nat :=
  match bus.m_devicesUnsafe[deviceIndex]? with
  | none => .thrown .DeviceIndexOutOfRange bus
  | some pDevice =>
    let r := pDevice.HandleRequest requestType address value pDevice.state
    .ok r.2.1 { bus with
      m_devicesUnsafe := bus.m_devicesUnsafe.set deviceIndex { pDevice with state := r.2.2 } }

/-- Returns the byte and the value left in `*pSuccess` (whether or not the caller passed one). -/
def Read8 (bus : MemoryBus δ) (address : Nat) (throwIfFailed : Bool := true) :
    Outcome (MemoryBus δ) (Nat × Bool) :=
  if IsAddressInRange address kVramBase kVramSize then
    .ok (bus.m_vram (address - kVramBase), true) bus
  else if IsAddressInRange address kWorkMemoryBase kWorkMemorySize then
    .ok (bus.m_workMemory (address - kWorkMemoryBase), true) bus
  else if IsAddressInRange address kEchoBase kEchoSize then
    .ok (bus.m_workMemory (address - kEchoBase), true) bus
  else if IsAddressInRange address kHramMemoryBase kHramMemorySize then
    .ok (bus.m_hram (address - kHramMemoryBase), true) bus
  else
    (EnsureDeviceIsProbed bus address).andThen fun _ bus1 =>
      let deviceIndex := bus1.m_deviceIndexAtAddress address
      if deviceIndex ≥ 0 then
        (callDevice bus1 deviceIndex.toNat .Read address 0).andThen fun result bus2 =>
          .ok (result, true) bus2
      else
        ReadMemoryMappedRegister bus1 address throwIfFailed

def SafeRead8 (bus : MemoryBus δ) (address : Nat) : Outcome (MemoryBus δ) (Bool × Nat) :=
  (Read8 bus address false).andThen fun r bus1 => .ok (r.2, r.1) bus1

/-- The two reads are arguments of one call, so their order is not fixed by the language;
the low byte is read first here. -/
def Read16 (bus : MemoryBus δ) (address : Nat) : Outcome (MemoryBus δ) Nat :=
  (Read8 bus address).andThen fun low bus1 =>
    (Read8 bus1 ((address + 1) % 65536)).andThen fun high bus2 =>
      .ok (Make16 high.1 low.1) bus2

def Write8 (bus : MemoryBus δ) (address value : Nat) : Outcome (MemoryBus δ) Unit :=
  if IsAddressInRange address kVramBase kVramSize then
    .ok () { bus with m_vram := Function.update bus.m_vram (address - kVramBase) value }
  else if IsAddressInRange address kWorkMemoryBase kWorkMemorySize then
    .ok () { bus with
      m_workMemory := Function.update bus.m_workMemory (address - kWorkMemoryBase) value }
  else if IsAddressInRange address kEchoBase kEchoSize then
    .ok () { bus with
      m_workMemory := Function.update bus.m_workMemory (address - kEchoBase) value }
  else if IsAddressInRange address kHramMemoryBase kHramMemorySize then
    .ok () { bus with m_hram := Function.update bus.m_hram (address - kHramMemoryBase) value }
  else
    (EnsureDeviceIsProbed bus address).andThen fun _ bus1 =>
      let deviceIndex := bus1.m_deviceIndexAtAddress address
      if deviceIndex ≥ 0 then
        (callDevice bus1 deviceIndex.toNat .Write address value).andThen fun _ bus2 =>
          .ok () bus2
      else
        WriteMemoryMappedRegister bus1 address value

def Write16 (bus : MemoryBus δ) (address value : Nat) : Outcome (MemoryBus δ) Unit :=
  (Write8 bus address (GetLow8 value)).andThen fun _ bus1 =>
    Write8 bus1 ((address + 1) % 65536) (GetHigh8 value)

/-- The address lies in one of the RAM regions the bus serves from its own arrays. -/
def IsBusOwnedRam (address : Nat) : Bool :=
  IsAddressInRange address kVramBase kVramSize ||
  IsAddressInRange address kWorkMemoryBase kWorkMemorySize ||
  IsAddressInRange address kEchoBase kEchoSize ||
  IsAddressInRange address kHramMemoryBase kHramMemorySize

/-! ### Reading aids for the RAM regions -/

/-- The byte `Read8` returns for an address served from the arrays the bus owns. -/
def ramByte (bus : MemoryBus δ) (address : Nat) : Nat :=
  if IsAddressInRange address kVramBase kVramSize then bus.m_vram (address - kVramBase)
  else if IsAddressInRange address kWorkMemoryBase kWorkMemorySize then
    bus.m_workMemory (address - kWorkMemoryBase)
  else if IsAddressInRange address kEchoBase kEchoSize then bus.m_workMemory (address - kEchoBase)
  else bus.m_hram (address - kHramMemoryBase)

/-- The array cell behind a RAM address, named by its lowest address: an echo address
names the work-RAM cell it aliases. -/
def ramSlot (address : Nat) : Nat :=
  if IsAddressInRange address kEchoBase kEchoSize then address - 0x2000 else address

/-- The bus after a store to a RAM address. -/
def ramStore (bus : MemoryBus δ) (address value : Nat) : MemoryBus δ :=
  if IsAddressInRange address kVramBase kVramSize then
    { bus with m_vram := Function.update bus.m_vram (address - kVramBase) value }
  else if IsAddressInRange address kWorkMemoryBase kWorkMemorySize then
    { bus with
      m_workMemory := Function.update bus.m_workMemory (address - kWorkMemoryBase) value }
  else if IsAddressInRange address kEchoBase kEchoSize then
    { bus with
      m_workMemory := Function.update bus.m_workMemory (address - kEchoBase) value }
  else
    { bus with m_hram := Function.update bus.m_hram (address - kHramMemoryBase) value }

/-- The two buses hold the same bytes in the three RAM arrays. -/
def sameRam (bus1 bus2 : MemoryBus δ) : Prop :=
  bus1.m_vram = bus2.m_vram ∧ bus1.m_workMemory = bus2.m_workMemory ∧ bus1.m_hram = bus2.m_hram

end MemoryBus

/-! ## Cpu.h -/

/-- Narrowing conversion of an `int` to `Uint8`. -/
def toUint8 (x : Int) : Nat := (x % 256).toNat

/-- Narrowing conversion of an `int` to `Uint16`. -/
def toUint16 (x : Int) : Nat := (x % 65536).toNat

/-- The value of a `static_cast<Sint8>` of a byte. -/
def toSint8 (x : Nat) : Int := if x % 256 > 127 then (x % 256 : Int) - 256 else (x % 256 : Int)

inductive FlagBitIndex where
  | Zero
  | Subtract
  | HalfCarry
  | Carry
  deriving DecidableEq

/-- The enumerator values: `Zero = 7, Subtract = 6, HalfCarry = 5, Carry = 4`. -/
def FlagBitIndex.toNat : FlagBitIndex → Nat
  | .Zero => 7
  | .Subtract => 6
  | .HalfCarry => 5
  | .Carry => 4

namespace FlagBitMask

def Zero : Nat := 1 <<< FlagBitIndex.Zero.toNat
def Subtract : Nat := 1 <<< FlagBitIndex.Subtract.toNat
def HalfCarry : Nat := 1 <<< FlagBitIndex.HalfCarry.toNat
def Carry : Nat := 1 <<< FlagBitIndex.Carry.toNat
def All : Nat := Zero ||| Subtract ||| HalfCarry ||| Carry

end FlagBitMask

/-- `enum class DebuggerState` of `class Cpu`. -/
inductive DebuggerState where
  | Running
  | SingleStepping
  deriving DecidableEq

/-- State of `class Cpu`.  The register pairs are unions of two bytes and a 16-bit word on a
little-endian target: the bytes are stored, the words are `AF`, `BC`, `DE`, `HL` below.
`m_pMemory` is the memory object the CPU shares; `Memory.h` is not part of the sources and
the bus of `MemoryBus.h` (same `Read8`/`Read16`/`Write8`/`Write16` interface) stands for it.
The floating-point cycle budget `m_cyclesRemaining` only decides how many iterations `Update`
runs and is left out.  The constructor sets `m_debuggerState` to `Running`. -/
structure Cpu (δ : Type) where
  A : Nat
  F : Nat
  B : Nat
  C : Nat
  D : Nat
  E : Nat
  H : Nat
  L : Nat
  SP : Nat
  PC : Nat
  IME : Bool
  m_cpuHalted : Bool
  m_cpuStopped : Bool
  m_totalOpcodesExecuted : Nat
  m_pMemory : MemoryBus δ
  m_debuggerState : DebuggerState := .Running

namespace Cpu

variable {δ : Type}

/-! ### Register pairs -/

def AF (cpu : Cpu δ) : Nat := (cpu.A <<< 8) ||| cpu.F
def BC (cpu : Cpu δ) : Nat := (cpu.B <<< 8) ||| cpu.C
def DE (cpu : Cpu δ) : Nat := (cpu.D <<< 8) ||| cpu.E
def HL (cpu : Cpu δ) : Nat := (cpu.H <<< 8) ||| cpu.L

def setAF (cpu : Cpu δ) (value : Nat) : Cpu δ :=
  { cpu with A := (value >>> 8) &&& 0xFF, F := value &&& 0xFF }
def setBC (cpu : Cpu δ) (value : Nat) : Cpu δ :=
  { cpu with B := (value >>> 8) &&& 0xFF, C := value &&& 0xFF }
def setDE (cpu : Cpu δ) (value : Nat) : Cpu δ :=
  { cpu with D := (value >>> 8) &&& 0xFF, E := value &&& 0xFF }
def setHL (cpu : Cpu δ) (value : Nat) : Cpu δ :=
  { cpu with H := (value >>> 8) &&& 0xFF, L := value &&& 0xFF }

def Reset (cpu : Cpu δ) : Cpu δ :=
  let cpu := { cpu with m_totalOpcodesExecuted := 0 }
  let cpu := { cpu with m_cpuHalted := false }
  let cpu := { cpu with m_cpuStopped := false }
  let cpu := { cpu with IME := true }
  let cpu := { cpu with PC := 0x0100 }
  let cpu := cpu.setAF 0x01B0
  let cpu := cpu.setBC 0x0013
  let cpu := cpu.setDE 0x00D8
  cpu.setHL 0x014D

/-! ### Bit parsing template metafunctions -/

def b0_2 (N : Nat) : Nat := N &&& 0x7
def b3_4 (N : Nat) : Nat := (N >>> 3) &&& 0x3
def b3_5 (N : Nat) : Nat := (N >>> 3) &&& 0x7
def b4 (N : Nat) : Nat := (N >>> 4) &&& 0x1
def b4_5 (N : Nat) : Nat := (N >>> 4) &&& 0x3

/-! ### Memory access -/

def Read8 (cpu : Cpu δ) (address : Nat) : Outcome (Cpu δ) Nat :=
  match cpu.m_pMemory.Read8 address with
  | .ok r bus => .ok r.1 { cpu with m_pMemory := bus }
  | .thrown e bus => .thrown e { cpu with m_pMemory := bus }

def Write8 (cpu : Cpu δ) (address value : Nat) : Outcome (Cpu δ) Unit :=
  match cpu.m_pMemory.Write8 address value with
  | .ok _ bus => .ok () { cpu with m_pMemory := bus }
  | .thrown e bus => .thrown e { cpu with m_pMemory := bus }

def Fetch8 (cpu : Cpu δ) : Outcome (Cpu δ) Nat :=
  match cpu.m_pMemory.Read8 cpu.PC with
  | .ok r bus => .ok r.1 { cpu with m_pMemory := bus, PC := toUint16 (cpu.PC + 1) }
  | .thrown e bus => .thrown e { cpu with m_pMemory := bus }

def Fetch16 (cpu : Cpu δ) : Outcome (Cpu δ) Nat :=
  match cpu.m_pMemory.Read16 cpu.PC with
  | .ok result bus => .ok result { cpu with m_pMemory := bus, PC := toUint16 (cpu.PC + 2) }
  | .thrown e bus => .thrown e { cpu with m_pMemory := bus }

def Push16 (cpu : Cpu δ) (value : Nat) : Outcome (Cpu δ) Unit :=
  let cpu := { cpu with SP := toUint16 ((cpu.SP : Int) - 2) }
  match cpu.m_pMemory.Write16 cpu.SP value with
  | .ok _ bus => .ok () { cpu with m_pMemory := bus }
  | .thrown e bus => .thrown e { cpu with m_pMemory := bus }

def Pop16 (cpu : Cpu δ) : Outcome (Cpu δ) Nat :=
  match cpu.m_pMemory.Read16 cpu.SP with
  | .ok result bus => .ok result { cpu with m_pMemory := bus, SP := toUint16 (cpu.SP + 2) }
  | .thrown e bus => .thrown e { cpu with m_pMemory := bus }

/-! ### Flags -/

/-- `F = value ? (F | bitMask) : (F & ~bitMask)`: the operands are promoted to 32-bit `int`
and the result is narrowed back to `Uint8`. -/
def SetFlagValue (cpu : Cpu δ) (position : FlagBitIndex) (value : Bool) : Cpu δ :=
  let bitMask := 1 <<< position.toNat
  { cpu with F := if value then toUint8 (cpu.F ||| bitMask)
                  else toUint8 (cpu.F &&& (0xFFFFFFFF ^^^ bitMask)) }

def GetFlagValue (cpu : Cpu δ) (position : FlagBitIndex) : Bool :=
  (cpu.F &&& (1 <<< position.toNat)) != 0

def SetZeroFromValue (cpu : Cpu δ) (value : Nat) : Cpu δ :=
  cpu.SetFlagValue .Zero (value == 0)

def SetFlagsForAdd (cpu : Cpu δ) (oldValue operand : Nat)
    (flagMask : Nat := FlagBitMask.All) : Cpu δ :=
  let cpu := if flagMask &&& FlagBitMask.Zero != 0 then
      cpu.SetZeroFromValue (toUint8 (oldValue + operand)) else cpu
  let cpu := if flagMask &&& FlagBitMask.Subtract != 0 then
      cpu.SetFlagValue .Subtract false else cpu
  let cpu := if flagMask &&& FlagBitMask.HalfCarry != 0 then
      cpu.SetFlagValue .HalfCarry (decide (GetLow4 oldValue + GetLow4 operand > 0xF)) else cpu
  if flagMask &&& FlagBitMask.Carry != 0 then
    cpu.SetFlagValue .Carry (decide (oldValue + operand > 0xFF)) else cpu

def SetFlagsForSub (cpu : Cpu δ) (oldValue operand : Nat)
    (flagMask : Nat := FlagBitMask.All) : Cpu δ :=
  let cpu := if flagMask &&& FlagBitMask.Zero != 0 then
      cpu.SetZeroFromValue (toUint8 ((oldValue : Int) - operand)) else cpu
  let cpu := if flagMask &&& FlagBitMask.Subtract != 0 then
      cpu.SetFlagValue .Subtract true else cpu
  let cpu := if flagMask &&& FlagBitMask.HalfCarry != 0 then
      cpu.SetFlagValue .HalfCarry (decide (GetLow4 oldValue ≥ GetLow4 operand)) else cpu
  if flagMask &&& FlagBitMask.Carry != 0 then
    cpu.SetFlagValue .Carry (decide (oldValue ≥ operand)) else cpu

/-! ### Micro-opcode implementations -/

/-- The register `B_C_D_E_H_L_iHL_A_GetReg8<N>()` refers to, read.  The template has no
specialization for `N = 6`, the `(HL)` slot, and is never instantiated there. -/
def B_C_D_E_H_L_iHL_A_GetReg8 (N : Nat) (cpu : Cpu δ) : Nat :=
  match N with
  | 0 => cpu.B
  | 1 => cpu.C
  | 2 => cpu.D
  | 3 => cpu.E
  | 4 => cpu.H
  | 5 => cpu.L
  | _ => cpu.A

def B_C_D_E_H_L_iHL_A_Read8 (N : Nat) (cpu : Cpu δ) : Outcome (Cpu δ) Nat :=
  match N with
  | 0 => .ok cpu.B cpu
  | 1 => .ok cpu.C cpu
  | 2 => .ok cpu.D cpu
  | 3 => .ok cpu.E cpu
  | 4 => .ok cpu.H cpu
  | 5 => .ok cpu.L cpu
  | 6 => cpu.Read8 cpu.HL
  | _ => .ok cpu.A cpu

def B_C_D_E_H_L_iHL_A_Write8 (N : Nat) (cpu : Cpu δ) (value : Nat) : Outcome (Cpu δ) Unit :=
  match N with
  | 0 => .ok () { cpu with B := value }
  | 1 => .ok () { cpu with C := value }
  | 2 => .ok () { cpu with D := value }
  | 3 => .ok () { cpu with E := value }
  | 4 => .ok () { cpu with H := value }
  | 5 => .ok () { cpu with L := value }
  | 6 => cpu.Write8 cpu.HL value
  | _ => .ok () { cpu with A := value }

def NZ_Z_NC_C_Eval (N : Nat) (cpu : Cpu δ) : Bool :=
  match N with
  | 0 => !cpu.GetFlagValue .Zero
  | 1 => cpu.GetFlagValue .Zero
  | 2 => !cpu.GetFlagValue .Carry
  | _ => cpu.GetFlagValue .Carry

def iBC_iDE_GetAddress (N : Nat) (cpu : Cpu δ) : Nat :=
  match N with
  | 0 => cpu.BC
  | _ => cpu.DE

def iBC_iDE_Read8 (N : Nat) (cpu : Cpu δ) : Outcome (Cpu δ) Nat :=
  cpu.Read8 (iBC_iDE_GetAddress N cpu)

def iBC_iDE_Write8 (N : Nat) (cpu : Cpu δ) (value : Nat) : Outcome (Cpu δ) Unit :=
  cpu.Write8 (iBC_iDE_GetAddress N cpu) value

def BC_DE_HL_SP_Read16 (N : Nat) (cpu : Cpu δ) : Nat :=
  match N with
  | 0 => cpu.BC
  | 1 => cpu.DE
  | 2 => cpu.HL
  | _ => cpu.SP

def BC_DE_HL_SP_Write16 (N : Nat) (cpu : Cpu δ) (value : Nat) : Cpu δ :=
  match N with
  | 0 => cpu.setBC value
  | 1 => cpu.setDE value
  | 2 => cpu.setHL value
  | _ => { cpu with SP := value }

def b0_2_B_C_D_E_H_L_iHL_A_Read8 (N : Nat) (cpu : Cpu δ) : Outcome (Cpu δ) Nat :=
  B_C_D_E_H_L_iHL_A_Read8 (b0_2 N) cpu

def b0_2_B_C_D_E_H_L_iHL_A_Write8 (N : Nat) (cpu : Cpu δ) (value : Nat) :
    Outcome (Cpu δ) Unit :=
  B_C_D_E_H_L_iHL_A_Write8 (b0_2 N) cpu value

def b3_4_NZ_Z_NC_C_Eval (N : Nat) (cpu : Cpu δ) : Bool :=
  NZ_Z_NC_C_Eval (b3_4 N) cpu

def b3_5_B_C_D_E_H_L_iHL_A_Read8 (N : Nat) (cpu : Cpu δ) : Outcome (Cpu δ) Nat :=
  B_C_D_E_H_L_iHL_A_Read8 (b3_5 N) cpu

def b3_5_B_C_D_E_H_L_iHL_A_Write8 (N : Nat) (cpu : Cpu δ) (value : Nat) :
    Outcome (Cpu δ) Unit :=
  B_C_D_E_H_L_iHL_A_Write8 (b3_5 N) cpu value

def b4_iBC_iDE_Read8 (N : Nat) (cpu : Cpu δ) : Outcome (Cpu δ) Nat :=
  iBC_iDE_Read8 (b4 N) cpu

def b4_iBC_iDE_Write8 (N : Nat) (cpu : Cpu δ) (value : Nat) : Outcome (Cpu δ) Unit :=
  iBC_iDE_Write8 (b4 N) cpu value

def b4_5_BC_DE_HL_SP_Read16 (N : Nat) (cpu : Cpu δ) : Nat :=
  BC_DE_HL_SP_Read16 (b4_5 N) cpu

def b4_5_BC_DE_HL_SP_Write16 (N : Nat) (cpu : Cpu δ) (value : Nat) : Cpu δ :=
  BC_DE_HL_SP_Write16 (b4_5 N) cpu value

/-! ### Opcode implementations -/

def ADD (cpu : Cpu δ) (operand : Nat) : Cpu δ :=
  let oldValue := cpu.A
  let cpu := { cpu with A := toUint8 (oldValue + operand) }
  cpu.SetFlagsForAdd oldValue operand

def ADC (cpu : Cpu δ) (operand : Nat) : Cpu δ :=
  cpu.ADD (toUint8 (operand + (if cpu.GetFlagValue .Carry then 1 else 0)))

def AND (cpu : Cpu δ) (value : Nat) : Cpu δ :=
  let cpu := { cpu with A := cpu.A &&& value }
  let cpu := cpu.SetZeroFromValue cpu.A
  let cpu := cpu.SetFlagValue .Subtract false
  let cpu := cpu.SetFlagValue .HalfCarry true
  cpu.SetFlagValue .Carry false

def OR (cpu : Cpu δ) (value : Nat) : Cpu δ :=
  let cpu := { cpu with A := cpu.A ||| value }
  let cpu := cpu.SetZeroFromValue cpu.A
  let cpu := cpu.SetFlagValue .Subtract false
  let cpu := cpu.SetFlagValue .HalfCarry false
  cpu.SetFlagValue .Carry false

def XOR (cpu : Cpu δ) (value : Nat) : Cpu δ :=
  let cpu := { cpu with A := cpu.A ^^^ value }
  let cpu := cpu.SetZeroFromValue cpu.A
  let cpu := cpu.SetFlagValue .Subtract false
  let cpu := cpu.SetFlagValue .HalfCarry false
  cpu.SetFlagValue .Carry false

/-- Returns the new value with the CPU whose flags are set. -/
def RL (cpu : Cpu δ) (oldValue : Nat) : Nat × Cpu δ :=
  let newValue := toUint8 ((oldValue <<< 1) ||| (if cpu.GetFlagValue .Carry then Bit0 else 0))
  let cpu := cpu.SetZeroFromValue newValue
  let cpu := cpu.SetFlagValue .Subtract false
  let cpu := cpu.SetFlagValue .HalfCarry false
  let cpu := cpu.SetFlagValue .Carry ((oldValue &&& Bit7) != 0)
  (newValue, cpu)

/-- Returns the new value with the CPU whose flags are set. -/
def RR (cpu : Cpu δ) (oldValue : Nat) : Nat × Cpu δ :=
  let newValue := toUint8 ((oldValue >>> 1) ||| (if cpu.GetFlagValue .Carry then Bit7 else 0))
  let cpu := cpu.SetZeroFromValue newValue
  let cpu := cpu.SetFlagValue .Subtract false
  let cpu := cpu.SetFlagValue .HalfCarry false
  let cpu := cpu.SetFlagValue .Carry ((oldValue &&& Bit0) != 0)
  (newValue, cpu)

def Call (cpu : Cpu δ) (address : Nat) : Outcome (Cpu δ) Unit :=
  (cpu.Push16 cpu.PC).andThen fun _ cpu => .ok () { cpu with PC := address }

def Ret (cpu : Cpu δ) : Outcome (Cpu δ) Unit :=
  cpu.Pop16.andThen fun result cpu => .ok () { cpu with PC := result }

def NOP_0__0 (_N : Nat) (cpu : Cpu δ) : Outcome (Cpu δ) Unit :=
  .ok () cpu

def LD_0_1__2 (N : Nat) (cpu : Cpu δ) : Outcome (Cpu δ) Unit :=
  b4_iBC_iDE_Write8 N cpu cpu.A

def LD_0_1__A (N : Nat) (cpu : Cpu δ) : Outcome (Cpu δ) Unit :=
  (b4_iBC_iDE_Read8 N cpu).andThen fun value cpu => .ok () { cpu with A := value }

def LD_0_3__1 (N : Nat) (cpu : Cpu δ) : Outcome (Cpu δ) Unit :=
  cpu.Fetch16.andThen fun value cpu => .ok () (b4_5_BC_DE_HL_SP_Write16 N cpu value)

def INC_0_3__3 (N : Nat) (cpu : Cpu δ) : Outcome (Cpu δ) Unit :=
  .ok () (b4_5_BC_DE_HL_SP_Write16 N cpu (toUint16 (b4_5_BC_DE_HL_SP_Read16 N cpu + 1)))

def INC_0_3__4__0_3__C (N : Nat) (cpu : Cpu δ) : Outcome (Cpu δ) Unit :=
  (b3_5_B_C_D_E_H_L_iHL_A_Read8 N cpu).andThen fun oldValue cpu =>
    let newValue : Int := oldValue + 1
    (b3_5_B_C_D_E_H_L_iHL_A_Write8 N cpu (toUint8 newValue)).andThen fun _ cpu =>
      .ok () (cpu.SetFlagsForAdd oldValue 1
        (FlagBitMask.Zero ||| FlagBitMask.Subtract ||| FlagBitMask.HalfCarry))

def DEC_0_3__5__0_3__D (N : Nat) (cpu : Cpu δ) : Outcome (Cpu δ) Unit :=
  (b3_5_B_C_D_E_H_L_iHL_A_Read8 N cpu).andThen fun oldValue cpu =>
    let newValue : Int := (oldValue : Int) - 1
    (b3_5_B_C_D_E_H_L_iHL_A_Write8 N cpu (toUint8 newValue)).andThen fun _ cpu =>
      .ok () (cpu.SetFlagsForSub oldValue 1
        (FlagBitMask.Zero ||| FlagBitMask.Subtract ||| FlagBitMask.HalfCarry))

def LD_0_3__6__0_3__E (N : Nat) (cpu : Cpu δ) : Outcome (Cpu δ) Unit :=
  cpu.Fetch8.andThen fun value cpu => b3_5_B_C_D_E_H_L_iHL_A_Write8 N cpu value

def DEC_0_3__B (N : Nat) (cpu : Cpu δ) : Outcome (Cpu δ) Unit :=
  .ok () (b4_5_BC_DE_HL_SP_Write16 N cpu
    (toUint16 ((b4_5_BC_DE_HL_SP_Read16 N cpu : Int) - 1)))

def ADD_0_3__9 (N : Nat) (cpu : Cpu δ) : Outcome (Cpu δ) Unit :=
  let oldValue := cpu.HL
  let operand := b4_5_BC_DE_HL_SP_Read16 N cpu
  let cpu := cpu.setHL (toUint16 (cpu.HL + operand))
  let cpu := cpu.SetFlagValue .Subtract false
  let cpu := cpu.SetFlagValue .HalfCarry (decide (GetLow12 oldValue + GetLow12 operand > 0xFFF))
  .ok () (cpu.SetFlagValue .Carry (decide (oldValue + operand > 0xFFFF)))

def STOP_1__0 (_N : Nat) (cpu : Cpu δ) : Outcome (Cpu δ) Unit :=
  .ok () { cpu with m_cpuStopped := true }

/-- `PC += Fetch8()`: the right operand of a compound assignment is evaluated first, so the
byte is added to the program counter that `Fetch8` has already advanced. -/
def JR_1__8 (_N : Nat) (cpu : Cpu δ) : Outcome (Cpu δ) Unit :=
  cpu.Fetch8.andThen fun value cpu => .ok () { cpu with PC := toUint16 (cpu.PC + value) }

def RR_1__F (_N : Nat) (cpu : Cpu δ) : Outcome (Cpu δ) Unit :=
  let r := cpu.RR cpu.A
  .ok () { r.2 with A := r.1 }

def LDI_2__2 (_N : Nat) (cpu : Cpu δ) : Outcome (Cpu δ) Unit :=
  (cpu.Write8 cpu.HL cpu.A).andThen fun _ cpu => .ok () (cpu.setHL (toUint16 (cpu.HL + 1)))

def JR_2_3__0__2_3__8 (N : Nat) (cpu : Cpu δ) : Outcome (Cpu δ) Unit :=
  cpu.Fetch8.andThen fun value cpu =>
    let displacement := toSint8 value
    if b3_4_NZ_Z_NC_C_Eval N cpu then
      .ok () { cpu with PC := toUint16 (cpu.PC + displacement) }
    else
      .ok () cpu

def LDI_2__A (_N : Nat) (cpu : Cpu δ) : Outcome (Cpu δ) Unit :=
  (cpu.Read8 cpu.HL).andThen fun value cpu =>
    let cpu := { cpu with A := value }
    .ok () (cpu.setHL (toUint16 (cpu.HL + 1)))

def LDD_3__2 (_N : Nat) (cpu : Cpu δ) : Outcome (Cpu δ) Unit :=
  (cpu.Write8 cpu.HL cpu.A).andThen fun _ cpu =>
    .ok () (cpu.setHL (toUint16 ((cpu.HL : Int) - 1)))

def LDD_3__A (_N : Nat) (cpu : Cpu δ) : Outcome (Cpu δ) Unit :=
  (cpu.Read8 cpu.HL).andThen fun value cpu =>
    let cpu := { cpu with A := value }
    .ok () (cpu.setHL (toUint16 ((cpu.HL : Int) - 1)))

def LD_4_7__0_F__NO_7__6 (N : Nat) (cpu : Cpu δ) : Outcome (Cpu δ) Unit :=
  (b0_2_B_C_D_E_H_L_iHL_A_Read8 N cpu).andThen fun value cpu =>
    b3_5_B_C_D_E_H_L_iHL_A_Write8 N cpu value

def HALT_7__6 (_N : Nat) (cpu : Cpu δ) : Outcome (Cpu δ) Unit :=
  let cpu := { cpu with m_cpuHalted := true }
  if !cpu.IME then .thrown .HaltWithImeDisabled cpu else .ok () cpu

def XOR_A__8_F (N : Nat) (cpu : Cpu δ) : Outcome (Cpu δ) Unit :=
  (b0_2_B_C_D_E_H_L_iHL_A_Read8 N cpu).andThen fun value cpu => .ok () (cpu.XOR value)

def OR_B__0_7 (N : Nat) (cpu : Cpu δ) : Outcome (Cpu δ) Unit :=
  (b0_2_B_C_D_E_H_L_iHL_A_Read8 N cpu).andThen fun value cpu => .ok () (cpu.OR value)

def RET_C_D__0__C_D__8 (N : Nat) (cpu : Cpu δ) : Outcome (Cpu δ) Unit :=
  if b3_4_NZ_Z_NC_C_Eval N cpu then cpu.Ret else .ok () cpu

def CALL_C_D__4__C_D__C (N : Nat) (cpu : Cpu δ) : Outcome (Cpu δ) Unit :=
  cpu.Fetch16.andThen fun address cpu =>
    if b3_4_NZ_Z_NC_C_Eval N cpu then cpu.Call address else .ok () cpu

def ADD_C_6 (_N : Nat) (cpu : Cpu δ) : Outcome (Cpu δ) Unit :=
  cpu.Fetch8.andThen fun operand cpu => .ok () (cpu.ADD operand)

def RL_CB_1__0_7 (N : Nat) (cpu : Cpu δ) : Outcome (Cpu δ) Unit :=
  (b0_2_B_C_D_E_H_L_iHL_A_Read8 N cpu).andThen fun oldValue cpu =>
    let r := cpu.RL oldValue
    b0_2_B_C_D_E_H_L_iHL_A_Write8 N r.2 r.1

def RR_CB_1__8_F (N : Nat) (cpu : Cpu δ) : Outcome (Cpu δ) Unit :=
  (b0_2_B_C_D_E_H_L_iHL_A_Read8 N cpu).andThen fun oldValue cpu =>
    let r := cpu.RR oldValue
    b0_2_B_C_D_E_H_L_iHL_A_Write8 N r.2 r.1

def SRL_CB_3__8_F (N : Nat) (cpu : Cpu δ) : Outcome (Cpu δ) Unit :=
  (b0_2_B_C_D_E_H_L_iHL_A_Read8 N cpu).andThen fun oldValue cpu =>
    let newValue := oldValue >>> 1
    (b0_2_B_C_D_E_H_L_iHL_A_Write8 N cpu newValue).andThen fun _ cpu =>
      let cpu := cpu.SetZeroFromValue newValue
      let cpu := cpu.SetFlagValue .Subtract false
      let cpu := cpu.SetFlagValue .HalfCarry false
      .ok () (cpu.SetFlagValue .Carry ((oldValue &&& Bit0) != 0))

def ADC_C__E (_N : Nat) (cpu : Cpu δ) : Outcome (Cpu δ) Unit :=
  cpu.Fetch8.andThen fun operand cpu => .ok () (cpu.ADC operand)

def SUB_D__6 (_N : Nat) (cpu : Cpu δ) : Outcome (Cpu δ) Unit :=
  let oldValue := cpu.A
  cpu.Fetch8.andThen fun operand cpu =>
    let cpu := { cpu with A := toUint8 ((oldValue : Int) - operand) }
    .ok () (cpu.SetFlagsForSub oldValue operand)

def AND_E__6 (_N : Nat) (cpu : Cpu δ) : Outcome (Cpu δ) Unit :=
  cpu.Fetch8.andThen fun value cpu => .ok () (cpu.AND value)

def JP_E__9 (_N : Nat) (cpu : Cpu δ) : Outcome (Cpu δ) Unit :=
  .ok () { cpu with PC := cpu.HL }

def XOR_E__E (_N : Nat) (cpu : Cpu δ) : Outcome (Cpu δ) Unit :=
  cpu.Fetch8.andThen fun value cpu => .ok () (cpu.XOR value)

def OR_F_6 (_N : Nat) (cpu : Cpu δ) : Outcome (Cpu δ) Unit :=
  cpu.Fetch8.andThen fun value cpu => .ok () (cpu.OR value)

def LDH_F__0 (_N : Nat) (cpu : Cpu δ) : Outcome (Cpu δ) Unit :=
  cpu.Fetch8.andThen fun displacement cpu =>
    let address := displacement + 0xFF00
    (cpu.Read8 (toUint16 address)).andThen fun value cpu => .ok () { cpu with A := value }

def LD_F__A (_N : Nat) (cpu : Cpu δ) : Outcome (Cpu δ) Unit :=
  cpu.Fetch16.andThen fun address cpu =>
    (cpu.Read8 address).andThen fun value cpu => .ok () { cpu with A := value }

def CP_F_E (_N : Nat) (cpu : Cpu δ) : Outcome (Cpu δ) Unit :=
  cpu.Fetch8.andThen fun operand cpu =>
    let cpu := cpu.SetFlagValue .Zero (cpu.A == operand)
    let cpu := cpu.SetFlagValue .Subtract true
    let cpu := cpu.SetFlagValue .HalfCarry (decide (GetLow4 cpu.A < GetLow4 operand))
    .ok () (cpu.SetFlagValue .Carry (decide (cpu.A < operand)))

def IllegalOpcode (N : Nat) (cpu : Cpu δ) : Outcome (Cpu δ) Unit :=
  .thrown (.IllegalOpcode N) cpu

/-! ### CPU emulation -/

/-- The macro `OPCODE(code, cycles, name)`: record the cycle count, run `name<code>()`. -/
def OPCODE (cycles : Nat) (name : Cpu δ → Outcome (Cpu δ) Unit) (cpu : Cpu δ) :
    Outcome (Cpu δ) Nat :=
  let instructionCycles := cycles
  (name cpu).andThen fun _ cpu => .ok instructionCycles cpu

/-- `DebugStringPeek8(address)`: a `SafeRead8` of the bus; the string it formats is printed
and kept nowhere. -/
def DebugStringPeek8 (cpu : Cpu δ) (address : Nat) : Outcome (Cpu δ) Unit :=
  match cpu.m_pMemory.SafeRead8 address with
  | .ok _ bus => .ok () { cpu with m_pMemory := bus }
  | .thrown e bus => .thrown e { cpu with m_pMemory := bus }

/-- `DebugStringPeek8(address + 1).append(DebugStringPeek8(address))`. -/
def DebugStringPeek16 (cpu : Cpu δ) (address : Nat) : Outcome (Cpu δ) Unit :=
  (cpu.DebugStringPeek8 (toUint16 (address + 1))).andThen fun _ cpu =>
    cpu.DebugStringPeek8 address

/-- `SDL_assert(condition)`: nothing when the condition holds.  When it fails, SDL reports
the assertion and its handler stops the program there: the call ends at the assertion, which
is not a C++ exception.  (A build that compiles `SDL_assert` out, or a user who tells the
handler to ignore the assertion, goes on with the statements after it.) -/
def SDL_assert (cpu : Cpu δ) (condition : Bool) : Outcome (Cpu δ) Unit :=
  if condition then .ok () cpu else .thrown .AssertionFailed cpu

/-- The block `if (unknownOpcode) { ... }` that follows the switch, and the
`return instructionCycles` after it, taken once `unknownOpcode` is set (`instructionCycles`
is then still -1, `opcode` is only printed).  Of the two `printf` there remain the bus reads
made for the arguments of the second, `DebugStringPeek8(PC)` and `DebugStringPeek16(PC)`,
taken left to right (the language leaves their order open); then comes
`SDL_assert(false && "Unknown opcode encountered")`; the return narrows -1 to `Uint16`. -/
def unknownOpcode (_opcode : Nat) (cpu : Cpu δ) : Outcome (Cpu δ) Nat :=
  (cpu.DebugStringPeek8 cpu.PC).andThen fun _ cpu =>
    (cpu.DebugStringPeek16 cpu.PC).andThen fun _ cpu =>
      (cpu.SDL_assert false).andThen fun _ cpu =>
        .ok (toUint16 (-1)) cpu

/-- `case 0xC1: case 0xD1: case 0xE1: case 0xF1:` POP. -/
def case_C1_D1_E1_F1 (opcode : Nat) (cpu : Cpu δ) : Outcome (Cpu δ) Nat :=
  let instructionCycles := 12
  match (opcode >>> 4) &&& 0x3 with
  | 0 => cpu.Pop16.andThen fun value cpu => .ok instructionCycles (cpu.setBC value)
  | 1 => cpu.Pop16.andThen fun value cpu => .ok instructionCycles (cpu.setDE value)
  | 2 => cpu.Pop16.andThen fun value cpu => .ok instructionCycles (cpu.setHL value)
  | _ => cpu.Pop16.andThen fun value cpu => .ok instructionCycles (cpu.setAF value)

/-- `case 0xC3:` JP nn. -/
def case_C3 (cpu : Cpu δ) : Outcome (Cpu δ) Nat :=
  let instructionCycles := 12
  cpu.Fetch16.andThen fun target cpu => .ok instructionCycles { cpu with PC := target }

/-- `case 0xC5: case 0xD5: case 0xE5: case 0xF5:` PUSH. -/
def case_C5_D5_E5_F5 (opcode : Nat) (cpu : Cpu δ) : Outcome (Cpu δ) Nat :=
  let instructionCycles := 16
  match (opcode >>> 4) &&& 0x3 with
  | 0 => (cpu.Push16 cpu.BC).andThen fun _ cpu => .ok instructionCycles cpu
  | 1 => (cpu.Push16 cpu.DE).andThen fun _ cpu => .ok instructionCycles cpu
  | 2 => (cpu.Push16 cpu.HL).andThen fun _ cpu => .ok instructionCycles cpu
  | _ => (cpu.Push16 cpu.AF).andThen fun _ cpu => .ok instructionCycles cpu

/-- `case 0xC9:` RET. -/
def case_C9 (cpu : Cpu δ) : Outcome (Cpu δ) Nat :=
  let instructionCycles := 8
  cpu.Ret.andThen fun _ cpu => .ok instructionCycles cpu

/-- `case 0xCD:` CALL nn. -/
def case_CD (cpu : Cpu δ) : Outcome (Cpu δ) Nat :=
  let instructionCycles := 12
  cpu.Fetch16.andThen fun address cpu =>
    (cpu.Call address).andThen fun _ cpu => .ok instructionCycles cpu

/-- `case 0xE0:` LD (0xFF00+n),A. -/
def case_E0 (cpu : Cpu δ) : Outcome (Cpu δ) Nat :=
  let instructionCycles := 12
  cpu.Fetch8.andThen fun displacement cpu =>
    let address := displacement + 0xFF00
    (cpu.Write8 (toUint16 address) cpu.A).andThen fun _ cpu => .ok instructionCycles cpu

/-- `case 0xEA:` LD (nn),A. -/
def case_EA (cpu : Cpu δ) : Outcome (Cpu δ) Nat :=
  let instructionCycles := 16
  cpu.Fetch16.andThen fun address cpu =>
    (cpu.Write8 address cpu.A).andThen fun _ cpu => .ok instructionCycles cpu

/-- `case 0xF3:` DI. -/
def case_F3 (cpu : Cpu δ) : Outcome (Cpu δ) Nat :=
  let instructionCycles := 4
  .ok instructionCycles { cpu with IME := false }

/-- The `case` labels of the inner `switch` of `case 0xCB`, each with its body. -/
def extendedCases : List (Nat × (Cpu δ → Outcome (Cpu δ) Nat)) := [
    (0x10, OPCODE 8 (RL_CB_1__0_7 0x10)),
    (0x11, OPCODE 8 (RL_CB_1__0_7 0x11)),
    (0x12, OPCODE 8 (RL_CB_1__0_7 0x12)),
    (0x13, OPCODE 8 (RL_CB_1__0_7 0x13)),
    (0x14, OPCODE 8 (RL_CB_1__0_7 0x14)),
    (0x15, OPCODE 8 (RL_CB_1__0_7 0x15)),
    (0x16, OPCODE 16 (RL_CB_1__0_7 0x16)),
    (0x17, OPCODE 8 (RL_CB_1__0_7 0x17)),
    (0x18, OPCODE 8 (RR_CB_1__8_F 0x18)),
    (0x19, OPCODE 8 (RR_CB_1__8_F 0x19)),
    (0x1A, OPCODE 8 (RR_CB_1__8_F 0x1A)),
    (0x1B, OPCODE 8 (RR_CB_1__8_F 0x1B)),
    (0x1C, OPCODE 8 (RR_CB_1__8_F 0x1C)),
    (0x1D, OPCODE 8 (RR_CB_1__8_F 0x1D)),
    (0x1E, OPCODE 12 (RR_CB_1__8_F 0x1E)),
    (0x1F, OPCODE 8 (RR_CB_1__8_F 0x1F)),
    (0x38, OPCODE 8 (SRL_CB_3__8_F 0x38)),
    (0x39, OPCODE 8 (SRL_CB_3__8_F 0x39)),
    (0x3A, OPCODE 8 (SRL_CB_3__8_F 0x3A)),
    (0x3B, OPCODE 8 (SRL_CB_3__8_F 0x3B)),
    (0x3C, OPCODE 8 (SRL_CB_3__8_F 0x3C)),
    (0x3D, OPCODE 8 (SRL_CB_3__8_F 0x3D)),
    (0x3E, OPCODE 16 (SRL_CB_3__8_F 0x3E)),
    (0x3F, OPCODE 8 (SRL_CB_3__8_F 0x3F))]

/-- `case 0xCB:` extended opcodes: fetch the second byte and switch on it; the `default`
backs `PC` out, restores `opcode = 0xCB` and sets `unknownOpcode`. -/
def case_CB (cpu : Cpu δ) : Outcome (Cpu δ) Nat :=
  cpu.Fetch8.andThen fun opcode cpu =>
    match extendedCases.lookup opcode with
    | some body => body cpu
    | none =>
      let cpu := { cpu with PC := toUint16 ((cpu.PC : Int) - 1) }
      unknownOpcode 0xCB cpu

/-- The `case` labels of the outer `switch (opcode)`, each with its body, in source order. -/
def primaryCases : List (Nat × (Cpu δ → Outcome (Cpu δ) Nat)) := [
    (0x00, OPCODE 4 (NOP_0__0 0x00)),
    (0x02, OPCODE 8 (LD_0_1__2 0x02)),
    (0x12, OPCODE 8 (LD_0_1__2 0x12)),
    (0x0A, OPCODE 8 (LD_0_1__A 0x0A)),
    (0x1A, OPCODE 8 (LD_0_1__A 0x1A)),
    (0x01, OPCODE 12 (LD_0_3__1 0x01)),
    (0x11, OPCODE 12 (LD_0_3__1 0x11)),
    (0x21, OPCODE 12 (LD_0_3__1 0x21)),
    (0x31, OPCODE 12 (LD_0_3__1 0x31)),
    (0x03, OPCODE 8 (INC_0_3__3 0x03)),
    (0x13, OPCODE 8 (INC_0_3__3 0x13)),
    (0x23, OPCODE 8 (INC_0_3__3 0x23)),
    (0x33, OPCODE 8 (INC_0_3__3 0x33)),
    (0x04, OPCODE 4 (INC_0_3__4__0_3__C 0x04)),
    (0x0C, OPCODE 4 (INC_0_3__4__0_3__C 0x0C)),
    (0x14, OPCODE 4 (INC_0_3__4__0_3__C 0x14)),
    (0x1C, OPCODE 4 (INC_0_3__4__0_3__C 0x1C)),
    (0x24, OPCODE 4 (INC_0_3__4__0_3__C 0x24)),
    (0x2C, OPCODE 4 (INC_0_3__4__0_3__C 0x2C)),
    (0x34, OPCODE 8 (INC_0_3__4__0_3__C 0x34)),
    (0x3C, OPCODE 4 (INC_0_3__4__0_3__C 0x3C)),
    (0x05, OPCODE 4 (DEC_0_3__5__0_3__D 0x05)),
    (0x0D, OPCODE 4 (DEC_0_3__5__0_3__D 0x0D)),
    (0x15, OPCODE 4 (DEC_0_3__5__0_3__D 0x15)),
    (0x1D, OPCODE 4 (DEC_0_3__5__0_3__D 0x1D)),
    (0x25, OPCODE 4 (DEC_0_3__5__0_3__D 0x25)),
    (0x2D, OPCODE 4 (DEC_0_3__5__0_3__D 0x2D)),
    (0x35, OPCODE 8 (DEC_0_3__5__0_3__D 0x35)),
    (0x3D, OPCODE 4 (DEC_0_3__5__0_3__D 0x3D)),
    (0x06, OPCODE 8 (LD_0_3__6__0_3__E 0x06)),
    (0x0E, OPCODE 8 (LD_0_3__6__0_3__E 0x0E)),
    (0x16, OPCODE 8 (LD_0_3__6__0_3__E 0x16)),
    (0x1E, OPCODE 8 (LD_0_3__6__0_3__E 0x1E)),
    (0x26, OPCODE 8 (LD_0_3__6__0_3__E 0x26)),
    (0x2E, OPCODE 8 (LD_0_3__6__0_3__E 0x2E)),
    (0x36, OPCODE 12 (LD_0_3__6__0_3__E 0x36)),
    (0x3E, OPCODE 8 (LD_0_3__6__0_3__E 0x3E)),
    (0x09, OPCODE 8 (ADD_0_3__9 0x09)),
    (0x19, OPCODE 8 (ADD_0_3__9 0x19)),
    (0x29, OPCODE 8 (ADD_0_3__9 0x29)),
    (0x39, OPCODE 8 (ADD_0_3__9 0x39)),
    (0x0B, OPCODE 8 (DEC_0_3__B 0x0B)),
    (0x1B, OPCODE 8 (DEC_0_3__B 0x1B)),
    (0x2B, OPCODE 8 (DEC_0_3__B 0x2B)),
    (0x3B, OPCODE 8 (DEC_0_3__B 0x3B)),
    (0x10, OPCODE 4 (STOP_1__0 0x10)),
    (0x18, OPCODE 8 (JR_1__8 0x18)),
    (0x1F, OPCODE 4 (RR_1__F 0x1F)),
    (0x22, OPCODE 8 (LDI_2__2 0x22)),
    (0x32, OPCODE 8 (LDD_3__2 0x32)),
    (0x2A, OPCODE 8 (LDI_2__A 0x2A)),
    (0x3A, OPCODE 8 (LDD_3__A 0x3A)),
    (0x20, OPCODE 8 (JR_2_3__0__2_3__8 0x20)),
    (0x28, OPCODE 8 (JR_2_3__0__2_3__8 0x28)),
    (0x30, OPCODE 8 (JR_2_3__0__2_3__8 0x30)),
    (0x38, OPCODE 8 (JR_2_3__0__2_3__8 0x38)),
    (0x40, OPCODE 4 (LD_4_7__0_F__NO_7__6 0x40)),
    (0x41, OPCODE 4 (LD_4_7__0_F__NO_7__6 0x41)),
    (0x42, OPCODE 4 (LD_4_7__0_F__NO_7__6 0x42)),
    (0x43, OPCODE 4 (LD_4_7__0_F__NO_7__6 0x43)),
    (0x44, OPCODE 4 (LD_4_7__0_F__NO_7__6 0x44)),
    (0x45, OPCODE 4 (LD_4_7__0_F__NO_7__6 0x45)),
    (0x46, OPCODE 8 (LD_4_7__0_F__NO_7__6 0x46)),
    (0x47, OPCODE 4 (LD_4_7__0_F__NO_7__6 0x47)),
    (0x48, OPCODE 4 (LD_4_7__0_F__NO_7__6 0x48)),
    (0x49, OPCODE 4 (LD_4_7__0_F__NO_7__6 0x49)),
    (0x4A, OPCODE 4 (LD_4_7__0_F__NO_7__6 0x4A)),
    (0x4B, OPCODE 4 (LD_4_7__0_F__NO_7__6 0x4B)),
    (0x4C, OPCODE 4 (LD_4_7__0_F__NO_7__6 0x4C)),
    (0x4D, OPCODE 4 (LD_4_7__0_F__NO_7__6 0x4D)),
    (0x4E, OPCODE 8 (LD_4_7__0_F__NO_7__6 0x4E)),
    (0x4F, OPCODE 4 (LD_4_7__0_F__NO_7__6 0x4F)),
    (0x50, OPCODE 4 (LD_4_7__0_F__NO_7__6 0x50)),
    (0x51, OPCODE 4 (LD_4_7__0_F__NO_7__6 0x51)),
    (0x52, OPCODE 4 (LD_4_7__0_F__NO_7__6 0x52)),
    (0x53, OPCODE 4 (LD_4_7__0_F__NO_7__6 0x53)),
    (0x54, OPCODE 4 (LD_4_7__0_F__NO_7__6 0x54)),
    (0x55, OPCODE 4 (LD_4_7__0_F__NO_7__6 0x55)),
    (0x56, OPCODE 8 (LD_4_7__0_F__NO_7__6 0x56)),
    (0x57, OPCODE 4 (LD_4_7__0_F__NO_7__6 0x57)),
    (0x58, OPCODE 4 (LD_4_7__0_F__NO_7__6 0x58)),
    (0x59, OPCODE 4 (LD_4_7__0_F__NO_7__6 0x59)),
    (0x5A, OPCODE 4 (LD_4_7__0_F__NO_7__6 0x5A)),
    (0x5B, OPCODE 4 (LD_4_7__0_F__NO_7__6 0x5B)),
    (0x5C, OPCODE 4 (LD_4_7__0_F__NO_7__6 0x5C)),
    (0x5D, OPCODE 4 (LD_4_7__0_F__NO_7__6 0x5D)),
    (0x5E, OPCODE 8 (LD_4_7__0_F__NO_7__6 0x5E)),
    (0x5F, OPCODE 4 (LD_4_7__0_F__NO_7__6 0x5F)),
    (0x60, OPCODE 4 (LD_4_7__0_F__NO_7__6 0x60)),
    (0x61, OPCODE 4 (LD_4_7__0_F__NO_7__6 0x61)),
    (0x62, OPCODE 4 (LD_4_7__0_F__NO_7__6 0x62)),
    (0x63, OPCODE 4 (LD_4_7__0_F__NO_7__6 0x63)),
    (0x64, OPCODE 4 (LD_4_7__0_F__NO_7__6 0x64)),
    (0x65, OPCODE 4 (LD_4_7__0_F__NO_7__6 0x65)),
    (0x66, OPCODE 8 (LD_4_7__0_F__NO_7__6 0x66)),
    (0x67, OPCODE 4 (LD_4_7__0_F__NO_7__6 0x67)),
    (0x68, OPCODE 4 (LD_4_7__0_F__NO_7__6 0x68)),
    (0x69, OPCODE 4 (LD_4_7__0_F__NO_7__6 0x69)),
    (0x6A, OPCODE 4 (LD_4_7__0_F__NO_7__6 0x6A)),
    (0x6B, OPCODE 4 (LD_4_7__0_F__NO_7__6 0x6B)),
    (0x6C, OPCODE 4 (LD_4_7__0_F__NO_7__6 0x6C)),
    (0x6D, OPCODE 4 (LD_4_7__0_F__NO_7__6 0x6D)),
    (0x6E, OPCODE 8 (LD_4_7__0_F__NO_7__6 0x6E)),
    (0x6F, OPCODE 4 (LD_4_7__0_F__NO_7__6 0x6F)),
    (0x70, OPCODE 8 (LD_4_7__0_F__NO_7__6 0x70)),
    (0x71, OPCODE 8 (LD_4_7__0_F__NO_7__6 0x71)),
    (0x72, OPCODE 8 (LD_4_7__0_F__NO_7__6 0x72)),
    (0x73, OPCODE 8 (LD_4_7__0_F__NO_7__6 0x73)),
    (0x74, OPCODE 8 (LD_4_7__0_F__NO_7__6 0x74)),
    (0x75, OPCODE 8 (LD_4_7__0_F__NO_7__6 0x75)),
    (0x77, OPCODE 8 (LD_4_7__0_F__NO_7__6 0x77)),
    (0x78, OPCODE 4 (LD_4_7__0_F__NO_7__6 0x78)),
    (0x79, OPCODE 4 (LD_4_7__0_F__NO_7__6 0x79)),
    (0x7A, OPCODE 4 (LD_4_7__0_F__NO_7__6 0x7A)),
    (0x7B, OPCODE 4 (LD_4_7__0_F__NO_7__6 0x7B)),
    (0x7C, OPCODE 4 (LD_4_7__0_F__NO_7__6 0x7C)),
    (0x7D, OPCODE 4 (LD_4_7__0_F__NO_7__6 0x7D)),
    (0x7E, OPCODE 8 (LD_4_7__0_F__NO_7__6 0x7E)),
    (0x7F, OPCODE 4 (LD_4_7__0_F__NO_7__6 0x7F)),
    (0x76, OPCODE 4 (HALT_7__6 0x76)),
    (0xA8, OPCODE 4 (XOR_A__8_F 0xA8)),
    (0xA9, OPCODE 4 (XOR_A__8_F 0xA9)),
    (0xAA, OPCODE 4 (XOR_A__8_F 0xAA)),
    (0xAB, OPCODE 4 (XOR_A__8_F 0xAB)),
    (0xAC, OPCODE 4 (XOR_A__8_F 0xAC)),
    (0xAD, OPCODE 4 (XOR_A__8_F 0xAD)),
    (0xAE, OPCODE 8 (XOR_A__8_F 0xAE)),
    (0xAF, OPCODE 4 (XOR_A__8_F 0xAF)),
    (0xB0, OPCODE 4 (OR_B__0_7 0xB0)),
    (0xB1, OPCODE 4 (OR_B__0_7 0xB1)),
    (0xB2, OPCODE 4 (OR_B__0_7 0xB2)),
    (0xB3, OPCODE 4 (OR_B__0_7 0xB3)),
    (0xB4, OPCODE 4 (OR_B__0_7 0xB4)),
    (0xB5, OPCODE 4 (OR_B__0_7 0xB5)),
    (0xB6, OPCODE 8 (OR_B__0_7 0xB6)),
    (0xB7, OPCODE 4 (OR_B__0_7 0xB7)),
    (0xC1, case_C1_D1_E1_F1 0xC1),
    (0xD1, case_C1_D1_E1_F1 0xD1),
    (0xE1, case_C1_D1_E1_F1 0xE1),
    (0xF1, case_C1_D1_E1_F1 0xF1),
    (0xC3, case_C3),
    (0xC4, OPCODE 12 (CALL_C_D__4__C_D__C 0xC4)),
    (0xD4, OPCODE 12 (CALL_C_D__4__C_D__C 0xD4)),
    (0xCC, OPCODE 12 (CALL_C_D__4__C_D__C 0xCC)),
    (0xDC, OPCODE 12 (CALL_C_D__4__C_D__C 0xDC)),
    (0xC5, case_C5_D5_E5_F5 0xC5),
    (0xD5, case_C5_D5_E5_F5 0xD5),
    (0xE5, case_C5_D5_E5_F5 0xE5),
    (0xF5, case_C5_D5_E5_F5 0xF5),
    (0xC6, OPCODE 8 (ADD_C_6 0xC6)),
    (0xC9, case_C9),
    (0xCB, case_CB),
    (0xCD, case_CD),
    (0xCE, OPCODE 8 (ADC_C__E 0xCE)),
    (0xC0, OPCODE 8 (RET_C_D__0__C_D__8 0xC0)),
    (0xC8, OPCODE 8 (RET_C_D__0__C_D__8 0xC8)),
    (0xD0, OPCODE 8 (RET_C_D__0__C_D__8 0xD0)),
    (0xD8, OPCODE 8 (RET_C_D__0__C_D__8 0xD8)),
    (0xD6, OPCODE 8 (SUB_D__6 0xD6)),
    (0xE6, OPCODE 8 (AND_E__6 0xE6)),
    (0xE9, OPCODE 4 (JP_E__9 0xE9)),
    (0xF6, OPCODE 8 (OR_F_6 0xF6)),
    (0xE0, case_E0),
    (0xEE, OPCODE 8 (XOR_E__E 0xEE)),
    (0xEA, case_EA),
    (0xF0, OPCODE 12 (LDH_F__0 0xF0)),
    (0xF3, case_F3),
    (0xFA, OPCODE 16 (LD_F__A 0xFA)),
    (0xFE, OPCODE 8 (CP_F_E 0xFE)),
    (0xD3, OPCODE 4 (IllegalOpcode 0xD3)),
    (0xDB, OPCODE 4 (IllegalOpcode 0xDB)),
    (0xDD, OPCODE 4 (IllegalOpcode 0xDD)),
    (0xE3, OPCODE 4 (IllegalOpcode 0xE3)),
    (0xE4, OPCODE 4 (IllegalOpcode 0xE4)),
    (0xEB, OPCODE 4 (IllegalOpcode 0xEB)),
    (0xEC, OPCODE 4 (IllegalOpcode 0xEC)),
    (0xED, OPCODE 4 (IllegalOpcode 0xED)),
    (0xF2, OPCODE 4 (IllegalOpcode 0xF2)),
    (0xF4, OPCODE 4 (IllegalOpcode 0xF4)),
    (0xFC, OPCODE 4 (IllegalOpcode 0xFC)),
    (0xFD, OPCODE 4 (IllegalOpcode 0xFD))]

/-- The outer `switch (opcode)`: the body of the matching `case`, or the `default`. -/
def ExecuteOpcode (opcode : Nat) (cpu : Cpu δ) : Outcome (Cpu δ) Nat :=
  match primaryCases.lookup opcode with
  | some body => body cpu
  | none => unknownOpcode opcode cpu

def ExecuteSingleInstruction (cpu : Cpu δ) : Outcome (Cpu δ) Nat :=
  cpu.Fetch8.andThen fun opcode cpu => ExecuteOpcode opcode cpu

/-! ### Reading aids for the operand slots -/

/-- The value of the operand slot `N` of {B,C,D,E,H,L,(HL),A} when `(HL)` is served from the
RAM arrays of the bus. -/
def operand8 (N : Nat) (cpu : Cpu δ) : Nat :=
  if N = 6 then cpu.m_pMemory.ramByte cpu.HL else B_C_D_E_H_L_iHL_A_GetReg8 N cpu

/-- The CPU after a store of `value` to the operand slot `N` of {B,C,D,E,H,L,(HL),A} when
`(HL)` is served from the RAM arrays of the bus. -/
def setOperand8 (N : Nat) (cpu : Cpu δ) (value : Nat) : Cpu δ :=
  match N with
  | 0 => { cpu with B := value }
  | 1 => { cpu with C := value }
  | 2 => { cpu with D := value }
  | 3 => { cpu with E := value }
  | 4 => { cpu with H := value }
  | 5 => { cpu with L := value }
  | 6 => { cpu with m_pMemory := cpu.m_pMemory.ramStore cpu.HL value }
  | _ => { cpu with A := value }

end Cpu

namespace Cpu
variable {δ : Type}

/-! ### The loop of `Update` -/

/-- `SDLK_g`: the key `g`. -/
def SDLK_g : Nat := 0x67

/-- `SDLK_s`: the key `s`. -/
def SDLK_s : Nat := 0x73

/-- `Peek8()`: the byte at `PC`, read through the bus. -/
def Peek8 (cpu : Cpu δ) : Outcome (Cpu δ) Nat :=
  match cpu.m_pMemory.Read8 cpu.PC with
  | .ok r bus => .ok r.1 { cpu with m_pMemory := bus }
  | .thrown e bus => .thrown e { cpu with m_pMemory := bus }

/-- `DebugOpcode(opcode)`: when single-stepping, prints the registers and the bytes around
`PC`; what remains of it here are the bus reads made for the arguments of `printf`, taken
left to right (the language leaves their order open). -/
def DebugOpcode (cpu : Cpu δ) (_opcode : Nat) : Outcome (Cpu δ) Unit :=
  if cpu.m_debuggerState = .SingleStepping then
    (cpu.DebugStringPeek8 (toUint16 (cpu.PC + 1))).andThen fun _ cpu =>
    (cpu.DebugStringPeek16 (toUint16 (cpu.PC + 1))).andThen fun _ cpu =>
    (cpu.DebugStringPeek8 cpu.BC).andThen fun _ cpu =>
    (cpu.DebugStringPeek8 cpu.DE).andThen fun _ cpu =>
    cpu.DebugStringPeek8 cpu.HL
  else
    .ok () cpu

/-- One iteration of the `while (m_cyclesRemaining > 0)` loop of `Update`, returning
`instructionCycles`, the amount subtracted from the cycle budget.  `keycode` is what
`DebugWaitForKeypress()` or `DebugCheckForKeypress()` returns (neither is part of the
sources).  `SDL_assert(instructionCycles != -1)` always holds and is left out:
`ExecuteSingleInstruction` returns a `Uint16`, so the `Sint32` it is stored in is never
negative, and the other branch assigns 4. -/
def UpdateIteration (keycode : Nat) (cpu : Cpu δ) : Outcome (Cpu δ) Nat :=
  cpu.Peek8.andThen fun opcode cpu =>
  (cpu.DebugOpcode opcode).andThen fun _ cpu =>
    let cpu :=
      if keycode = SDLK_g then { cpu with m_debuggerState := .Running }
      else if keycode = SDLK_s then { cpu with m_debuggerState := .SingleStepping }
      else cpu
    (if !cpu.m_cpuHalted && !cpu.m_cpuStopped then cpu.ExecuteSingleInstruction
     else .ok 4 cpu).andThen fun instructionCycles cpu =>
      .ok instructionCycles
        { cpu with m_totalOpcodesExecuted := (cpu.m_totalOpcodesExecuted + 1) % 2 ^ 32 }

end Cpu

namespace MemoryBus
variable {δ : Type}

/-! ### Reading aids for the device cache -/

/-- Whether the device claims the address when `EnsureDeviceIsProbed` probes it: the flag its
`HandleRequest` returns for a Read. -/
def claims (address : Nat) (pDevice : IMemoryBusDevice δ) : Bool :=
  (pDevice.HandleRequest .Read address 0 pDevice.state).1

/-- The device after one Read probe of the address. -/
def probed (address : Nat) (pDevice : IMemoryBusDevice δ) : IMemoryBusDevice δ :=
  { pDevice with state := (pDevice.HandleRequest .Read address 0 pDevice.state).2.2 }

/-- The device after it has handled a request. -/
def served (requestType : MemoryRequestType) (address value : Nat)
    (pDevice : IMemoryBusDevice δ) : IMemoryBusDevice δ :=
  { pDevice with state := (pDevice.HandleRequest requestType address value pDevice.state).2.2 }

/-- The byte slot after the device has handled a request. -/
def servedByte (requestType : MemoryRequestType) (address value : Nat)
    (pDevice : IMemoryBusDevice δ) : Nat :=
  (pDevice.HandleRequest requestType address value pDevice.state).2.1

/-- The device list after every device from index `first` on has been probed once. -/
def probedFrom (address first : Nat) (devices : List (IMemoryBusDevice δ)) :
    List (IMemoryBusDevice δ) :=
  devices.mapIdx fun j pDevice => if first ≤ j then probed address pDevice else pDevice

/-- The two buses hold the same bytes and registers: they differ at most in the device cache
and in the devices. -/
def sameMemory (bus1 bus2 : MemoryBus δ) : Prop :=
  sameRam bus1 bus2 ∧ bus1.mmr = bus2.mmr ∧ bus1.registers = bus2.registers

end MemoryBus

/-! ## Lcd.h -/

/-- Modelled from the spec: `Utils.h` is not part of the sources; `Bit1` is the mask of bit 1. -/
def Bit1 : Nat := 0x02

/-- Modelled from the spec: `Utils.h` is not part of the sources; `Bit2` is the mask of bit 2. -/
def Bit2 : Nat := 0x04

/-- Modelled from the spec: `Utils.h` is not part of the sources; `Bit3` is the mask of bit 3. -/
def Bit3 : Nat := 0x08

/-- Modelled from the spec: `Utils.h` is not part of the sources; `Bit4` is the mask of bit 4. -/
def Bit4 : Nat := 0x10

/-- Modelled from the spec: `Utils.h` is not part of the sources; `Bit5` is the mask of bit 5. -/
def Bit5 : Nat := 0x20

/-- Modelled from the spec: `Utils.h` is not part of the sources; `Bit6` is the mask of bit 6. -/
def Bit6 : Nat := 0x40

/-- Narrowing conversion of an `int` to `Sint16`. -/
def toSint16 (x : Int) : Int := if x % 65536 > 32767 then x % 65536 - 65536 else x % 65536

/-- `enum class State` of `class Lcd`. -/
inductive Lcd.State where
  | HBlank
  | ReadingOam
  | ReadingOamAndVram
  deriving DecidableEq

/-- What the LCD does to the objects it points to, apart from reading the bus: a call
`m_pCpu->SignalInterrupt(mask)` (`Cpu.h` as given has no `SignalInterrupt`; the spec has it
OR the mask into IF), or the `DebugBreak()` of `RenderScanline`. -/
inductive LcdEvent where
  | SignalInterrupt (mask : Nat)
  | DebugBreak
  deriving DecidableEq

/-- State of `class Lcd`.  `m_pFrameBuffer` is the texture the LCD draws into, as the pixel
at column `x` of row `y` (the pitch of a locked texture is that of its rows).  The
floating-point budget `m_updateTimeLeft` only decides how many iterations `Update` runs and is
left out; the bus `m_pMemory` and the CPU `m_pCpu` are shared objects: the bus is passed to the
functions that read it, the calls made to the CPU are returned as `LcdEvent`s. -/
structure Lcd where
  m_nextState : Lcd.State
  m_scanLine : Int
  m_wasLcdEnabledLastUpdate : Bool
  m_lastMode : Int
  m_vram : Nat → Nat
  m_oam : Nat → Nat
  LCDC : Nat
  STAT : Nat
  SCY : Nat
  SCX : Nat
  LY : Nat
  LYC : Nat
  DMA : Nat
  BGP : Nat
  OBP0 : Nat
  OBP1 : Nat
  WY : Nat
  WX : Nat
  m_pFrameBuffer : Nat → Nat → Nat

namespace Lcd

variable {δ : Type}

def kScreenWidth : Nat := 160
def kScreenHeight : Nat := 144
def kVramBase : Nat := 0x8000
def kVramSize : Nat := 0x2000
def kOamBase : Nat := 0xFE00
def kOamSize : Nat := 0xFE9F - kOamBase + 1

/-- `RenderDisabledFrameBuffer()`: every pixel of the 160 x 144 screen becomes
`0xFF000000 | (r << 16) | (g << 8) | b` with `r = 0xFF`, `g = 0x00`, `b = 0xFF`. -/
def RenderDisabledFrameBuffer (lcd : Lcd) : Lcd :=
  { lcd with m_pFrameBuffer := fun x y =>
      if x < kScreenWidth ∧ y < kScreenHeight then
        0xFF000000 ||| (0xFF <<< 16) ||| (0x00 <<< 8) ||| 0xFF
      else lcd.m_pFrameBuffer x y }

def Reset (lcd : Lcd) : Lcd :=
  let lcd := { lcd with m_nextState := .ReadingOam }
  let lcd := { lcd with m_scanLine := 0 }
  let lcd := { lcd with m_wasLcdEnabledLastUpdate := true }
  let lcd := { lcd with m_lastMode := 0 }
  let lcd := lcd.RenderDisabledFrameBuffer
  let lcd := { lcd with m_vram := fun _ => 0xFD }
  let lcd := { lcd with m_oam := fun _ => 0xFD }
  { lcd with LCDC := 0x91, STAT := 0, SCY := 0, SCX := 0, LY := 0, LYC := 0, DMA := 0,
             BGP := 0xFC, OBP0 := 0xFF, OBP1 := 0xFF, WY := 0, WX := 0 }

/-- A read of the bus made through `m_pMemoryUnsafe`: `Read8(address)`. -/
def busRead8 (bus : MemoryBus δ) (address : Nat) : Outcome (MemoryBus δ) Nat :=
  (bus.Read8 address).andThen fun r bus => .ok r.1 bus

/-- `GetTileIndexAtXY(tileMapBaseAddress, x, y)`; `/` on `int` truncates. -/
def GetTileIndexAtXY (bus : MemoryBus δ) (tileMapBaseAddress : Nat) (x y : Int) :
    Outcome (MemoryBus δ) Nat :=
  let tileMapX := toUint8 (x.tdiv 8)
  let tileMapY := toUint8 (y.tdiv 8)
  let tileOffset := toUint16 ((tileMapY * 32 + tileMapX : Nat) : Int)
  (busRead8 bus (toUint16 ((tileMapBaseAddress + tileOffset : Nat) : Int))).andThen fun tileIndex bus =>
    .ok (toUint8 tileIndex) bus

/-- `GetTileDataPixelColorIndex(baseTileDataAddress, tileIndex, x, y)`; `%` on `int` takes
the sign of the dividend. -/
def GetTileDataPixelColorIndex (bus : MemoryBus δ) (baseTileDataAddress : Nat)
    (tileIndex : Int) (x y : Int) : Outcome (MemoryBus δ) Nat :=
  let tileDataX := toUint8 (x.tmod 8)
  let tileDataY := toUint8 (y.tmod 8)
  let tileDataShift := toUint8 (7 - (tileDataX : Int))
  let tileDataMask := toUint8 ((1 <<< tileDataShift : Nat) : Int)
  let tileDataAddress :=
    toUint16 ((baseTileDataAddress : Int) + tileIndex * 16 + (tileDataY : Int) * 2)
  (busRead8 bus tileDataAddress).andThen fun lsb bus =>
    let tileRowLsb := toUint8 (((lsb &&& tileDataMask) >>> tileDataShift : Nat) : Int)
    (busRead8 bus (toUint16 ((tileDataAddress + 1 : Nat) : Int))).andThen fun msb bus =>
      let tileRowMsb := toUint8 (((msb &&& tileDataMask) >>> tileDataShift : Nat) : Int)
      let colorIndex := toUint8 (((tileRowMsb <<< 1) ||| tileRowLsb : Nat) : Int)
      .ok colorIndex bus

/-- `GetLuminosityForColorIndex(paletteRegister, colorIndex)`: the body reads `BGP`, not its
first parameter. -/
def GetLuminosityForColorIndex (lcd : Lcd) (_paletteRegister colorIndex : Nat) : Nat :=
  let shadeShift := toUint8 ((2 * colorIndex : Nat) : Int)
  let shadeMask := toUint8 ((0x3 <<< shadeShift : Nat) : Int)
  let shade := toUint8 (((lcd.BGP &&& shadeMask) >>> shadeShift : Nat) : Int)
  toUint8 ((3 - (shade : Int)) * 0x55)

/-- The background part of the body of the pixel loop of `RenderScanline`: the luminosity of
the background at `screenX`. -/
def backgroundLuminosity (lcd : Lcd) (bus : MemoryBus δ) (screenX : Nat) :
    Outcome (MemoryBus δ) Nat :=
  let x := toUint16 (((lcd.SCX : Int) + (screenX : Int)).tmod 256)
  let y := toUint16 (((lcd.SCY : Int) + lcd.m_scanLine).tmod 256)
  let tileMapBaseAddress := if lcd.LCDC &&& Bit3 != 0 then 0x9C00 else 0x9800
  (GetTileIndexAtXY bus tileMapBaseAddress x y).andThen fun tileIndex bus =>
    let tileIndex : Int := tileIndex
    let baseTileDataAddress := if lcd.LCDC &&& Bit4 != 0 then 0x8000 else 0x9000
    let tileIndex :=
      if lcd.LCDC &&& Bit4 != 0 then tileIndex
      else if tileIndex > 127 then tileIndex - 256 else tileIndex
    (GetTileDataPixelColorIndex bus baseTileDataAddress tileIndex x y).andThen
      fun colorIndex bus => .ok (lcd.GetLuminosityForColorIndex lcd.BGP colorIndex) bus

/-- The window part of the body of the pixel loop of `RenderScanline`: the luminosity of the
window at `screenX`, or `current` where the window does not cover the pixel. -/
def windowLuminosity (lcd : Lcd) (bus : MemoryBus δ) (screenX current : Nat) :
    Outcome (MemoryBus δ) Nat :=
  let x := toSint16 ((screenX : Int) - ((lcd.WX : Int) - 7))
  let y := toSint16 (lcd.m_scanLine - (lcd.WY : Int))
  if x ≥ 0 ∧ x < 160 ∧ y ≥ 0 ∧ y < 144 then
    let tileMapBaseAddress := if lcd.LCDC &&& Bit6 != 0 then 0x9C00 else 0x9800
    (GetTileIndexAtXY bus tileMapBaseAddress x y).andThen fun tileIndex bus =>
      let tileIndex := toSint8 tileIndex
      let baseTileDataAddress := 0x9000
      (GetTileDataPixelColorIndex bus baseTileDataAddress tileIndex x y).andThen
        fun colorIndex bus => .ok (lcd.GetLuminosityForColorIndex lcd.BGP colorIndex) bus
  else
    .ok current bus

/-- The body of the pixel loop of `RenderScanline`: the pixel written at `screenX`,
`0xFF000000 | (r << 16) | (g << 8) | b`, where `r`, `g` and `b` are all 0xFF or all the
luminosity of the background or of the window (the static `enableWindow` is `true`). -/
def renderPixel (lcd : Lcd) (bus : MemoryBus δ) (screenX : Nat) : Outcome (MemoryBus δ) Nat :=
  (if lcd.LCDC &&& Bit0 != 0 then backgroundLuminosity lcd bus screenX
   else .ok 0xFF bus).andThen fun luminosity bus =>
    (if lcd.LCDC &&& Bit5 != 0 then windowLuminosity lcd bus screenX luminosity
     else .ok luminosity bus).andThen fun luminosity bus =>
      .ok (0xFF000000 ||| (luminosity <<< 16) ||| (luminosity <<< 8) ||| luminosity) bus

/-- The pixel loop of `RenderScanline`, with `n` pixels left to write from `screenX` on, in
the row `LY` of the frame buffer. -/
def renderPixels : Nat → Nat → Lcd × MemoryBus δ → Outcome (Lcd × MemoryBus δ) Unit
  | 0, _, s => .ok () s
  | n + 1, screenX, s =>
    match renderPixel s.1 s.2 screenX with
    | .thrown e bus => .thrown e (s.1, bus)
    | .ok pixel bus =>
      let lcd := { s.1 with m_pFrameBuffer := fun x y =>
        if x = screenX ∧ y = s.1.LY then pixel else s.1.m_pFrameBuffer x y }
      renderPixels n (screenX + 1) (lcd, bus)

/-- `RenderScanline()`.  The counter `c`, a static local that is only incremented, is left
out. -/
def RenderScanline (s : Lcd × MemoryBus δ) : Outcome (Lcd × MemoryBus δ) (List LcdEvent) :=
  if s.1.LY < kScreenHeight then
    let events := if s.1.LCDC &&& Bit2 != 0 then [LcdEvent.DebugBreak] else []
    (renderPixels kScreenWidth 0 s).andThen fun _ s => .ok events s
  else
    .ok [] s

/-- The events of `RenderScanline` (a reading aid): the `DebugBreak()` of the 8x16 sprite
mode, when the line is drawn. -/
def renderEvents (lcd : Lcd) : List LcdEvent :=
  if lcd.LY < kScreenHeight then (if lcd.LCDC &&& Bit2 != 0 then [LcdEvent.DebugBreak] else [])
  else []

/-- The signals of the `switch (mode)` of `Update`, taken when the mode has changed. -/
def modeChangeEvents (lcd : Lcd) (mode : Nat) : List LcdEvent :=
  match mode with
  | 0 => if lcd.STAT &&& Bit3 != 0 then [.SignalInterrupt Bit1] else []
  | 1 =>
    (if lcd.STAT &&& Bit4 != 0 then [.SignalInterrupt Bit1] else []) ++ [.SignalInterrupt Bit0]
  | 2 => if lcd.STAT &&& Bit5 != 0 then [.SignalInterrupt Bit1] else []
  | _ => []

/-- The statements of `case State::ReadingOam` of `Update` that come before the call of
`RenderScanline`: the scanline and LY advance, LY is compared with LYC, and past line 153
both go back to 0.  Returns the signal of the coincidence, if it is made. -/
def advanceScanLine (lcd : Lcd) : List LcdEvent × Lcd :=
  let lcd := { lcd with m_scanLine := lcd.m_scanLine + 1 }
  let lcd := { lcd with LY := toUint8 ((lcd.LY : Int) + 1) }
  let coincidence : List LcdEvent :=
    if lcd.LY = lcd.LYC ∧ lcd.STAT &&& Bit6 != 0 then [.SignalInterrupt Bit1] else []
  let lcd :=
    if lcd.LY = lcd.LYC then { lcd with STAT := toUint8 ((lcd.STAT ||| Bit2 : Nat) : Int) }
    else { lcd with STAT := toUint8 ((lcd.STAT &&& (0xFFFFFFFF ^^^ Bit2) : Nat) : Int) }
  let lcd := if lcd.m_scanLine > 153 then { lcd with m_scanLine := 0, LY := 0 } else lcd
  (coincidence, lcd)

/-- `case State::ReadingOam` of `Update`: returns the events and `mode = 2`. -/
def stepReadingOam (s : Lcd × MemoryBus δ) :
    Outcome (Lcd × MemoryBus δ) (List LcdEvent × Nat) :=
  let r := advanceScanLine s.1
  (RenderScanline (r.2, s.2)).andThen fun rendered s =>
    .ok (r.1 ++ rendered, 2) ({ s.1 with m_nextState := .ReadingOamAndVram }, s.2)

/-- The statements of the `if (isLcdEnabled)` branch of `Update` that follow the state
switch: past line 143 the mode is 1, a mode that differs from the last one makes its signals,
and the mode becomes the last one.  Takes and returns the events so far and `mode`. -/
def reportMode (r : List LcdEvent × Nat) (lcd : Lcd) : (List LcdEvent × Nat) × Lcd :=
  let mode := if lcd.m_scanLine ≥ 144 then 1 else r.2
  let events :=
    if (mode : Int) ≠ lcd.m_lastMode then r.1 ++ modeChangeEvents lcd mode else r.1
  ((events, mode), { lcd with m_lastMode := mode })

/-- The `if (isLcdEnabled)` branch of `Update`; returns the events and `mode`. -/
def stepEnabled (s : Lcd × MemoryBus δ) : Outcome (Lcd × MemoryBus δ) (List LcdEvent × Nat) :=
  (match s.1.m_nextState with
   | .ReadingOam => stepReadingOam s
   | .ReadingOamAndVram => .ok ([], 3) ({ s.1 with m_nextState := .HBlank }, s.2)
   | .HBlank => .ok ([], 0) ({ s.1 with m_nextState := .ReadingOam }, s.2)).andThen
    fun r s => .ok (reportMode r s.1).1 ((reportMode r s.1).2, s.2)

/-- The `else` branch of `Update`: the LCD is disabled. -/
def stepDisabled (s : Lcd × MemoryBus δ) : Outcome (Lcd × MemoryBus δ) (List LcdEvent × Nat) :=
  .ok ([], 1)
    ({ s.1 with m_lastMode := 1, m_scanLine := -1, LY := 0, m_nextState := .ReadingOam }, s.2)

/-- The statements of the loop of `Update` that follow the `if (isLcdEnabled)`: the frame
buffer is blanked when the LCD has just been disabled, and `mode` goes into the low two bits
of STAT. -/
def finishStep (isLcdEnabled : Bool) (mode : Nat) (lcd : Lcd) : Lcd :=
  let lcd :=
    if lcd.m_wasLcdEnabledLastUpdate && !isLcdEnabled then lcd.RenderDisabledFrameBuffer
    else lcd
  let lcd := { lcd with m_wasLcdEnabledLastUpdate := isLcdEnabled }
  { lcd with
    STAT := toUint8 (((lcd.STAT &&& (0xFFFFFFFF ^^^ (Bit1 ||| Bit0))) ||| mode : Nat) : Int) }

/-- One iteration of the `while (m_updateTimeLeft > 0.0f)` loop of `Update`, returning the
events in the order they are made. -/
def UpdateStep (lcd : Lcd) (bus : MemoryBus δ) : Outcome (Lcd × MemoryBus δ) (List LcdEvent) :=
  let isLcdEnabled := lcd.LCDC &&& Bit7 != 0
  (if isLcdEnabled then stepEnabled (lcd, bus) else stepDisabled (lcd, bus)).andThen
    fun r s => .ok r.1 (finishStep isLcdEnabled r.2 s.1, s.2)

/-- Modelled from the spec: `ServiceMemoryRangeRequest` is not part of the sources; a request
for an address of the range `base .. base + size - 1` is handled on the array, a Read filling
the byte slot and a Write storing it; any other address is not handled. -/
def ServiceMemoryRangeRequest (requestType : MemoryRequestType) (address value base size : Nat)
    (memory : Nat → Nat) : Bool × Nat × (Nat → Nat) :=
  if IsAddressInRange address base size then
    match requestType with
    | .Read => (true, memory (address - base), memory)
    | .Write => (true, value, Function.update memory (address - base) value)
  else
    (false, value, memory)

/-- Modelled from the spec: the macro `SERVICE_MMR_RW` is not part of the sources; the
register is plain read/write: a Read fills the byte slot with it, a Write stores the byte
slot in it, and the request is handled. -/
def SERVICE_MMR_RW (requestType : MemoryRequestType) (value : Nat) (register : Nat) :
    Nat × Nat :=
  match requestType with
  | .Read => (register, register)
  | .Write => (value, toUint8 (value : Int))

/-- The copies `m_pMemory->Write8(destination, m_pMemory->Read8(source))` of a write to DMA,
as pairs (source, destination) in the order they are made. -/
def dmaTransfers (value : Nat) : List (Nat × Nat) :=
  (List.range (0xFE9F - 0xFE00 + 1)).map fun i =>
    (toUint16 (((value <<< 8) + i : Nat) : Int), 0xFE00 + i)

/-- `HandleRequest(requestType, address, value)`: returns whether the request is handled,
the byte slot, the LCD, and the bus copies the handler makes before it returns (those of a
write to DMA: the handler does nothing else then). -/
def HandleRequest (requestType : MemoryRequestType) (address value : Nat) (lcd : Lcd) :
    Bool × Nat × Lcd × List (Nat × Nat) :=
  let r := ServiceMemoryRangeRequest requestType address value kVramBase kVramSize lcd.m_vram
  if r.1 then (true, r.2.1, { lcd with m_vram := r.2.2 }, [])
  else
    let r := ServiceMemoryRangeRequest requestType address value kOamBase kOamSize lcd.m_oam
    if r.1 then (true, r.2.1, { lcd with m_oam := r.2.2 }, [])
    else if address = 0xFF40 then
      let r := SERVICE_MMR_RW requestType value lcd.LCDC
      (true, r.1, { lcd with LCDC := r.2 }, [])
    else if address = 0xFF41 then
      match requestType with
      | .Read => (true, lcd.STAT, lcd, [])
      | .Write =>
        let stat := toUint8 (((value &&& (Bit6 ||| Bit5 ||| Bit4 ||| Bit3)) |||
          (lcd.STAT &&& (Bit2 ||| Bit1 ||| Bit0)) : Nat) : Int)
        (true, value, { lcd with STAT := stat }, [])
    else if address = 0xFF42 then
      let r := SERVICE_MMR_RW requestType value lcd.SCY
      (true, r.1, { lcd with SCY := r.2 }, [])
    else if address = 0xFF43 then
      let r := SERVICE_MMR_RW requestType value lcd.SCX
      (true, r.1, { lcd with SCX := r.2 }, [])
    else if address = 0xFF44 then
      match requestType with
      | .Write => (true, value, { lcd with LY := 0 }, [])
      | .Read => (true, lcd.LY, lcd, [])
    else if address = 0xFF45 then
      let r := SERVICE_MMR_RW requestType value lcd.LYC
      (true, r.1, { lcd with LYC := r.2 }, [])
    else if address = 0xFF46 then
      match requestType with
      | .Write => (true, value, lcd, dmaTransfers value)
      | .Read => (true, 0, lcd, [])
    else if address = 0xFF47 then
      let r := SERVICE_MMR_RW requestType value lcd.BGP
      (true, r.1, { lcd with BGP := r.2 }, [])
    else if address = 0xFF48 then
      let r := SERVICE_MMR_RW requestType value lcd.OBP0
      (true, r.1, { lcd with OBP0 := r.2 }, [])
    else if address = 0xFF49 then
      let r := SERVICE_MMR_RW requestType value lcd.OBP1
      (true, r.1, { lcd with OBP1 := r.2 }, [])
    else if address = 0xFF4A then
      let r := SERVICE_MMR_RW requestType value lcd.WY
      (true, r.1, { lcd with WY := r.2 }, [])
    else if address = 0xFF4B then
      let r := SERVICE_MMR_RW requestType value lcd.WX
      (true, r.1, { lcd with WX := r.2 }, [])
    else
      (false, value, lcd, [])

/-! ### Reading aids for the loop of `Update` -/

/-- What an iteration of the loop of `Update` does after the state switch when the LCD is
enabled, on the LCD alone: `reportMode`, then `finishStep`.  Returns the events. -/
def afterSwitch (r : List LcdEvent × Nat) (lcd : Lcd) : List LcdEvent × Lcd :=
  ((reportMode r lcd).1.1, finishStep true (reportMode r lcd).1.2 (reportMode r lcd).2)

/-- Whether the step signals the given interrupt bit. -/
def signals (events : List LcdEvent) (mask : Nat) : Bool :=
  decide (LcdEvent.SignalInterrupt mask ∈ events)

/-- The loop of `Update` run for `n` iterations: the events of all of them, in order. -/
def UpdateSteps : Nat → Lcd × MemoryBus δ → Outcome (Lcd × MemoryBus δ) (List LcdEvent)
  | 0, s => .ok [] s
  | n + 1, s =>
    (s.1.UpdateStep s.2).andThen fun events s =>
      (UpdateSteps n s).andThen fun later s => .ok (events ++ later) s

/-- The LCD states the program can be in: the state `Reset` leaves (the constructor ends with
`Reset`), and from such a state the state after one iteration of the loop of `Update`, with
whatever bus the LCD points to, and the state after one call of `HandleRequest`, with whatever
request (the bus calls made by a write to DMA reach the LCD, if at all, as calls of
`HandleRequest`). -/
inductive Reachable : Lcd → Prop where
  | reset (lcd : Lcd) : Reachable lcd.Reset
  | update {δ : Type} (lcd : Lcd) (bus : MemoryBus δ) :
      Reachable lcd → Reachable (lcd.UpdateStep bus).state.1
  | request (requestType : MemoryRequestType) (address value : Nat) (lcd : Lcd) :
      Reachable lcd → Reachable (HandleRequest requestType address value lcd).2.2.1

end Lcd

namespace Lcd
variable {δ : Type}

/-! ### Reading aids for the reads of `RenderScanline` -/

/-- The reads one layer makes for one pixel, in order: the tile-map byte at `a`, then the two
bytes of the tile row at `d t` and `d t + 1`, where `t` is the tile-map byte read; `g` is what
is made of the three bytes. -/
def tileReads (bus : MemoryBus δ) (a : Nat) (d : Nat → Nat) (g : Nat → Nat → Nat → Nat) :
    Outcome (MemoryBus δ) Nat :=
  (busRead8 bus a).andThen fun t bus =>
    (busRead8 bus (d t)).andThen fun lsb bus =>
      (busRead8 bus (d t + 1)).andThen fun msb bus => .ok (g t lsb msb) bus

/-- The tile-map byte of a background pixel, in the spec's words: `t = VRAM[base + (by / 8) *
32 + (bx / 8)]` with base 0x9C00 if LCDC bit 3 is set and 0x9800 otherwise; VRAM is read at
its bus address. -/
def specTileMapByte (lcd : Lcd) (bus : MemoryBus δ) (bx y : Nat) : Nat :=
  bus.ramByte ((if lcd.LCDC.testBit 3 then 0x9C00 else 0x9800) + (y / 8) * 32 + bx / 8)

/-- The tile row address of a background pixel, in the spec's words: `0x8000 + t * 16 +
(by % 8) * 2` when LCDC bit 4 is 1, and `0x9000 + s * 16 + (by % 8) * 2` when it is 0, with
`s = t - 256` for `t` in 128..255 and `s = t` otherwise. -/
def specTileRowAddress (lcd : Lcd) (t y : Nat) : Nat :=
  if lcd.LCDC.testBit 4 then 0x8000 + t * 16 + (y % 8) * 2
  else if 128 ≤ t ∧ t ≤ 255 then 0x9000 + t * 16 - 256 * 16 + (y % 8) * 2
  else 0x9000 + t * 16 + (y % 8) * 2

/-- The colour index of a background pixel, in the spec's words: `(bit p of VRAM[T + 1]) * 2 +
(bit p of VRAM[T])` with `p = 7 - (bx % 8)` and `T` the tile row address. -/
def specColorIndex (bus : MemoryBus δ) (T bx : Nat) : Nat :=
  ((bus.ramByte (T + 1)).testBit (7 - bx % 8)).toNat * 2 +
    ((bus.ramByte T).testBit (7 - bx % 8)).toNat

end Lcd

namespace Cpu
variable {δ : Type}

/-! ### Reading aids for the loop of `Update` -/

/-- The CPU after the iterations of the loop of `Update` made with the given keys, one after
the other; an iteration that fails leaves the CPU as it was at the throw, and the next
iteration goes on from there. -/
def UpdateIterations (keycodes : List Nat) (cpu : Cpu δ) : Cpu δ :=
  keycodes.foldl (fun cpu keycode => (cpu.UpdateIteration keycode).state) cpu

end Cpu

namespace Lcd
variable {δ γ : Type}

/-! ### The LCD on the bus -/

/-- The LCD as a device of the bus.  The device state of a bus the LCD is attached to is
`Lcd ⊕ γ`, with an LCD in the left summand and `γ` the state of the other devices; the device
is `HandleRequest` on that LCD, without the bus copies the handler makes (`busWrite8` makes
them). -/
def asDevice (lcd : Lcd) : IMemoryBusDevice (Lcd ⊕ γ) where
  state := .inl lcd
  HandleRequest := fun requestType address value state =>
    match state with
    | .inl lcd =>
      let r := HandleRequest requestType address value lcd
      (r.1, r.2.1, .inl r.2.2.1)
    | .inr other => (false, value, .inr other)

/-- One turn of the DMA loop: `m_pMemory->Write8(destination, m_pMemory->Read8(source))`,
for the pair (source, destination). -/
def dmaCopy (bus : MemoryBus δ) (transfer : Nat × Nat) : Outcome (MemoryBus δ) Unit :=
  (bus.Read8 transfer.1).andThen fun r bus => bus.Write8 transfer.2 r.1

/-- The DMA loop on the bus, for the pairs (source, destination) in order. -/
def dmaCopies : List (Nat × Nat) → MemoryBus δ → Outcome (MemoryBus δ) Unit
  | [], bus => .ok () bus
  | transfer :: rest, bus => (dmaCopy bus transfer).andThen fun _ bus => dmaCopies rest bus

/-- The bus copies made by the handler that `Write8(address, value)` has called: those of
`HandleRequest` when the device the cache names for the address is an LCD, none when the
write went to a RAM array, to a register or to another device.  (The copies of
`HandleRequest` do not depend on the state of the LCD.) -/
def copiesOfWrite (bus : MemoryBus (Lcd ⊕ γ)) (address value : Nat) : List (Nat × Nat) :=
  if MemoryBus.IsBusOwnedRam address then []
  else if bus.m_deviceIndexAtAddress address ≥ 0 then
    match bus.m_devicesUnsafe[(bus.m_deviceIndexAtAddress address).toNat]? with
    | some pDevice =>
      match pDevice.state with
      | .inl lcd => (HandleRequest .Write address value lcd).2.2.2
      | .inr _ => []
    | none => []
  else []

/-- `Write8(address, value)` on the bus the LCD is attached to (its `m_pMemory`).  In its
DMA case the handler of the LCD calls back into the bus before it returns; the handler does
nothing else in that case and `Write8` does nothing after the handler, so the copies are
made here on the bus that `Write8` leaves.  The copies write OAM only, so none of them
starts another DMA. -/
def busWrite8 (bus : MemoryBus (Lcd ⊕ γ)) (address value : Nat) :
    Outcome (MemoryBus (Lcd ⊕ γ)) Unit :=
  (bus.Write8 address value).andThen fun _ bus1 =>
    dmaCopies (copiesOfWrite bus1 address value) bus1

/-- The address is in OAM (0xFE00-0xFE9F) or is the DMA register (0xFF46). -/
def IsOamOrDma (address : Nat) : Bool :=
  IsAddressInRange address kOamBase kOamSize || address == 0xFF46

/-- The LCD is attached to the bus at index `k`, it is the only device that claims the
addresses of OAM and of the DMA register whatever state the other devices are in, and the
cache entry of each of these addresses is Unknown or `k`: none of them was accessed before
the LCD was attached. -/
def AttachedAt (k : Nat) (lcd : Lcd) (bus : MemoryBus (Lcd ⊕ γ)) : Prop :=
  bus.m_devicesUnsafe[k]? = some (asDevice lcd) ∧
  (∀ j pDevice, j ≠ k → bus.m_devicesUnsafe[j]? = some pDevice →
    ∀ state address, IsOamOrDma address = true →
      (pDevice.HandleRequest .Read address 0 state).1 = false) ∧
  (∀ address, IsOamOrDma address = true →
    bus.m_deviceIndexAtAddress address = MemoryDeviceStatus.Unknown ∨
    bus.m_deviceIndexAtAddress address = (k : Int))

end Lcd

/-! ## A sample machine

A cartridge with a few instructions, attached to a freshly reset bus, and a CPU in its
reset state with the stack at the top of high RAM.  The closed theorems below evaluate the
code on it. -/

namespace Sample

/-- The bytes of the sample cartridge: `CALL 0x1234` at 0x0100, `ADD A,0x01` at 0x0150,
`SUB 0x01` at 0x0152, `CP 0x01` at 0x0154, `POP AF` at 0x0156, `ADC A,0xFF` at 0x0158,
`INC B` at 0x015A, `DEC (HL)` at 0x015B, `JR 0x80` at 0x015C, `JR Z,0x05` at 0x015E,
`LD B,C` at 0x0160, `LD (HL),B` at 0x0161, `RL B` at 0x0162, `RR (HL)` at 0x0164,
`ADD HL,HL` at 0x0166, the illegal 0xD3 at 0x0167, the bytes 0x07 at 0x0168 and CB 00 at
0x0169, which have no case, `LD A,(HL)` at 0x016B, `JP 0x1234` at 0x016C, `SRL (HL)` at
0x0170 and `RET` at 0x1234. -/
def romByte (address : Nat) : Nat :=
  if address = 0x0100 then 0xCD
  else if address = 0x0101 then 0x34
  else if address = 0x0102 then 0x12
  else if address = 0x0150 then 0xC6
  else if address = 0x0151 then 0x01
  else if address = 0x0152 then 0xD6
  else if address = 0x0153 then 0x01
  else if address = 0x0154 then 0xFE
  else if address = 0x0155 then 0x01
  else if address = 0x0156 then 0xF1
  else if address = 0x0158 then 0xCE
  else if address = 0x0159 then 0xFF
  else if address = 0x015A then 0x04
  else if address = 0x015B then 0x35
  else if address = 0x015C then 0x18
  else if address = 0x015D then 0x80
  else if address = 0x015E then 0x28
  else if address = 0x015F then 0x05
  else if address = 0x0160 then 0x41
  else if address = 0x0161 then 0x70
  else if address = 0x0162 then 0xCB
  else if address = 0x0163 then 0x10
  else if address = 0x0164 then 0xCB
  else if address = 0x0165 then 0x1E
  else if address = 0x0166 then 0x29
  else if address = 0x0167 then 0xD3
  else if address = 0x0168 then 0x07
  else if address = 0x0169 then 0xCB
  else if address = 0x016A then 0x00
  else if address = 0x016B then 0x7E
  else if address = 0x016C then 0xC3
  else if address = 0x016D then 0x34
  else if address = 0x016E then 0x12
  else if address = 0x0170 then 0xCB
  else if address = 0x0171 then 0x3E
  else if address = 0x1234 then 0xC9
  else 0x00

/-- A ROM-only cartridge: it handles reads of 0x0000-0x7FFF and nothing else. -/
def cartridge : IMemoryBusDevice Unit where
  state := ()
  HandleRequest := fun requestType address value _ =>
    if requestType = .Read ∧ address < 0x8000 then (true, romByte address, ())
    else (false, value, ())

/-- The interrupt registers IF (0xFF0F) and IE (0xFFFF), both read/write. -/
def registers (address : Nat) : Option RegisterAccess :=
  if address = 0xFF0F ∨ address = 0xFFFF then some .RW else none

/-- A bus after `Reset` with the cartridge attached. -/
def bus : MemoryBus Unit :=
  MemoryBus.AddDevice
    (MemoryBus.Reset
      { registers := registers, mmr := fun _ => 0, m_devicesUnsafe := [],
        m_deviceIndexAtAddress := fun _ => 0, m_vram := fun _ => 0, m_workMemory := fun _ => 0,
        m_hram := fun _ => 0 })
    cartridge

/-- A CPU after `Reset`, with `SP = 0xFFFE`. -/
def cpu : Cpu Unit :=
  Cpu.Reset
    { A := 0, F := 0, B := 0, C := 0, D := 0, E := 0, H := 0, L := 0, SP := 0xFFFE, PC := 0,
      IME := false, m_cpuHalted := false, m_cpuStopped := false, m_totalOpcodesExecuted := 0,
      m_pMemory := bus }

/-- The sample CPU about to execute the instruction at `pc` with accumulator `a`. -/
def cpuAt (pc a : Nat) : Cpu Unit :=
  { cpu with PC := pc, A := a }

/-- A bus after `Reset` with no device attached. -/
def bareBus : MemoryBus Unit :=
  MemoryBus.Reset
    { registers := registers, mmr := fun _ => 0, m_devicesUnsafe := [],
      m_deviceIndexAtAddress := fun _ => 0, m_vram := fun _ => 0, m_workMemory := fun _ => 0,
      m_hram := fun _ => 0 }

/-- The bare bus after a debugger read of 0x0100 and then the attach of the cartridge. -/
def lateCartridgeBus : MemoryBus Unit :=
  MemoryBus.AddDevice (bareBus.SafeRead8 0x0100).state cartridge

end Sample

namespace Sample

/-! ### Sample LCD states -/

/-- An LCD object before its constructor has run `Reset`: every field zero. -/
def blankLcd : Lcd where
  m_nextState := .HBlank
  m_scanLine := 0
  m_wasLcdEnabledLastUpdate := false
  m_lastMode := 0
  m_vram := fun _ => 0
  m_oam := fun _ => 0
  LCDC := 0
  STAT := 0
  SCY := 0
  SCX := 0
  LY := 0
  LYC := 0
  DMA := 0
  BGP := 0
  OBP0 := 0
  OBP1 := 0
  WY := 0
  WX := 0
  m_pFrameBuffer := fun _ _ => 0

/-- The LCD as its constructor leaves it. -/
def lcd : Lcd := blankLcd.Reset

/-- The LCD after it has handled a write of `value` to `address`. -/
def writeLcd (address value : Nat) (l : Lcd) : Lcd :=
  (Lcd.HandleRequest .Write address value l).2.2.1

/-- The LCD after one iteration of the loop of `Update`, with the sample bus. -/
def stepLcd (l : Lcd) : Lcd := (l.UpdateStep bus).state.1

/-- The LCD after Reset and a write of 0x78 to STAT, one iteration later. -/
def steppedLcd : Lcd := stepLcd (writeLcd 0xFF41 0x78 lcd)

/-- The LCD after Reset with STAT bit 6 set and LYC = 1: the next iteration brings LY to 1. -/
def coincidenceLcd : Lcd := writeLcd 0xFF45 1 (writeLcd 0xFF41 0x40 lcd)

/-- The LCD after Reset with STAT bit 6 set; LYC is 0. -/
def lyc0Lcd : Lcd := writeLcd 0xFF41 0x40 lcd

/-- The LCD after Reset, switched off by a write to LCDC. -/
def disabledLcd : Lcd := writeLcd 0xFF40 0x11 lcd

/-- The LCD switched off, one iteration later, and switched on again by a write to LCDC. -/
def reenabledLcd : Lcd := writeLcd 0xFF40 0x91 (stepLcd disabledLcd)

end Sample

namespace Sample

/-- The sample CPU halted in front of the byte at 0x0103. -/
def haltedCpu : Cpu Unit :=
  { cpuAt 0x0103 0x01 with m_cpuHalted := true }

end Sample

namespace Sample

/-- A bus after `Reset` with the sample LCD attached as its only device and the bytes
0x00..0x9F stored at 0xC100..0xC19F. -/
def dmaBus : MemoryBus (Lcd ⊕ Unit) :=
  { MemoryBus.AddDevice
      (MemoryBus.Reset
        { registers := registers, mmr := fun _ => 0, m_devicesUnsafe := [],
          m_deviceIndexAtAddress := fun _ => 0, m_vram := fun _ => 0,
          m_workMemory := fun _ => 0, m_hram := fun _ => 0 })
      (Lcd.asDevice lcd) with
    m_workMemory := fun offset =>
      if 0x100 ≤ offset ∧ offset ≤ 0x19F then offset - 0x100 else 0xFD }

end Sample

/-! # Theorems -/

/-! ## Arithmetic readings of the bit operations -/

theorem GetLow8_eq_mod (x : Nat) : GetLow8 x = x % 256 :=
  Nat.and_pow_two_sub_one_eq_mod x 8

theorem GetHigh8_eq_div (x : Nat) : GetHigh8 x = x / 256 % 256 := by
  unfold GetHigh8
  rw [Nat.shiftRight_eq_div_pow]
  exact Nat.and_pow_two_sub_one_eq_mod (x / 2 ^ 8) 8

theorem GetLow4_eq_mod (x : Nat) : GetLow4 x = x % 16 :=
  Nat.and_pow_two_sub_one_eq_mod x 4

theorem Make16_eq_add (high low : Nat) (h : low < 256) : Make16 high low = high * 256 + low := by
  unfold Make16
  rw [Nat.shiftLeft_eq, Nat.mul_comm]
  exact (Nat.mul_add_lt_is_or (i := 8) h high).symm

theorem Make16_GetHigh8_GetLow8 (x : Nat) (h : x < 65536) :
    Make16 (GetHigh8 x) (GetLow8 x) = x := by
  rw [GetLow8_eq_mod, GetHigh8_eq_div, Make16_eq_add _ _ (Nat.mod_lt _ (by decide))]
  omega

namespace MemoryBus

variable {δ : Type}

theorem IsBusOwnedRam_iff (a : Nat) :
    IsBusOwnedRam a = true ↔
      (0x8000 ≤ a ∧ a < 0xA000) ∨ (0xC000 ≤ a ∧ a < 0xFE00) ∨ (0xFF80 ≤ a ∧ a < 0xFFFF) := by
  simp [IsBusOwnedRam, IsAddressInRange, kVramBase, kVramSize, kWorkMemoryBase, kWorkMemorySize,
    kEchoBase, kEchoSize, kHramMemoryBase, kHramMemorySize]
  omega

theorem Read8_ram (bus : MemoryBus δ) (a : Nat) (t : Bool) (h : IsBusOwnedRam a = true) :
    Read8 bus a t = .ok (ramByte bus a, true) bus := by
  unfold Read8 ramByte
  by_cases h1 : IsAddressInRange a kVramBase kVramSize = true
  · rw [if_pos h1, if_pos h1]
  · rw [if_neg h1, if_neg h1]
    by_cases h2 : IsAddressInRange a kWorkMemoryBase kWorkMemorySize = true
    · rw [if_pos h2, if_pos h2]
    · rw [if_neg h2, if_neg h2]
      by_cases h3 : IsAddressInRange a kEchoBase kEchoSize = true
      · rw [if_pos h3, if_pos h3]
      · rw [if_neg h3, if_neg h3]
        have h4 : IsAddressInRange a kHramMemoryBase kHramMemorySize = true := by
          unfold IsBusOwnedRam at h
          simp only [Bool.or_eq_true] at h
          tauto
        rw [if_pos h4]

theorem IsAddressInRange_iff (a b s : Nat) : IsAddressInRange a b s = true ↔ b ≤ a ∧ a < b + s := by
  simp [IsAddressInRange]

theorem Write8_ram (bus : MemoryBus δ) (a v : Nat) (h : IsBusOwnedRam a = true) :
    Write8 bus a v = .ok () (ramStore bus a v) := by
  unfold Write8 ramStore
  by_cases h1 : IsAddressInRange a kVramBase kVramSize = true
  · rw [if_pos h1, if_pos h1]
  · rw [if_neg h1, if_neg h1]
    by_cases h2 : IsAddressInRange a kWorkMemoryBase kWorkMemorySize = true
    · rw [if_pos h2, if_pos h2]
    · rw [if_neg h2, if_neg h2]
      by_cases h3 : IsAddressInRange a kEchoBase kEchoSize = true
      · rw [if_pos h3, if_pos h3]
      · rw [if_neg h3, if_neg h3]
        have h4 : IsAddressInRange a kHramMemoryBase kHramMemorySize = true := by
          unfold IsBusOwnedRam at h
          simp only [Bool.or_eq_true] at h
          tauto
        rw [if_pos h4]

theorem ramByte_ramStore (bus : MemoryBus δ) (a v b : Nat)
    (ha : IsBusOwnedRam a = true) (hb : IsBusOwnedRam b = true) :
    ramByte (ramStore bus a v) b = if ramSlot a = ramSlot b then v else ramByte bus b := by
  rw [IsBusOwnedRam_iff] at ha hb
  unfold ramByte ramStore ramSlot
  simp only [IsAddressInRange_iff, kVramBase, kVramSize, kWorkMemoryBase, kWorkMemorySize,
    kEchoBase, kEchoSize, kHramMemoryBase, kHramMemorySize]
  split_ifs <;> (try simp only [Function.update_apply]) <;> (try split_ifs) <;>
    first | rfl | omega


theorem Read16_ram (bus : MemoryBus δ) (a : Nat) (h1 : IsBusOwnedRam a = true)
    (h2 : IsBusOwnedRam ((a + 1) % 65536) = true) :
    Read16 bus a = .ok (Make16 (ramByte bus ((a + 1) % 65536)) (ramByte bus a)) bus := by
  unfold Read16
  rw [Read8_ram bus a true h1]
  simp only [Outcome.andThen]
  rw [Read8_ram bus _ true h2]

theorem Write16_ram (bus : MemoryBus δ) (a x : Nat) (h1 : IsBusOwnedRam a = true)
    (h2 : IsBusOwnedRam ((a + 1) % 65536) = true) :
    Write16 bus a x =
      .ok () (ramStore (ramStore bus a (GetLow8 x)) ((a + 1) % 65536) (GetHigh8 x)) := by
  unfold Write16
  rw [Write8_ram bus a _ h1]
  simp only [Outcome.andThen]
  rw [Write8_ram _ _ _ h2]

theorem ramSlot_succ_ne (a : Nat) : ramSlot ((a + 1) % 65536) ≠ ramSlot a := by
  unfold ramSlot
  simp only [IsAddressInRange_iff, kEchoBase, kEchoSize]
  split_ifs <;> omega

theorem ramByte_Write16_low (bus : MemoryBus δ) (a x : Nat) (h1 : IsBusOwnedRam a = true)
    (h2 : IsBusOwnedRam ((a + 1) % 65536) = true) :
    ramByte (ramStore (ramStore bus a (GetLow8 x)) ((a + 1) % 65536) (GetHigh8 x)) a
      = GetLow8 x := by
  rw [ramByte_ramStore _ _ _ _ h2 h1, if_neg (ramSlot_succ_ne a),
    ramByte_ramStore _ _ _ _ h1 h1, if_pos rfl]

theorem ramByte_Write16_high (bus : MemoryBus δ) (a x : Nat)
    (h2 : IsBusOwnedRam ((a + 1) % 65536) = true) :
    ramByte (ramStore (ramStore bus a (GetLow8 x)) ((a + 1) % 65536) (GetHigh8 x))
      ((a + 1) % 65536) = GetHigh8 x := by
  rw [ramByte_ramStore _ _ _ _ h2 h2, if_pos rfl]

theorem Write16_Read16_ram (bus : MemoryBus δ) (a x : Nat) (hx : x < 65536)
    (h1 : IsBusOwnedRam a = true) (h2 : IsBusOwnedRam ((a + 1) % 65536) = true) :
    ∃ bus1, Write16 bus a x = .ok () bus1 ∧ Read16 bus1 a = .ok x bus1 ∧
      Read8 bus1 a = .ok (x % 256, true) bus1 ∧
      Read8 bus1 ((a + 1) % 65536) = .ok (x / 256, true) bus1 := by
  refine ⟨_, Write16_ram bus a x h1 h2, ?_, ?_, ?_⟩
  · rw [Read16_ram _ a h1 h2, ramByte_Write16_low bus a x h1 h2, ramByte_Write16_high bus a x h2,
      Make16_GetHigh8_GetLow8 x hx]
  · rw [Read8_ram _ a true h1, ramByte_Write16_low bus a x h1 h2, GetLow8_eq_mod]
  · rw [Read8_ram _ _ true h2, ramByte_Write16_high bus a x h2, GetHigh8_eq_div]
    have : x / 256 % 256 = x / 256 := by omega
    rw [this]

/-! ## Reads leave the RAM arrays alone -/

theorem sameRam_refl (bus : MemoryBus δ) : sameRam bus bus := ⟨rfl, rfl, rfl⟩

theorem sameRam_trans {b1 b2 b3 : MemoryBus δ} (h12 : sameRam b1 b2) (h23 : sameRam b2 b3) :
    sameRam b1 b3 :=
  ⟨h12.1.trans h23.1, h12.2.1.trans h23.2.1, h12.2.2.trans h23.2.2⟩

theorem ramByte_congr {b1 b2 : MemoryBus δ} (h : sameRam b1 b2) (a : Nat) :
    ramByte b1 a = ramByte b2 a := by
  unfold ramByte
  rw [h.1, h.2.1, h.2.2]

theorem probeDevices_sameRam (address : Nat) (n : Nat) :
    ∀ (deviceIndex : Nat) (bus : MemoryBus δ),
      sameRam (probeDevices address n deviceIndex bus).state bus := by
  induction n with
  | zero => intro deviceIndex bus; exact sameRam_refl bus
  | succ n ih =>
    intro deviceIndex bus
    unfold probeDevices
    split
    · exact sameRam_refl bus
    · simp only
      split_ifs
      · exact sameRam_trans (ih _ _) ⟨rfl, rfl, rfl⟩
      · exact ⟨rfl, rfl, rfl⟩
      · exact sameRam_trans (ih _ _) ⟨rfl, rfl, rfl⟩

theorem EnsureDeviceIsProbed_sameRam (bus : MemoryBus δ) (address : Nat) :
    sameRam (EnsureDeviceIsProbed bus address).state bus := by
  unfold EnsureDeviceIsProbed
  split_ifs
  · have h := probeDevices_sameRam address bus.m_devicesUnsafe.length 0 bus
    cases hp : probeDevices address bus.m_devicesUnsafe.length 0 bus with
    | ok v s =>
      rw [hp] at h
      simp only [Outcome.andThen]
      split_ifs
      · exact sameRam_trans ⟨rfl, rfl, rfl⟩ h
      · exact h
    | thrown e s =>
      rw [hp] at h
      exact h
  · exact sameRam_refl bus

theorem callDevice_sameRam (bus : MemoryBus δ) (deviceIndex : Nat)
    (requestType : MemoryRequestType) (address value : Nat) :
    sameRam (callDevice bus deviceIndex requestType address value).state bus := by
  unfold callDevice
  split
  · exact sameRam_refl bus
  · exact ⟨rfl, rfl, rfl⟩

theorem ReadMemoryMappedRegister_state (bus : MemoryBus δ) (address : Nat) (t : Bool) :
    (ReadMemoryMappedRegister bus address t).state = bus := by
  unfold ReadMemoryMappedRegister
  split <;> (try split_ifs) <;> rfl

theorem Read8_sameRam (bus : MemoryBus δ) (address : Nat) (t : Bool) :
    sameRam (Read8 bus address t).state bus := by
  unfold Read8
  split_ifs
  · exact sameRam_refl bus
  · exact sameRam_refl bus
  · exact sameRam_refl bus
  · exact sameRam_refl bus
  · have h := EnsureDeviceIsProbed_sameRam bus address
    cases hp : EnsureDeviceIsProbed bus address with
    | thrown e s => rw [hp] at h; exact h
    | ok v bus1 =>
      rw [hp] at h
      simp only [Outcome.andThen]
      split_ifs
      · have hc := callDevice_sameRam bus1 (bus1.m_deviceIndexAtAddress address).toNat
          MemoryRequestType.Read address 0
        cases hq : callDevice bus1 (bus1.m_deviceIndexAtAddress address).toNat
            MemoryRequestType.Read address 0 with
        | thrown e s => rw [hq] at hc; exact sameRam_trans hc h
        | ok v bus2 => rw [hq] at hc; exact sameRam_trans hc h
      · rw [ReadMemoryMappedRegister_state]
        exact h

theorem Read8_ok_sameRam {bus bus1 : MemoryBus δ} {address : Nat} {t : Bool} {r : Nat × Bool}
    (h : Read8 bus address t = .ok r bus1) : sameRam bus1 bus := by
  have hs := Read8_sameRam bus address t
  rw [h] at hs
  exact hs

end MemoryBus

theorem and_two_pow_eq (x n : Nat) : x &&& 2 ^ n = if x.testBit n then 2 ^ n else 0 := by
  apply Nat.eq_of_testBit_eq
  intro i
  rw [Nat.testBit_and, Nat.testBit_two_pow]
  by_cases hni : n = i
  · subst hni
    by_cases h : x.testBit n <;> simp [h, Nat.testBit_two_pow]
  · by_cases h : x.testBit n <;> simp [h, hni, Nat.testBit_two_pow]

theorem and_two_pow_ne_zero (x n : Nat) : (x &&& 2 ^ n != 0) = x.testBit n := by
  rw [and_two_pow_eq]
  by_cases h : x.testBit n <;> simp [h]

theorem toUint8_natCast (n : Nat) : toUint8 (n : Int) = n % 256 := by
  unfold toUint8; omega

theorem toUint16_natCast (n : Nat) : toUint16 (n : Int) = n % 65536 := by
  unfold toUint16; omega

namespace Cpu
variable {δ : Type}

theorem GetFlagValue_eq_testBit (cpu : Cpu δ) (p : FlagBitIndex) :
    cpu.GetFlagValue p = cpu.F.testBit p.toNat := by
  unfold GetFlagValue
  rw [Nat.one_shiftLeft, and_two_pow_ne_zero]

theorem SetFlagValue_F_testBit (cpu : Cpu δ) (p : FlagBitIndex) (v : Bool) (i : Nat) :
    (cpu.SetFlagValue p v).F.testBit i =
      if i = p.toNat then v else (decide (i < 8) && cpu.F.testBit i) := by
  have h32 : (0xFFFFFFFF : Nat) = 2 ^ 32 - 1 := by norm_num
  have h256 : (256 : Nat) = 2 ^ 8 := by norm_num
  have hp : p.toNat < 8 := by cases p <;> decide
  unfold SetFlagValue
  simp only [Nat.one_shiftLeft, toUint8_natCast]
  rw [h32, h256]
  cases v
  · simp only [Bool.false_eq_true, if_false, Nat.testBit_mod_two_pow, Nat.testBit_and,
      Nat.testBit_xor, Nat.testBit_two_pow_sub_one, Nat.testBit_two_pow]
    by_cases hi : i = p.toNat
    · subst hi; simp; intro _ _; omega
    · have hi2 : ¬ p.toNat = i := fun h => hi h.symm
      by_cases h8 : i < 8
      · have : i < 32 := by omega
        simp [hi, hi2, h8, this]
      · simp [hi, h8]
  · simp only [if_true, Nat.testBit_mod_two_pow, Nat.testBit_or, Nat.testBit_two_pow]
    by_cases hi : i = p.toNat
    · subst hi; simp [hp]
    · have hi2 : ¬ p.toNat = i := fun h => hi h.symm
      simp [hi, hi2]

theorem GetFlagValue_SetFlagValue (cpu : Cpu δ) (p q : FlagBitIndex) (v : Bool) :
    (cpu.SetFlagValue p v).GetFlagValue q = if q = p then v else cpu.GetFlagValue q := by
  rw [GetFlagValue_eq_testBit, GetFlagValue_eq_testBit, SetFlagValue_F_testBit]
  have hq : q.toNat < 8 := by cases q <;> decide
  by_cases h : q = p
  · subst h; simp
  · have : q.toNat ≠ p.toNat := by cases p <;> cases q <;> simp_all [FlagBitIndex.toNat]
    simp [h, this, hq]

theorem SetFlagValue_A (cpu : Cpu δ) (p : FlagBitIndex) (v : Bool) :
    (cpu.SetFlagValue p v).A = cpu.A := rfl

theorem SetFlagsForAdd_flags (cpu : Cpu δ) (a x : Nat) :
    let c := cpu.SetFlagsForAdd a x
    c.GetFlagValue .Zero = decide ((a + x) % 256 = 0) ∧
    c.GetFlagValue .Subtract = false ∧
    c.GetFlagValue .HalfCarry = decide (GetLow4 a + GetLow4 x > 0xF) ∧
    c.GetFlagValue .Carry = decide (a + x > 0xFF) := by
  have hm : ∀ m, m ∈ [FlagBitMask.Zero, FlagBitMask.Subtract, FlagBitMask.HalfCarry,
      FlagBitMask.Carry] → (FlagBitMask.All &&& m != 0) = true := by decide
  simp only [SetFlagsForAdd, SetZeroFromValue, hm, List.mem_cons, true_or, or_true, if_true,
    GetFlagValue_SetFlagValue]
  simp [Nat.cast_add, beq_eq_decide]
  unfold toUint8; omega


theorem SetFlagsForSub_flags (cpu : Cpu δ) (a x : Nat) (ha : a < 256) (hx : x < 256) :
    let c := cpu.SetFlagsForSub a x
    c.GetFlagValue .Zero = decide ((a + 256 - x) % 256 = 0) ∧
    c.GetFlagValue .Subtract = true ∧
    c.GetFlagValue .HalfCarry = decide (GetLow4 a ≥ GetLow4 x) ∧
    c.GetFlagValue .Carry = decide (a ≥ x) := by
  have hm : ∀ m, m ∈ [FlagBitMask.Zero, FlagBitMask.Subtract, FlagBitMask.HalfCarry,
      FlagBitMask.Carry] → (FlagBitMask.All &&& m != 0) = true := by decide
  simp only [SetFlagsForSub, SetZeroFromValue, hm, List.mem_cons, true_or, or_true, if_true,
    GetFlagValue_SetFlagValue]
  simp [beq_eq_decide]
  unfold toUint8; omega

theorem SetFlagsForAdd_A (cpu : Cpu δ) (a x m : Nat) :
    (cpu.SetFlagsForAdd a x m).A = cpu.A := by
  unfold SetFlagsForAdd SetZeroFromValue
  split_ifs <;> rfl

theorem SetFlagsForSub_A (cpu : Cpu δ) (a x m : Nat) :
    (cpu.SetFlagsForSub a x m).A = cpu.A := by
  unfold SetFlagsForSub SetZeroFromValue
  split_ifs <;> rfl

theorem Fetch8_ok (cpu : Cpu δ) (v : Nat) (f : Bool) (bus1 : MemoryBus δ)
    (h : cpu.m_pMemory.Read8 cpu.PC = .ok (v, f) bus1) :
    cpu.Fetch8 = .ok v { cpu with m_pMemory := bus1, PC := (cpu.PC + 1) % 65536 } := by
  have : toUint16 ((cpu.PC : Int) + 1) = (cpu.PC + 1) % 65536 := by unfold toUint16; omega
  simp only [Fetch8, h, this]

theorem ExecuteOpcode_C6 (cpu : Cpu δ) :
    ExecuteOpcode 0xC6 cpu = OPCODE 8 (ADD_C_6 0xC6) cpu := rfl

theorem ExecuteOpcode_D6 (cpu : Cpu δ) :
    ExecuteOpcode 0xD6 cpu = OPCODE 8 (SUB_D__6 0xD6) cpu := rfl

theorem ExecuteOpcode_FE (cpu : Cpu δ) :
    ExecuteOpcode 0xFE cpu = OPCODE 8 (CP_F_E 0xFE) cpu := rfl

open MemoryBus

/-! ## Stack and instruction fetch -/

theorem Fetch16_ok (cpu : Cpu δ) (lo hi : Nat) (f1 f2 : Bool) (bus1 bus2 : MemoryBus δ)
    (h1 : cpu.m_pMemory.Read8 cpu.PC = .ok (lo, f1) bus1)
    (h2 : bus1.Read8 ((cpu.PC + 1) % 65536) = .ok (hi, f2) bus2) :
    cpu.Fetch16 = .ok (Make16 hi lo) { cpu with m_pMemory := bus2, PC := (cpu.PC + 2) % 65536 } := by
  have : toUint16 ((cpu.PC : Int) + 2) = (cpu.PC + 2) % 65536 := by unfold toUint16; omega
  simp only [Fetch16, MemoryBus.Read16, h1, Outcome.andThen, h2, this]

theorem Push16_ram (cpu : Cpu δ) (x : Nat) (hx : x < 65536) (hsp : cpu.SP < 65536)
    (h1 : IsBusOwnedRam (toUint16 ((cpu.SP : Int) - 2)) = true)
    (h2 : IsBusOwnedRam (toUint16 ((cpu.SP : Int) - 1)) = true) :
    ∃ bus1, Push16 cpu x = .ok () { cpu with SP := cpu.SP - 2, m_pMemory := bus1 } ∧
      2 ≤ cpu.SP ∧
      IsBusOwnedRam (cpu.SP - 2) = true ∧ IsBusOwnedRam ((cpu.SP - 2 + 1) % 65536) = true ∧
      bus1.Read16 (cpu.SP - 2) = .ok x bus1 ∧
      bus1.Read8 (cpu.SP - 2) = .ok (x % 256, true) bus1 ∧
      bus1.Read8 (cpu.SP - 2 + 1) = .ok (x / 256, true) bus1 := by
  have hge : 2 ≤ cpu.SP := by
    rw [IsBusOwnedRam_iff] at h1 h2
    unfold toUint16 at h1 h2
    omega
  have e2 : toUint16 ((cpu.SP : Int) - 2) = cpu.SP - 2 := by unfold toUint16; omega
  have e1 : toUint16 ((cpu.SP : Int) - 1) = (cpu.SP - 2 + 1) % 65536 := by unfold toUint16; omega
  rw [e2] at h1
  rw [e1] at h2
  obtain ⟨bus1, hw, hr, hlo, hhi⟩ := Write16_Read16_ram cpu.m_pMemory (cpu.SP - 2) x hx h1 h2
  have e3 : (cpu.SP - 2 + 1) % 65536 = cpu.SP - 2 + 1 := by omega
  refine ⟨bus1, ?_, hge, h1, h2, hr, hlo, ?_⟩
  · simp only [Push16, e2, hw]
  · rw [e3] at hhi; exact hhi

theorem Pop16_ram (cpu : Cpu δ) (h1 : IsBusOwnedRam cpu.SP = true)
    (h2 : IsBusOwnedRam ((cpu.SP + 1) % 65536) = true) :
    Pop16 cpu = .ok (Make16 (ramByte cpu.m_pMemory ((cpu.SP + 1) % 65536))
        (ramByte cpu.m_pMemory cpu.SP)) { cpu with SP := (cpu.SP + 2) % 65536 } := by
  have : toUint16 ((cpu.SP : Int) + 2) = (cpu.SP + 2) % 65536 := by unfold toUint16; omega
  simp only [Pop16, Read16_ram cpu.m_pMemory cpu.SP h1 h2, this]

theorem Read16_ram_value {bus : MemoryBus δ} {a x : Nat} (h1 : IsBusOwnedRam a = true)
    (h2 : IsBusOwnedRam ((a + 1) % 65536) = true) (h : bus.Read16 a = .ok x bus) :
    Make16 (ramByte bus ((a + 1) % 65536)) (ramByte bus a) = x := by
  rw [Read16_ram bus a h1 h2] at h
  injection h

theorem ExecuteOpcode_CD (cpu : Cpu δ) : ExecuteOpcode 0xCD cpu = case_CD cpu := rfl

theorem ExecuteOpcode_C9 (cpu : Cpu δ) : ExecuteOpcode 0xC9 cpu = case_C9 cpu := rfl

theorem ExecuteOpcode_F1 (cpu : Cpu δ) : ExecuteOpcode 0xF1 cpu = case_C1_D1_E1_F1 0xF1 cpu := rfl


theorem SUB_D6_exec (cpu : Cpu δ) (x : Nat) (f0 f1 : Bool) (bus1 bus2 : MemoryBus δ)
    (hA : cpu.A < 256) (hx : x < 256)
    (h0 : cpu.m_pMemory.Read8 cpu.PC = .ok (0xD6, f0) bus1)
    (h1 : bus1.Read8 ((cpu.PC + 1) % 65536) = .ok (x, f1) bus2) :
    ∃ cpu1, cpu.ExecuteSingleInstruction = .ok 8 cpu1 ∧
      cpu1.A = (cpu.A + 256 - x) % 256 ∧
      cpu1.GetFlagValue .Zero = decide ((cpu.A + 256 - x) % 256 = 0) ∧
      cpu1.GetFlagValue .Subtract = true ∧
      cpu1.GetFlagValue .HalfCarry = decide ((cpu.A &&& 0xF) ≥ (x &&& 0xF)) ∧
      cpu1.GetFlagValue .Carry = decide (cpu.A ≥ x) := by
  have hf0 := Fetch8_ok cpu _ _ _ h0
  have hf1 := Fetch8_ok { cpu with m_pMemory := bus1, PC := (cpu.PC + 1) % 65536 } _ _ _ h1
  refine ⟨?w, ?h1, ?h2⟩
  case h1 =>
    simp only [ExecuteSingleInstruction, hf0, Outcome.andThen, ExecuteOpcode_D6, OPCODE, SUB_D__6,
      hf1]
    exact rfl
  case h2 =>
    refine ⟨?_, SetFlagsForSub_flags _ cpu.A x hA hx⟩
    simp only [SetFlagsForSub_A]
    unfold toUint8; omega

end Cpu

/-! ## The operand slots {B,C,D,E,H,L,(HL),A} -/

namespace MemoryBus
variable {δ : Type}

theorem Read8_value_congr {b1 b2 : MemoryBus δ} (h : sameRam b1 b2) (a : Nat) (t : Bool)
    (ha : IsBusOwnedRam a = true) : (b1.Read8 a t).value? = (b2.Read8 a t).value? := by
  rw [Read8_ram b1 a t ha, Read8_ram b2 a t ha, ramByte_congr h]
  rfl

end MemoryBus

namespace Cpu
open MemoryBus
variable {δ : Type}

theorem b0_2_eq_mod (N : Nat) : b0_2 N = N % 8 :=
  Nat.and_pow_two_sub_one_eq_mod N 3

theorem b3_5_eq_div (N : Nat) : b3_5 N = N / 8 % 8 := by
  unfold b3_5
  rw [Nat.shiftRight_eq_div_pow]
  exact Nat.and_pow_two_sub_one_eq_mod (N / 2 ^ 3) 3

theorem Cpu_Read8_ram (cpu : Cpu δ) (a : Nat) (h : IsBusOwnedRam a = true) :
    cpu.Read8 a = .ok (cpu.m_pMemory.ramByte a) cpu := by
  simp only [Cpu.Read8, MemoryBus.Read8_ram cpu.m_pMemory a true h]

theorem Cpu_Write8_ram (cpu : Cpu δ) (a v : Nat) (h : IsBusOwnedRam a = true) :
    cpu.Write8 a v = .ok () { cpu with m_pMemory := cpu.m_pMemory.ramStore a v } := by
  simp only [Cpu.Write8, MemoryBus.Write8_ram cpu.m_pMemory a v h]

theorem b0_2_lt (N : Nat) : b0_2 N < 8 := by
  rw [b0_2_eq_mod]; omega

theorem b3_5_lt (N : Nat) : b3_5 N < 8 := by
  rw [b3_5_eq_div]; omega

theorem Read8_operand8 (N : Nat) (cpu : Cpu δ) (hN : N < 8)
    (h : N = 6 → IsBusOwnedRam cpu.HL = true) :
    B_C_D_E_H_L_iHL_A_Read8 N cpu = .ok (operand8 N cpu) cpu := by
  interval_cases N <;> first
    | rfl
    | exact Cpu_Read8_ram cpu cpu.HL (h rfl)

theorem Write8_setOperand8 (N : Nat) (cpu : Cpu δ) (v : Nat) (hN : N < 8)
    (h : N = 6 → IsBusOwnedRam cpu.HL = true) :
    B_C_D_E_H_L_iHL_A_Write8 N cpu v = .ok () (setOperand8 N cpu v) := by
  interval_cases N <;> first
    | rfl
    | exact Cpu_Write8_ram cpu cpu.HL v (h rfl)

theorem Read8_reg (N : Nat) (cpu : Cpu δ) (hN : N < 8) (h : N ≠ 6) :
    B_C_D_E_H_L_iHL_A_Read8 N cpu = .ok (B_C_D_E_H_L_iHL_A_GetReg8 N cpu) cpu := by
  interval_cases N <;> first
    | rfl
    | exact absurd rfl h

theorem operand8_setOperand8 (N : Nat) (cpu : Cpu δ) (v : Nat) (hN : N < 8)
    (h : N = 6 → IsBusOwnedRam cpu.HL = true) :
    operand8 N (setOperand8 N cpu v) = v := by
  interval_cases N <;> first
    | rfl
    | (show ramByte (ramStore cpu.m_pMemory cpu.HL v) cpu.HL = v
       rw [ramByte_ramStore _ _ _ _ (h rfl) (h rfl), if_pos rfl])

theorem setOperand8_F (N : Nat) (cpu : Cpu δ) (v : Nat) (hN : N < 8) :
    (setOperand8 N cpu v).F = cpu.F := by
  interval_cases N <;> rfl

theorem setOperand8_HL_of_six (cpu : Cpu δ) (v : Nat) : (setOperand8 6 cpu v).HL = cpu.HL := rfl

theorem GetReg8_setOperand8_self (N : Nat) (cpu : Cpu δ) (v : Nat) (hN : N < 8) (h6 : N ≠ 6) :
    B_C_D_E_H_L_iHL_A_GetReg8 N (setOperand8 N cpu v) = v := by
  interval_cases N <;> first
    | rfl
    | exact absurd rfl h6

theorem GetReg8_setOperand8_ne (N r : Nat) (cpu : Cpu δ) (v : Nat) (hN : N < 8) (hr : r < 8)
    (hr6 : r ≠ 6) (hne : r ≠ N) :
    B_C_D_E_H_L_iHL_A_GetReg8 r (setOperand8 N cpu v) = B_C_D_E_H_L_iHL_A_GetReg8 r cpu := by
  interval_cases N <;> interval_cases r <;> first
    | rfl
    | exact absurd rfl hne
    | exact absurd rfl hr6

theorem GetFlagValue_of_F_eq {c1 c2 : Cpu δ} (h : c1.F = c2.F) (p : FlagBitIndex) :
    c1.GetFlagValue p = c2.GetFlagValue p := by
  unfold GetFlagValue
  rw [h]

theorem HL_setHL (cpu : Cpu δ) (v : Nat) (hv : v < 65536) : (cpu.setHL v).HL = v :=
  Make16_GetHigh8_GetLow8 v hv

theorem toUint16_lt (x : Int) : toUint16 x < 65536 := by
  unfold toUint16; omega

theorem SetFlagValue_eq_F (cpu : Cpu δ) (p : FlagBitIndex) (v : Bool) :
    cpu.SetFlagValue p v = { cpu with F := (cpu.SetFlagValue p v).F } := rfl

theorem SetFlagsForAdd_eq_F (cpu : Cpu δ) (a x m : Nat) :
    cpu.SetFlagsForAdd a x m = { cpu with F := (cpu.SetFlagsForAdd a x m).F } := by
  unfold SetFlagsForAdd SetZeroFromValue
  split_ifs <;> rfl

theorem SetFlagsForSub_eq_F (cpu : Cpu δ) (a x m : Nat) :
    cpu.SetFlagsForSub a x m = { cpu with F := (cpu.SetFlagsForSub a x m).F } := by
  unfold SetFlagsForSub SetZeroFromValue
  split_ifs <;> rfl

theorem operand8_with_F (N : Nat) (cpu : Cpu δ) (f : Nat) :
    operand8 N { cpu with F := f } = operand8 N cpu := rfl

theorem operand8_after_fetch (N : Nat) (cpu : Cpu δ) (bus1 : MemoryBus δ) (pc : Nat)
    (h : sameRam bus1 cpu.m_pMemory) :
    operand8 N { cpu with m_pMemory := bus1, PC := pc } = operand8 N cpu := by
  unfold operand8
  split_ifs
  · exact ramByte_congr h _
  · rfl

theorem SetFlagsForAdd_ZNH_flags (cpu : Cpu δ) (a x : Nat) :
    let c := cpu.SetFlagsForAdd a x
      (FlagBitMask.Zero ||| FlagBitMask.Subtract ||| FlagBitMask.HalfCarry)
    c.GetFlagValue .Zero = decide ((a + x) % 256 = 0) ∧
    c.GetFlagValue .Subtract = false ∧
    c.GetFlagValue .HalfCarry = decide (GetLow4 a + GetLow4 x > 0xF) ∧
    c.GetFlagValue .Carry = cpu.GetFlagValue .Carry := by
  have hm : ∀ m, m ∈ [FlagBitMask.Zero, FlagBitMask.Subtract, FlagBitMask.HalfCarry] →
      ((FlagBitMask.Zero ||| FlagBitMask.Subtract ||| FlagBitMask.HalfCarry) &&& m != 0)
        = true := by decide
  have hc : ((FlagBitMask.Zero ||| FlagBitMask.Subtract ||| FlagBitMask.HalfCarry)
      &&& FlagBitMask.Carry != 0) = false := by decide
  simp only [SetFlagsForAdd, SetZeroFromValue, hm, hc, List.mem_cons, true_or, or_true, if_true,
    Bool.false_eq_true, if_false, GetFlagValue_SetFlagValue]
  simp [Nat.cast_add, beq_eq_decide]
  unfold toUint8; omega

theorem SetFlagsForSub_one_flags (cpu : Cpu δ) (a : Nat) :
    let c := cpu.SetFlagsForSub a 1
      (FlagBitMask.Zero ||| FlagBitMask.Subtract ||| FlagBitMask.HalfCarry)
    c.GetFlagValue .Zero = decide ((a + 255) % 256 = 0) ∧
    c.GetFlagValue .Subtract = true ∧
    c.GetFlagValue .HalfCarry = decide (GetLow4 a ≥ GetLow4 1) ∧
    c.GetFlagValue .Carry = cpu.GetFlagValue .Carry := by
  have hm : ∀ m, m ∈ [FlagBitMask.Zero, FlagBitMask.Subtract, FlagBitMask.HalfCarry] →
      ((FlagBitMask.Zero ||| FlagBitMask.Subtract ||| FlagBitMask.HalfCarry) &&& m != 0)
        = true := by decide
  have hc : ((FlagBitMask.Zero ||| FlagBitMask.Subtract ||| FlagBitMask.HalfCarry)
      &&& FlagBitMask.Carry != 0) = false := by decide
  simp only [SetFlagsForSub, SetZeroFromValue, hm, hc, List.mem_cons, true_or, or_true, if_true,
    Bool.false_eq_true, if_false, GetFlagValue_SetFlagValue]
  simp [beq_eq_decide]
  unfold toUint8; omega

theorem INC_exec (N : Nat) (cpu : Cpu δ) (h : b3_5 N = 6 → IsBusOwnedRam cpu.HL = true) :
    INC_0_3__4__0_3__C N cpu = .ok ()
      ((setOperand8 (b3_5 N) cpu ((operand8 (b3_5 N) cpu + 1) % 256)).SetFlagsForAdd
        (operand8 (b3_5 N) cpu) 1
        (FlagBitMask.Zero ||| FlagBitMask.Subtract ||| FlagBitMask.HalfCarry)) := by
  have e : toUint8 ((operand8 (b3_5 N) cpu : Int) + 1) = (operand8 (b3_5 N) cpu + 1) % 256 := by
    unfold toUint8; omega
  simp only [INC_0_3__4__0_3__C, b3_5_B_C_D_E_H_L_iHL_A_Read8, b3_5_B_C_D_E_H_L_iHL_A_Write8,
    Read8_operand8 _ cpu (b3_5_lt N) h, Outcome.andThen,
    Write8_setOperand8 _ cpu _ (b3_5_lt N) h, e]

theorem DEC_exec (N : Nat) (cpu : Cpu δ) (h : b3_5 N = 6 → IsBusOwnedRam cpu.HL = true) :
    DEC_0_3__5__0_3__D N cpu = .ok ()
      ((setOperand8 (b3_5 N) cpu ((operand8 (b3_5 N) cpu + 255) % 256)).SetFlagsForSub
        (operand8 (b3_5 N) cpu) 1
        (FlagBitMask.Zero ||| FlagBitMask.Subtract ||| FlagBitMask.HalfCarry)) := by
  have e : toUint8 ((operand8 (b3_5 N) cpu : Int) - 1) = (operand8 (b3_5 N) cpu + 255) % 256 := by
    unfold toUint8; omega
  simp only [DEC_0_3__5__0_3__D, b3_5_B_C_D_E_H_L_iHL_A_Read8, b3_5_B_C_D_E_H_L_iHL_A_Write8,
    Read8_operand8 _ cpu (b3_5_lt N) h, Outcome.andThen,
    Write8_setOperand8 _ cpu _ (b3_5_lt N) h, e]

/-- Reading the operand slot back after a store and a change of the flags. -/
theorem Read8_after_store (N : Nat) (cpu : Cpu δ) (v f : Nat) (hN : N < 8)
    (h : N = 6 → IsBusOwnedRam cpu.HL = true) :
    (B_C_D_E_H_L_iHL_A_Read8 N { setOperand8 N cpu v with F := f }).value? = some v := by
  have h2 : N = 6 → IsBusOwnedRam ({ setOperand8 N cpu v with F := f } : Cpu δ).HL = true := by
    intro h6
    subst h6
    exact h rfl
  rw [Read8_operand8 N _ hN h2, operand8_with_F, operand8_setOperand8 N cpu v hN h]
  rfl

theorem operand8_of_value (N : Nat) (cpu : Cpu δ) (old : Nat) (hN : N < 8)
    (h : N = 6 → IsBusOwnedRam cpu.HL = true)
    (hold : (B_C_D_E_H_L_iHL_A_Read8 N cpu).value? = some old) : operand8 N cpu = old := by
  rw [Read8_operand8 N cpu hN h] at hold
  exact Option.some.inj hold

/-! ## Rotates and shifts -/

theorem and_Bit7_ne_zero (x : Nat) : (x &&& Bit7 != 0) = x.testBit 7 :=
  and_two_pow_ne_zero x 7

theorem and_Bit0_ne_zero (x : Nat) : (x &&& Bit0 != 0) = x.testBit 0 :=
  and_two_pow_ne_zero x 0

theorem RL_value (cpu : Cpu δ) (old : Nat) :
    (cpu.RL old).1 = ((old <<< 1) ||| (if cpu.GetFlagValue .Carry = true then 1 else 0)) % 256 := by
  simp only [RL, Bit0]
  split_ifs <;> exact toUint8_natCast _

theorem RR_value (cpu : Cpu δ) (old : Nat) (h : old < 256) :
    (cpu.RR old).1
      = (old >>> 1) ||| ((if cpu.GetFlagValue .Carry = true then 1 else 0) <<< 7) := by
  have hs : old >>> 1 < 2 ^ 8 := by
    rw [Nat.shiftRight_eq_div_pow]; omega
  simp only [RR, Bit7]
  split_ifs
  · rw [toUint8_natCast]
    exact Nat.mod_eq_of_lt (Nat.or_lt_two_pow hs (by decide))
  · rw [toUint8_natCast]
    exact Nat.mod_eq_of_lt (Nat.or_lt_two_pow hs (by decide))

theorem RL_flags (cpu : Cpu δ) (old : Nat) :
    (cpu.RL old).2.GetFlagValue .Zero = decide ((cpu.RL old).1 = 0) ∧
    (cpu.RL old).2.GetFlagValue .Subtract = false ∧
    (cpu.RL old).2.GetFlagValue .HalfCarry = false ∧
    (cpu.RL old).2.GetFlagValue .Carry = old.testBit 7 := by
  simp only [RL, SetZeroFromValue, GetFlagValue_SetFlagValue, and_Bit7_ne_zero]
  simp [beq_eq_decide]

theorem RR_flags (cpu : Cpu δ) (old : Nat) :
    (cpu.RR old).2.GetFlagValue .Zero = decide ((cpu.RR old).1 = 0) ∧
    (cpu.RR old).2.GetFlagValue .Subtract = false ∧
    (cpu.RR old).2.GetFlagValue .HalfCarry = false ∧
    (cpu.RR old).2.GetFlagValue .Carry = old.testBit 0 := by
  simp only [RR, SetZeroFromValue, GetFlagValue_SetFlagValue, and_Bit0_ne_zero]
  simp [beq_eq_decide]

theorem RL_eq_F (cpu : Cpu δ) (old : Nat) :
    (cpu.RL old).2 = { cpu with F := (cpu.RL old).2.F } := rfl

theorem RR_eq_F (cpu : Cpu δ) (old : Nat) :
    (cpu.RR old).2 = { cpu with F := (cpu.RR old).2.F } := rfl

theorem RL_exec (N : Nat) (cpu : Cpu δ) (h : b0_2 N = 6 → IsBusOwnedRam cpu.HL = true) :
    RL_CB_1__0_7 N cpu = .ok ()
      (setOperand8 (b0_2 N) (cpu.RL (operand8 (b0_2 N) cpu)).2
        (cpu.RL (operand8 (b0_2 N) cpu)).1) := by
  simp only [RL_CB_1__0_7, b0_2_B_C_D_E_H_L_iHL_A_Read8, b0_2_B_C_D_E_H_L_iHL_A_Write8,
    Read8_operand8 _ cpu (b0_2_lt N) h, Outcome.andThen]
  exact Write8_setOperand8 _ _ _ (b0_2_lt N) h

theorem RR_exec (N : Nat) (cpu : Cpu δ) (h : b0_2 N = 6 → IsBusOwnedRam cpu.HL = true) :
    RR_CB_1__8_F N cpu = .ok ()
      (setOperand8 (b0_2 N) (cpu.RR (operand8 (b0_2 N) cpu)).2
        (cpu.RR (operand8 (b0_2 N) cpu)).1) := by
  simp only [RR_CB_1__8_F, b0_2_B_C_D_E_H_L_iHL_A_Read8, b0_2_B_C_D_E_H_L_iHL_A_Write8,
    Read8_operand8 _ cpu (b0_2_lt N) h, Outcome.andThen]
  exact Write8_setOperand8 _ _ _ (b0_2_lt N) h

theorem SRL_exec (N : Nat) (cpu : Cpu δ) (h : b0_2 N = 6 → IsBusOwnedRam cpu.HL = true) :
    SRL_CB_3__8_F N cpu = .ok ()
      (((((setOperand8 (b0_2 N) cpu (operand8 (b0_2 N) cpu >>> 1)).SetZeroFromValue
        (operand8 (b0_2 N) cpu >>> 1)).SetFlagValue .Subtract false).SetFlagValue
        .HalfCarry false).SetFlagValue .Carry ((operand8 (b0_2 N) cpu &&& Bit0) != 0)) := by
  simp only [SRL_CB_3__8_F, b0_2_B_C_D_E_H_L_iHL_A_Read8, b0_2_B_C_D_E_H_L_iHL_A_Write8,
    Read8_operand8 _ cpu (b0_2_lt N) h, Outcome.andThen,
    Write8_setOperand8 _ cpu _ (b0_2_lt N) h]

theorem SRL_flags_eq_F (cpu : Cpu δ) (n : Nat) (cb : Bool) :
    (((cpu.SetZeroFromValue n).SetFlagValue .Subtract false).SetFlagValue
      .HalfCarry false).SetFlagValue .Carry cb
    = { cpu with F := ((((cpu.SetZeroFromValue n).SetFlagValue .Subtract false).SetFlagValue
      .HalfCarry false).SetFlagValue .Carry cb).F } := rfl

theorem SRL_flags (cpu : Cpu δ) (o n : Nat) :
    ((((cpu.SetZeroFromValue n).SetFlagValue .Subtract false).SetFlagValue
      .HalfCarry false).SetFlagValue .Carry ((o &&& Bit0) != 0)).GetFlagValue .Zero
      = decide (n = 0) ∧
    ((((cpu.SetZeroFromValue n).SetFlagValue .Subtract false).SetFlagValue
      .HalfCarry false).SetFlagValue .Carry ((o &&& Bit0) != 0)).GetFlagValue .Subtract
      = false ∧
    ((((cpu.SetZeroFromValue n).SetFlagValue .Subtract false).SetFlagValue
      .HalfCarry false).SetFlagValue .Carry ((o &&& Bit0) != 0)).GetFlagValue .HalfCarry
      = false ∧
    ((((cpu.SetZeroFromValue n).SetFlagValue .Subtract false).SetFlagValue
      .HalfCarry false).SetFlagValue .Carry ((o &&& Bit0) != 0)).GetFlagValue .Carry
      = o.testBit 0 := by
  simp only [SetZeroFromValue, GetFlagValue_SetFlagValue, and_Bit0_ne_zero]
  simp [beq_eq_decide]

/-- Reading the operand slot back after a change of the flags and a store. -/
theorem Read8_after_flags_store (N : Nat) (cpu : Cpu δ) (v f : Nat) (hN : N < 8)
    (h : N = 6 → IsBusOwnedRam cpu.HL = true) :
    (B_C_D_E_H_L_iHL_A_Read8 N (setOperand8 N { cpu with F := f } v)).value? = some v := by
  have h1 : N = 6 → IsBusOwnedRam ({ cpu with F := f } : Cpu δ).HL = true := h
  have h2 : N = 6 → IsBusOwnedRam (setOperand8 N { cpu with F := f } v).HL = true := by
    intro h6
    subst h6
    exact h rfl
  rw [Read8_operand8 N _ hN h2, operand8_setOperand8 N _ v hN h1]
  rfl

theorem ExecuteOpcode_CB (cpu : Cpu δ) : ExecuteOpcode 0xCB cpu = case_CB cpu := rfl

end Cpu

/-! ## Which exceptions a call can raise -/

namespace Outcome
variable {σ α β : Type}

@[simp] theorem NoDispatchError_ok (v : α) (s : σ) : (Outcome.ok v s).NoDispatchError :=
  trivial

theorem NoDispatchError_thrown (e : Exception) (s : σ) :
    (Outcome.thrown e s : Outcome σ α).NoDispatchError ↔ e.isDispatchError = false :=
  Iff.rfl

theorem NoDispatchError_andThen (o : Outcome σ α) (f : α → σ → Outcome σ β)
    (ho : o.NoDispatchError) (hf : ∀ v s, (f v s).NoDispatchError) :
    (o.andThen f).NoDispatchError := by
  cases o with
  | ok v s => exact hf v s
  | thrown e s => exact ho

theorem NoDispatchError_ite (c : Prop) [Decidable c] (a b : Outcome σ α)
    (ha : a.NoDispatchError) (hb : b.NoDispatchError) :
    (if c then a else b).NoDispatchError := by
  split_ifs
  · exact ha
  · exact hb

@[simp] theorem NoDispatchError_andThen_iff (o : Outcome σ α) (f : α → σ → Outcome σ β) :
    (o.andThen f).NoDispatchError
      ↔ o.NoDispatchError ∧ ∀ v s, o = .ok v s → (f v s).NoDispatchError := by
  cases o with
  | ok v s =>
    simp only [andThen, NoDispatchError_ok, true_and]
    constructor
    · intro h v1 s1 heq
      cases heq
      exact h
    · intro h
      exact h v s rfl
  | thrown e s =>
    simp only [andThen]
    constructor
    · intro h
      exact ⟨h, fun v1 s1 heq => by cases heq⟩
    · intro h
      exact h.1

@[simp] theorem NoDispatchError_ite_iff (c : Prop) [Decidable c] (a b : Outcome σ α) :
    (if c then a else b).NoDispatchError
      ↔ (c → a.NoDispatchError) ∧ (¬c → b.NoDispatchError) := by
  split_ifs with h
  · exact ⟨fun ha => ⟨fun _ => ha, fun hn => absurd h hn⟩, fun hh => hh.1 h⟩
  · exact ⟨fun hb => ⟨fun hc => absurd hc h, fun _ => hb⟩, fun hh => hh.2 h⟩

end Outcome

namespace MemoryBus
variable {δ : Type}

theorem probeDevices_noDispatchError (address : Nat) (n : Nat) :
    ∀ (deviceIndex : Nat) (bus : MemoryBus δ),
      (probeDevices address n deviceIndex bus).NoDispatchError := by
  induction n with
  | zero => intro deviceIndex bus; trivial
  | succ n ih =>
    intro deviceIndex bus
    unfold probeDevices
    split
    · exact rfl
    · dsimp only
      split_ifs
      · exact ih _ _
      · exact rfl
      · exact ih _ _

theorem EnsureDeviceIsProbed_noDispatchError (bus : MemoryBus δ) (address : Nat) :
    (EnsureDeviceIsProbed bus address).NoDispatchError := by
  unfold EnsureDeviceIsProbed
  apply Outcome.NoDispatchError_ite
  · apply Outcome.NoDispatchError_andThen
    · exact probeDevices_noDispatchError _ _ _ _
    · intro _ bus1
      dsimp only
      split_ifs <;> trivial
  · trivial

theorem ReadMemoryMappedRegister_noDispatchError (bus : MemoryBus δ) (address : Nat)
    (t : Bool) : (ReadMemoryMappedRegister bus address t).NoDispatchError := by
  unfold ReadMemoryMappedRegister
  split <;> first | trivial | (split_ifs <;> trivial)

theorem WriteMemoryMappedRegister_noDispatchError (bus : MemoryBus δ) (address value : Nat) :
    (WriteMemoryMappedRegister bus address value).NoDispatchError := by
  unfold WriteMemoryMappedRegister
  split <;> trivial

theorem callDevice_noDispatchError (bus : MemoryBus δ) (deviceIndex : Nat)
    (requestType : MemoryRequestType) (address value : Nat) :
    (callDevice bus deviceIndex requestType address value).NoDispatchError := by
  unfold callDevice
  split <;> trivial

theorem bus_Read8_noDispatchError (bus : MemoryBus δ) (address : Nat) (t : Bool) :
    (Read8 bus address t).NoDispatchError := by
  unfold Read8
  repeat' apply Outcome.NoDispatchError_ite
  any_goals trivial
  apply Outcome.NoDispatchError_andThen
  · exact EnsureDeviceIsProbed_noDispatchError _ _
  · intro _ bus1
    dsimp only
    apply Outcome.NoDispatchError_ite
    · apply Outcome.NoDispatchError_andThen
      · exact callDevice_noDispatchError _ _ _ _ _
      · intro _ _; trivial
    · exact ReadMemoryMappedRegister_noDispatchError _ _ _

theorem bus_Write8_noDispatchError (bus : MemoryBus δ) (address value : Nat) :
    (Write8 bus address value).NoDispatchError := by
  unfold Write8
  repeat' apply Outcome.NoDispatchError_ite
  any_goals trivial
  apply Outcome.NoDispatchError_andThen
  · exact EnsureDeviceIsProbed_noDispatchError _ _
  · intro _ bus1
    dsimp only
    apply Outcome.NoDispatchError_ite
    · apply Outcome.NoDispatchError_andThen
      · exact callDevice_noDispatchError _ _ _ _ _
      · intro _ _; trivial
    · exact WriteMemoryMappedRegister_noDispatchError _ _ _

theorem bus_Read16_noDispatchError (bus : MemoryBus δ) (address : Nat) :
    (Read16 bus address).NoDispatchError := by
  unfold Read16
  apply Outcome.NoDispatchError_andThen
  · exact bus_Read8_noDispatchError _ _ _
  · intro _ _
    apply Outcome.NoDispatchError_andThen
    · exact bus_Read8_noDispatchError _ _ _
    · intro _ _; trivial

theorem bus_Write16_noDispatchError (bus : MemoryBus δ) (address value : Nat) :
    (Write16 bus address value).NoDispatchError := by
  unfold Write16
  apply Outcome.NoDispatchError_andThen
  · exact bus_Write8_noDispatchError _ _ _
  · intro _ _
    exact bus_Write8_noDispatchError _ _ _

end MemoryBus

namespace Cpu
open MemoryBus
variable {δ : Type}

@[simp] theorem cpu_Read8_noDispatchError (cpu : Cpu δ) (address : Nat) :
    (cpu.Read8 address).NoDispatchError := by
  unfold Cpu.Read8
  have h := bus_Read8_noDispatchError cpu.m_pMemory address true
  split
  · trivial
  · next e bus heq =>
    rw [heq] at h
    exact h

@[simp] theorem cpu_Write8_noDispatchError (cpu : Cpu δ) (address value : Nat) :
    (cpu.Write8 address value).NoDispatchError := by
  unfold Cpu.Write8
  have h := bus_Write8_noDispatchError cpu.m_pMemory address value
  split
  · trivial
  · next e bus heq =>
    rw [heq] at h
    exact h

@[simp] theorem Fetch8_noDispatchError (cpu : Cpu δ) :
    (cpu.Fetch8).NoDispatchError := by
  unfold Fetch8
  have h := bus_Read8_noDispatchError cpu.m_pMemory cpu.PC true
  split
  · trivial
  · next e bus heq =>
    rw [heq] at h
    exact h

@[simp] theorem Fetch16_noDispatchError (cpu : Cpu δ) :
    (cpu.Fetch16).NoDispatchError := by
  unfold Fetch16
  have h := bus_Read16_noDispatchError cpu.m_pMemory cpu.PC
  split
  · trivial
  · next e bus heq =>
    rw [heq] at h
    exact h

@[simp] theorem Push16_noDispatchError (cpu : Cpu δ) (value : Nat) :
    (cpu.Push16 value).NoDispatchError := by
  unfold Push16
  have h := bus_Write16_noDispatchError cpu.m_pMemory (toUint16 ((cpu.SP : Int) - 2)) value
  dsimp only
  split
  · trivial
  · next e bus heq =>
    rw [heq] at h
    exact h

@[simp] theorem Pop16_noDispatchError (cpu : Cpu δ) :
    (cpu.Pop16).NoDispatchError := by
  unfold Pop16
  have h := bus_Read16_noDispatchError cpu.m_pMemory cpu.SP
  split
  · trivial
  · next e bus heq =>
    rw [heq] at h
    exact h

@[simp] theorem slot_Read8_noDispatchError (N : Nat) (cpu : Cpu δ) :
    (B_C_D_E_H_L_iHL_A_Read8 N cpu).NoDispatchError := by
  unfold B_C_D_E_H_L_iHL_A_Read8
  split <;> simp

@[simp] theorem slot_Write8_noDispatchError (N : Nat) (cpu : Cpu δ) (value : Nat) :
    (B_C_D_E_H_L_iHL_A_Write8 N cpu value).NoDispatchError := by
  unfold B_C_D_E_H_L_iHL_A_Write8
  split <;> simp

@[simp] theorem OPCODE_noDispatchError_iff (cycles : Nat) (name : Cpu δ → Outcome (Cpu δ) Unit)
    (cpu : Cpu δ) : (OPCODE cycles name cpu).NoDispatchError ↔ (name cpu).NoDispatchError := by
  simp [OPCODE]

@[simp] theorem Call_noDispatchError (cpu : Cpu δ) (address : Nat) :
    (cpu.Call address).NoDispatchError := by
  simp [Call]

@[simp] theorem Ret_noDispatchError (cpu : Cpu δ) : cpu.Ret.NoDispatchError := by
  simp [Ret]

@[simp] theorem ADC_C__E_noDispatchError (N : Nat) (cpu : Cpu δ) :
    (ADC_C__E N cpu).NoDispatchError := by
  simp [ADC_C__E, b0_2_B_C_D_E_H_L_iHL_A_Read8, b0_2_B_C_D_E_H_L_iHL_A_Write8,
    b3_5_B_C_D_E_H_L_iHL_A_Read8, b3_5_B_C_D_E_H_L_iHL_A_Write8, b4_iBC_iDE_Read8,
    b4_iBC_iDE_Write8, iBC_iDE_Read8, iBC_iDE_Write8, Outcome.NoDispatchError_thrown,
    Exception.isDispatchError]

@[simp] theorem ADD_0_3__9_noDispatchError (N : Nat) (cpu : Cpu δ) :
    (ADD_0_3__9 N cpu).NoDispatchError := by
  simp [ADD_0_3__9, b0_2_B_C_D_E_H_L_iHL_A_Read8, b0_2_B_C_D_E_H_L_iHL_A_Write8,
    b3_5_B_C_D_E_H_L_iHL_A_Read8, b3_5_B_C_D_E_H_L_iHL_A_Write8, b4_iBC_iDE_Read8,
    b4_iBC_iDE_Write8, iBC_iDE_Read8, iBC_iDE_Write8, Outcome.NoDispatchError_thrown,
    Exception.isDispatchError]

@[simp] theorem ADD_C_6_noDispatchError (N : Nat) (cpu : Cpu δ) :
    (ADD_C_6 N cpu).NoDispatchError := by
  simp [ADD_C_6, b0_2_B_C_D_E_H_L_iHL_A_Read8, b0_2_B_C_D_E_H_L_iHL_A_Write8,
    b3_5_B_C_D_E_H_L_iHL_A_Read8, b3_5_B_C_D_E_H_L_iHL_A_Write8, b4_iBC_iDE_Read8,
    b4_iBC_iDE_Write8, iBC_iDE_Read8, iBC_iDE_Write8, Outcome.NoDispatchError_thrown,
    Exception.isDispatchError]

@[simp] theorem AND_E__6_noDispatchError (N : Nat) (cpu : Cpu δ) :
    (AND_E__6 N cpu).NoDispatchError := by
  simp [AND_E__6, b0_2_B_C_D_E_H_L_iHL_A_Read8, b0_2_B_C_D_E_H_L_iHL_A_Write8,
    b3_5_B_C_D_E_H_L_iHL_A_Read8, b3_5_B_C_D_E_H_L_iHL_A_Write8, b4_iBC_iDE_Read8,
    b4_iBC_iDE_Write8, iBC_iDE_Read8, iBC_iDE_Write8, Outcome.NoDispatchError_thrown,
    Exception.isDispatchError]

@[simp] theorem CALL_C_D__4__C_D__C_noDispatchError (N : Nat) (cpu : Cpu δ) :
    (CALL_C_D__4__C_D__C N cpu).NoDispatchError := by
  simp [CALL_C_D__4__C_D__C, b0_2_B_C_D_E_H_L_iHL_A_Read8, b0_2_B_C_D_E_H_L_iHL_A_Write8,
    b3_5_B_C_D_E_H_L_iHL_A_Read8, b3_5_B_C_D_E_H_L_iHL_A_Write8, b4_iBC_iDE_Read8,
    b4_iBC_iDE_Write8, iBC_iDE_Read8, iBC_iDE_Write8, Outcome.NoDispatchError_thrown,
    Exception.isDispatchError]

@[simp] theorem CP_F_E_noDispatchError (N : Nat) (cpu : Cpu δ) :
    (CP_F_E N cpu).NoDispatchError := by
  simp [CP_F_E, b0_2_B_C_D_E_H_L_iHL_A_Read8, b0_2_B_C_D_E_H_L_iHL_A_Write8,
    b3_5_B_C_D_E_H_L_iHL_A_Read8, b3_5_B_C_D_E_H_L_iHL_A_Write8, b4_iBC_iDE_Read8,
    b4_iBC_iDE_Write8, iBC_iDE_Read8, iBC_iDE_Write8, Outcome.NoDispatchError_thrown,
    Exception.isDispatchError]

@[simp] theorem DEC_0_3__5__0_3__D_noDispatchError (N : Nat) (cpu : Cpu δ) :
    (DEC_0_3__5__0_3__D N cpu).NoDispatchError := by
  simp [DEC_0_3__5__0_3__D, b0_2_B_C_D_E_H_L_iHL_A_Read8, b0_2_B_C_D_E_H_L_iHL_A_Write8,
    b3_5_B_C_D_E_H_L_iHL_A_Read8, b3_5_B_C_D_E_H_L_iHL_A_Write8, b4_iBC_iDE_Read8,
    b4_iBC_iDE_Write8, iBC_iDE_Read8, iBC_iDE_Write8, Outcome.NoDispatchError_thrown,
    Exception.isDispatchError]

@[simp] theorem DEC_0_3__B_noDispatchError (N : Nat) (cpu : Cpu δ) :
    (DEC_0_3__B N cpu).NoDispatchError := by
  simp [DEC_0_3__B, b0_2_B_C_D_E_H_L_iHL_A_Read8, b0_2_B_C_D_E_H_L_iHL_A_Write8,
    b3_5_B_C_D_E_H_L_iHL_A_Read8, b3_5_B_C_D_E_H_L_iHL_A_Write8, b4_iBC_iDE_Read8,
    b4_iBC_iDE_Write8, iBC_iDE_Read8, iBC_iDE_Write8, Outcome.NoDispatchError_thrown,
    Exception.isDispatchError]

@[simp] theorem HALT_7__6_noDispatchError (N : Nat) (cpu : Cpu δ) :
    (HALT_7__6 N cpu).NoDispatchError := by
  simp [HALT_7__6, b0_2_B_C_D_E_H_L_iHL_A_Read8, b0_2_B_C_D_E_H_L_iHL_A_Write8,
    b3_5_B_C_D_E_H_L_iHL_A_Read8, b3_5_B_C_D_E_H_L_iHL_A_Write8, b4_iBC_iDE_Read8,
    b4_iBC_iDE_Write8, iBC_iDE_Read8, iBC_iDE_Write8, Outcome.NoDispatchError_thrown,
    Exception.isDispatchError]

@[simp] theorem INC_0_3__3_noDispatchError (N : Nat) (cpu : Cpu δ) :
    (INC_0_3__3 N cpu).NoDispatchError := by
  simp [INC_0_3__3, b0_2_B_C_D_E_H_L_iHL_A_Read8, b0_2_B_C_D_E_H_L_iHL_A_Write8,
    b3_5_B_C_D_E_H_L_iHL_A_Read8, b3_5_B_C_D_E_H_L_iHL_A_Write8, b4_iBC_iDE_Read8,
    b4_iBC_iDE_Write8, iBC_iDE_Read8, iBC_iDE_Write8, Outcome.NoDispatchError_thrown,
    Exception.isDispatchError]

@[simp] theorem INC_0_3__4__0_3__C_noDispatchError (N : Nat) (cpu : Cpu δ) :
    (INC_0_3__4__0_3__C N cpu).NoDispatchError := by
  simp [INC_0_3__4__0_3__C, b0_2_B_C_D_E_H_L_iHL_A_Read8, b0_2_B_C_D_E_H_L_iHL_A_Write8,
    b3_5_B_C_D_E_H_L_iHL_A_Read8, b3_5_B_C_D_E_H_L_iHL_A_Write8, b4_iBC_iDE_Read8,
    b4_iBC_iDE_Write8, iBC_iDE_Read8, iBC_iDE_Write8, Outcome.NoDispatchError_thrown,
    Exception.isDispatchError]

@[simp] theorem JP_E__9_noDispatchError (N : Nat) (cpu : Cpu δ) :
    (JP_E__9 N cpu).NoDispatchError := by
  simp [JP_E__9, b0_2_B_C_D_E_H_L_iHL_A_Read8, b0_2_B_C_D_E_H_L_iHL_A_Write8,
    b3_5_B_C_D_E_H_L_iHL_A_Read8, b3_5_B_C_D_E_H_L_iHL_A_Write8, b4_iBC_iDE_Read8,
    b4_iBC_iDE_Write8, iBC_iDE_Read8, iBC_iDE_Write8, Outcome.NoDispatchError_thrown,
    Exception.isDispatchError]

@[simp] theorem JR_1__8_noDispatchError (N : Nat) (cpu : Cpu δ) :
    (JR_1__8 N cpu).NoDispatchError := by
  simp [JR_1__8, b0_2_B_C_D_E_H_L_iHL_A_Read8, b0_2_B_C_D_E_H_L_iHL_A_Write8,
    b3_5_B_C_D_E_H_L_iHL_A_Read8, b3_5_B_C_D_E_H_L_iHL_A_Write8, b4_iBC_iDE_Read8,
    b4_iBC_iDE_Write8, iBC_iDE_Read8, iBC_iDE_Write8, Outcome.NoDispatchError_thrown,
    Exception.isDispatchError]

@[simp] theorem JR_2_3__0__2_3__8_noDispatchError (N : Nat) (cpu : Cpu δ) :
    (JR_2_3__0__2_3__8 N cpu).NoDispatchError := by
  simp [JR_2_3__0__2_3__8, b0_2_B_C_D_E_H_L_iHL_A_Read8, b0_2_B_C_D_E_H_L_iHL_A_Write8,
    b3_5_B_C_D_E_H_L_iHL_A_Read8, b3_5_B_C_D_E_H_L_iHL_A_Write8, b4_iBC_iDE_Read8,
    b4_iBC_iDE_Write8, iBC_iDE_Read8, iBC_iDE_Write8, Outcome.NoDispatchError_thrown,
    Exception.isDispatchError]

@[simp] theorem LDD_3__2_noDispatchError (N : Nat) (cpu : Cpu δ) :
    (LDD_3__2 N cpu).NoDispatchError := by
  simp [LDD_3__2, b0_2_B_C_D_E_H_L_iHL_A_Read8, b0_2_B_C_D_E_H_L_iHL_A_Write8,
    b3_5_B_C_D_E_H_L_iHL_A_Read8, b3_5_B_C_D_E_H_L_iHL_A_Write8, b4_iBC_iDE_Read8,
    b4_iBC_iDE_Write8, iBC_iDE_Read8, iBC_iDE_Write8, Outcome.NoDispatchError_thrown,
    Exception.isDispatchError]

@[simp] theorem LDD_3__A_noDispatchError (N : Nat) (cpu : Cpu δ) :
    (LDD_3__A N cpu).NoDispatchError := by
  simp [LDD_3__A, b0_2_B_C_D_E_H_L_iHL_A_Read8, b0_2_B_C_D_E_H_L_iHL_A_Write8,
    b3_5_B_C_D_E_H_L_iHL_A_Read8, b3_5_B_C_D_E_H_L_iHL_A_Write8, b4_iBC_iDE_Read8,
    b4_iBC_iDE_Write8, iBC_iDE_Read8, iBC_iDE_Write8, Outcome.NoDispatchError_thrown,
    Exception.isDispatchError]

@[simp] theorem LDH_F__0_noDispatchError (N : Nat) (cpu : Cpu δ) :
    (LDH_F__0 N cpu).NoDispatchError := by
  simp [LDH_F__0, b0_2_B_C_D_E_H_L_iHL_A_Read8, b0_2_B_C_D_E_H_L_iHL_A_Write8,
    b3_5_B_C_D_E_H_L_iHL_A_Read8, b3_5_B_C_D_E_H_L_iHL_A_Write8, b4_iBC_iDE_Read8,
    b4_iBC_iDE_Write8, iBC_iDE_Read8, iBC_iDE_Write8, Outcome.NoDispatchError_thrown,
    Exception.isDispatchError]

@[simp] theorem LDI_2__2_noDispatchError (N : Nat) (cpu : Cpu δ) :
    (LDI_2__2 N cpu).NoDispatchError := by
  simp [LDI_2__2, b0_2_B_C_D_E_H_L_iHL_A_Read8, b0_2_B_C_D_E_H_L_iHL_A_Write8,
    b3_5_B_C_D_E_H_L_iHL_A_Read8, b3_5_B_C_D_E_H_L_iHL_A_Write8, b4_iBC_iDE_Read8,
    b4_iBC_iDE_Write8, iBC_iDE_Read8, iBC_iDE_Write8, Outcome.NoDispatchError_thrown,
    Exception.isDispatchError]

@[simp] theorem LDI_2__A_noDispatchError (N : Nat) (cpu : Cpu δ) :
    (LDI_2__A N cpu).NoDispatchError := by
  simp [LDI_2__A, b0_2_B_C_D_E_H_L_iHL_A_Read8, b0_2_B_C_D_E_H_L_iHL_A_Write8,
    b3_5_B_C_D_E_H_L_iHL_A_Read8, b3_5_B_C_D_E_H_L_iHL_A_Write8, b4_iBC_iDE_Read8,
    b4_iBC_iDE_Write8, iBC_iDE_Read8, iBC_iDE_Write8, Outcome.NoDispatchError_thrown,
    Exception.isDispatchError]

@[simp] theorem LD_0_1__2_noDispatchError (N : Nat) (cpu : Cpu δ) :
    (LD_0_1__2 N cpu).NoDispatchError := by
  simp [LD_0_1__2, b0_2_B_C_D_E_H_L_iHL_A_Read8, b0_2_B_C_D_E_H_L_iHL_A_Write8,
    b3_5_B_C_D_E_H_L_iHL_A_Read8, b3_5_B_C_D_E_H_L_iHL_A_Write8, b4_iBC_iDE_Read8,
    b4_iBC_iDE_Write8, iBC_iDE_Read8, iBC_iDE_Write8, Outcome.NoDispatchError_thrown,
    Exception.isDispatchError]

@[simp] theorem LD_0_1__A_noDispatchError (N : Nat) (cpu : Cpu δ) :
    (LD_0_1__A N cpu).NoDispatchError := by
  simp [LD_0_1__A, b0_2_B_C_D_E_H_L_iHL_A_Read8, b0_2_B_C_D_E_H_L_iHL_A_Write8,
    b3_5_B_C_D_E_H_L_iHL_A_Read8, b3_5_B_C_D_E_H_L_iHL_A_Write8, b4_iBC_iDE_Read8,
    b4_iBC_iDE_Write8, iBC_iDE_Read8, iBC_iDE_Write8, Outcome.NoDispatchError_thrown,
    Exception.isDispatchError]

@[simp] theorem LD_0_3__1_noDispatchError (N : Nat) (cpu : Cpu δ) :
    (LD_0_3__1 N cpu).NoDispatchError := by
  simp [LD_0_3__1, b0_2_B_C_D_E_H_L_iHL_A_Read8, b0_2_B_C_D_E_H_L_iHL_A_Write8,
    b3_5_B_C_D_E_H_L_iHL_A_Read8, b3_5_B_C_D_E_H_L_iHL_A_Write8, b4_iBC_iDE_Read8,
    b4_iBC_iDE_Write8, iBC_iDE_Read8, iBC_iDE_Write8, Outcome.NoDispatchError_thrown,
    Exception.isDispatchError]

@[simp] theorem LD_0_3__6__0_3__E_noDispatchError (N : Nat) (cpu : Cpu δ) :
    (LD_0_3__6__0_3__E N cpu).NoDispatchError := by
  simp [LD_0_3__6__0_3__E, b0_2_B_C_D_E_H_L_iHL_A_Read8, b0_2_B_C_D_E_H_L_iHL_A_Write8,
    b3_5_B_C_D_E_H_L_iHL_A_Read8, b3_5_B_C_D_E_H_L_iHL_A_Write8, b4_iBC_iDE_Read8,
    b4_iBC_iDE_Write8, iBC_iDE_Read8, iBC_iDE_Write8, Outcome.NoDispatchError_thrown,
    Exception.isDispatchError]

@[simp] theorem LD_4_7__0_F__NO_7__6_noDispatchError (N : Nat) (cpu : Cpu δ) :
    (LD_4_7__0_F__NO_7__6 N cpu).NoDispatchError := by
  simp [LD_4_7__0_F__NO_7__6, b0_2_B_C_D_E_H_L_iHL_A_Read8, b0_2_B_C_D_E_H_L_iHL_A_Write8,
    b3_5_B_C_D_E_H_L_iHL_A_Read8, b3_5_B_C_D_E_H_L_iHL_A_Write8, b4_iBC_iDE_Read8,
    b4_iBC_iDE_Write8, iBC_iDE_Read8, iBC_iDE_Write8, Outcome.NoDispatchError_thrown,
    Exception.isDispatchError]

@[simp] theorem LD_F__A_noDispatchError (N : Nat) (cpu : Cpu δ) :
    (LD_F__A N cpu).NoDispatchError := by
  simp [LD_F__A, b0_2_B_C_D_E_H_L_iHL_A_Read8, b0_2_B_C_D_E_H_L_iHL_A_Write8,
    b3_5_B_C_D_E_H_L_iHL_A_Read8, b3_5_B_C_D_E_H_L_iHL_A_Write8, b4_iBC_iDE_Read8,
    b4_iBC_iDE_Write8, iBC_iDE_Read8, iBC_iDE_Write8, Outcome.NoDispatchError_thrown,
    Exception.isDispatchError]

@[simp] theorem NOP_0__0_noDispatchError (N : Nat) (cpu : Cpu δ) :
    (NOP_0__0 N cpu).NoDispatchError := by
  simp [NOP_0__0, b0_2_B_C_D_E_H_L_iHL_A_Read8, b0_2_B_C_D_E_H_L_iHL_A_Write8,
    b3_5_B_C_D_E_H_L_iHL_A_Read8, b3_5_B_C_D_E_H_L_iHL_A_Write8, b4_iBC_iDE_Read8,
    b4_iBC_iDE_Write8, iBC_iDE_Read8, iBC_iDE_Write8, Outcome.NoDispatchError_thrown,
    Exception.isDispatchError]

@[simp] theorem OR_B__0_7_noDispatchError (N : Nat) (cpu : Cpu δ) :
    (OR_B__0_7 N cpu).NoDispatchError := by
  simp [OR_B__0_7, b0_2_B_C_D_E_H_L_iHL_A_Read8, b0_2_B_C_D_E_H_L_iHL_A_Write8,
    b3_5_B_C_D_E_H_L_iHL_A_Read8, b3_5_B_C_D_E_H_L_iHL_A_Write8, b4_iBC_iDE_Read8,
    b4_iBC_iDE_Write8, iBC_iDE_Read8, iBC_iDE_Write8, Outcome.NoDispatchError_thrown,
    Exception.isDispatchError]

@[simp] theorem OR_F_6_noDispatchError (N : Nat) (cpu : Cpu δ) :
    (OR_F_6 N cpu).NoDispatchError := by
  simp [OR_F_6, b0_2_B_C_D_E_H_L_iHL_A_Read8, b0_2_B_C_D_E_H_L_iHL_A_Write8,
    b3_5_B_C_D_E_H_L_iHL_A_Read8, b3_5_B_C_D_E_H_L_iHL_A_Write8, b4_iBC_iDE_Read8,
    b4_iBC_iDE_Write8, iBC_iDE_Read8, iBC_iDE_Write8, Outcome.NoDispatchError_thrown,
    Exception.isDispatchError]

@[simp] theorem RET_C_D__0__C_D__8_noDispatchError (N : Nat) (cpu : Cpu δ) :
    (RET_C_D__0__C_D__8 N cpu).NoDispatchError := by
  simp [RET_C_D__0__C_D__8, b0_2_B_C_D_E_H_L_iHL_A_Read8, b0_2_B_C_D_E_H_L_iHL_A_Write8,
    b3_5_B_C_D_E_H_L_iHL_A_Read8, b3_5_B_C_D_E_H_L_iHL_A_Write8, b4_iBC_iDE_Read8,
    b4_iBC_iDE_Write8, iBC_iDE_Read8, iBC_iDE_Write8, Outcome.NoDispatchError_thrown,
    Exception.isDispatchError]

@[simp] theorem RR_1__F_noDispatchError (N : Nat) (cpu : Cpu δ) :
    (RR_1__F N cpu).NoDispatchError := by
  simp [RR_1__F, b0_2_B_C_D_E_H_L_iHL_A_Read8, b0_2_B_C_D_E_H_L_iHL_A_Write8,
    b3_5_B_C_D_E_H_L_iHL_A_Read8, b3_5_B_C_D_E_H_L_iHL_A_Write8, b4_iBC_iDE_Read8,
    b4_iBC_iDE_Write8, iBC_iDE_Read8, iBC_iDE_Write8, Outcome.NoDispatchError_thrown,
    Exception.isDispatchError]

@[simp] theorem STOP_1__0_noDispatchError (N : Nat) (cpu : Cpu δ) :
    (STOP_1__0 N cpu).NoDispatchError := by
  simp [STOP_1__0, b0_2_B_C_D_E_H_L_iHL_A_Read8, b0_2_B_C_D_E_H_L_iHL_A_Write8,
    b3_5_B_C_D_E_H_L_iHL_A_Read8, b3_5_B_C_D_E_H_L_iHL_A_Write8, b4_iBC_iDE_Read8,
    b4_iBC_iDE_Write8, iBC_iDE_Read8, iBC_iDE_Write8, Outcome.NoDispatchError_thrown,
    Exception.isDispatchError]

@[simp] theorem SUB_D__6_noDispatchError (N : Nat) (cpu : Cpu δ) :
    (SUB_D__6 N cpu).NoDispatchError := by
  simp [SUB_D__6, b0_2_B_C_D_E_H_L_iHL_A_Read8, b0_2_B_C_D_E_H_L_iHL_A_Write8,
    b3_5_B_C_D_E_H_L_iHL_A_Read8, b3_5_B_C_D_E_H_L_iHL_A_Write8, b4_iBC_iDE_Read8,
    b4_iBC_iDE_Write8, iBC_iDE_Read8, iBC_iDE_Write8, Outcome.NoDispatchError_thrown,
    Exception.isDispatchError]

@[simp] theorem XOR_A__8_F_noDispatchError (N : Nat) (cpu : Cpu δ) :
    (XOR_A__8_F N cpu).NoDispatchError := by
  simp [XOR_A__8_F, b0_2_B_C_D_E_H_L_iHL_A_Read8, b0_2_B_C_D_E_H_L_iHL_A_Write8,
    b3_5_B_C_D_E_H_L_iHL_A_Read8, b3_5_B_C_D_E_H_L_iHL_A_Write8, b4_iBC_iDE_Read8,
    b4_iBC_iDE_Write8, iBC_iDE_Read8, iBC_iDE_Write8, Outcome.NoDispatchError_thrown,
    Exception.isDispatchError]

@[simp] theorem XOR_E__E_noDispatchError (N : Nat) (cpu : Cpu δ) :
    (XOR_E__E N cpu).NoDispatchError := by
  simp [XOR_E__E, b0_2_B_C_D_E_H_L_iHL_A_Read8, b0_2_B_C_D_E_H_L_iHL_A_Write8,
    b3_5_B_C_D_E_H_L_iHL_A_Read8, b3_5_B_C_D_E_H_L_iHL_A_Write8, b4_iBC_iDE_Read8,
    b4_iBC_iDE_Write8, iBC_iDE_Read8, iBC_iDE_Write8, Outcome.NoDispatchError_thrown,
    Exception.isDispatchError]

@[simp] theorem RL_CB_1__0_7_noDispatchError (N : Nat) (cpu : Cpu δ) :
    (RL_CB_1__0_7 N cpu).NoDispatchError := by
  simp [RL_CB_1__0_7, b0_2_B_C_D_E_H_L_iHL_A_Read8, b0_2_B_C_D_E_H_L_iHL_A_Write8,
    b3_5_B_C_D_E_H_L_iHL_A_Read8, b3_5_B_C_D_E_H_L_iHL_A_Write8, b4_iBC_iDE_Read8,
    b4_iBC_iDE_Write8, iBC_iDE_Read8, iBC_iDE_Write8, Outcome.NoDispatchError_thrown,
    Exception.isDispatchError]

@[simp] theorem RR_CB_1__8_F_noDispatchError (N : Nat) (cpu : Cpu δ) :
    (RR_CB_1__8_F N cpu).NoDispatchError := by
  simp [RR_CB_1__8_F, b0_2_B_C_D_E_H_L_iHL_A_Read8, b0_2_B_C_D_E_H_L_iHL_A_Write8,
    b3_5_B_C_D_E_H_L_iHL_A_Read8, b3_5_B_C_D_E_H_L_iHL_A_Write8, b4_iBC_iDE_Read8,
    b4_iBC_iDE_Write8, iBC_iDE_Read8, iBC_iDE_Write8, Outcome.NoDispatchError_thrown,
    Exception.isDispatchError]

@[simp] theorem SRL_CB_3__8_F_noDispatchError (N : Nat) (cpu : Cpu δ) :
    (SRL_CB_3__8_F N cpu).NoDispatchError := by
  simp [SRL_CB_3__8_F, b0_2_B_C_D_E_H_L_iHL_A_Read8, b0_2_B_C_D_E_H_L_iHL_A_Write8,
    b3_5_B_C_D_E_H_L_iHL_A_Read8, b3_5_B_C_D_E_H_L_iHL_A_Write8, b4_iBC_iDE_Read8,
    b4_iBC_iDE_Write8, iBC_iDE_Read8, iBC_iDE_Write8, Outcome.NoDispatchError_thrown,
    Exception.isDispatchError]

@[simp] theorem case_C1_D1_E1_F1_noDispatchError (opcode : Nat) (cpu : Cpu δ) :
    (case_C1_D1_E1_F1 opcode cpu).NoDispatchError := by
  unfold case_C1_D1_E1_F1
  split <;> simp

@[simp] theorem case_C5_D5_E5_F5_noDispatchError (opcode : Nat) (cpu : Cpu δ) :
    (case_C5_D5_E5_F5 opcode cpu).NoDispatchError := by
  unfold case_C5_D5_E5_F5
  split <;> simp

@[simp] theorem case_C3_noDispatchError (cpu : Cpu δ) : (case_C3 cpu).NoDispatchError := by
  simp [case_C3]

@[simp] theorem case_C9_noDispatchError (cpu : Cpu δ) : (case_C9 cpu).NoDispatchError := by
  simp [case_C9]

@[simp] theorem case_CD_noDispatchError (cpu : Cpu δ) : (case_CD cpu).NoDispatchError := by
  simp [case_CD]

@[simp] theorem case_E0_noDispatchError (cpu : Cpu δ) : (case_E0 cpu).NoDispatchError := by
  simp [case_E0]

@[simp] theorem case_EA_noDispatchError (cpu : Cpu δ) : (case_EA cpu).NoDispatchError := by
  simp [case_EA]

@[simp] theorem case_F3_noDispatchError (cpu : Cpu δ) : (case_F3 cpu).NoDispatchError := by
  simp [case_F3]

/-! ## The dispatch tables -/

theorem lookup_mem {β : Type} (k : Nat) (b : β) :
    ∀ l : List (Nat × β), l.lookup k = some b → (k, b) ∈ l := by
  intro l
  induction l with
  | nil => intro h; cases h
  | cons p l ih =>
    intro h
    obtain ⟨k1, b1⟩ := p
    by_cases hk : k = k1
    · subst hk
      rw [List.lookup_cons, beq_self_eq_true] at h
      cases h
      exact List.mem_cons_self _ _
    · have hb : (k == k1) = false := beq_false_of_ne hk
      rw [List.lookup_cons, hb] at h
      exact List.mem_cons_of_mem _ (ih h)

set_option maxRecDepth 8000 in
theorem primaryCases_noDispatchError :
    ∀ p ∈ (primaryCases (δ := δ)),
      p.1 ∉ [0xD3, 0xDB, 0xDD, 0xE3, 0xE4, 0xEB, 0xEC, 0xED, 0xF2, 0xF4, 0xFC, 0xFD] →
      p.1 ≠ 0xCB → ∀ s, (p.2 s).NoDispatchError := by
  unfold primaryCases
  repeat' first
    | exact List.forall_mem_nil _
    | refine List.forall_mem_cons.2 ⟨?_, ?_⟩
  all_goals
    intro h1 h2 s
    first
      | exact absurd rfl h2
      | (simp; done)
      | (exfalso; simp at h1)

theorem extendedCases_noDispatchError :
    ∀ p ∈ (extendedCases (δ := δ)), ∀ s, (p.2 s).NoDispatchError := by
  unfold extendedCases
  repeat' first
    | exact List.forall_mem_nil _
    | refine List.forall_mem_cons.2 ⟨?_, ?_⟩
  all_goals
    intro s
    simp

theorem NoDispatchError_not_thrown {σ α : Type} {o : Outcome σ α} (ho : o.NoDispatchError)
    {e : Exception} {s : σ} (h : o = .thrown e s) : e.isDispatchError = false := by
  rw [h] at ho
  exact ho

theorem Fetch8_thrown (cpu : Cpu δ) (e : Exception) (bus1 : MemoryBus δ)
    (h : cpu.m_pMemory.Read8 cpu.PC = .thrown e bus1) :
    cpu.Fetch8 = .thrown e { cpu with m_pMemory := bus1 } := by
  simp only [Fetch8, h]

theorem ExecuteOpcode_illegal (opcode : Nat)
    (h : opcode ∈ [0xD3, 0xDB, 0xDD, 0xE3, 0xE4, 0xEB, 0xEC, 0xED, 0xF2, 0xF4, 0xFC, 0xFD])
    (s : Cpu δ) : ExecuteOpcode opcode s = .thrown (.IllegalOpcode opcode) s := by
  simp only [List.mem_cons, List.mem_singleton, List.not_mem_nil, or_false] at h
  rcases h with rfl | rfl | rfl | rfl | rfl | rfl | rfl | rfl | rfl | rfl | rfl | rfl <;> rfl

theorem ExecuteOpcode_regular (opcode : Nat) (body : Cpu δ → Outcome (Cpu δ) Nat)
    (hl : (primaryCases (δ := δ)).lookup opcode = some body)
    (hni : opcode ∉ [0xD3, 0xDB, 0xDD, 0xE3, 0xE4, 0xEB, 0xEC, 0xED, 0xF2, 0xF4, 0xFC, 0xFD])
    (hcb : opcode ≠ 0xCB) (s : Cpu δ) : (ExecuteOpcode opcode s).NoDispatchError := by
  unfold ExecuteOpcode
  rw [hl]
  exact primaryCases_noDispatchError (opcode, body) (lookup_mem _ _ _ hl) hni hcb s

/-- What `case 0xCB` does once the second byte is fetched. -/
theorem case_CB_of_fetch (cpu cpu2 : Cpu δ) (sub : Nat) (h : cpu.Fetch8 = .ok sub cpu2) :
    case_CB cpu = match (extendedCases (δ := δ)).lookup sub with
      | some body => body cpu2
      | none => unknownOpcode 0xCB { cpu2 with PC := toUint16 ((cpu2.PC : Int) - 1) } := by
  unfold case_CB
  rw [h]
  rfl

/-! ## Loads between operand slots -/

theorem setOperand8_PC (N : Nat) (cpu : Cpu δ) (v : Nat) (hN : N < 8) :
    (setOperand8 N cpu v).PC = cpu.PC := by
  interval_cases N <;> rfl

theorem setOperand8_SP (N : Nat) (cpu : Cpu δ) (v : Nat) (hN : N < 8) :
    (setOperand8 N cpu v).SP = cpu.SP := by
  interval_cases N <;> rfl

theorem setOperand8_memory (N : Nat) (cpu : Cpu δ) (v : Nat) (hN : N < 8) (h6 : N ≠ 6) :
    (setOperand8 N cpu v).m_pMemory = cpu.m_pMemory := by
  interval_cases N <;> first
    | rfl
    | exact absurd rfl h6

theorem LD_exec (N : Nat) (cpu cpuS : Cpu δ) (v : Nat)
    (hsrc : B_C_D_E_H_L_iHL_A_Read8 (b0_2 N) cpu = .ok v cpuS)
    (hdst : b3_5 N = 6 → IsBusOwnedRam cpuS.HL = true) :
    LD_4_7__0_F__NO_7__6 N cpu = .ok () (setOperand8 (b3_5 N) cpuS v) := by
  simp only [LD_4_7__0_F__NO_7__6, b0_2_B_C_D_E_H_L_iHL_A_Read8, hsrc, Outcome.andThen,
    b3_5_B_C_D_E_H_L_iHL_A_Write8]
  exact Write8_setOperand8 _ _ _ (b3_5_lt N) hdst

/-! ## Cycle constants -/

theorem andThen_cycles {σ α : Type} {o : Outcome σ α} {f : α → σ → Outcome σ Nat}
    {c cycles : Nat} {s1 : σ} (hf : ∀ v s cyc s2, f v s = .ok cyc s2 → cyc = c)
    (h : o.andThen f = .ok cycles s1) : cycles = c := by
  cases o with
  | ok v s => exact hf v s _ _ h
  | thrown e s => cases h

theorem ok_cycles {σ : Type} {c cycles : Nat} {s s1 : σ}
    (h : (Outcome.ok c s : Outcome σ Nat) = .ok cycles s1) : cycles = c := by
  cases h
  rfl

theorem OPCODE_cycles (c : Nat) (name : Cpu δ → Outcome (Cpu δ) Unit) {cycles : Nat}
    {s s1 : Cpu δ} (h : OPCODE c name s = .ok cycles s1) : cycles = c :=
  andThen_cycles (fun _ _ _ _ h2 => ok_cycles h2) h

theorem case_C3_cycles {cycles : Nat} {s s1 : Cpu δ} (h : case_C3 s = .ok cycles s1) :
    cycles = 12 :=
  andThen_cycles (fun _ _ _ _ h2 => ok_cycles h2) h

theorem case_C9_cycles {cycles : Nat} {s s1 : Cpu δ} (h : case_C9 s = .ok cycles s1) :
    cycles = 8 :=
  andThen_cycles (fun _ _ _ _ h2 => ok_cycles h2) h

theorem case_CD_cycles {cycles : Nat} {s s1 : Cpu δ} (h : case_CD s = .ok cycles s1) :
    cycles = 12 :=
  andThen_cycles (fun _ _ _ _ h2 => andThen_cycles (fun _ _ _ _ h3 => ok_cycles h3) h2) h

set_option maxRecDepth 4000 in
/-- The cycle constants tabulated for the block 0x40-0x7F. -/
theorem LD_block_table (opcode : Nat) (hlo : 0x40 ≤ opcode) (hhi : opcode ≤ 0x7F)
    (hne : opcode ≠ 0x76) (s : Cpu δ) :
    ExecuteOpcode opcode s
      = OPCODE (if b0_2 opcode = 6 ∨ b3_5 opcode = 6 then 8 else 4)
          (LD_4_7__0_F__NO_7__6 opcode) s := by
  interval_cases opcode <;> first
    | exact absurd rfl hne
    | rfl

set_option maxRecDepth 4000 in
/-- The cycle constants tabulated for the CB-prefixed RL, RR and SRL, RR (HL) apart. -/
theorem CB_block_table (sub : Nat)
    (hsub : (0x10 ≤ sub ∧ sub ≤ 0x1F) ∨ (0x38 ≤ sub ∧ sub ≤ 0x3F)) (hne : sub ≠ 0x1E) :
    ∃ name, (extendedCases (δ := δ)).lookup sub
      = some (OPCODE (if b0_2 sub = 6 then 16 else 8) name) := by
  rcases hsub with ⟨ha, hb⟩ | ⟨ha, hb⟩ <;> interval_cases sub <;> first
    | exact absurd rfl hne
    | exact ⟨_, rfl⟩

/-- RR (HL) (CB 1E at 0x0164 of the sample cartridge) is tabulated with 12 cycles, where
RL (HL) and SRL (HL) have 16. -/
theorem RR_iHL_returns_12_cycles :
    ({ Sample.cpuAt 0x0164 0x00 with H := 0xC0, L := 0x00 }
      : Cpu Unit).ExecuteSingleInstruction.value? = some 12 := by
  decide

end Cpu

/-! ## The device cache -/

namespace MemoryBus
variable {δ : Type}

theorem probedFrom_length (address first : Nat) (devices : List (IMemoryBusDevice δ)) :
    (probedFrom address first devices).length = devices.length := by
  simp [probedFrom]

theorem probedFrom_getElem? (address first j : Nat) (devices : List (IMemoryBusDevice δ)) :
    (probedFrom address first devices)[j]?
      = (devices[j]?).map fun pDevice => if first ≤ j then probed address pDevice else pDevice := by
  simp [probedFrom]

/-- Probing device `first` and then the devices after it probes the devices from `first`. -/
theorem probedFrom_set (address first : Nat) (devices : List (IMemoryBusDevice δ))
    (pDevice : IMemoryBusDevice δ) (h : devices[first]? = some pDevice) :
    probedFrom address (first + 1) (devices.set first (probed address pDevice))
      = probedFrom address first devices := by
  apply List.ext_getElem?
  intro j
  rw [probedFrom_getElem?, probedFrom_getElem?, List.getElem?_set]
  by_cases hj : first = j
  · subst hj
    have hlt : first < devices.length := by
      rcases List.getElem?_eq_some.1 h with ⟨hl, _⟩
      exact hl
    simp [h, hlt]
  · rw [if_neg hj]
    cases devices[j]? with
    | none => rfl
    | some d =>
      have e : (first + 1 ≤ j) ↔ (first ≤ j) := by omega
      simp [e]

/-- The probing loop when no device from `deviceIndex` on claims the address. -/
theorem probeDevices_unclaimed (address : Nat) (n : Nat) :
    ∀ (deviceIndex : Nat) (bus : MemoryBus δ),
      deviceIndex + n = bus.m_devicesUnsafe.length →
      (∀ j pDevice, deviceIndex ≤ j → bus.m_devicesUnsafe[j]? = some pDevice →
        claims address pDevice = false) →
      probeDevices address n deviceIndex bus
        = .ok () { bus with
            m_devicesUnsafe := probedFrom address deviceIndex bus.m_devicesUnsafe } := by
  induction n with
  | zero =>
    intro deviceIndex bus hlen _
    unfold probeDevices
    have : probedFrom address deviceIndex bus.m_devicesUnsafe = bus.m_devicesUnsafe := by
      apply List.ext_getElem?
      intro j
      rw [probedFrom_getElem?]
      cases hj : bus.m_devicesUnsafe[j]? with
      | none => rfl
      | some d =>
        rcases List.getElem?_eq_some.1 hj with ⟨hl, _⟩
        have : ¬ deviceIndex ≤ j := by omega
        simp [this]
    rw [this]
  | succ n ih =>
    intro deviceIndex bus hlen hcl
    have hlt : deviceIndex < bus.m_devicesUnsafe.length := by omega
    obtain ⟨d, hget⟩ : ∃ d, bus.m_devicesUnsafe[deviceIndex]? = some d :=
      ⟨_, List.getElem?_eq_getElem hlt⟩
    have hno : (d.HandleRequest MemoryRequestType.Read address 0 d.state).1 = false :=
      hcl deviceIndex d (Nat.le_refl _) hget
    have key := probedFrom_set address deviceIndex bus.m_devicesUnsafe d hget
    unfold probeDevices
    rw [hget]
    simp only [hno, Bool.false_eq_true, if_false]
    rw [ih]
    · rw [← key]
      rfl
    · simp only [List.length_set]
      omega
    · intro j d2 hj hd
      simp only at hd
      rw [List.getElem?_set_ne (by omega)] at hd
      exact hcl j d2 (by omega) hd

/-- The probing loop when the cache entry is Unknown and exactly one device from
`deviceIndex` on, the one at index `k`, claims the address. -/
theorem probeDevices_claimed (address : Nat) (n : Nat) :
    ∀ (deviceIndex : Nat) (bus : MemoryBus δ) (k : Nat) (pClaimant : IMemoryBusDevice δ),
      deviceIndex + n = bus.m_devicesUnsafe.length →
      bus.m_deviceIndexAtAddress address = MemoryDeviceStatus.Unknown →
      deviceIndex ≤ k → bus.m_devicesUnsafe[k]? = some pClaimant →
      claims address pClaimant = true →
      (∀ j pDevice, deviceIndex ≤ j → j ≠ k → bus.m_devicesUnsafe[j]? = some pDevice →
        claims address pDevice = false) →
      probeDevices address n deviceIndex bus
        = .ok () { bus with
            m_devicesUnsafe := probedFrom address deviceIndex bus.m_devicesUnsafe
            m_deviceIndexAtAddress :=
              Function.update bus.m_deviceIndexAtAddress address (k : Int) } := by
  induction n with
  | zero =>
    intro deviceIndex bus k D hlen _ hk hD _ _
    rcases List.getElem?_eq_some.1 hD with ⟨hl, _⟩
    omega
  | succ n ih =>
    intro deviceIndex bus k D hlen hunk hk hD hclaim hcl
    have hlt : deviceIndex < bus.m_devicesUnsafe.length := by omega
    obtain ⟨d, hget⟩ : ∃ d, bus.m_devicesUnsafe[deviceIndex]? = some d :=
      ⟨_, List.getElem?_eq_getElem hlt⟩
    have key := probedFrom_set address deviceIndex bus.m_devicesUnsafe d hget
    by_cases hik : deviceIndex = k
    · subst hik
      have hdD : d = D := Option.some.inj (hget.symm.trans hD)
      subst hdD
      have hyes : (d.HandleRequest MemoryRequestType.Read address 0 d.state).1 = true := hclaim
      unfold probeDevices
      rw [hget]
      simp only [hyes, if_true, hunk]
      rw [probeDevices_unclaimed]
      · rw [← key]
        rfl
      · simp only [List.length_set]
        omega
      · intro j d2 hj hd
        simp only at hd
        rw [List.getElem?_set_ne (by omega)] at hd
        exact hcl j d2 (by omega) (by omega) hd
    · have hno : (d.HandleRequest MemoryRequestType.Read address 0 d.state).1 = false :=
        hcl deviceIndex d (Nat.le_refl _) hik hget
      unfold probeDevices
      rw [hget]
      simp only [hno, Bool.false_eq_true, if_false]
      rw [ih (deviceIndex + 1) _ k D]
      · rw [← key]
        rfl
      · simp only [List.length_set]
        omega
      · exact hunk
      · omega
      · simp only
        rw [List.getElem?_set_ne hik]
        exact hD
      · exact hclaim
      · intro j d2 hj hjk hd
        simp only at hd
        rw [List.getElem?_set_ne (by omega)] at hd
        exact hcl j d2 (by omega) hjk hd

theorem not_ram_ranges {address : Nat} (h : IsBusOwnedRam address = false) :
    IsAddressInRange address kVramBase kVramSize = false ∧
    IsAddressInRange address kWorkMemoryBase kWorkMemorySize = false ∧
    IsAddressInRange address kEchoBase kEchoSize = false ∧
    IsAddressInRange address kHramMemoryBase kHramMemorySize = false := by
  unfold IsBusOwnedRam at h
  simp only [Bool.or_eq_false_iff] at h
  exact ⟨h.1.1.1, h.1.1.2, h.1.2, h.2⟩

/-- Outside the RAM regions `Read8` is the device and register branch. -/
theorem Read8_not_ram (bus : MemoryBus δ) (address : Nat) (t : Bool)
    (h : IsBusOwnedRam address = false) :
    Read8 bus address t
      = (EnsureDeviceIsProbed bus address).andThen fun _ bus1 =>
          if bus1.m_deviceIndexAtAddress address ≥ 0 then
            (callDevice bus1 (bus1.m_deviceIndexAtAddress address).toNat .Read address 0).andThen
              fun result bus2 => .ok (result, true) bus2
          else
            ReadMemoryMappedRegister bus1 address t := by
  obtain ⟨h1, h2, h3, h4⟩ := not_ram_ranges h
  simp only [Read8, h1, h2, h3, h4, Bool.false_eq_true, if_false]

/-- Outside the RAM regions `Write8` is the device and register branch. -/
theorem Write8_not_ram (bus : MemoryBus δ) (address value : Nat)
    (h : IsBusOwnedRam address = false) :
    Write8 bus address value
      = (EnsureDeviceIsProbed bus address).andThen fun _ bus1 =>
          if bus1.m_deviceIndexAtAddress address ≥ 0 then
            (callDevice bus1 (bus1.m_deviceIndexAtAddress address).toNat .Write address
              value).andThen fun _ bus2 => .ok () bus2
          else
            WriteMemoryMappedRegister bus1 address value := by
  obtain ⟨h1, h2, h3, h4⟩ := not_ram_ranges h
  simp only [Write8, h1, h2, h3, h4, Bool.false_eq_true, if_false]

theorem EnsureDeviceIsProbed_known (bus : MemoryBus δ) (address : Nat)
    (h : bus.m_deviceIndexAtAddress address ≠ MemoryDeviceStatus.Unknown) :
    EnsureDeviceIsProbed bus address = .ok () bus := by
  unfold EnsureDeviceIsProbed
  rw [if_neg h]

theorem EnsureDeviceIsProbed_claimed (bus : MemoryBus δ) (address k : Nat)
    (pClaimant : IMemoryBusDevice δ)
    (hunk : bus.m_deviceIndexAtAddress address = MemoryDeviceStatus.Unknown)
    (hD : bus.m_devicesUnsafe[k]? = some pClaimant) (hclaim : claims address pClaimant = true)
    (hothers : ∀ (j : Nat) (pDevice : IMemoryBusDevice δ), j ≠ k →
      bus.m_devicesUnsafe[j]? = some pDevice → claims address pDevice = false) :
    EnsureDeviceIsProbed bus address
      = .ok () { bus with
          m_devicesUnsafe := probedFrom address 0 bus.m_devicesUnsafe
          m_deviceIndexAtAddress :=
            Function.update bus.m_deviceIndexAtAddress address (k : Int) } := by
  unfold EnsureDeviceIsProbed
  have hp := probeDevices_claimed address bus.m_devicesUnsafe.length 0 bus k pClaimant
    (Nat.zero_add _) hunk (Nat.zero_le _) hD hclaim
    (by intro j d _ hj hd; exact hothers j d hj hd)
  rw [if_pos hunk, hp]
  have hne : ((k : Int) = MemoryDeviceStatus.Unknown) ↔ False := by
    unfold MemoryDeviceStatus.Unknown
    constructor
    · intro h; omega
    · exact False.elim
  simp only [Outcome.andThen, Function.update_same, hne, if_false]

theorem callDevice_some (bus : MemoryBus δ) (deviceIndex : Nat)
    (requestType : MemoryRequestType) (address value : Nat) (pDevice : IMemoryBusDevice δ)
    (h : bus.m_devicesUnsafe[deviceIndex]? = some pDevice) :
    callDevice bus deviceIndex requestType address value
      = .ok (servedByte requestType address value pDevice)
          { bus with m_devicesUnsafe :=
              bus.m_devicesUnsafe.set deviceIndex (served requestType address value pDevice) } := by
  unfold callDevice
  rw [h]
  rfl

/-- An access to an address whose cache entry names a device goes to that device alone. -/
theorem Read8_cached (bus : MemoryBus δ) (address k : Nat) (t : Bool)
    (pDevice : IMemoryBusDevice δ) (hram : IsBusOwnedRam address = false)
    (hk : bus.m_deviceIndexAtAddress address = (k : Int))
    (hD : bus.m_devicesUnsafe[k]? = some pDevice) :
    Read8 bus address t
      = .ok (servedByte .Read address 0 pDevice, true)
          { bus with m_devicesUnsafe :=
              bus.m_devicesUnsafe.set k (served .Read address 0 pDevice) } := by
  have hne : bus.m_deviceIndexAtAddress address ≠ MemoryDeviceStatus.Unknown := by
    rw [hk]; unfold MemoryDeviceStatus.Unknown; omega
  have hge : (k : Int) ≥ 0 := by omega
  rw [Read8_not_ram bus address t hram, EnsureDeviceIsProbed_known bus address hne]
  simp only [Outcome.andThen, hk, hge, if_true, Int.toNat_ofNat,
    callDevice_some bus k .Read address 0 pDevice hD]

theorem Write8_cached (bus : MemoryBus δ) (address k value : Nat)
    (pDevice : IMemoryBusDevice δ) (hram : IsBusOwnedRam address = false)
    (hk : bus.m_deviceIndexAtAddress address = (k : Int))
    (hD : bus.m_devicesUnsafe[k]? = some pDevice) :
    Write8 bus address value
      = .ok () { bus with m_devicesUnsafe :=
          bus.m_devicesUnsafe.set k (served .Write address value pDevice) } := by
  have hne : bus.m_deviceIndexAtAddress address ≠ MemoryDeviceStatus.Unknown := by
    rw [hk]; unfold MemoryDeviceStatus.Unknown; omega
  have hge : (k : Int) ≥ 0 := by omega
  rw [Write8_not_ram bus address value hram, EnsureDeviceIsProbed_known bus address hne]
  simp only [Outcome.andThen, hk, hge, if_true, Int.toNat_ofNat,
    callDevice_some bus k .Write address value pDevice hD]

/-- An access to an address whose cache entry is Unset goes to the registers. -/
theorem Read8_unset (bus : MemoryBus δ) (address : Nat) (t : Bool)
    (hram : IsBusOwnedRam address = false)
    (hk : bus.m_deviceIndexAtAddress address = MemoryDeviceStatus.Unset) :
    Read8 bus address t = ReadMemoryMappedRegister bus address t := by
  have hne : bus.m_deviceIndexAtAddress address ≠ MemoryDeviceStatus.Unknown := by
    rw [hk]; decide
  have hge : ¬ (MemoryDeviceStatus.Unset ≥ 0) := by decide
  rw [Read8_not_ram bus address t hram, EnsureDeviceIsProbed_known bus address hne]
  simp only [Outcome.andThen, hk, hge, if_false]

end MemoryBus

namespace MemoryBus
variable {δ : Type}

theorem probedFrom_zero_getElem? (address k : Nat) (devices : List (IMemoryBusDevice δ))
    (pDevice : IMemoryBusDevice δ) (h : devices[k]? = some pDevice) :
    (probedFrom address 0 devices)[k]? = some (probed address pDevice) := by
  rw [probedFrom_getElem?, h]
  simp

/-- The first read of an address that exactly one device claims. -/
theorem Read8_first_claimed (bus : MemoryBus δ) (address k : Nat) (t : Bool)
    (pClaimant : IMemoryBusDevice δ) (hram : IsBusOwnedRam address = false)
    (hunk : bus.m_deviceIndexAtAddress address = MemoryDeviceStatus.Unknown)
    (hD : bus.m_devicesUnsafe[k]? = some pClaimant) (hclaim : claims address pClaimant = true)
    (hothers : ∀ (j : Nat) (pDevice : IMemoryBusDevice δ), j ≠ k →
      bus.m_devicesUnsafe[j]? = some pDevice → claims address pDevice = false) :
    Read8 bus address t
      = .ok (servedByte .Read address 0 (probed address pClaimant), true)
          { bus with
            m_devicesUnsafe := (probedFrom address 0 bus.m_devicesUnsafe).set k
              (served .Read address 0 (probed address pClaimant))
            m_deviceIndexAtAddress :=
              Function.update bus.m_deviceIndexAtAddress address (k : Int) } := by
  have hge : (k : Int) ≥ 0 := by omega
  rw [Read8_not_ram bus address t hram,
    EnsureDeviceIsProbed_claimed bus address k pClaimant hunk hD hclaim hothers]
  simp only [Outcome.andThen, Function.update_same, hge, if_true, Int.toNat_ofNat]
  rw [callDevice_some _ k .Read address 0 (probed address pClaimant)
    (probedFrom_zero_getElem? address k _ pClaimant hD)]

/-- The first write of an address that exactly one device claims. -/
theorem Write8_first_claimed (bus : MemoryBus δ) (address k value : Nat)
    (pClaimant : IMemoryBusDevice δ) (hram : IsBusOwnedRam address = false)
    (hunk : bus.m_deviceIndexAtAddress address = MemoryDeviceStatus.Unknown)
    (hD : bus.m_devicesUnsafe[k]? = some pClaimant) (hclaim : claims address pClaimant = true)
    (hothers : ∀ (j : Nat) (pDevice : IMemoryBusDevice δ), j ≠ k →
      bus.m_devicesUnsafe[j]? = some pDevice → claims address pDevice = false) :
    Write8 bus address value
      = .ok ()
          { bus with
            m_devicesUnsafe := (probedFrom address 0 bus.m_devicesUnsafe).set k
              (served .Write address value (probed address pClaimant))
            m_deviceIndexAtAddress :=
              Function.update bus.m_deviceIndexAtAddress address (k : Int) } := by
  have hge : (k : Int) ≥ 0 := by omega
  rw [Write8_not_ram bus address value hram,
    EnsureDeviceIsProbed_claimed bus address k pClaimant hunk hD hclaim hothers]
  simp only [Outcome.andThen, Function.update_same, hge, if_true, Int.toNat_ofNat]
  rw [callDevice_some _ k .Write address value (probed address pClaimant)
    (probedFrom_zero_getElem? address k _ pClaimant hD)]

end MemoryBus

namespace MemoryBus
variable {δ : Type}

theorem AddDevice_getElem?_old (bus : MemoryBus δ) (pDevice pOld : IMemoryBusDevice δ)
    (i : Nat) (h : bus.m_devicesUnsafe[i]? = some pOld) :
    (AddDevice bus pDevice).m_devicesUnsafe[i]? = some pOld := by
  rcases List.getElem?_eq_some.1 h with ⟨hl, _⟩
  show (bus.m_devicesUnsafe ++ [pDevice])[i]? = some pOld
  rw [List.getElem?_append_left hl, h]

theorem AddDevice_getElem?_new (bus : MemoryBus δ) (pDevice : IMemoryBusDevice δ) :
    (AddDevice bus pDevice).m_devicesUnsafe[bus.m_devicesUnsafe.length]? = some pDevice := by
  show (bus.m_devicesUnsafe ++ [pDevice])[bus.m_devicesUnsafe.length]? = some pDevice
  simp

theorem AddDevice_getElem?_cases (bus : MemoryBus δ) (pDevice p : IMemoryBusDevice δ)
    (j : Nat) (h : (AddDevice bus pDevice).m_devicesUnsafe[j]? = some p) :
    bus.m_devicesUnsafe[j]? = some p ∨ (j = bus.m_devicesUnsafe.length ∧ p = pDevice) := by
  have h2 : (bus.m_devicesUnsafe ++ [pDevice])[j]? = some p := h
  by_cases hj : j < bus.m_devicesUnsafe.length
  · rw [List.getElem?_append_left hj] at h2
    exact Or.inl h2
  · rw [List.getElem?_append_right (by omega)] at h2
    right
    cases hk : j - bus.m_devicesUnsafe.length with
    | zero =>
      rw [hk] at h2
      exact ⟨by omega, (Option.some.inj h2).symm⟩
    | succ n =>
      rw [hk] at h2
      cases h2

end MemoryBus

namespace MemoryBus
variable {δ : Type}

end MemoryBus

namespace MemoryBus
variable {δ : Type}

end MemoryBus

/-! ## The loop of `Update` -/

namespace MemoryBus
variable {δ : Type}

theorem sameMemory_refl (bus : MemoryBus δ) : sameMemory bus bus :=
  ⟨sameRam_refl bus, rfl, rfl⟩

theorem sameMemory_trans {b1 b2 b3 : MemoryBus δ} (h12 : sameMemory b1 b2)
    (h23 : sameMemory b2 b3) : sameMemory b1 b3 :=
  ⟨sameRam_trans h12.1 h23.1, h12.2.1.trans h23.2.1, h12.2.2.trans h23.2.2⟩

theorem probeDevices_sameMemory (address : Nat) (n : Nat) :
    ∀ (deviceIndex : Nat) (bus : MemoryBus δ),
      sameMemory (probeDevices address n deviceIndex bus).state bus := by
  induction n with
  | zero => intro deviceIndex bus; exact sameMemory_refl bus
  | succ n ih =>
    intro deviceIndex bus
    unfold probeDevices
    split
    · exact sameMemory_refl bus
    · simp only
      split_ifs
      · exact sameMemory_trans (ih _ _) ⟨⟨rfl, rfl, rfl⟩, rfl, rfl⟩
      · exact ⟨⟨rfl, rfl, rfl⟩, rfl, rfl⟩
      · exact sameMemory_trans (ih _ _) ⟨⟨rfl, rfl, rfl⟩, rfl, rfl⟩

theorem EnsureDeviceIsProbed_sameMemory (bus : MemoryBus δ) (address : Nat) :
    sameMemory (EnsureDeviceIsProbed bus address).state bus := by
  unfold EnsureDeviceIsProbed
  split_ifs
  · have h := probeDevices_sameMemory address bus.m_devicesUnsafe.length 0 bus
    cases hp : probeDevices address bus.m_devicesUnsafe.length 0 bus with
    | ok v s =>
      rw [hp] at h
      simp only [Outcome.andThen]
      split_ifs
      · exact sameMemory_trans ⟨⟨rfl, rfl, rfl⟩, rfl, rfl⟩ h
      · exact h
    | thrown e s =>
      rw [hp] at h
      exact h
  · exact sameMemory_refl bus

theorem callDevice_sameMemory (bus : MemoryBus δ) (deviceIndex : Nat)
    (requestType : MemoryRequestType) (address value : Nat) :
    sameMemory (callDevice bus deviceIndex requestType address value).state bus := by
  unfold callDevice
  split
  · exact sameMemory_refl bus
  · exact ⟨⟨rfl, rfl, rfl⟩, rfl, rfl⟩

/-- A read changes no byte the bus stores and no register: at most the device cache and the
devices. -/
theorem Read8_sameMemory (bus : MemoryBus δ) (address : Nat) (t : Bool) :
    sameMemory (Read8 bus address t).state bus := by
  unfold Read8
  split_ifs
  · exact sameMemory_refl bus
  · exact sameMemory_refl bus
  · exact sameMemory_refl bus
  · exact sameMemory_refl bus
  · have h := EnsureDeviceIsProbed_sameMemory bus address
    cases hp : EnsureDeviceIsProbed bus address with
    | thrown e s => rw [hp] at h; exact h
    | ok v bus1 =>
      rw [hp] at h
      simp only [Outcome.andThen]
      split_ifs
      · have hc := callDevice_sameMemory bus1 (bus1.m_deviceIndexAtAddress address).toNat
          MemoryRequestType.Read address 0
        cases hq : callDevice bus1 (bus1.m_deviceIndexAtAddress address).toNat
            MemoryRequestType.Read address 0 with
        | thrown e s => rw [hq] at hc; exact sameMemory_trans hc h
        | ok v bus2 => rw [hq] at hc; exact sameMemory_trans hc h
      · rw [ReadMemoryMappedRegister_state]
        exact h

theorem SafeRead8_sameMemory (bus : MemoryBus δ) (address : Nat) :
    sameMemory (SafeRead8 bus address).state bus := by
  have h := Read8_sameMemory bus address false
  unfold SafeRead8
  cases hr : Read8 bus address false with
  | ok r s => rw [hr] at h; exact h
  | thrown e s => rw [hr] at h; exact h

end MemoryBus

namespace Cpu
open MemoryBus
variable {δ : Type}

end Cpu

namespace Cpu
variable {δ : Type}

end Cpu

/-! ## The LCD: rendering reads video RAM only -/

namespace Lcd
open MemoryBus
variable {δ : Type}

theorem busRead8_vram (bus : MemoryBus δ) (address : Nat)
    (h1 : 0x8000 ≤ address) (h2 : address < 0xA000) :
    busRead8 bus address = .ok (bus.m_vram (address - 0x8000)) bus := by
  have h : IsAddressInRange address MemoryBus.kVramBase MemoryBus.kVramSize = true := by
    rw [IsAddressInRange_iff]; simp only [MemoryBus.kVramBase, MemoryBus.kVramSize]; omega
  unfold busRead8 MemoryBus.Read8
  rw [if_pos h]
  rfl

theorem toUint8_tdiv8 (x : Int) (h0 : 0 ≤ x) (h1 : x < 256) : toUint8 (x.tdiv 8) < 32 := by
  rw [Int.tdiv_eq_ediv h0 (by norm_num)]
  unfold toUint8
  omega

theorem toUint8_tmod8 (x : Int) (h0 : 0 ≤ x) : toUint8 (x.tmod 8) < 8 := by
  rw [Int.tmod_eq_emod h0 (by norm_num)]
  unfold toUint8
  omega

theorem toUint8_lt (x : Int) : toUint8 x < 256 := by
  unfold toUint8
  omega

theorem GetTileIndexAtXY_ok (bus : MemoryBus δ) (base : Nat) (x y : Int)
    (hb : base = 0x9800 ∨ base = 0x9C00) (hx0 : 0 ≤ x) (hx1 : x < 256)
    (hy0 : 0 ≤ y) (hy1 : y < 256) :
    ∃ t, GetTileIndexAtXY bus base x y = .ok t bus ∧ t < 256 := by
  have hX := toUint8_tdiv8 x hx0 hx1
  have hY := toUint8_tdiv8 y hy0 hy1
  unfold GetTileIndexAtXY
  simp only [toUint16_natCast]
  rw [busRead8_vram bus _ (by omega) (by omega)]
  exact ⟨_, rfl, toUint8_lt _⟩

theorem GetTileDataPixelColorIndex_ok (bus : MemoryBus δ) (base : Nat) (tileIndex x y : Int)
    (hb : (base = 0x8000 ∧ 0 ≤ tileIndex ∧ tileIndex < 256) ∨
      (base = 0x9000 ∧ -128 ≤ tileIndex ∧ tileIndex < 128))
    (hy0 : 0 ≤ y) :
    ∃ c, GetTileDataPixelColorIndex bus base tileIndex x y = .ok c bus := by
  have hY := toUint8_tmod8 y hy0
  unfold GetTileDataPixelColorIndex
  simp only [toUint16_natCast]
  have ha : 0x8000 ≤ toUint16 ((base : Int) + tileIndex * 16 + (toUint8 (y.tmod 8) : Int) * 2) ∧
      toUint16 ((base : Int) + tileIndex * 16 + (toUint8 (y.tmod 8) : Int) * 2) < 0x9FFF := by
    unfold toUint16
    omega
  rw [busRead8_vram bus _ (by omega) (by omega)]
  simp only [Outcome.andThen]
  rw [busRead8_vram bus _ (by omega) (by omega)]
  exact ⟨_, rfl⟩

theorem toSint8_range (x : Nat) : -128 ≤ toSint8 x ∧ toSint8 x < 128 := by
  unfold toSint8
  split_ifs <;> omega

theorem backgroundLuminosity_ok (lcd : Lcd) (bus : MemoryBus δ) (screenX : Nat)
    (h : 0 ≤ lcd.m_scanLine) :
    ∃ l, backgroundLuminosity lcd bus screenX = .ok l bus := by
  have hx : ∀ z : Int, 0 ≤ z → ((toUint16 (z.tmod 256) : Nat) : Int) < 256 ∧
      (0 : Int) ≤ ((toUint16 (z.tmod 256) : Nat) : Int) := by
    intro z hz
    rw [Int.tmod_eq_emod hz (by norm_num)]
    unfold toUint16
    omega
  have hX := hx ((lcd.SCX : Int) + (screenX : Int)) (by omega)
  have hY := hx ((lcd.SCY : Int) + lcd.m_scanLine) (by omega)
  unfold backgroundLuminosity
  obtain ⟨t, ht, ht256⟩ := GetTileIndexAtXY_ok bus (if lcd.LCDC &&& Bit3 != 0 then 0x9C00 else 0x9800)
    (toUint16 (((lcd.SCX : Int) + (screenX : Int)).tmod 256))
    (toUint16 (((lcd.SCY : Int) + lcd.m_scanLine).tmod 256))
    (by split_ifs <;> simp) hX.2 hX.1 hY.2 hY.1
  simp only [ht, Outcome.andThen]
  obtain ⟨c, hc⟩ := GetTileDataPixelColorIndex_ok bus
    (if lcd.LCDC &&& Bit4 != 0 then 0x8000 else 0x9000)
    (if lcd.LCDC &&& Bit4 != 0 then (t : Int)
      else if (t : Int) > 127 then (t : Int) - 256 else (t : Int))
    (toUint16 (((lcd.SCX : Int) + (screenX : Int)).tmod 256))
    (toUint16 (((lcd.SCY : Int) + lcd.m_scanLine).tmod 256))
    (by split_ifs <;> omega) hY.2
  rw [hc]
  exact ⟨_, rfl⟩

theorem windowLuminosity_ok (lcd : Lcd) (bus : MemoryBus δ) (screenX current : Nat) :
    ∃ l, windowLuminosity lcd bus screenX current = .ok l bus := by
  unfold windowLuminosity
  dsimp only
  by_cases hw : toSint16 ((screenX : Int) - ((lcd.WX : Int) - 7)) ≥ 0 ∧
      toSint16 ((screenX : Int) - ((lcd.WX : Int) - 7)) < 160 ∧
      toSint16 (lcd.m_scanLine - (lcd.WY : Int)) ≥ 0 ∧
      toSint16 (lcd.m_scanLine - (lcd.WY : Int)) < 144
  · rw [if_pos hw]
    obtain ⟨hx0, hx1, hy0, hy1⟩ := hw
    obtain ⟨t, ht, _⟩ := GetTileIndexAtXY_ok bus (if lcd.LCDC &&& Bit6 != 0 then 0x9C00 else 0x9800)
      (toSint16 ((screenX : Int) - ((lcd.WX : Int) - 7)))
      (toSint16 (lcd.m_scanLine - (lcd.WY : Int)))
      (by split_ifs <;> simp) hx0 (by omega) hy0 (by omega)
    rw [ht]
    simp only [Outcome.andThen]
    obtain ⟨c, hc⟩ := GetTileDataPixelColorIndex_ok bus 0x9000 (toSint8 t)
      (toSint16 ((screenX : Int) - ((lcd.WX : Int) - 7)))
      (toSint16 (lcd.m_scanLine - (lcd.WY : Int)))
      (Or.inr ⟨rfl, toSint8_range t⟩) hy0
    rw [hc]
    exact ⟨_, rfl⟩
  · rw [if_neg hw]
    exact ⟨_, rfl⟩

theorem renderPixel_ok (lcd : Lcd) (bus : MemoryBus δ) (screenX : Nat)
    (h : 0 ≤ lcd.m_scanLine) :
    ∃ pixel, renderPixel lcd bus screenX = .ok pixel bus := by
  unfold renderPixel
  have h1 : ∃ l, (if lcd.LCDC &&& Bit0 != 0 then backgroundLuminosity lcd bus screenX
      else .ok 0xFF bus) = .ok l bus := by
    split_ifs
    · exact backgroundLuminosity_ok lcd bus screenX h
    · exact ⟨_, rfl⟩
  obtain ⟨l, hl⟩ := h1
  rw [hl]
  simp only [Outcome.andThen]
  have h2 : ∃ l2, (if lcd.LCDC &&& Bit5 != 0 then windowLuminosity lcd bus screenX l
      else .ok l bus) = .ok l2 bus := by
    split_ifs
    · exact windowLuminosity_ok lcd bus screenX l
    · exact ⟨_, rfl⟩
  obtain ⟨l2, hl2⟩ := h2
  rw [hl2]
  exact ⟨_, rfl⟩

/-- What the pixel loop leaves: the same LCD but for the frame buffer, which differs only in
the row `LY`, and the same bus. -/
theorem renderPixels_ok (bus : MemoryBus δ) (n : Nat) :
    ∀ (screenX : Nat) (lcd : Lcd), 0 ≤ lcd.m_scanLine →
      ∃ fb, renderPixels n screenX (lcd, bus) = .ok () ({ lcd with m_pFrameBuffer := fb }, bus) ∧
        ∀ x y, y ≠ lcd.LY → fb x y = lcd.m_pFrameBuffer x y := by
  induction n with
  | zero => intro screenX lcd _; exact ⟨lcd.m_pFrameBuffer, rfl, fun _ _ _ => rfl⟩
  | succ n ih =>
    intro screenX lcd h
    obtain ⟨pixel, hp⟩ := renderPixel_ok lcd bus screenX h
    unfold renderPixels
    simp only [hp]
    obtain ⟨fb, hfb, hrow⟩ := ih (screenX + 1) { lcd with m_pFrameBuffer := fun x y =>
      if x = screenX ∧ y = lcd.LY then pixel else lcd.m_pFrameBuffer x y } h
    refine ⟨fb, hfb, ?_⟩
    intro x y hy
    rw [hrow x y hy]
    simp only
    rw [if_neg (fun hc => hy hc.2)]

theorem RenderScanline_ok (lcd : Lcd) (bus : MemoryBus δ) (h : 0 ≤ lcd.m_scanLine) :
    ∃ fb, RenderScanline (lcd, bus) =
        .ok (renderEvents lcd) ({ lcd with m_pFrameBuffer := fb }, bus) ∧
      ∀ x y, y ≠ lcd.LY → fb x y = lcd.m_pFrameBuffer x y := by
  unfold RenderScanline renderEvents
  dsimp only
  by_cases hLY : lcd.LY < kScreenHeight
  · rw [if_pos hLY, if_pos hLY]
    obtain ⟨fb, hfb, hrow⟩ := renderPixels_ok bus kScreenWidth 0 lcd h
    rw [hfb]
    exact ⟨fb, rfl, hrow⟩
  · rw [if_neg hLY, if_neg hLY]
    exact ⟨lcd.m_pFrameBuffer, rfl, fun _ _ _ => rfl⟩

end Lcd

/-! ## The LCD: one iteration of the loop of `Update` -/

namespace Lcd
open MemoryBus
variable {δ : Type}

theorem UpdateStep_disabled (lcd : Lcd) (bus : MemoryBus δ)
    (h : (lcd.LCDC &&& Bit7 != 0) = false) :
    lcd.UpdateStep bus = .ok []
      (finishStep false 1 { lcd with m_lastMode := 1, m_scanLine := -1, LY := 0,
                                     m_nextState := .ReadingOam }, bus) := by
  unfold UpdateStep
  simp only [h]
  rfl

theorem UpdateStep_ReadingOamAndVram (lcd : Lcd) (bus : MemoryBus δ)
    (h : (lcd.LCDC &&& Bit7 != 0) = true) (hs : lcd.m_nextState = .ReadingOamAndVram) :
    lcd.UpdateStep bus =
      .ok (afterSwitch ([], 3) { lcd with m_nextState := .HBlank }).1
        ((afterSwitch ([], 3) { lcd with m_nextState := .HBlank }).2, bus) := by
  unfold UpdateStep stepEnabled
  simp only [h, hs, if_true]
  rfl

theorem UpdateStep_HBlank (lcd : Lcd) (bus : MemoryBus δ)
    (h : (lcd.LCDC &&& Bit7 != 0) = true) (hs : lcd.m_nextState = .HBlank) :
    lcd.UpdateStep bus =
      .ok (afterSwitch ([], 0) { lcd with m_nextState := .ReadingOam }).1
        ((afterSwitch ([], 0) { lcd with m_nextState := .ReadingOam }).2, bus) := by
  unfold UpdateStep stepEnabled
  simp only [h, hs, if_true]
  rfl

theorem advanceScanLine_scanLine (lcd : Lcd) :
    (advanceScanLine lcd).2.m_scanLine =
      if lcd.m_scanLine + 1 > 153 then 0 else lcd.m_scanLine + 1 := by
  unfold advanceScanLine
  dsimp only
  split_ifs <;> rfl

theorem advanceScanLine_LY (lcd : Lcd) :
    (advanceScanLine lcd).2.LY =
      if lcd.m_scanLine + 1 > 153 then 0 else toUint8 ((lcd.LY : Int) + 1) := by
  unfold advanceScanLine
  dsimp only
  split_ifs <;> rfl

theorem advanceScanLine_STAT (lcd : Lcd) :
    (advanceScanLine lcd).2.STAT =
      if toUint8 ((lcd.LY : Int) + 1) = lcd.LYC then toUint8 ((lcd.STAT ||| Bit2 : Nat) : Int)
      else toUint8 ((lcd.STAT &&& (0xFFFFFFFF ^^^ Bit2) : Nat) : Int) := by
  unfold advanceScanLine
  dsimp only
  split_ifs <;> rfl

theorem advanceScanLine_events (lcd : Lcd) :
    (advanceScanLine lcd).1 =
      if toUint8 ((lcd.LY : Int) + 1) = lcd.LYC ∧ lcd.STAT &&& Bit6 != 0
      then [.SignalInterrupt Bit1] else [] := rfl

theorem advanceScanLine_same (lcd : Lcd) :
    (advanceScanLine lcd).2.m_lastMode = lcd.m_lastMode ∧
    (advanceScanLine lcd).2.LYC = lcd.LYC ∧
    (advanceScanLine lcd).2.LCDC = lcd.LCDC ∧
    (advanceScanLine lcd).2.m_nextState = lcd.m_nextState ∧
    (advanceScanLine lcd).2.m_wasLcdEnabledLastUpdate = lcd.m_wasLcdEnabledLastUpdate ∧
    (advanceScanLine lcd).2.m_pFrameBuffer = lcd.m_pFrameBuffer := by
  unfold advanceScanLine
  dsimp only
  split_ifs <;> exact ⟨rfl, rfl, rfl, rfl, rfl, rfl⟩

theorem modeChangeEvents_congr (l1 l2 : Lcd) (h : l1.STAT = l2.STAT) (mode : Nat) :
    modeChangeEvents l1 mode = modeChangeEvents l2 mode := by
  unfold modeChangeEvents
  rw [h]

theorem afterSwitch_frameBuffer (r : List LcdEvent × Nat) (lcd : Lcd) (fb : Nat → Nat → Nat) :
    afterSwitch r { lcd with m_pFrameBuffer := fb } =
      ((afterSwitch r lcd).1, { (afterSwitch r lcd).2 with m_pFrameBuffer := fb }) := by
  unfold afterSwitch reportMode
  simp only [finishStep, Bool.not_true, Bool.and_false, Bool.false_eq_true, if_false]
  rw [modeChangeEvents_congr { lcd with m_pFrameBuffer := fb } lcd rfl]

theorem UpdateStep_ReadingOam (lcd : Lcd) (bus : MemoryBus δ)
    (h : (lcd.LCDC &&& Bit7 != 0) = true) (hs : lcd.m_nextState = .ReadingOam)
    (hl : -1 ≤ lcd.m_scanLine) :
    ∃ fb, lcd.UpdateStep bus =
        .ok (afterSwitch ((advanceScanLine lcd).1 ++ renderEvents (advanceScanLine lcd).2, 2)
              { (advanceScanLine lcd).2 with m_nextState := .ReadingOamAndVram }).1
          ({ (afterSwitch ((advanceScanLine lcd).1 ++ renderEvents (advanceScanLine lcd).2, 2)
              { (advanceScanLine lcd).2 with m_nextState := .ReadingOamAndVram }).2
              with m_pFrameBuffer := fb }, bus) ∧
      ∀ x y, y ≠ (advanceScanLine lcd).2.LY → fb x y = lcd.m_pFrameBuffer x y := by
  have h0 : 0 ≤ (advanceScanLine lcd).2.m_scanLine := by
    rw [advanceScanLine_scanLine]; split_ifs <;> omega
  obtain ⟨fb, hfb, hrow⟩ := RenderScanline_ok (advanceScanLine lcd).2 bus h0
  refine ⟨fb, ?_, ?_⟩
  · have e : lcd.UpdateStep bus =
        .ok (afterSwitch ((advanceScanLine lcd).1 ++ renderEvents (advanceScanLine lcd).2, 2)
              { ({ (advanceScanLine lcd).2 with m_nextState := .ReadingOamAndVram } : Lcd)
                with m_pFrameBuffer := fb }).1
          ((afterSwitch ((advanceScanLine lcd).1 ++ renderEvents (advanceScanLine lcd).2, 2)
              { ({ (advanceScanLine lcd).2 with m_nextState := .ReadingOamAndVram } : Lcd)
                with m_pFrameBuffer := fb }).2, bus) := by
      unfold UpdateStep stepEnabled stepReadingOam
      simp only [h, hs, if_true, hfb, Outcome.andThen]
      rfl
    rw [e, afterSwitch_frameBuffer]
  · intro x y hy
    rw [hrow x y hy, (advanceScanLine_same lcd).2.2.2.2.2]

end Lcd

/-! ## The LCD: the fields after a step, and the bits of STAT -/

theorem and_Bit2_ne_zero (x : Nat) : (x &&& Bit2 != 0) = x.testBit 2 :=
  and_two_pow_ne_zero x 2

theorem and_Bit3_ne_zero (x : Nat) : (x &&& Bit3 != 0) = x.testBit 3 :=
  and_two_pow_ne_zero x 3

theorem and_Bit4_ne_zero (x : Nat) : (x &&& Bit4 != 0) = x.testBit 4 :=
  and_two_pow_ne_zero x 4

theorem and_Bit5_ne_zero (x : Nat) : (x &&& Bit5 != 0) = x.testBit 5 :=
  and_two_pow_ne_zero x 5

theorem and_Bit6_ne_zero (x : Nat) : (x &&& Bit6 != 0) = x.testBit 6 :=
  and_two_pow_ne_zero x 6

namespace Lcd
open MemoryBus
variable {δ : Type}

/-- The low two bits of STAT after `finishStep` are the mode. -/
theorem stat_mode_low (S mode : Nat) (h : mode < 4) :
    toUint8 (((S &&& (0xFFFFFFFF ^^^ (Bit1 ||| Bit0))) ||| mode : Nat) : Int) &&& 3 = mode := by
  have h32 : (0xFFFFFFFF : Nat) = 2 ^ 32 - 1 := by norm_num
  have h3 : (Bit1 ||| Bit0 : Nat) = 2 ^ 2 - 1 := by decide
  have h3' : (3 : Nat) = 2 ^ 2 - 1 := by norm_num
  have h256 : (256 : Nat) = 2 ^ 8 := by norm_num
  rw [toUint8_natCast, h32, h3, h3', h256]
  apply Nat.eq_of_testBit_eq
  intro i
  simp only [Nat.testBit_mod_two_pow, Nat.testBit_and, Nat.testBit_or, Nat.testBit_xor,
    Nat.testBit_two_pow_sub_one]
  by_cases hi : i < 2
  · have h8 : i < 8 := by omega
    have h32 : i < 32 := by omega
    simp [hi, h8, h32]
  · have hm : mode.testBit i = false :=
      Nat.testBit_lt_two_pow (lt_of_lt_of_le h (by
        calc 4 = 2 ^ 2 := by norm_num
          _ ≤ 2 ^ i := Nat.pow_le_pow_right (by norm_num) (by omega)))
    simp [hi, hm]

/-- The other bits of STAT after `finishStep` are those before. -/
theorem stat_mode_high (S mode i : Nat) (h : mode < 4) (h2 : 2 ≤ i) (h8 : i < 8) :
    (toUint8 (((S &&& (0xFFFFFFFF ^^^ (Bit1 ||| Bit0))) ||| mode : Nat) : Int)).testBit i =
      S.testBit i := by
  have h32 : (0xFFFFFFFF : Nat) = 2 ^ 32 - 1 := by norm_num
  have h3 : (Bit1 ||| Bit0 : Nat) = 2 ^ 2 - 1 := by decide
  have h256 : (256 : Nat) = 2 ^ 8 := by norm_num
  rw [toUint8_natCast, h32, h3, h256]
  have hm : mode.testBit i = false :=
    Nat.testBit_lt_two_pow (lt_of_lt_of_le h (by
      calc 4 = 2 ^ 2 := by norm_num
        _ ≤ 2 ^ i := Nat.pow_le_pow_right (by norm_num) h2))
  have hi : ¬ i < 2 := by omega
  have hi32 : i < 32 := by omega
  simp only [Nat.testBit_mod_two_pow, Nat.testBit_and, Nat.testBit_or, Nat.testBit_xor,
    Nat.testBit_two_pow_sub_one]
  simp [hm, hi, h8, hi32]

/-- A write to STAT keeps the low three bits. -/
theorem stat_write_low (value S i : Nat) (hi : i < 3) :
    (toUint8 (((value &&& (Bit6 ||| Bit5 ||| Bit4 ||| Bit3)) |||
      (S &&& (Bit2 ||| Bit1 ||| Bit0)) : Nat) : Int)).testBit i = S.testBit i := by
  have h7 : (Bit2 ||| Bit1 ||| Bit0 : Nat) = 2 ^ 3 - 1 := by decide
  have h78 : (Bit6 ||| Bit5 ||| Bit4 ||| Bit3 : Nat) = 0x78 := by decide
  have h256 : (256 : Nat) = 2 ^ 8 := by norm_num
  rw [toUint8_natCast, h7, h78, h256]
  have h8 : i < 8 := by omega
  have hv : (0x78 : Nat).testBit i = false := by
    interval_cases i <;> decide
  simp only [Nat.testBit_mod_two_pow, Nat.testBit_and, Nat.testBit_or,
    Nat.testBit_two_pow_sub_one]
  simp [hi, h8, hv]

theorem and_3_eq_of_testBit (a b : Nat) (h : ∀ i, i < 2 → a.testBit i = b.testBit i) :
    a &&& 3 = b &&& 3 := by
  have h3 : (3 : Nat) = 2 ^ 2 - 1 := by norm_num
  rw [h3]
  apply Nat.eq_of_testBit_eq
  intro i
  simp only [Nat.testBit_and, Nat.testBit_two_pow_sub_one]
  by_cases hi : i < 2
  · simp [hi, h i hi]
  · simp [hi]

/-- The bits of STAT other than bit 2 after `advanceScanLine` are those before. -/
theorem advanceScanLine_STAT_testBit (lcd : Lcd) (i : Nat) (h2 : i ≠ 2) (h8 : i < 8) :
    (advanceScanLine lcd).2.STAT.testBit i = lcd.STAT.testBit i := by
  have h32 : (0xFFFFFFFF : Nat) = 2 ^ 32 - 1 := by norm_num
  have hb : (Bit2 : Nat) = 2 ^ 2 := by decide
  have h256 : (256 : Nat) = 2 ^ 8 := by norm_num
  have hi32 : i < 32 := by omega
  rw [advanceScanLine_STAT]
  split_ifs
  · rw [toUint8_natCast, hb, h256]
    simp only [Nat.testBit_mod_two_pow, Nat.testBit_or, Nat.testBit_two_pow]
    simp [h8, Ne.symm h2]
  · rw [toUint8_natCast, hb, h256, h32]
    simp only [Nat.testBit_mod_two_pow, Nat.testBit_and, Nat.testBit_xor, Nat.testBit_two_pow,
      Nat.testBit_two_pow_sub_one]
    simp [h8, hi32, Ne.symm h2]

/-- Bit 2 of STAT after `advanceScanLine`: the comparison of the advanced LY with LYC. -/
theorem advanceScanLine_STAT_bit2 (lcd : Lcd) :
    (advanceScanLine lcd).2.STAT.testBit 2 = decide (toUint8 ((lcd.LY : Int) + 1) = lcd.LYC) := by
  have h32 : (0xFFFFFFFF : Nat) = 2 ^ 32 - 1 := by norm_num
  have hb : (Bit2 : Nat) = 2 ^ 2 := by decide
  have h256 : (256 : Nat) = 2 ^ 8 := by norm_num
  rw [advanceScanLine_STAT]
  split_ifs with hc
  · rw [toUint8_natCast, hb, h256]
    simp only [Nat.testBit_mod_two_pow, Nat.testBit_or, Nat.testBit_two_pow]
    simp [hc]
  · rw [toUint8_natCast, hb, h256, h32]
    simp only [Nat.testBit_mod_two_pow, Nat.testBit_and, Nat.testBit_xor, Nat.testBit_two_pow,
      Nat.testBit_two_pow_sub_one]
    simp [hc]

/-- The fields of the LCD after the statements that follow the state switch. -/
theorem afterSwitch_fields (r : List LcdEvent × Nat) (lcd : Lcd) :
    (afterSwitch r lcd).2.m_scanLine = lcd.m_scanLine ∧
    (afterSwitch r lcd).2.LY = lcd.LY ∧
    (afterSwitch r lcd).2.LYC = lcd.LYC ∧
    (afterSwitch r lcd).2.LCDC = lcd.LCDC ∧
    (afterSwitch r lcd).2.m_nextState = lcd.m_nextState ∧
    (afterSwitch r lcd).2.m_lastMode = ((if lcd.m_scanLine ≥ 144 then 1 else r.2 : Nat) : Int) ∧
    (afterSwitch r lcd).2.STAT =
      toUint8 (((lcd.STAT &&& (0xFFFFFFFF ^^^ (Bit1 ||| Bit0))) |||
        (if lcd.m_scanLine ≥ 144 then 1 else r.2) : Nat) : Int) ∧
    (afterSwitch r lcd).2.m_pFrameBuffer = lcd.m_pFrameBuffer := by
  simp only [afterSwitch, reportMode, finishStep, Bool.not_true, Bool.and_false,
    Bool.false_eq_true, if_false, and_self]

theorem afterSwitch_events (r : List LcdEvent × Nat) (lcd : Lcd) :
    (afterSwitch r lcd).1 =
      if ((if lcd.m_scanLine ≥ 144 then 1 else r.2 : Nat) : Int) ≠ lcd.m_lastMode
      then r.1 ++ modeChangeEvents lcd (if lcd.m_scanLine ≥ 144 then 1 else r.2) else r.1 := rfl

end Lcd

/-! ## The LCD: what holds in every state the program can be in -/

namespace Lcd
open MemoryBus
variable {δ : Type}

theorem Reset_fields (lcd : Lcd) :
    lcd.Reset.m_scanLine = 0 ∧ lcd.Reset.m_lastMode = 0 ∧ lcd.Reset.STAT = 0 ∧
    lcd.Reset.LY = 0 ∧ lcd.Reset.LYC = 0 ∧ lcd.Reset.LCDC = 0x91 ∧
    lcd.Reset.m_nextState = .ReadingOam ∧ lcd.Reset.m_wasLcdEnabledLastUpdate = true :=
  ⟨rfl, rfl, rfl, rfl, rfl, rfl, rfl, rfl⟩

theorem finishStep_fields (b : Bool) (mode : Nat) (lcd : Lcd) :
    (finishStep b mode lcd).m_scanLine = lcd.m_scanLine ∧
    (finishStep b mode lcd).LY = lcd.LY ∧
    (finishStep b mode lcd).LYC = lcd.LYC ∧
    (finishStep b mode lcd).LCDC = lcd.LCDC ∧
    (finishStep b mode lcd).m_nextState = lcd.m_nextState ∧
    (finishStep b mode lcd).m_lastMode = lcd.m_lastMode ∧
    (finishStep b mode lcd).STAT =
      toUint8 (((lcd.STAT &&& (0xFFFFFFFF ^^^ (Bit1 ||| Bit0))) ||| mode : Nat) : Int) ∧
    (finishStep b mode lcd).m_wasLcdEnabledLastUpdate = b := by
  unfold finishStep
  dsimp only
  split_ifs <;> exact ⟨rfl, rfl, rfl, rfl, rfl, rfl, rfl, rfl⟩

theorem finishStep_frameBuffer (b : Bool) (mode : Nat) (lcd : Lcd) :
    (finishStep b mode lcd).m_pFrameBuffer =
      if lcd.m_wasLcdEnabledLastUpdate && !b then lcd.RenderDisabledFrameBuffer.m_pFrameBuffer
      else lcd.m_pFrameBuffer := by
  unfold finishStep
  dsimp only
  split_ifs <;> rfl

/-- What `HandleRequest` can do to the LCD: store into one of the two arrays or into one
register, or nothing. -/
theorem HandleRequest_cases (requestType : MemoryRequestType) (address value : Nat)
    (lcd : Lcd) (P : Lcd → Prop) (hsame : P lcd)
    (hvram : ∀ m, P { lcd with m_vram := m }) (hoam : ∀ m, P { lcd with m_oam := m })
    (hLCDC : ∀ x, P { lcd with LCDC := x })
    (hSTAT : P { lcd with STAT := toUint8 (((value &&& (Bit6 ||| Bit5 ||| Bit4 ||| Bit3)) |||
          (lcd.STAT &&& (Bit2 ||| Bit1 ||| Bit0)) : Nat) : Int) })
    (hSCY : ∀ x, P { lcd with SCY := x }) (hSCX : ∀ x, P { lcd with SCX := x })
    (hLY : P { lcd with LY := 0 }) (hLYC : ∀ x, P { lcd with LYC := x })
    (hBGP : ∀ x, P { lcd with BGP := x }) (hOBP0 : ∀ x, P { lcd with OBP0 := x })
    (hOBP1 : ∀ x, P { lcd with OBP1 := x }) (hWY : ∀ x, P { lcd with WY := x })
    (hWX : ∀ x, P { lcd with WX := x }) :
    P (HandleRequest requestType address value lcd).2.2.1 := by
  unfold HandleRequest
  dsimp only
  by_cases c0 : (ServiceMemoryRangeRequest requestType address value kVramBase kVramSize lcd.m_vram).1 = true
  · rw [if_pos c0]
    exact hvram _
  rw [if_neg c0]
  by_cases c1 : (ServiceMemoryRangeRequest requestType address value kOamBase kOamSize lcd.m_oam).1 = true
  · rw [if_pos c1]
    exact hoam _
  rw [if_neg c1]
  by_cases c2 : address = 0xFF40
  · rw [if_pos c2]
    exact hLCDC _
  rw [if_neg c2]
  by_cases c3 : address = 0xFF41
  · rw [if_pos c3]
    cases requestType
    · exact hsame
    · exact hSTAT
  rw [if_neg c3]
  by_cases c4 : address = 0xFF42
  · rw [if_pos c4]
    exact hSCY _
  rw [if_neg c4]
  by_cases c5 : address = 0xFF43
  · rw [if_pos c5]
    exact hSCX _
  rw [if_neg c5]
  by_cases c6 : address = 0xFF44
  · rw [if_pos c6]
    cases requestType
    · exact hsame
    · exact hLY
  rw [if_neg c6]
  by_cases c7 : address = 0xFF45
  · rw [if_pos c7]
    exact hLYC _
  rw [if_neg c7]
  by_cases c8 : address = 0xFF46
  · rw [if_pos c8]
    cases requestType <;> exact hsame
  rw [if_neg c8]
  by_cases c9 : address = 0xFF47
  · rw [if_pos c9]
    exact hBGP _
  rw [if_neg c9]
  by_cases c10 : address = 0xFF48
  · rw [if_pos c10]
    exact hOBP0 _
  rw [if_neg c10]
  by_cases c11 : address = 0xFF49
  · rw [if_pos c11]
    exact hOBP1 _
  rw [if_neg c11]
  by_cases c12 : address = 0xFF4A
  · rw [if_pos c12]
    exact hWY _
  rw [if_neg c12]
  by_cases c13 : address = 0xFF4B
  · rw [if_pos c13]
    exact hWX _
  rw [if_neg c13]
  exact hsame

/-- `HandleRequest` leaves the state machine alone and keeps the low three bits of STAT. -/
theorem HandleRequest_fields (requestType : MemoryRequestType) (address value : Nat)
    (lcd : Lcd) :
    (HandleRequest requestType address value lcd).2.2.1.m_scanLine = lcd.m_scanLine ∧
    (HandleRequest requestType address value lcd).2.2.1.m_lastMode = lcd.m_lastMode ∧
    (HandleRequest requestType address value lcd).2.2.1.m_nextState = lcd.m_nextState ∧
    (HandleRequest requestType address value lcd).2.2.1.m_wasLcdEnabledLastUpdate =
      lcd.m_wasLcdEnabledLastUpdate ∧
    ∀ i, i < 3 → (HandleRequest requestType address value lcd).2.2.1.STAT.testBit i =
      lcd.STAT.testBit i := by
  refine HandleRequest_cases requestType address value lcd
    (fun r => r.m_scanLine = lcd.m_scanLine ∧ r.m_lastMode = lcd.m_lastMode ∧
      r.m_nextState = lcd.m_nextState ∧
      r.m_wasLcdEnabledLastUpdate = lcd.m_wasLcdEnabledLastUpdate ∧
      ∀ i, i < 3 → r.STAT.testBit i = lcd.STAT.testBit i)
    ?_ ?_ ?_ ?_ ?_ ?_ ?_ ?_ ?_ ?_ ?_ ?_ ?_ ?_
  all_goals first
    | exact ⟨rfl, rfl, rfl, rfl, fun _ _ => rfl⟩
    | exact ⟨rfl, rfl, rfl, rfl, fun i hi => stat_write_low value lcd.STAT i hi⟩
    | (intro x; exact ⟨rfl, rfl, rfl, rfl, fun _ _ => rfl⟩)

/-- A step from a state whose scanline is in -1 .. 153 returns, leaves the bus as it is, keeps
the scanline in that range, and leaves the mode in the low two bits of STAT. -/
theorem UpdateStep_invariant (lcd : Lcd) (bus : MemoryBus δ)
    (h1 : -1 ≤ lcd.m_scanLine) (h2 : lcd.m_scanLine ≤ 153) :
    ∃ events lcd1, lcd.UpdateStep bus = .ok events (lcd1, bus) ∧
      -1 ≤ lcd1.m_scanLine ∧ lcd1.m_scanLine ≤ 153 ∧
      ((lcd1.STAT &&& 3 : Nat) : Int) = lcd1.m_lastMode := by
  by_cases hen : (lcd.LCDC &&& Bit7 != 0) = true
  · cases hs : lcd.m_nextState with
    | HBlank =>
      refine ⟨_, _, UpdateStep_HBlank lcd bus hen hs, ?_⟩
      obtain ⟨f1, _, _, _, _, f6, f7, _⟩ :=
        afterSwitch_fields ([], 0) { lcd with m_nextState := .ReadingOam }
      rw [f1, f6, f7]
      refine ⟨h1, h2, ?_⟩
      rw [stat_mode_low _ _ (by dsimp only; split_ifs <;> omega)]
    | ReadingOamAndVram =>
      refine ⟨_, _, UpdateStep_ReadingOamAndVram lcd bus hen hs, ?_⟩
      obtain ⟨f1, _, _, _, _, f6, f7, _⟩ :=
        afterSwitch_fields ([], 3) { lcd with m_nextState := .HBlank }
      rw [f1, f6, f7]
      refine ⟨h1, h2, ?_⟩
      rw [stat_mode_low _ _ (by dsimp only; split_ifs <;> omega)]
    | ReadingOam =>
      obtain ⟨fb, hfb, _⟩ := UpdateStep_ReadingOam lcd bus hen hs h1
      refine ⟨_, _, hfb, ?_⟩
      obtain ⟨f1, _, _, _, _, f6, f7, _⟩ :=
        afterSwitch_fields ((advanceScanLine lcd).1 ++ renderEvents (advanceScanLine lcd).2, 2)
          { (advanceScanLine lcd).2 with m_nextState := .ReadingOamAndVram }
      dsimp only at f1 f6 f7 ⊢
      rw [f1, f6, f7, advanceScanLine_scanLine]
      refine ⟨by split_ifs <;> omega, by split_ifs <;> omega, ?_⟩
      rw [stat_mode_low _ _ (by split_ifs <;> omega)]
  · have hdis : (lcd.LCDC &&& Bit7 != 0) = false := by
      cases hb : (lcd.LCDC &&& Bit7 != 0)
      · rfl
      · exact absurd hb hen
    refine ⟨_, _, UpdateStep_disabled lcd bus hdis, ?_⟩
    obtain ⟨f1, _, _, _, _, f6, f7, _⟩ := finishStep_fields false 1
      { lcd with m_lastMode := 1, m_scanLine := -1, LY := 0, m_nextState := .ReadingOam }
    rw [f1, f6, f7]
    refine ⟨le_refl _, by norm_num, ?_⟩
    rw [stat_mode_low _ _ (by decide)]
    rfl

/-- In every state the program can be in the scanline is in -1 .. 153 and the low two bits
of STAT are the last mode. -/
theorem Reachable.invariant {lcd : Lcd} (h : Reachable lcd) :
    -1 ≤ lcd.m_scanLine ∧ lcd.m_scanLine ≤ 153 ∧
      ((lcd.STAT &&& 3 : Nat) : Int) = lcd.m_lastMode := by
  induction h with
  | reset lcd =>
    obtain ⟨f1, f2, f3, _⟩ := Reset_fields lcd
    rw [f1, f2, f3]
    exact ⟨by norm_num, by norm_num, rfl⟩
  | update lcd bus _ ih =>
    obtain ⟨events, lcd1, hstep, hinv⟩ := UpdateStep_invariant lcd bus ih.1 ih.2.1
    rw [hstep]
    exact hinv
  | request requestType address value lcd _ ih =>
    obtain ⟨f1, f2, _, _, f5⟩ := HandleRequest_fields requestType address value lcd
    rw [f1, f2, and_3_eq_of_testBit _ lcd.STAT (fun i hi => f5 i (by omega))]
    exact ih

end Lcd

/-! ## The LCD: an enabled step, phase by phase -/

namespace Lcd
open MemoryBus
variable {δ : Type}

theorem signals_append (a b : List LcdEvent) (mask : Nat) :
    signals (a ++ b) mask = (signals a mask || signals b mask) := by
  unfold signals
  simp only [List.mem_append]
  by_cases h1 : LcdEvent.SignalInterrupt mask ∈ a <;>
    by_cases h2 : LcdEvent.SignalInterrupt mask ∈ b <;> simp [h1, h2]

theorem signals_renderEvents (lcd : Lcd) (mask : Nat) :
    signals (renderEvents lcd) mask = false := by
  unfold signals renderEvents
  split_ifs <;> simp

theorem signals_modeChangeEvents_Bit0 (lcd : Lcd) (mode : Nat) :
    signals (modeChangeEvents lcd mode) Bit0 = decide (mode = 1) := by
  unfold signals modeChangeEvents
  split
  · split_ifs <;> simp [Bit0, Bit1]
  · split_ifs <;> simp [Bit0, Bit1]
  · split_ifs <;> simp [Bit0, Bit1]
  · rename_i h0 h1 h2
    simp
    exact h1

theorem signals_modeChangeEvents_Bit1 (lcd : Lcd) (mode : Nat) :
    signals (modeChangeEvents lcd mode) Bit1 =
      ((decide (mode = 0) && lcd.STAT.testBit 3) || (decide (mode = 1) && lcd.STAT.testBit 4) ||
        (decide (mode = 2) && lcd.STAT.testBit 5)) := by
  unfold signals modeChangeEvents
  split
  · rw [and_Bit3_ne_zero]
    by_cases hb : lcd.STAT.testBit 3 <;> simp [hb]
  · rw [and_Bit4_ne_zero]
    by_cases hb : lcd.STAT.testBit 4 <;> simp [hb, Bit0, Bit1]
  · rw [and_Bit5_ne_zero]
    by_cases hb : lcd.STAT.testBit 5 <;> simp [hb]
  · rename_i h0 h1 h2
    have e0 : decide (mode = 0) = false := decide_eq_false (fun h => h0 h)
    have e1 : decide (mode = 1) = false := decide_eq_false (fun h => h1 h)
    have e2 : decide (mode = 2) = false := decide_eq_false (fun h => h2 h)
    rw [e0, e1, e2]
    simp

theorem signals_advanceScanLine_Bit0 (lcd : Lcd) :
    signals (advanceScanLine lcd).1 Bit0 = false := by
  rw [advanceScanLine_events]
  unfold signals
  split_ifs <;> simp [Bit0, Bit1]

theorem signals_advanceScanLine_Bit1 (lcd : Lcd) :
    signals (advanceScanLine lcd).1 Bit1 =
      (decide (toUint8 ((lcd.LY : Int) + 1) = lcd.LYC) && lcd.STAT.testBit 6) := by
  rw [advanceScanLine_events, and_Bit6_ne_zero]
  unfold signals
  by_cases h1 : toUint8 ((lcd.LY : Int) + 1) = lcd.LYC <;>
    by_cases h2 : lcd.STAT.testBit 6 <;> simp [h1, h2]

/-- The signals of the statements that follow the state switch. -/
theorem signals_afterSwitch (r : List LcdEvent × Nat) (lcd : Lcd) (mask : Nat) :
    signals (afterSwitch r lcd).1 mask =
      (signals r.1 mask ||
        (decide (((if lcd.m_scanLine ≥ 144 then 1 else r.2 : Nat) : Int) ≠ lcd.m_lastMode) &&
          signals (modeChangeEvents lcd (if lcd.m_scanLine ≥ 144 then 1 else r.2)) mask)) := by
  rw [afterSwitch_events]
  by_cases h : ((if lcd.m_scanLine ≥ 144 then 1 else r.2 : Nat) : Int) ≠ lcd.m_lastMode
  · rw [if_pos h, signals_append, decide_eq_true h, Bool.true_and]
  · rw [if_neg h, decide_eq_false h, Bool.false_and, Bool.or_false]

end Lcd

namespace Lcd
open MemoryBus
variable {δ : Type}

/-- What the statements that follow the state switch leave, `mode` being the mode of the
phase or 1 past line 143. -/
theorem afterSwitch_summary (r : List LcdEvent × Nat) (lcd : Lcd) (hm : r.2 < 4) :
    (afterSwitch r lcd).2.m_lastMode = ((if lcd.m_scanLine ≥ 144 then 1 else r.2 : Nat) : Int) ∧
    (afterSwitch r lcd).2.STAT &&& 3 = (if lcd.m_scanLine ≥ 144 then 1 else r.2) ∧
    (∀ i, 2 ≤ i → i < 8 → (afterSwitch r lcd).2.STAT.testBit i = lcd.STAT.testBit i) ∧
    signals (afterSwitch r lcd).1 Bit0 =
      (signals r.1 Bit0 ||
        (decide ((afterSwitch r lcd).2.m_lastMode ≠ lcd.m_lastMode) &&
          decide ((afterSwitch r lcd).2.m_lastMode = 1))) ∧
    signals (afterSwitch r lcd).1 Bit1 =
      (signals r.1 Bit1 ||
        (decide ((afterSwitch r lcd).2.m_lastMode ≠ lcd.m_lastMode) &&
          ((decide ((afterSwitch r lcd).2.m_lastMode = 0) && lcd.STAT.testBit 3) ||
           (decide ((afterSwitch r lcd).2.m_lastMode = 1) && lcd.STAT.testBit 4) ||
           (decide ((afterSwitch r lcd).2.m_lastMode = 2) && lcd.STAT.testBit 5)))) := by
  obtain ⟨_, _, _, _, _, f6, f7, _⟩ := afterSwitch_fields r lcd
  have hmode : (if lcd.m_scanLine ≥ 144 then 1 else r.2 : Nat) < 4 := by split_ifs <;> omega
  have hcast : ∀ k : Nat, decide ((((if lcd.m_scanLine ≥ 144 then 1 else r.2 : Nat) : Nat) : Int)
      = (k : Int)) = decide ((if lcd.m_scanLine ≥ 144 then 1 else r.2 : Nat) = k) := by
    intro k
    by_cases h : (if lcd.m_scanLine ≥ 144 then 1 else r.2 : Nat) = k
    · rw [decide_eq_true h, decide_eq_true (by rw [h])]
    · rw [decide_eq_false h, decide_eq_false (fun hc => h (by exact_mod_cast hc))]
  refine ⟨f6, ?_, ?_, ?_, ?_⟩
  · rw [f7]
    exact stat_mode_low _ _ hmode
  · intro i h2 h8
    rw [f7]
    exact stat_mode_high _ _ i hmode h2 h8
  · rw [signals_afterSwitch, signals_modeChangeEvents_Bit0, f6]
    have := hcast 1
    simp only [Nat.cast_one] at this
    rw [this]
  · rw [signals_afterSwitch, signals_modeChangeEvents_Bit1, f6]
    have h0 := hcast 0
    have h1 := hcast 1
    have h2 := hcast 2
    simp only [Nat.cast_zero, Nat.cast_one, Nat.cast_ofNat] at h0 h1 h2
    rw [h0, h1, h2]

/-- The ReadingOam step in terms of `advanceScanLine` and `afterSwitch`: `L` is the LCD
when the state switch is left, but for the frame buffer. -/
theorem UpdateStep_ReadingOam_fields (lcd : Lcd) (bus : MemoryBus δ)
    (h : (lcd.LCDC &&& Bit7 != 0) = true) (hs : lcd.m_nextState = .ReadingOam)
    (hl : -1 ≤ lcd.m_scanLine) :
    ∃ L lcd1,
      lcd.UpdateStep bus = .ok
        (afterSwitch ((advanceScanLine lcd).1 ++ renderEvents (advanceScanLine lcd).2, 2) L).1
        (lcd1, bus) ∧
      (L.m_nextState = .ReadingOamAndVram ∧ L.m_scanLine = (advanceScanLine lcd).2.m_scanLine ∧
        L.LY = (advanceScanLine lcd).2.LY ∧ L.LYC = (advanceScanLine lcd).2.LYC ∧
        L.LCDC = (advanceScanLine lcd).2.LCDC ∧ L.STAT = (advanceScanLine lcd).2.STAT ∧
        L.m_lastMode = (advanceScanLine lcd).2.m_lastMode) ∧
      (lcd1.m_nextState =
          (afterSwitch ((advanceScanLine lcd).1 ++ renderEvents (advanceScanLine lcd).2, 2)
            L).2.m_nextState ∧
        lcd1.m_scanLine =
          (afterSwitch ((advanceScanLine lcd).1 ++ renderEvents (advanceScanLine lcd).2, 2)
            L).2.m_scanLine ∧
        lcd1.LY =
          (afterSwitch ((advanceScanLine lcd).1 ++ renderEvents (advanceScanLine lcd).2, 2)
            L).2.LY ∧
        lcd1.LYC =
          (afterSwitch ((advanceScanLine lcd).1 ++ renderEvents (advanceScanLine lcd).2, 2)
            L).2.LYC ∧
        lcd1.LCDC =
          (afterSwitch ((advanceScanLine lcd).1 ++ renderEvents (advanceScanLine lcd).2, 2)
            L).2.LCDC ∧
        lcd1.STAT =
          (afterSwitch ((advanceScanLine lcd).1 ++ renderEvents (advanceScanLine lcd).2, 2)
            L).2.STAT ∧
        lcd1.m_lastMode =
          (afterSwitch ((advanceScanLine lcd).1 ++ renderEvents (advanceScanLine lcd).2, 2)
            L).2.m_lastMode ∧
        lcd1.m_wasLcdEnabledLastUpdate = true) := by
  obtain ⟨fb, hfb, _⟩ := UpdateStep_ReadingOam lcd bus h hs hl
  refine ⟨_, _, hfb, ⟨rfl, rfl, rfl, rfl, rfl, rfl, rfl⟩, rfl, rfl, rfl, rfl, rfl, rfl, rfl, ?_⟩
  simp [afterSwitch, finishStep]

/-- One iteration of the loop of `Update` with the LCD enabled, from a state whose scanline
is in -1 .. 153: it returns, leaves the bus as it is, and the fields and signals are these. -/
theorem UpdateStep_enabled_summary (lcd : Lcd) (bus : MemoryBus δ)
    (hen : (lcd.LCDC &&& Bit7 != 0) = true) (h1 : -1 ≤ lcd.m_scanLine)
    (h2 : lcd.m_scanLine ≤ 153) :
    ∃ events lcd1, lcd.UpdateStep bus = .ok events (lcd1, bus) ∧
      lcd1.m_nextState =
        (match lcd.m_nextState with
         | .ReadingOam => .ReadingOamAndVram
         | .ReadingOamAndVram => .HBlank
         | .HBlank => .ReadingOam) ∧
      lcd1.m_scanLine =
        (if lcd.m_nextState = .ReadingOam then
          (if lcd.m_scanLine = 153 then 0 else lcd.m_scanLine + 1)
         else lcd.m_scanLine) ∧
      lcd1.LY =
        (if lcd.m_nextState = .ReadingOam then
          (if lcd.m_scanLine = 153 then 0 else toUint8 ((lcd.LY : Int) + 1))
         else lcd.LY) ∧
      lcd1.LYC = lcd.LYC ∧ lcd1.LCDC = lcd.LCDC ∧
      lcd1.m_lastMode =
        (if lcd1.m_scanLine ≥ 144 then 1
         else match lcd.m_nextState with
           | .ReadingOam => 2
           | .ReadingOamAndVram => 3
           | .HBlank => 0) ∧
      ((lcd1.STAT &&& 3 : Nat) : Int) = lcd1.m_lastMode ∧
      (∀ i, 3 ≤ i → i < 8 → lcd1.STAT.testBit i = lcd.STAT.testBit i) ∧
      lcd1.STAT.testBit 2 =
        (if lcd.m_nextState = .ReadingOam then decide (toUint8 ((lcd.LY : Int) + 1) = lcd.LYC)
         else lcd.STAT.testBit 2) ∧
      signals events Bit0 =
        (decide (lcd1.m_lastMode ≠ lcd.m_lastMode) && decide (lcd1.m_lastMode = 1)) ∧
      signals events Bit1 =
        ((decide (lcd.m_nextState = .ReadingOam) &&
            decide (toUint8 ((lcd.LY : Int) + 1) = lcd.LYC) && lcd.STAT.testBit 6) ||
          (decide (lcd1.m_lastMode ≠ lcd.m_lastMode) &&
            ((decide (lcd1.m_lastMode = 0) && lcd.STAT.testBit 3) ||
             (decide (lcd1.m_lastMode = 1) && lcd.STAT.testBit 4) ||
             (decide (lcd1.m_lastMode = 2) && lcd.STAT.testBit 5)))) ∧
      lcd1.m_wasLcdEnabledLastUpdate = true := by
  cases hs : lcd.m_nextState with
  | HBlank =>
    obtain ⟨f1, f2, f3, f4, f5, _, _, _⟩ :=
      afterSwitch_fields ([], 0) { lcd with m_nextState := .ReadingOam }
    obtain ⟨g1, g2, g3, g4, g5⟩ :=
      afterSwitch_summary ([], 0) { lcd with m_nextState := .ReadingOam } (by decide)
    refine ⟨_, _, UpdateStep_HBlank lcd bus hen hs, f5, f1, f2, f3, f4, ?_, ?_, ?_, ?_, g4, ?_, ?_⟩
    · rw [g1, f1]; dsimp only; split_ifs <;> rfl
    · rw [g2, g1]
    · intro i h3 h8; exact g3 i (by omega) h8
    · exact g3 2 (by norm_num) (by norm_num)
    · rw [g5]; simp [signals]
    · simp [afterSwitch, finishStep]
  | ReadingOamAndVram =>
    obtain ⟨f1, f2, f3, f4, f5, _, _, _⟩ :=
      afterSwitch_fields ([], 3) { lcd with m_nextState := .HBlank }
    obtain ⟨g1, g2, g3, g4, g5⟩ :=
      afterSwitch_summary ([], 3) { lcd with m_nextState := .HBlank } (by decide)
    refine ⟨_, _, UpdateStep_ReadingOamAndVram lcd bus hen hs, f5, f1, f2, f3, f4,
      ?_, ?_, ?_, ?_, g4, ?_, ?_⟩
    · rw [g1, f1]; dsimp only; split_ifs <;> rfl
    · rw [g2, g1]
    · intro i h3 h8; exact g3 i (by omega) h8
    · exact g3 2 (by norm_num) (by norm_num)
    · rw [g5]; simp [signals]
    · simp [afterSwitch, finishStep]
  | ReadingOam =>
    obtain ⟨L, lcd1, hstep, ⟨l1, l2, l3, l4, l5, l6, l7⟩, ⟨e1, e2, e3, e4, e5, e6, e7, e8⟩⟩ :=
      UpdateStep_ReadingOam_fields lcd bus hen hs h1
    obtain ⟨f1, f2, f3, f4, f5, _, _, _⟩ :=
      afterSwitch_fields ((advanceScanLine lcd).1 ++ renderEvents (advanceScanLine lcd).2, 2) L
    obtain ⟨g1, g2, g3, g4, g5⟩ :=
      afterSwitch_summary ((advanceScanLine lcd).1 ++ renderEvents (advanceScanLine lcd).2, 2) L
        (show (2 : Nat) < 4 by norm_num)
    obtain ⟨a1, a2, a3, _, _, _⟩ := advanceScanLine_same lcd
    have hsl2 : (advanceScanLine lcd).2.m_scanLine =
        if lcd.m_scanLine = 153 then 0 else lcd.m_scanLine + 1 := by
      rw [advanceScanLine_scanLine]; split_ifs <;> omega
    rw [← e7] at g1 g4 g5
    rw [← e6] at g2 g3
    rw [l7, a1] at g4 g5
    have g4b : signals (afterSwitch
        ((advanceScanLine lcd).1 ++ renderEvents (advanceScanLine lcd).2, 2) L).1 Bit0 =
        (decide (lcd1.m_lastMode ≠ lcd.m_lastMode) && decide (lcd1.m_lastMode = 1)) := by
      rw [g4, signals_append, signals_advanceScanLine_Bit0, signals_renderEvents]
      rfl
    refine ⟨_, lcd1, hstep, ?_, ?_, ?_, ?_, ?_, ?_, ?_, ?_, ?_, g4b, ?_, e8⟩
    · rw [e1, f5, l1]
    · rw [e2, f1, l2, hsl2, if_pos rfl]
    · rw [e3, f2, l3, advanceScanLine_LY, if_pos rfl]
      split_ifs <;> first | rfl | omega
    · rw [e4, f3, l4, a2]
    · rw [e5, f4, l5, a3]
    · rw [g1, e2, f1]
      dsimp only
      split_ifs <;> rfl
    · rw [g2, g1]
    · intro i h3 h8
      rw [g3 i (by omega) h8, l6]
      exact advanceScanLine_STAT_testBit lcd i (by omega) h8
    · rw [g3 2 (by norm_num) (by norm_num), l6, if_pos rfl]
      exact advanceScanLine_STAT_bit2 lcd
    · rw [g5, signals_append, signals_advanceScanLine_Bit1, signals_renderEvents, l6,
        advanceScanLine_STAT_testBit lcd 3 (by norm_num) (by norm_num),
        advanceScanLine_STAT_testBit lcd 4 (by norm_num) (by norm_num),
        advanceScanLine_STAT_testBit lcd 5 (by norm_num) (by norm_num)]
      simp only [Bool.or_false, decide_True, Bool.true_and]

end Lcd

namespace Lcd
open MemoryBus
variable {δ : Type}

/-- One iteration of the loop of `Update` with the LCD disabled. -/
theorem UpdateStep_disabled_summary (lcd : Lcd) (bus : MemoryBus δ)
    (h : (lcd.LCDC &&& Bit7 != 0) = false) :
    ∃ lcd1, lcd.UpdateStep bus = .ok [] (lcd1, bus) ∧
      lcd1.m_nextState = .ReadingOam ∧ lcd1.m_scanLine = -1 ∧ lcd1.LY = 0 ∧
      lcd1.LYC = lcd.LYC ∧ lcd1.LCDC = lcd.LCDC ∧ lcd1.m_lastMode = 1 ∧
      lcd1.STAT &&& 3 = 1 ∧
      (∀ i, 2 ≤ i → i < 8 → lcd1.STAT.testBit i = lcd.STAT.testBit i) ∧
      lcd1.m_wasLcdEnabledLastUpdate = false ∧
      (lcd.m_wasLcdEnabledLastUpdate = true →
        ∀ x y, x < 160 → y < 144 → lcd1.m_pFrameBuffer x y = 0xFFFF00FF) ∧
      (lcd.m_wasLcdEnabledLastUpdate = true →
        ∀ x y, ¬ (x < 160 ∧ y < 144) → lcd1.m_pFrameBuffer x y = lcd.m_pFrameBuffer x y) ∧
      (lcd.m_wasLcdEnabledLastUpdate = false → lcd1.m_pFrameBuffer = lcd.m_pFrameBuffer) := by
  obtain ⟨f1, f2, f3, f4, f5, f6, f7, f8⟩ := finishStep_fields false 1
    { lcd with m_lastMode := 1, m_scanLine := -1, LY := 0, m_nextState := .ReadingOam }
  have ffb := finishStep_frameBuffer false 1
    { lcd with m_lastMode := 1, m_scanLine := -1, LY := 0, m_nextState := .ReadingOam }
  refine ⟨_, UpdateStep_disabled lcd bus h, f5, f1, f2, f3, f4, f6, ?_, ?_, f8, ?_, ?_, ?_⟩
  · rw [f7]
    exact stat_mode_low _ 1 (by norm_num)
  · intro i h2 h8
    rw [f7]
    exact stat_mode_high _ 1 i (by norm_num) h2 h8
  · intro hw x y hx hy
    rw [ffb]
    simp only [hw, Bool.not_false, Bool.and_self, if_true, RenderDisabledFrameBuffer,
      kScreenWidth, kScreenHeight]
    rw [if_pos ⟨hx, hy⟩]
    rfl
  · intro hw x y hxy
    rw [ffb]
    simp only [hw, Bool.not_false, Bool.and_self, if_true, RenderDisabledFrameBuffer,
      kScreenWidth, kScreenHeight]
    rw [if_neg hxy]
  · intro hw
    rw [ffb]
    simp only [hw, Bool.not_false, Bool.and_true, Bool.false_eq_true, if_false]

theorem UpdateSteps_add_ok (a b : Nat) :
    ∀ (s s1 s2 : Lcd × MemoryBus δ) (e1 e2 : List LcdEvent),
      UpdateSteps a s = .ok e1 s1 → UpdateSteps b s1 = .ok e2 s2 →
        UpdateSteps (a + b) s = .ok (e1 ++ e2) s2 := by
  induction a with
  | zero =>
    intro s s1 s2 e1 e2 h1 h2
    unfold UpdateSteps at h1
    cases h1
    rw [Nat.zero_add, h2]
    rfl
  | succ a ih =>
    intro s s1 s2 e1 e2 h1 h2
    rw [Nat.add_right_comm]
    unfold UpdateSteps at h1 ⊢
    cases hstep : s.1.UpdateStep s.2 with
    | thrown e t => rw [hstep] at h1; cases h1
    | ok ev t =>
      rw [hstep] at h1
      simp only [Outcome.andThen] at h1 ⊢
      cases hrest : UpdateSteps a t with
      | thrown e u => rw [hrest] at h1; cases h1
      | ok ev2 u =>
        rw [hrest] at h1
        injection h1 with he hs
        subst he hs
        rw [ih t u s2 ev2 e2 hrest h2]
        simp only [List.append_assoc]

theorem UpdateSteps_one (s s1 : Lcd × MemoryBus δ) (events : List LcdEvent)
    (h : s.1.UpdateStep s.2 = .ok events s1) : UpdateSteps 1 s = .ok events s1 := by
  unfold UpdateSteps
  rw [h]
  simp [Outcome.andThen, UpdateSteps]

end Lcd

namespace Lcd
open MemoryBus
variable {δ : Type}

/-- A step of one of the two phases that follow ReadingOam, with the LCD enabled. -/
theorem UpdateStep_later_phase (lcd : Lcd) (bus : MemoryBus δ)
    (hen : (lcd.LCDC &&& Bit7 != 0) = true) (hs : lcd.m_nextState ≠ .ReadingOam)
    (h1 : -1 ≤ lcd.m_scanLine) (h2 : lcd.m_scanLine ≤ 153) :
    ∃ events lcd1, lcd.UpdateStep bus = .ok events (lcd1, bus) ∧
      lcd1.m_nextState =
        (match lcd.m_nextState with
         | .ReadingOam => .ReadingOamAndVram
         | .ReadingOamAndVram => .HBlank
         | .HBlank => .ReadingOam) ∧
      lcd1.m_scanLine = lcd.m_scanLine ∧ lcd1.LY = lcd.LY ∧
      lcd1.LYC = lcd.LYC ∧ lcd1.LCDC = lcd.LCDC ∧
      lcd1.m_lastMode =
        (if lcd.m_scanLine ≥ 144 then 1
         else match lcd.m_nextState with
           | .ReadingOam => 2
           | .ReadingOamAndVram => 3
           | .HBlank => 0) ∧
      (∀ i, 2 ≤ i → i < 8 → lcd1.STAT.testBit i = lcd.STAT.testBit i) := by
  obtain ⟨events, lcd1, hstep, n1, n2, n3, n4, n5, n6, _, n8, n9, _, _, _⟩ :=
    UpdateStep_enabled_summary lcd bus hen h1 h2
  rw [if_neg hs] at n2 n3 n9
  rw [n2] at n6
  refine ⟨events, lcd1, hstep, n1, n2, n3, n4, n5, n6, ?_⟩
  intro i hi h8
  by_cases h : i = 2
  · rw [h, n9]
  · exact n8 i (by omega) h8

/-- The three steps of one scanline, from a ReadingOam step that does not wrap. -/
theorem UpdateSteps_line (lcd : Lcd) (bus : MemoryBus δ)
    (hen : (lcd.LCDC &&& Bit7 != 0) = true) (hs : lcd.m_nextState = .ReadingOam)
    (h1 : -1 ≤ lcd.m_scanLine) (h2 : lcd.m_scanLine < 153) :
    ∃ events lcd1, UpdateSteps 3 (lcd, bus) = .ok events (lcd1, bus) ∧
      lcd1.m_nextState = .ReadingOam ∧ lcd1.m_scanLine = lcd.m_scanLine + 1 ∧
      lcd1.LY = toUint8 ((lcd.LY : Int) + 1) ∧ lcd1.LYC = lcd.LYC ∧ lcd1.LCDC = lcd.LCDC ∧
      lcd1.m_lastMode = (if lcd.m_scanLine + 1 ≥ 144 then 1 else 0) ∧
      (∀ i, 3 ≤ i → i < 8 → lcd1.STAT.testBit i = lcd.STAT.testBit i) := by
  obtain ⟨evA, lcdA, stepA, a1, a2, a3, a4, a5, _, _, a8, _, _, _, _⟩ :=
    UpdateStep_enabled_summary lcd bus hen h1 (by omega)
  rw [hs] at a1
  rw [if_pos hs, if_neg (by omega)] at a2 a3
  have henA : (lcdA.LCDC &&& Bit7 != 0) = true := by rw [a5]; exact hen
  obtain ⟨evB, lcdB, stepB, b1, b2, b3, b4, b5, _, b8⟩ :=
    UpdateStep_later_phase lcdA bus henA (by rw [a1]; decide) (by omega) (by omega)
  rw [a1] at b1
  have henB : (lcdB.LCDC &&& Bit7 != 0) = true := by rw [b5]; exact henA
  obtain ⟨evC, lcdC, stepC, c1, c2, c3, c4, c5, c6, c8⟩ :=
    UpdateStep_later_phase lcdB bus henB (by rw [b1]; decide) (by omega) (by omega)
  rw [b1] at c1 c6
  have h3 : (3 : Nat) = 1 + 1 + 1 := rfl
  refine ⟨(evA ++ evB) ++ evC, lcdC, ?_, c1, by omega, by rw [c3, b3, a3], by rw [c4, b4, a4],
    by rw [c5, b5, a5], ?_, ?_⟩
  · rw [h3]
    exact UpdateSteps_add_ok (1 + 1) 1 _ _ _ _ _
      (UpdateSteps_add_ok 1 1 _ _ _ _ _ (UpdateSteps_one (lcd, bus) _ _ stepA)
        (UpdateSteps_one (lcdA, bus) _ _ stepB))
      (UpdateSteps_one (lcdB, bus) _ _ stepC)
  · rw [c6, b2, a2]
  · intro i h3 h8
    rw [c8 i (by omega) h8, b8 i (by omega) h8, a8 i h3 h8]

/-- The steps of `j` scanlines in a row, from a ReadingOam step, without a wrap. -/
theorem UpdateSteps_lines (bus : MemoryBus δ) (j : Nat) :
    ∀ (lcd : Lcd), (lcd.LCDC &&& Bit7 != 0) = true → lcd.m_nextState = .ReadingOam →
      -1 ≤ lcd.m_scanLine → lcd.m_scanLine + j ≤ 153 → lcd.LY + j < 256 →
      ∃ events lcd1, UpdateSteps (3 * j) (lcd, bus) = .ok events (lcd1, bus) ∧
        lcd1.m_nextState = .ReadingOam ∧ lcd1.m_scanLine = lcd.m_scanLine + j ∧
        lcd1.LY = lcd.LY + j ∧ lcd1.LYC = lcd.LYC ∧ lcd1.LCDC = lcd.LCDC ∧
        lcd1.m_lastMode =
          (if j = 0 then lcd.m_lastMode else if lcd.m_scanLine + j ≥ 144 then 1 else 0) ∧
        (∀ i, 3 ≤ i → i < 8 → lcd1.STAT.testBit i = lcd.STAT.testBit i) := by
  induction j with
  | zero =>
    intro lcd _ hs _ _ _
    exact ⟨[], lcd, rfl, hs, by simp, rfl, rfl, rfl, by simp, fun _ _ _ => rfl⟩
  | succ j ih =>
    intro lcd hen hs h1 h2 hy
    obtain ⟨evA, lcdA, stepsA, a1, a2, a3, a4, a5, a6, a8⟩ :=
      UpdateSteps_line lcd bus hen hs h1 (by omega)
    have ha3 : lcdA.LY = lcd.LY + 1 := by
      rw [a3]
      have : ((lcd.LY : Int) + 1) = ((lcd.LY + 1 : Nat) : Int) := by push_cast; rfl
      rw [this, toUint8_natCast]
      omega
    obtain ⟨evB, lcdB, stepsB, b1, b2, b3, b4, b5, b6, b8⟩ :=
      ih lcdA (by rw [a5]; exact hen) a1 (by omega) (by push_cast at h2 ⊢; omega) (by omega)
    have h3 : 3 * (j + 1) = 3 + 3 * j := by ring
    refine ⟨evA ++ evB, lcdB, ?_, b1, by push_cast; omega, by omega, by rw [b4, a4],
      by rw [b5, a5], ?_, ?_⟩
    · rw [h3]
      exact UpdateSteps_add_ok 3 (3 * j) _ _ _ _ _ stepsA stepsB
    · rw [b6, a6, a2, if_neg (Nat.succ_ne_zero j)]
      have e : lcd.m_scanLine + 1 + (j : Int) = lcd.m_scanLine + ((j + 1 : Nat) : Int) := by
        push_cast; ring
      by_cases hj : j = 0
      · subst hj
        simp
      · rw [if_neg hj, e]
    · intro i h3 h8
      rw [b8 i h3 h8, a8 i h3 h8]

end Lcd

namespace Lcd
open MemoryBus
variable {δ : Type}

/-- A write to STAT takes bits 3 to 6 from the value written. -/
theorem stat_write_high (value S i : Nat) (h3 : 3 ≤ i) (h7 : i < 7) :
    (toUint8 (((value &&& (Bit6 ||| Bit5 ||| Bit4 ||| Bit3)) |||
      (S &&& (Bit2 ||| Bit1 ||| Bit0)) : Nat) : Int)).testBit i = value.testBit i := by
  have h7' : (Bit2 ||| Bit1 ||| Bit0 : Nat) = 2 ^ 3 - 1 := by decide
  have h78 : (Bit6 ||| Bit5 ||| Bit4 ||| Bit3 : Nat) = 0x78 := by decide
  have h256 : (256 : Nat) = 2 ^ 8 := by norm_num
  rw [toUint8_natCast, h7', h78, h256]
  have h8 : i < 8 := by omega
  have hi : ¬ i < 3 := by omega
  have hv : (0x78 : Nat).testBit i = true := by
    interval_cases i <;> decide
  simp only [Nat.testBit_mod_two_pow, Nat.testBit_and, Nat.testBit_or,
    Nat.testBit_two_pow_sub_one]
  simp [hi, h8, hv]

/-- The LCD after Reset and a write to STAT. -/
theorem Reset_write_STAT_fields (lcd0 : Lcd) (v : Nat) :
    (HandleRequest .Write 0xFF41 v lcd0.Reset).2.2.1.m_nextState = .ReadingOam ∧
    (HandleRequest .Write 0xFF41 v lcd0.Reset).2.2.1.m_scanLine = 0 ∧
    (HandleRequest .Write 0xFF41 v lcd0.Reset).2.2.1.LY = 0 ∧
    (HandleRequest .Write 0xFF41 v lcd0.Reset).2.2.1.LYC = 0 ∧
    (HandleRequest .Write 0xFF41 v lcd0.Reset).2.2.1.LCDC = 0x91 ∧
    (HandleRequest .Write 0xFF41 v lcd0.Reset).2.2.1.m_lastMode = 0 ∧
    (∀ i, 3 ≤ i → i < 7 →
      (HandleRequest .Write 0xFF41 v lcd0.Reset).2.2.1.STAT.testBit i = v.testBit i) :=
  ⟨rfl, rfl, rfl, rfl, rfl, rfl, fun i h3 h7 => stat_write_high v 0 i h3 h7⟩

/-- The ReadingOam step that enters line 144, with STAT bit 4 set: both interrupts. -/
theorem UpdateStep_enters_VBlank (lcd : Lcd) (bus : MemoryBus δ)
    (hen : (lcd.LCDC &&& Bit7 != 0) = true) (hs : lcd.m_nextState = .ReadingOam)
    (hsl : lcd.m_scanLine = 143) (hly : lcd.LY = 143) (hm : lcd.m_lastMode = 0)
    (h4 : lcd.STAT.testBit 4 = true) :
    ∃ events lcd1, lcd.UpdateStep bus = .ok events (lcd1, bus) ∧ lcd1.LY = 144 ∧
      signals events Bit0 = true ∧ signals events Bit1 = true ∧ lcd1.STAT &&& 3 = 1 := by
  obtain ⟨events, lcd1, hstep, _, n2, n3, _, _, n6, n7, _, _, n10, n11, _⟩ :=
    UpdateStep_enabled_summary lcd bus hen (by omega) (by omega)
  rw [if_pos hs, hsl] at n2
  rw [if_pos hs, hsl, hly] at n3
  have n2' : lcd1.m_scanLine = 144 := by rw [n2]; rfl
  have n6' : lcd1.m_lastMode = 1 := by rw [n6, n2']; rfl
  rw [n6', hm] at n10
  rw [n6', hm, h4] at n11
  rw [n6'] at n7
  refine ⟨events, lcd1, hstep, by rw [n3]; rfl, by rw [n10]; rfl, ?_, by exact_mod_cast n7⟩
  rw [n11]
  simp

/-- The ReadingOam step that leaves line 153: LY goes back to 0 after the comparison with
LYC, which it therefore fails when LYC is 0. -/
theorem UpdateStep_wraps (lcd : Lcd) (bus : MemoryBus δ)
    (hen : (lcd.LCDC &&& Bit7 != 0) = true) (hs : lcd.m_nextState = .ReadingOam)
    (hsl : lcd.m_scanLine = 153) (hly : lcd.LY = 153) (hlyc : lcd.LYC = 0)
    (h5 : lcd.STAT.testBit 5 = false) :
    ∃ events lcd1, lcd.UpdateStep bus = .ok events (lcd1, bus) ∧ lcd1.LY = 0 ∧ lcd1.LYC = 0 ∧
      lcd1.m_scanLine = 0 ∧ lcd1.STAT.testBit 6 = lcd.STAT.testBit 6 ∧
      lcd1.STAT.testBit 2 = false ∧ signals events Bit1 = false := by
  obtain ⟨events, lcd1, hstep, _, n2, n3, n4, _, n6, _, n8, n9, _, n11, _⟩ :=
    UpdateStep_enabled_summary lcd bus hen (by omega) (by omega)
  rw [if_pos hs, if_pos hsl] at n2 n3
  have hcmp : decide (toUint8 ((lcd.LY : Int) + 1) = lcd.LYC) = false := by
    rw [hly, hlyc]; rfl
  rw [if_pos hs, hcmp] at n9
  have n6' : lcd1.m_lastMode = 2 := by rw [n6, n2, hs]; rfl
  rw [hcmp, n6', h5] at n11
  refine ⟨events, lcd1, hstep, n3, by rw [n4, hlyc], n2, n8 6 (by norm_num) (by norm_num),
    n9, ?_⟩
  rw [n11]
  simp

end Lcd

/-! ## The LCD: the addresses and bits of a tile lookup -/

namespace Lcd
open MemoryBus
variable {δ : Type}

theorem toUint8_tdiv8_natCast (n : Nat) (h : n < 256) : toUint8 ((n : Int).tdiv 8) = n / 8 := by
  rw [Int.tdiv_eq_ediv (by omega) (by norm_num)]
  unfold toUint8
  omega

theorem toUint8_tmod8_natCast (n : Nat) : toUint8 ((n : Int).tmod 8) = n % 8 := by
  rw [Int.tmod_eq_emod (by omega) (by norm_num)]
  unfold toUint8
  omega

/-- The one read of `GetTileIndexAtXY`, for coordinates in 0..255. -/
theorem GetTileIndexAtXY_read (bus : MemoryBus δ) (base bx y : Nat)
    (hb : base + 1024 ≤ 65536) (hx : bx < 256) (hy : y < 256) :
    GetTileIndexAtXY bus base (bx : Int) (y : Int) =
      (busRead8 bus (base + (y / 8) * 32 + bx / 8)).andThen fun t bus => .ok (toUint8 t) bus := by
  unfold GetTileIndexAtXY
  simp only [toUint8_tdiv8_natCast bx hx, toUint8_tdiv8_natCast y hy, toUint16_natCast]
  have e : (base + (y / 8 * 32 + bx / 8) % 65536) % 65536 = base + y / 8 * 32 + bx / 8 := by
    omega
  rw [e]

theorem shift_mask_bit (b p : Nat) (hp : p < 8) :
    toUint8 (((b &&& toUint8 ((1 <<< p : Nat) : Int)) >>> p : Nat) : Int) = (b.testBit p).toNat := by
  have h1 : (1 <<< p : Nat) = 2 ^ p := by rw [Nat.shiftLeft_eq, one_mul]
  have hlt : 2 ^ p < 256 := by
    calc 2 ^ p < 2 ^ 8 := Nat.pow_lt_pow_right (by norm_num) hp
      _ = 256 := by norm_num
  rw [h1]
  simp only [toUint8_natCast]
  rw [Nat.mod_eq_of_lt hlt, and_two_pow_eq]
  by_cases hb : b.testBit p
  · simp only [hb, if_true, Bool.toNat_true, Nat.shiftRight_eq_div_pow]
    rw [Nat.div_self (by positivity)]
  · simp only [hb, Bool.false_eq_true, if_false, Bool.toNat_false, Nat.zero_shiftRight]

theorem bits_colorIndex (m l : Bool) :
    toUint8 (((m.toNat <<< 1) ||| l.toNat : Nat) : Int) = m.toNat * 2 + l.toNat := by
  cases m <;> cases l <;> rfl

/-- The two reads of `GetTileDataPixelColorIndex` and the colour index made of them, for
coordinates that are not negative and a tile row address `T` that fits 16 bits. -/
theorem GetTileDataPixelColorIndex_reads (bus : MemoryBus δ) (base : Nat) (tileIndex : Int)
    (bx y T : Nat)
    (hT : (base : Int) + tileIndex * 16 + ((y % 8 : Nat) : Int) * 2 = (T : Int))
    (hT16 : T + 1 < 65536) :
    GetTileDataPixelColorIndex bus base tileIndex (bx : Int) (y : Int) =
      (busRead8 bus T).andThen fun lsb bus =>
        (busRead8 bus (T + 1)).andThen fun msb bus =>
          .ok ((msb.testBit (7 - bx % 8)).toNat * 2 + (lsb.testBit (7 - bx % 8)).toNat) bus := by
  unfold GetTileDataPixelColorIndex
  have hs : toUint8 (7 - ((bx % 8 : Nat) : Int)) = 7 - bx % 8 := by
    unfold toUint8
    omega
  simp only [toUint8_tmod8_natCast, hT, toUint16_natCast, hs]
  rw [Nat.mod_eq_of_lt (by omega : T < 65536), Nat.mod_eq_of_lt hT16]
  simp only [shift_mask_bit _ (7 - bx % 8) (by omega), bits_colorIndex]

theorem specColorIndex_lt (bus : MemoryBus δ) (T bx : Nat) : specColorIndex bus T bx < 4 := by
  unfold specColorIndex
  cases (bus.ramByte (T + 1)).testBit (7 - bx % 8) <;>
    cases (bus.ramByte T).testBit (7 - bx % 8) <;> decide

theorem busRead8_ramByte (bus : MemoryBus δ) (address : Nat)
    (h1 : 0x8000 ≤ address) (h2 : address < 0xA000) :
    busRead8 bus address = .ok (bus.ramByte address) bus := by
  rw [busRead8_vram bus address h1 h2]
  have h : IsAddressInRange address MemoryBus.kVramBase MemoryBus.kVramSize = true := by
    rw [IsAddressInRange_iff]; simp only [MemoryBus.kVramBase, MemoryBus.kVramSize]; omega
  unfold ramByte
  rw [if_pos h]
  rfl

/-- The three reads served from video RAM. -/
theorem tileReads_vram (bus : MemoryBus δ) (a : Nat) (d : Nat → Nat)
    (g : Nat → Nat → Nat → Nat) (ha1 : 0x8000 ≤ a) (ha2 : a < 0xA000)
    (hd : ∀ t, 0x8000 ≤ d t ∧ d t + 1 < 0xA000) :
    tileReads bus a d g =
      .ok (g (bus.ramByte a) (bus.ramByte (d (bus.ramByte a)))
        (bus.ramByte (d (bus.ramByte a) + 1))) bus := by
  unfold tileReads
  rw [busRead8_ramByte bus a ha1 ha2]
  simp only [Outcome.andThen]
  rw [busRead8_ramByte bus _ (hd _).1 (by have := (hd (bus.ramByte a)).2; omega)]
  simp only [Outcome.andThen]
  rw [busRead8_ramByte bus _ (by have := (hd (bus.ramByte a)).1; omega) (hd _).2]

end Lcd

namespace Lcd
open MemoryBus
variable {δ : Type}

theorem specTileRowAddress_range (lcd : Lcd) (t y : Nat) (ht : t < 256) :
    0x8000 ≤ specTileRowAddress lcd t y ∧ specTileRowAddress lcd t y + 1 ≤ 0x97FF := by
  unfold specTileRowAddress
  split_ifs <;> omega

/-- The reads of the background layer for one pixel: the tile-map byte at coordinates
`(bx, y)`, then the two bytes of the tile row. -/
theorem backgroundLuminosity_reads (lcd : Lcd) (bus : MemoryBus δ) (screenX n : Nat)
    (hn : lcd.m_scanLine = (n : Int)) :
    backgroundLuminosity lcd bus screenX =
      tileReads bus
        ((if lcd.LCDC.testBit 3 then 0x9C00 else 0x9800) + ((lcd.SCY + n) % 256 / 8) * 32 +
          (lcd.SCX + screenX) % 256 / 8)
        (fun t => specTileRowAddress lcd (t % 256) ((lcd.SCY + n) % 256))
        (fun _ lsb msb => lcd.GetLuminosityForColorIndex lcd.BGP
          ((msb.testBit (7 - (lcd.SCX + screenX) % 256 % 8)).toNat * 2 +
            (lsb.testBit (7 - (lcd.SCX + screenX) % 256 % 8)).toNat)) := by
  have hx : toUint16 (((lcd.SCX : Int) + (screenX : Int)).tmod 256) =
      (lcd.SCX + screenX) % 256 := by
    rw [Int.tmod_eq_emod (by omega) (by norm_num)]
    unfold toUint16
    omega
  have hy : toUint16 (((lcd.SCY : Int) + lcd.m_scanLine).tmod 256) = (lcd.SCY + n) % 256 := by
    rw [hn, Int.tmod_eq_emod (by omega) (by norm_num)]
    unfold toUint16
    omega
  unfold backgroundLuminosity tileReads
  simp only [hx, hy, and_Bit3_ne_zero, and_Bit4_ne_zero]
  rw [GetTileIndexAtXY_read bus _ _ _ (by split_ifs <;> norm_num)
    (Nat.mod_lt _ (by norm_num)) (Nat.mod_lt _ (by norm_num))]
  cases hr : busRead8 bus ((if lcd.LCDC.testBit 3 = true then 0x9C00 else 0x9800) +
      (lcd.SCY + n) % 256 / 8 * 32 + (lcd.SCX + screenX) % 256 / 8) with
  | thrown e b => rfl
  | ok t b =>
    simp only [Outcome.andThen]
    have ht : toUint8 (t : Int) = t % 256 := toUint8_natCast t
    rw [ht]
    have hlt : t % 256 < 256 := Nat.mod_lt _ (by norm_num)
    have hR := specTileRowAddress_range lcd (t % 256) ((lcd.SCY + n) % 256) hlt
    rw [GetTileDataPixelColorIndex_reads b _ _ ((lcd.SCX + screenX) % 256)
      ((lcd.SCY + n) % 256) (specTileRowAddress lcd (t % 256) ((lcd.SCY + n) % 256))
      (by
        unfold specTileRowAddress
        by_cases h4 : lcd.LCDC.testBit 4 = true
        · simp only [h4, if_true]
          push_cast
          ring
        · simp only [h4, Bool.false_eq_true, if_false]
          by_cases h127 : ((t % 256 : Nat) : Int) > 127
          · rw [if_pos h127, if_pos (by omega)]
            omega
          · rw [if_neg h127, if_neg (by omega)]
            push_cast
            ring)
      (by omega)]
    cases busRead8 b (specTileRowAddress lcd (t % 256) ((lcd.SCY + n) % 256)) with
    | thrown e b => rfl
    | ok lsb b =>
      simp only [Outcome.andThen]
      cases busRead8 b (specTileRowAddress lcd (t % 256) ((lcd.SCY + n) % 256) + 1) with
      | thrown e b => rfl
      | ok msb b => rfl

theorem toSint8_toUint8_range (t : Nat) :
    -128 ≤ toSint8 (toUint8 (t : Int)) ∧ toSint8 (toUint8 (t : Int)) < 128 := by
  unfold toSint8
  split_ifs <;> omega

/-- The reads of the window layer for one pixel: none where the window does not cover the
pixel, and otherwise the tile-map byte, in 0x9800-0x9FFF, then the two bytes of the tile row,
in 0x8800-0x97FF. -/
theorem windowLuminosity_reads (lcd : Lcd) (screenX current : Nat) :
    (∀ bus : MemoryBus δ, windowLuminosity lcd bus screenX current = .ok current bus) ∨
    ∃ a d g, 0x9800 ≤ a ∧ a ≤ 0x9FFF ∧ (∀ t : Nat, 0x8000 ≤ d t ∧ d t + 1 ≤ 0x97FF) ∧
      (∀ t lsb msb, ∃ c, c < 4 ∧ g t lsb msb = lcd.GetLuminosityForColorIndex lcd.BGP c) ∧
      ∀ bus : MemoryBus δ, windowLuminosity lcd bus screenX current = tileReads bus a d g := by
  by_cases hw : toSint16 ((screenX : Int) - ((lcd.WX : Int) - 7)) ≥ 0 ∧
      toSint16 ((screenX : Int) - ((lcd.WX : Int) - 7)) < 160 ∧
      toSint16 (lcd.m_scanLine - (lcd.WY : Int)) ≥ 0 ∧
      toSint16 (lcd.m_scanLine - (lcd.WY : Int)) < 144
  · right
    obtain ⟨hx0, hx1, hy0, hy1⟩ := hw
    obtain ⟨wx, hwx⟩ := Int.eq_ofNat_of_zero_le hx0
    obtain ⟨wy, hwy⟩ := Int.eq_ofNat_of_zero_le hy0
    refine ⟨(if lcd.LCDC.testBit 6 then 0x9C00 else 0x9800) + (wy / 8) * 32 + wx / 8,
      fun t => ((0x9000 : Int) + toSint8 (toUint8 (t : Int)) * 16 +
        ((wy % 8 : Nat) : Int) * 2).toNat,
      fun _ lsb msb => lcd.GetLuminosityForColorIndex lcd.BGP
        ((msb.testBit (7 - wx % 8)).toNat * 2 + (lsb.testBit (7 - wx % 8)).toNat),
      by split_ifs <;> omega, by split_ifs <;> omega, ?_, ?_, ?_⟩
    · intro t
      have := toSint8_toUint8_range t
      dsimp only
      omega
    · intro t lsb msb
      refine ⟨_, ?_, rfl⟩
      cases msb.testBit (7 - wx % 8) <;> cases lsb.testBit (7 - wx % 8) <;> decide
    · intro bus
      unfold windowLuminosity tileReads
      dsimp only
      rw [if_pos ⟨hx0, hx1, hy0, hy1⟩, hwx, hwy]
      simp only [and_Bit6_ne_zero]
      rw [GetTileIndexAtXY_read bus _ _ _ (by split_ifs <;> norm_num) (by omega) (by omega)]
      cases busRead8 bus ((if lcd.LCDC.testBit 6 = true then 0x9C00 else 0x9800) +
          wy / 8 * 32 + wx / 8) with
      | thrown e b => rfl
      | ok t b =>
        simp only [Outcome.andThen]
        have hR := toSint8_toUint8_range t
        rw [GetTileDataPixelColorIndex_reads b 0x9000 (toSint8 (toUint8 (t : Int))) wx wy
          ((0x9000 : Int) + toSint8 (toUint8 (t : Int)) * 16 +
            ((wy % 8 : Nat) : Int) * 2).toNat (by omega) (by omega)]
        cases busRead8 b ((0x9000 : Int) + toSint8 (toUint8 (t : Int)) * 16 +
            ((wy % 8 : Nat) : Int) * 2).toNat with
        | thrown e b => rfl
        | ok lsb b =>
          simp only [Outcome.andThen]
          cases busRead8 b (((0x9000 : Int) + toSint8 (toUint8 (t : Int)) * 16 +
              ((wy % 8 : Nat) : Int) * 2).toNat + 1) with
          | thrown e b => rfl
          | ok msb b => rfl
  · left
    intro bus
    unfold windowLuminosity
    dsimp only
    rw [if_neg hw]

end Lcd

namespace Lcd
open MemoryBus
variable {δ : Type}

/-! ## The LCD: palette and pixel -/

theorem shade_eq (B s : Nat) : (B &&& (3 <<< s)) >>> s = (B >>> s) &&& 3 := by
  apply Nat.eq_of_testBit_eq
  intro i
  simp only [Nat.testBit_shiftRight, Nat.testBit_and, Nat.testBit_shiftLeft]
  have h1 : decide (s + i ≥ s) = true := decide_eq_true (by omega)
  have h2 : s + i - s = i := by omega
  rw [h1, h2, Bool.true_and]

/-- The luminosity is `(3 - shade) * 0x55` with `shade = (BGP >> 2k) & 3`. -/
theorem GetLuminosityForColorIndex_eq (lcd : Lcd) (paletteRegister k : Nat) (hk : k < 4) :
    (lcd.BGP >>> (2 * k)) &&& 3 < 4 ∧
    lcd.GetLuminosityForColorIndex paletteRegister k = (3 - ((lcd.BGP >>> (2 * k)) &&& 3)) * 0x55 := by
  have hlt : (lcd.BGP >>> (2 * k)) &&& 3 < 4 :=
    lt_of_le_of_lt Nat.and_le_right (by norm_num)
  refine ⟨hlt, ?_⟩
  unfold GetLuminosityForColorIndex
  have hs : toUint8 ((2 * k : Nat) : Int) = 2 * k := by
    rw [toUint8_natCast]; omega
  have hm : toUint8 ((0x3 <<< (2 * k) : Nat) : Int) = 3 <<< (2 * k) := by
    rw [toUint8_natCast]
    apply Nat.mod_eq_of_lt
    interval_cases k <;> decide
  simp only [hs, hm, shade_eq]
  rw [toUint8_natCast, Nat.mod_eq_of_lt (by omega)]
  generalize (lcd.BGP >>> (2 * k)) &&& 3 = shade at hlt
  interval_cases shade <;> rfl

/-- The pixel `RenderScanline` writes: all three colours are one luminosity, 0xFF when no
layer is drawn. -/
theorem renderPixel_pixel (lcd : Lcd) (bus : MemoryBus δ) (screenX : Nat)
    (h : 0 ≤ lcd.m_scanLine) :
    ∃ L, renderPixel lcd bus screenX =
        .ok (0xFF000000 ||| (L <<< 16) ||| (L <<< 8) ||| L) bus ∧
      (L = 0xFF ∨ ∃ c, c < 4 ∧ L = lcd.GetLuminosityForColorIndex lcd.BGP c) := by
  obtain ⟨n, hn⟩ := Int.eq_ofNat_of_zero_le h
  have hbg : ∃ L1, (if lcd.LCDC &&& Bit0 != 0 then backgroundLuminosity lcd bus screenX
      else .ok 0xFF bus) = .ok L1 bus ∧
      (L1 = 0xFF ∨ ∃ c, c < 4 ∧ L1 = lcd.GetLuminosityForColorIndex lcd.BGP c) := by
    by_cases h0 : (lcd.LCDC &&& Bit0 != 0) = true
    · rw [if_pos h0, backgroundLuminosity_reads lcd bus screenX n hn,
        tileReads_vram bus _ _ _ (by split_ifs <;> omega) (by split_ifs <;> omega)
          (fun t => by
            have := specTileRowAddress_range lcd (t % 256) ((lcd.SCY + n) % 256)
              (Nat.mod_lt _ (by norm_num))
            omega)]
      refine ⟨_, rfl, Or.inr ⟨_, ?_, rfl⟩⟩
      cases (bus.ramByte _).testBit (7 - (lcd.SCX + screenX) % 256 % 8) <;>
        cases (bus.ramByte _).testBit (7 - (lcd.SCX + screenX) % 256 % 8) <;> decide
    · rw [if_neg h0]
      exact ⟨_, rfl, Or.inl rfl⟩
  obtain ⟨L1, hL1, hform1⟩ := hbg
  have hwin : ∃ L2, (if lcd.LCDC &&& Bit5 != 0 then windowLuminosity lcd bus screenX L1
      else .ok L1 bus) = .ok L2 bus ∧
      (L2 = 0xFF ∨ ∃ c, c < 4 ∧ L2 = lcd.GetLuminosityForColorIndex lcd.BGP c) := by
    by_cases h5 : (lcd.LCDC &&& Bit5 != 0) = true
    · rw [if_pos h5]
      rcases windowLuminosity_reads (δ := δ) lcd screenX L1 with hno | ⟨a, d, g, ha1, ha2, hd, hg, hreads⟩
      · exact ⟨L1, hno bus, hform1⟩
      · rw [hreads bus, tileReads_vram bus a d g (by omega) (by omega)
          (fun t => by have := hd t; omega)]
        obtain ⟨c, hc, hgc⟩ := hg (bus.ramByte a) (bus.ramByte (d (bus.ramByte a)))
          (bus.ramByte (d (bus.ramByte a) + 1))
        exact ⟨_, rfl, Or.inr ⟨c, hc, hgc⟩⟩
    · rw [if_neg h5]
      exact ⟨L1, rfl, hform1⟩
  obtain ⟨L2, hL2, hform2⟩ := hwin
  refine ⟨L2, ?_, hform2⟩
  unfold renderPixel
  rw [hL1]
  simp only [Outcome.andThen]
  rw [hL2]

/-- A write to STAT stores `(v & 0x78) | (s & 0x07)`. -/
theorem stat_write_value (v s : Nat) :
    toUint8 (((v &&& (Bit6 ||| Bit5 ||| Bit4 ||| Bit3)) ||| (s &&& (Bit2 ||| Bit1 ||| Bit0)) : Nat)
      : Int) = (v &&& 0x78) ||| (s &&& 0x07) := by
  have h7 : (Bit2 ||| Bit1 ||| Bit0 : Nat) = 0x07 := by decide
  have h78 : (Bit6 ||| Bit5 ||| Bit4 ||| Bit3 : Nat) = 0x78 := by decide
  rw [h7, h78, toUint8_natCast]
  apply Nat.mod_eq_of_lt
  have h1 : v &&& 0x78 < 2 ^ 8 := lt_of_le_of_lt Nat.and_le_right (by norm_num)
  have h2 : s &&& 0x07 < 2 ^ 8 := lt_of_le_of_lt Nat.and_le_right (by norm_num)
  exact Nat.or_lt_two_pow h1 h2

end Lcd

namespace Lcd
open MemoryBus
variable {δ : Type}

/-- The tile row address the code computes, on `int`, is the one of the spec's words. -/
theorem specTileRowAddress_int (lcd : Lcd) (t y : Nat) (ht : t < 256) :
    (((if lcd.LCDC &&& Bit4 != 0 then 0x8000 else 0x9000 : Nat) : Nat) : Int) +
      (if lcd.LCDC &&& Bit4 != 0 then (t : Int)
       else if (t : Int) > 127 then (t : Int) - 256 else (t : Int)) * 16 +
      ((y % 8 : Nat) : Int) * 2 = (specTileRowAddress lcd t y : Int) := by
  unfold specTileRowAddress
  rw [and_Bit4_ne_zero]
  by_cases h4 : lcd.LCDC.testBit 4 = true
  · simp only [h4, if_true]
    push_cast
    ring
  · simp only [h4, Bool.false_eq_true, if_false]
    by_cases h127 : (t : Int) > 127
    · rw [if_pos h127, if_pos (by omega)]
      omega
    · rw [if_neg h127, if_neg (by omega)]
      push_cast
      ring

theorem ramByte_vram_lt (bus : MemoryBus δ) (a : Nat) (h1 : 0x8000 ≤ a) (h2 : a < 0xA000)
    (hbyte : ∀ i, bus.m_vram i < 256) : bus.ramByte a < 256 := by
  have h : IsAddressInRange a MemoryBus.kVramBase MemoryBus.kVramSize = true := by
    rw [IsAddressInRange_iff]; simp only [MemoryBus.kVramBase, MemoryBus.kVramSize]; omega
  unfold ramByte
  rw [if_pos h]
  exact hbyte _

/-- The tile-map read and the colour index of a background pixel, as the spec words them. -/
theorem background_lookup (lcd : Lcd) (bus : MemoryBus δ) (bx y : Nat)
    (hbx : bx < 256) (hy : y < 256) (hbyte : ∀ a, bus.m_vram a < 256) :
    GetTileIndexAtXY bus (if lcd.LCDC &&& Bit3 != 0 then 0x9C00 else 0x9800) (bx : Int)
        (y : Int) = .ok (specTileMapByte lcd bus bx y) bus ∧
    GetTileDataPixelColorIndex bus (if lcd.LCDC &&& Bit4 != 0 then 0x8000 else 0x9000)
        (if lcd.LCDC &&& Bit4 != 0 then (specTileMapByte lcd bus bx y : Int)
         else if (specTileMapByte lcd bus bx y : Int) > 127
           then (specTileMapByte lcd bus bx y : Int) - 256
           else (specTileMapByte lcd bus bx y : Int))
        (bx : Int) (y : Int) =
      .ok (specColorIndex bus (specTileRowAddress lcd (specTileMapByte lcd bus bx y) y) bx)
        bus := by
  have ha : 0x9800 ≤ (if lcd.LCDC.testBit 3 then 0x9C00 else 0x9800) + (y / 8) * 32 + bx / 8 ∧
      (if lcd.LCDC.testBit 3 then 0x9C00 else 0x9800) + (y / 8) * 32 + bx / 8 < 0xA000 := by
    split_ifs <;> omega
  have ht : specTileMapByte lcd bus bx y < 256 :=
    ramByte_vram_lt bus _ (by omega) ha.2 hbyte
  have hR := specTileRowAddress_range lcd (specTileMapByte lcd bus bx y) y ht
  constructor
  · rw [and_Bit3_ne_zero, GetTileIndexAtXY_read bus _ bx y (by split_ifs <;> norm_num) hbx hy,
      busRead8_ramByte bus _ (by omega) ha.2]
    simp only [Outcome.andThen]
    unfold specTileMapByte at ht ⊢
    rw [toUint8_natCast, Nat.mod_eq_of_lt ht]
  · rw [GetTileDataPixelColorIndex_reads bus _ _ bx y
      (specTileRowAddress lcd (specTileMapByte lcd bus bx y) y)
      (specTileRowAddress_int lcd _ y ht) (by omega),
      busRead8_ramByte bus _ hR.1 (by omega)]
    simp only [Outcome.andThen]
    rw [busRead8_ramByte bus _ (by omega) (by omega)]
    rfl

/-- The luminosity of the background at a screen column, from the spec's colour index. -/
theorem backgroundLuminosity_eq (lcd : Lcd) (bus : MemoryBus δ) (screenX n : Nat)
    (hbyte : ∀ a, bus.m_vram a < 256) (hn : lcd.m_scanLine = (n : Int)) :
    backgroundLuminosity lcd bus screenX =
      .ok (lcd.GetLuminosityForColorIndex lcd.BGP
        (specColorIndex bus
          (specTileRowAddress lcd
            (specTileMapByte lcd bus ((lcd.SCX + screenX) % 256) ((lcd.SCY + n) % 256))
            ((lcd.SCY + n) % 256))
          ((lcd.SCX + screenX) % 256))) bus := by
  rw [backgroundLuminosity_reads lcd bus screenX n hn,
    tileReads_vram bus _ _ _ (by split_ifs <;> omega) (by split_ifs <;> omega)
      (fun t => by
        have := specTileRowAddress_range lcd (t % 256) ((lcd.SCY + n) % 256)
          (Nat.mod_lt _ (by norm_num))
        omega)]
  have ht : specTileMapByte lcd bus ((lcd.SCX + screenX) % 256) ((lcd.SCY + n) % 256) < 256 :=
    ramByte_vram_lt bus _ (by split_ifs <;> omega) (by split_ifs <;> omega) hbyte
  unfold specTileMapByte at ht ⊢
  rw [Nat.mod_eq_of_lt ht]
  rfl

end Lcd

/-! ## The device cache: two claimants -/

namespace MemoryBus
variable {δ : Type}

end MemoryBus

/-! ## The CPU: a halted or stopped CPU only idles -/

namespace Cpu
open MemoryBus
variable {δ : Type}

theorem Peek8_touch (cpu : Cpu δ) :
    ∃ bus1, sameMemory bus1 cpu.m_pMemory ∧
      ((∃ opcode, cpu.Peek8 = .ok opcode { cpu with m_pMemory := bus1 }) ∨
       (∃ e, cpu.Peek8 = .thrown e { cpu with m_pMemory := bus1 })) := by
  have hs := Read8_sameMemory cpu.m_pMemory cpu.PC true
  unfold Peek8
  cases h : cpu.m_pMemory.Read8 cpu.PC with
  | ok r bus1 =>
    rw [h] at hs
    exact ⟨bus1, hs, Or.inl ⟨r.1, rfl⟩⟩
  | thrown e bus1 =>
    rw [h] at hs
    exact ⟨bus1, hs, Or.inr ⟨e, rfl⟩⟩

theorem DebugStringPeek8_touch (cpu : Cpu δ) (address : Nat) :
    ∃ bus1, sameMemory bus1 cpu.m_pMemory ∧
      (cpu.DebugStringPeek8 address = .ok () { cpu with m_pMemory := bus1 } ∨
       (∃ e, cpu.DebugStringPeek8 address = .thrown e { cpu with m_pMemory := bus1 })) := by
  have hs := SafeRead8_sameMemory cpu.m_pMemory address
  unfold DebugStringPeek8
  cases h : cpu.m_pMemory.SafeRead8 address with
  | ok r bus1 =>
    rw [h] at hs
    exact ⟨bus1, hs, Or.inl rfl⟩
  | thrown e bus1 =>
    rw [h] at hs
    exact ⟨bus1, hs, Or.inr ⟨e, rfl⟩⟩

/-- A call made after a debugger read touches the bus only when both do. -/
theorem touch_andThen (cpu : Cpu δ) (o : Outcome (Cpu δ) Unit)
    (f : Unit → Cpu δ → Outcome (Cpu δ) Unit)
    (ho : ∃ bus1, sameMemory bus1 cpu.m_pMemory ∧
      (o = .ok () { cpu with m_pMemory := bus1 } ∨
       (∃ e, o = .thrown e { cpu with m_pMemory := bus1 })))
    (hf : ∀ bus1, sameMemory bus1 cpu.m_pMemory →
      ∃ bus2, sameMemory bus2 cpu.m_pMemory ∧
        (f () { cpu with m_pMemory := bus1 } = .ok () { cpu with m_pMemory := bus2 } ∨
         (∃ e, f () { cpu with m_pMemory := bus1 } = .thrown e { cpu with m_pMemory := bus2 }))) :
    ∃ bus2, sameMemory bus2 cpu.m_pMemory ∧
      (o.andThen f = .ok () { cpu with m_pMemory := bus2 } ∨
       (∃ e, o.andThen f = .thrown e { cpu with m_pMemory := bus2 })) := by
  rcases ho with ⟨bus1, hb1, h1 | ⟨e, h1⟩⟩
  · rw [h1]
    exact hf bus1 hb1
  · rw [h1]
    exact ⟨bus1, hb1, Or.inr ⟨e, rfl⟩⟩

theorem DebugStringPeek8_touch_from (cpu : Cpu δ) (address : Nat) (bus1 : MemoryBus δ)
    (hb1 : sameMemory bus1 cpu.m_pMemory) :
    ∃ bus2, sameMemory bus2 cpu.m_pMemory ∧
      (Cpu.DebugStringPeek8 { cpu with m_pMemory := bus1 } address
          = .ok () { cpu with m_pMemory := bus2 } ∨
       (∃ e, Cpu.DebugStringPeek8 { cpu with m_pMemory := bus1 } address
          = .thrown e { cpu with m_pMemory := bus2 })) := by
  rcases DebugStringPeek8_touch { cpu with m_pMemory := bus1 } address with ⟨bus2, hb2, h⟩
  exact ⟨bus2, sameMemory_trans hb2 hb1, h⟩

/-- The debugger reads change nothing of the CPU but the bus, and of the bus no byte and no
register, whether they return or fail. -/
theorem DebugOpcode_touch (cpu : Cpu δ) (opcode : Nat) :
    ∃ bus1, sameMemory bus1 cpu.m_pMemory ∧
      (cpu.DebugOpcode opcode = .ok () { cpu with m_pMemory := bus1 } ∨
       (∃ e, cpu.DebugOpcode opcode = .thrown e { cpu with m_pMemory := bus1 })) := by
  unfold DebugOpcode
  split_ifs
  · refine touch_andThen cpu _ _ (DebugStringPeek8_touch cpu _) fun b1 hb1 => ?_
    unfold DebugStringPeek16
    refine touch_andThen cpu _ _
      (touch_andThen cpu _ _ (DebugStringPeek8_touch_from cpu _ b1 hb1) fun b2 hb2 =>
        DebugStringPeek8_touch_from cpu _ b2 hb2) fun b3 hb3 => ?_
    refine touch_andThen cpu _ _ (DebugStringPeek8_touch_from cpu _ b3 hb3) fun b4 hb4 => ?_
    refine touch_andThen cpu _ _ (DebugStringPeek8_touch_from cpu _ b4 hb4) fun b5 hb5 => ?_
    exact DebugStringPeek8_touch_from cpu _ b5 hb5
  · exact ⟨cpu.m_pMemory, sameMemory_refl _, Or.inl rfl⟩

/-- The end of an iteration of `Update` on a halted or stopped CPU. -/
theorem UpdateIteration_idle_tail (c : Cpu δ) (keycode : Nat)
    (hh : c.m_cpuHalted = true ∨ c.m_cpuStopped = true) :
    ∃ d,
      (let cpu :=
        if keycode = SDLK_g then { c with m_debuggerState := .Running }
        else if keycode = SDLK_s then { c with m_debuggerState := .SingleStepping }
        else c
      (if !cpu.m_cpuHalted && !cpu.m_cpuStopped then cpu.ExecuteSingleInstruction
       else .ok 4 cpu).andThen fun instructionCycles cpu =>
        Outcome.ok instructionCycles
          { cpu with m_totalOpcodesExecuted := (cpu.m_totalOpcodesExecuted + 1) % 2 ^ 32 })
      = .ok 4 { c with
          m_debuggerState := d
          m_totalOpcodesExecuted := (c.m_totalOpcodesExecuted + 1) % 2 ^ 32 } := by
  have hb : (!c.m_cpuHalted && !c.m_cpuStopped) = false := by
    rcases hh with h | h
    · rw [h]; rfl
    · rw [h, Bool.not_true, Bool.and_false]
  by_cases kg : keycode = SDLK_g
  · refine ⟨.Running, ?_⟩
    simp only [if_pos kg]
    rw [hb]
    rfl
  · by_cases ks : keycode = SDLK_s
    · refine ⟨.SingleStepping, ?_⟩
      simp only [if_neg kg, if_pos ks]
      rw [hb]
      rfl
    · refine ⟨c.m_debuggerState, ?_⟩
      simp only [if_neg kg, if_neg ks]
      rw [hb]
      rfl

/-- One iteration of the loop of `Update` on a halted or stopped CPU: it makes the reads of
the loop head and then, if they return, idles for 4 cycles and counts one more opcode. -/
theorem UpdateIteration_halted (cpu : Cpu δ) (keycode : Nat)
    (hh : cpu.m_cpuHalted = true ∨ cpu.m_cpuStopped = true) :
    ∃ bus1, sameMemory bus1 cpu.m_pMemory ∧
      ((∃ d, cpu.UpdateIteration keycode = .ok 4
          { cpu with
            m_pMemory := bus1
            m_debuggerState := d
            m_totalOpcodesExecuted := (cpu.m_totalOpcodesExecuted + 1) % 2 ^ 32 }) ∨
       (∃ e, cpu.UpdateIteration keycode = .thrown e { cpu with m_pMemory := bus1 })) := by
  unfold UpdateIteration
  rcases Peek8_touch cpu with ⟨b1, hb1, ⟨opcode, h1⟩ | ⟨e, h1⟩⟩
  swap
  · rw [h1]
    exact ⟨b1, hb1, Or.inr ⟨e, rfl⟩⟩
  rw [h1]
  rcases DebugOpcode_touch { cpu with m_pMemory := b1 } opcode with ⟨b2, hb2, h2 | ⟨e, h2⟩⟩
  swap
  · refine ⟨b2, sameMemory_trans hb2 hb1, Or.inr ⟨e, ?_⟩⟩
    show (Cpu.DebugOpcode { cpu with m_pMemory := b1 } opcode).andThen _ = _
    rw [h2]
    rfl
  refine ⟨b2, sameMemory_trans hb2 hb1, Or.inl ?_⟩
  rcases UpdateIteration_idle_tail { cpu with m_pMemory := b2 } keycode hh with ⟨d, hd⟩
  refine ⟨d, ?_⟩
  show (Cpu.DebugOpcode { cpu with m_pMemory := b1 } opcode).andThen _ = _
  rw [h2]
  exact hd

/-- The iteration of a halted or stopped CPU returns when the reads of the loop head do. -/
theorem UpdateIteration_halted_returns (cpu cpuA cpuB : Cpu δ) (keycode opcode : Nat)
    (hh : cpu.m_cpuHalted = true ∨ cpu.m_cpuStopped = true)
    (hpeek : cpu.Peek8 = .ok opcode cpuA) (hdebug : cpuA.DebugOpcode opcode = .ok () cpuB) :
    ∃ cpu1, cpu.UpdateIteration keycode = .ok 4 cpu1 := by
  have hA : cpuA.m_cpuHalted = cpu.m_cpuHalted ∧ cpuA.m_cpuStopped = cpu.m_cpuStopped := by
    rcases Peek8_touch cpu with ⟨b1, _, ⟨o1, h1⟩ | ⟨e, h1⟩⟩
    · rw [hpeek] at h1
      cases h1
      exact ⟨rfl, rfl⟩
    · rw [hpeek] at h1
      cases h1
  have hB : cpuB.m_cpuHalted = cpuA.m_cpuHalted ∧ cpuB.m_cpuStopped = cpuA.m_cpuStopped := by
    rcases DebugOpcode_touch cpuA opcode with ⟨b1, _, h1 | ⟨e, h1⟩⟩
    · rw [hdebug] at h1
      cases h1
      exact ⟨rfl, rfl⟩
    · rw [hdebug] at h1
      cases h1
  have hhB : cpuB.m_cpuHalted = true ∨ cpuB.m_cpuStopped = true := by
    rw [hB.1, hB.2, hA.1, hA.2]
    exact hh
  rcases UpdateIteration_idle_tail cpuB keycode hhB with ⟨d, hd⟩
  refine ⟨{ cpuB with
    m_debuggerState := d
    m_totalOpcodesExecuted := (cpuB.m_totalOpcodesExecuted + 1) % 2 ^ 32 }, ?_⟩
  unfold UpdateIteration
  rw [hpeek]
  show (cpuA.DebugOpcode opcode).andThen _ = _
  rw [hdebug]
  exact hd

/-- Any number of iterations of a halted or stopped CPU leave it as it was but for the bus
cache and devices, the debugger state and the opcode counter. -/
theorem UpdateIterations_halted (keycodes : List Nat) :
    ∀ cpu : Cpu δ, cpu.m_cpuHalted = true ∨ cpu.m_cpuStopped = true →
      ∃ bus1 d n, sameMemory bus1 cpu.m_pMemory ∧
        cpu.UpdateIterations keycodes =
          { cpu with m_pMemory := bus1, m_debuggerState := d, m_totalOpcodesExecuted := n } := by
  induction keycodes with
  | nil =>
    intro cpu _
    exact ⟨cpu.m_pMemory, cpu.m_debuggerState, cpu.m_totalOpcodesExecuted, sameMemory_refl _, rfl⟩
  | cons k ks ih =>
    intro cpu hh
    have step : ∃ bus1 d n, sameMemory bus1 cpu.m_pMemory ∧
        (cpu.UpdateIteration k).state =
          { cpu with m_pMemory := bus1, m_debuggerState := d, m_totalOpcodesExecuted := n } := by
      rcases UpdateIteration_halted cpu k hh with ⟨b, hb, ⟨d, h⟩ | ⟨e, h⟩⟩
      · exact ⟨b, d, _, hb, by rw [h]; rfl⟩
      · exact ⟨b, cpu.m_debuggerState, cpu.m_totalOpcodesExecuted, hb, by rw [h]; rfl⟩
    rcases step with ⟨b1, d1, n1, hb1, h1⟩
    have hh1 : (cpu.UpdateIteration k).state.m_cpuHalted = true ∨
        (cpu.UpdateIteration k).state.m_cpuStopped = true := by
      rw [h1]
      exact hh
    rcases ih _ hh1 with ⟨b2, d2, n2, hb2, h2⟩
    refine ⟨b2, d2, n2, ?_, ?_⟩
    · rw [h1] at hb2
      exact sameMemory_trans hb2 hb1
    · show Cpu.UpdateIterations ks (cpu.UpdateIteration k).state = _
      rw [h2, h1]

end Cpu

/-! ## The CPU: the unknown-opcode block -/

namespace Cpu
open MemoryBus
variable {δ : Type}

/-- A debugger read changes nothing of the CPU but the bus, and of the bus no byte and no
register; when it fails, it fails with an error of the bus. -/
theorem DebugStringPeek8_kind (cpu : Cpu δ) (address : Nat) :
    ∃ bus1, sameMemory bus1 cpu.m_pMemory ∧
      (cpu.DebugStringPeek8 address = .ok () { cpu with m_pMemory := bus1 } ∨
       (∃ e, e.isDispatchError = false ∧
         cpu.DebugStringPeek8 address = .thrown e { cpu with m_pMemory := bus1 })) := by
  have hs := SafeRead8_sameMemory cpu.m_pMemory address
  have hn := bus_Read8_noDispatchError cpu.m_pMemory address false
  unfold DebugStringPeek8
  unfold SafeRead8 at hs ⊢
  cases h : cpu.m_pMemory.Read8 address false with
  | ok r bus1 =>
    rw [h] at hs
    exact ⟨bus1, hs, Or.inl rfl⟩
  | thrown e bus1 =>
    rw [h] at hs hn
    exact ⟨bus1, hs, Or.inr ⟨e, hn, rfl⟩⟩

theorem DebugStringPeek16_kind (cpu : Cpu δ) (address : Nat) :
    ∃ bus1, sameMemory bus1 cpu.m_pMemory ∧
      (cpu.DebugStringPeek16 address = .ok () { cpu with m_pMemory := bus1 } ∨
       (∃ e, e.isDispatchError = false ∧
         cpu.DebugStringPeek16 address = .thrown e { cpu with m_pMemory := bus1 })) := by
  unfold DebugStringPeek16
  rcases DebugStringPeek8_kind cpu (toUint16 (address + 1)) with ⟨b1, hb1, h1 | ⟨e, he, h1⟩⟩
  · rw [h1]
    rcases DebugStringPeek8_kind { cpu with m_pMemory := b1 } address with
      ⟨b2, hb2, h2 | ⟨e, he, h2⟩⟩
    · exact ⟨b2, sameMemory_trans hb2 hb1, Or.inl h2⟩
    · exact ⟨b2, sameMemory_trans hb2 hb1, Or.inr ⟨e, he, h2⟩⟩
  · rw [h1]
    exact ⟨b1, hb1, Or.inr ⟨e, he, rfl⟩⟩

/-- The unknown-opcode block never returns: it ends at its assertion when its two debugger
reads return and in the bus error of the failing read otherwise; it changes nothing of the
CPU but the bus, and of the bus no byte and no register. -/
theorem unknownOpcode_cases (opcode : Nat) (cpu : Cpu δ) :
    ∃ bus1, sameMemory bus1 cpu.m_pMemory ∧
      ((unknownOpcode opcode cpu = .thrown .AssertionFailed { cpu with m_pMemory := bus1 } ∧
        ∃ cpuA cpuB, cpu.DebugStringPeek8 cpu.PC = .ok () cpuA ∧
          cpuA.DebugStringPeek16 cpuA.PC = .ok () cpuB) ∨
       (∃ e, e.isDispatchError = false ∧
         unknownOpcode opcode cpu = .thrown e { cpu with m_pMemory := bus1 } ∧
         ¬ ∃ cpuA cpuB, cpu.DebugStringPeek8 cpu.PC = .ok () cpuA ∧
          cpuA.DebugStringPeek16 cpuA.PC = .ok () cpuB)) := by
  unfold unknownOpcode
  rcases DebugStringPeek8_kind cpu cpu.PC with ⟨b1, hb1, h1 | ⟨e, he, h1⟩⟩
  · rw [h1]
    rcases DebugStringPeek16_kind { cpu with m_pMemory := b1 } cpu.PC with
      ⟨b2, hb2, h2 | ⟨e, he, h2⟩⟩
    · refine ⟨b2, sameMemory_trans hb2 hb1, Or.inl ⟨?_, _, _, rfl, h2⟩⟩
      show (Cpu.DebugStringPeek16 { cpu with m_pMemory := b1 } cpu.PC).andThen _ = _
      rw [h2]
      rfl
    · refine ⟨b2, sameMemory_trans hb2 hb1, Or.inr ⟨e, he, ?_, ?_⟩⟩
      · show (Cpu.DebugStringPeek16 { cpu with m_pMemory := b1 } cpu.PC).andThen _ = _
        rw [h2]
        rfl
      · rintro ⟨cpuA, cpuB, hA, hB⟩
        cases hA
        have hB2 : Cpu.DebugStringPeek16 { cpu with m_pMemory := b1 } cpu.PC
            = .ok () cpuB := hB
        rw [h2] at hB2
        cases hB2
  · rw [h1]
    refine ⟨b1, hb1, Or.inr ⟨e, he, rfl, ?_⟩⟩
    rintro ⟨cpuA, cpuB, hA, _⟩
    cases hA

theorem unknownOpcode_not_illegal (opcode : Nat) (cpu : Cpu δ) (N : Nat) (s : Cpu δ) :
    unknownOpcode opcode cpu ≠ .thrown (.IllegalOpcode N) s := by
  intro h
  rcases unknownOpcode_cases opcode cpu with ⟨b, _, ⟨h1, _⟩ | ⟨e, he, h1, _⟩⟩
  · rw [h1] at h
    cases h
  · rw [h1] at h
    cases h
    cases he

theorem unknownOpcode_F (opcode : Nat) (cpu : Cpu δ) :
    (unknownOpcode opcode cpu).state.F = cpu.F := by
  rcases unknownOpcode_cases opcode cpu with ⟨b, _, ⟨h1, _⟩ | ⟨e, _, h1, _⟩⟩
  · rw [h1]
    rfl
  · rw [h1]
    rfl

end Cpu

/-! ## The CPU: the low four bits of F -/

namespace Cpu
open MemoryBus
variable {δ : Type}

@[simp] theorem state_ok_F {α : Type} (v : α) (s : Cpu δ) :
    (Outcome.ok v s).state.F = s.F := rfl

@[simp] theorem state_thrown_F {α : Type} (e : Exception) (s : Cpu δ) :
    (Outcome.thrown e s : Outcome (Cpu δ) α).state.F = s.F := rfl

theorem lowF_andThen {α β : Type} (c : Cpu δ) (o : Outcome (Cpu δ) α)
    (f : α → Cpu δ → Outcome (Cpu δ) β)
    (ho : o.state.F &&& 0x0F = c.F &&& 0x0F)
    (hf : ∀ v s, (f v s).state.F &&& 0x0F = s.F &&& 0x0F) :
    (o.andThen f).state.F &&& 0x0F = c.F &&& 0x0F := by
  cases o with
  | ok v s => exact (hf v s).trans ho
  | thrown e s => exact ho

@[simp] theorem SetFlagValue_lowF (cpu : Cpu δ) (p : FlagBitIndex) (v : Bool) :
    (cpu.SetFlagValue p v).F &&& 0x0F = cpu.F &&& 0x0F := by
  have h15 : (0x0F : Nat) = 2 ^ 4 - 1 := by norm_num
  have hp : 4 ≤ p.toNat := by cases p <;> decide
  apply Nat.eq_of_testBit_eq
  intro i
  rw [Nat.testBit_and, Nat.testBit_and, SetFlagValue_F_testBit, h15,
    Nat.testBit_two_pow_sub_one]
  by_cases hi : i < 4
  · have h1 : i ≠ p.toNat := by omega
    have h2 : i < 8 := by omega
    simp [h1, h2]
  · simp [hi]

@[simp] theorem SetZeroFromValue_lowF (cpu : Cpu δ) (value : Nat) :
    (cpu.SetZeroFromValue value).F &&& 0x0F = cpu.F &&& 0x0F := by
  unfold SetZeroFromValue
  exact SetFlagValue_lowF _ _ _

@[simp] theorem SetFlagsForAdd_lowF (cpu : Cpu δ) (oldValue operand flagMask : Nat) :
    (cpu.SetFlagsForAdd oldValue operand flagMask).F &&& 0x0F = cpu.F &&& 0x0F := by
  unfold SetFlagsForAdd
  try dsimp only
  split_ifs <;> simp

@[simp] theorem SetFlagsForSub_lowF (cpu : Cpu δ) (oldValue operand flagMask : Nat) :
    (cpu.SetFlagsForSub oldValue operand flagMask).F &&& 0x0F = cpu.F &&& 0x0F := by
  unfold SetFlagsForSub
  try dsimp only
  split_ifs <;> simp

@[simp] theorem ADD_lowF (cpu : Cpu δ) (operand : Nat) :
    (cpu.ADD operand).F &&& 0x0F = cpu.F &&& 0x0F := by
  unfold ADD
  simp

@[simp] theorem ADC_lowF (cpu : Cpu δ) (operand : Nat) :
    (cpu.ADC operand).F &&& 0x0F = cpu.F &&& 0x0F := by
  unfold ADC
  simp

@[simp] theorem AND_lowF (cpu : Cpu δ) (value : Nat) :
    (cpu.AND value).F &&& 0x0F = cpu.F &&& 0x0F := by
  unfold AND
  simp

@[simp] theorem OR_lowF (cpu : Cpu δ) (value : Nat) :
    (cpu.OR value).F &&& 0x0F = cpu.F &&& 0x0F := by
  unfold OR
  simp

@[simp] theorem XOR_lowF (cpu : Cpu δ) (value : Nat) :
    (cpu.XOR value).F &&& 0x0F = cpu.F &&& 0x0F := by
  unfold XOR
  simp

@[simp] theorem RL_lowF (cpu : Cpu δ) (oldValue : Nat) :
    (cpu.RL oldValue).2.F &&& 0x0F = cpu.F &&& 0x0F := by
  unfold RL
  simp

@[simp] theorem RR_lowF (cpu : Cpu δ) (oldValue : Nat) :
    (cpu.RR oldValue).2.F &&& 0x0F = cpu.F &&& 0x0F := by
  unfold RR
  simp

@[simp] theorem setBC_F (cpu : Cpu δ) (value : Nat) : (cpu.setBC value).F = cpu.F := rfl

@[simp] theorem setDE_F (cpu : Cpu δ) (value : Nat) : (cpu.setDE value).F = cpu.F := rfl

@[simp] theorem setHL_F (cpu : Cpu δ) (value : Nat) : (cpu.setHL value).F = cpu.F := rfl

@[simp] theorem BC_DE_HL_SP_Write16_F (N : Nat) (cpu : Cpu δ) (value : Nat) :
    (BC_DE_HL_SP_Write16 N cpu value).F = cpu.F := by
  unfold BC_DE_HL_SP_Write16
  split <;> rfl

@[simp] theorem cpu_Read8_F (cpu : Cpu δ) (address : Nat) :
    (cpu.Read8 address).state.F = cpu.F := by
  unfold Cpu.Read8
  split <;> rfl

@[simp] theorem cpu_Write8_F (cpu : Cpu δ) (address value : Nat) :
    (cpu.Write8 address value).state.F = cpu.F := by
  unfold Cpu.Write8
  split <;> rfl

@[simp] theorem Fetch8_F (cpu : Cpu δ) : cpu.Fetch8.state.F = cpu.F := by
  unfold Fetch8
  split <;> rfl

@[simp] theorem Fetch16_F (cpu : Cpu δ) : cpu.Fetch16.state.F = cpu.F := by
  unfold Fetch16
  split <;> rfl

@[simp] theorem Push16_F (cpu : Cpu δ) (value : Nat) : (cpu.Push16 value).state.F = cpu.F := by
  unfold Push16
  dsimp only
  split <;> rfl

@[simp] theorem Pop16_F (cpu : Cpu δ) : cpu.Pop16.state.F = cpu.F := by
  unfold Pop16
  split <;> rfl

@[simp] theorem slot_Read8_F (N : Nat) (cpu : Cpu δ) :
    (B_C_D_E_H_L_iHL_A_Read8 N cpu).state.F = cpu.F := by
  unfold B_C_D_E_H_L_iHL_A_Read8
  split <;> first | rfl | exact cpu_Read8_F _ _

@[simp] theorem slot_Write8_F (N : Nat) (cpu : Cpu δ) (value : Nat) :
    (B_C_D_E_H_L_iHL_A_Write8 N cpu value).state.F = cpu.F := by
  unfold B_C_D_E_H_L_iHL_A_Write8
  split <;> first | rfl | exact cpu_Write8_F _ _ _

@[simp] theorem Call_F (cpu : Cpu δ) (address : Nat) :
    (cpu.Call address).state.F &&& 0x0F = cpu.F &&& 0x0F := by
  unfold Call
  refine lowF_andThen cpu _ _ (by simp) fun v s => rfl

@[simp] theorem Ret_F (cpu : Cpu δ) : cpu.Ret.state.F &&& 0x0F = cpu.F &&& 0x0F := by
  unfold Ret
  refine lowF_andThen cpu _ _ (by simp) fun v s => rfl

theorem OPCODE_lowF (cycles : Nat) (name : Cpu δ → Outcome (Cpu δ) Unit) (cpu : Cpu δ)
    (h : (name cpu).state.F &&& 0x0F = cpu.F &&& 0x0F) :
    (OPCODE cycles name cpu).state.F &&& 0x0F = cpu.F &&& 0x0F := by
  unfold OPCODE
  exact lowF_andThen cpu _ _ h fun v s => rfl

set_option linter.unusedTactic false
set_option linter.unreachableTactic false

@[simp] theorem ADC_C__E_lowF (N : Nat) (cpu : Cpu δ) :
    (ADC_C__E N cpu).state.F &&& 0x0F = cpu.F &&& 0x0F := by
  unfold ADC_C__E
  try dsimp only
  repeat' first
    | (intro _ _; try dsimp only)
    | (apply lowF_andThen)
    | (simp [b0_2_B_C_D_E_H_L_iHL_A_Read8, b0_2_B_C_D_E_H_L_iHL_A_Write8,
        b3_5_B_C_D_E_H_L_iHL_A_Read8, b3_5_B_C_D_E_H_L_iHL_A_Write8, b4_iBC_iDE_Read8,
        b4_iBC_iDE_Write8, iBC_iDE_Read8, iBC_iDE_Write8, b4_5_BC_DE_HL_SP_Write16]; done)
    | split_ifs

@[simp] theorem ADD_0_3__9_lowF (N : Nat) (cpu : Cpu δ) :
    (ADD_0_3__9 N cpu).state.F &&& 0x0F = cpu.F &&& 0x0F := by
  unfold ADD_0_3__9
  try dsimp only
  repeat' first
    | (intro _ _; try dsimp only)
    | (apply lowF_andThen)
    | (simp [b0_2_B_C_D_E_H_L_iHL_A_Read8, b0_2_B_C_D_E_H_L_iHL_A_Write8,
        b3_5_B_C_D_E_H_L_iHL_A_Read8, b3_5_B_C_D_E_H_L_iHL_A_Write8, b4_iBC_iDE_Read8,
        b4_iBC_iDE_Write8, iBC_iDE_Read8, iBC_iDE_Write8, b4_5_BC_DE_HL_SP_Write16]; done)
    | split_ifs

@[simp] theorem ADD_C_6_lowF (N : Nat) (cpu : Cpu δ) :
    (ADD_C_6 N cpu).state.F &&& 0x0F = cpu.F &&& 0x0F := by
  unfold ADD_C_6
  try dsimp only
  repeat' first
    | (intro _ _; try dsimp only)
    | (apply lowF_andThen)
    | (simp [b0_2_B_C_D_E_H_L_iHL_A_Read8, b0_2_B_C_D_E_H_L_iHL_A_Write8,
        b3_5_B_C_D_E_H_L_iHL_A_Read8, b3_5_B_C_D_E_H_L_iHL_A_Write8, b4_iBC_iDE_Read8,
        b4_iBC_iDE_Write8, iBC_iDE_Read8, iBC_iDE_Write8, b4_5_BC_DE_HL_SP_Write16]; done)
    | split_ifs

@[simp] theorem AND_E__6_lowF (N : Nat) (cpu : Cpu δ) :
    (AND_E__6 N cpu).state.F &&& 0x0F = cpu.F &&& 0x0F := by
  unfold AND_E__6
  try dsimp only
  repeat' first
    | (intro _ _; try dsimp only)
    | (apply lowF_andThen)
    | (simp [b0_2_B_C_D_E_H_L_iHL_A_Read8, b0_2_B_C_D_E_H_L_iHL_A_Write8,
        b3_5_B_C_D_E_H_L_iHL_A_Read8, b3_5_B_C_D_E_H_L_iHL_A_Write8, b4_iBC_iDE_Read8,
        b4_iBC_iDE_Write8, iBC_iDE_Read8, iBC_iDE_Write8, b4_5_BC_DE_HL_SP_Write16]; done)
    | split_ifs

@[simp] theorem CALL_C_D__4__C_D__C_lowF (N : Nat) (cpu : Cpu δ) :
    (CALL_C_D__4__C_D__C N cpu).state.F &&& 0x0F = cpu.F &&& 0x0F := by
  unfold CALL_C_D__4__C_D__C
  try dsimp only
  repeat' first
    | (intro _ _; try dsimp only)
    | (apply lowF_andThen)
    | (simp [b0_2_B_C_D_E_H_L_iHL_A_Read8, b0_2_B_C_D_E_H_L_iHL_A_Write8,
        b3_5_B_C_D_E_H_L_iHL_A_Read8, b3_5_B_C_D_E_H_L_iHL_A_Write8, b4_iBC_iDE_Read8,
        b4_iBC_iDE_Write8, iBC_iDE_Read8, iBC_iDE_Write8, b4_5_BC_DE_HL_SP_Write16]; done)
    | split_ifs

@[simp] theorem CP_F_E_lowF (N : Nat) (cpu : Cpu δ) :
    (CP_F_E N cpu).state.F &&& 0x0F = cpu.F &&& 0x0F := by
  unfold CP_F_E
  try dsimp only
  repeat' first
    | (intro _ _; try dsimp only)
    | (apply lowF_andThen)
    | (simp [b0_2_B_C_D_E_H_L_iHL_A_Read8, b0_2_B_C_D_E_H_L_iHL_A_Write8,
        b3_5_B_C_D_E_H_L_iHL_A_Read8, b3_5_B_C_D_E_H_L_iHL_A_Write8, b4_iBC_iDE_Read8,
        b4_iBC_iDE_Write8, iBC_iDE_Read8, iBC_iDE_Write8, b4_5_BC_DE_HL_SP_Write16]; done)
    | split_ifs

@[simp] theorem DEC_0_3__5__0_3__D_lowF (N : Nat) (cpu : Cpu δ) :
    (DEC_0_3__5__0_3__D N cpu).state.F &&& 0x0F = cpu.F &&& 0x0F := by
  unfold DEC_0_3__5__0_3__D
  try dsimp only
  repeat' first
    | (intro _ _; try dsimp only)
    | (apply lowF_andThen)
    | (simp [b0_2_B_C_D_E_H_L_iHL_A_Read8, b0_2_B_C_D_E_H_L_iHL_A_Write8,
        b3_5_B_C_D_E_H_L_iHL_A_Read8, b3_5_B_C_D_E_H_L_iHL_A_Write8, b4_iBC_iDE_Read8,
        b4_iBC_iDE_Write8, iBC_iDE_Read8, iBC_iDE_Write8, b4_5_BC_DE_HL_SP_Write16]; done)
    | split_ifs

@[simp] theorem DEC_0_3__B_lowF (N : Nat) (cpu : Cpu δ) :
    (DEC_0_3__B N cpu).state.F &&& 0x0F = cpu.F &&& 0x0F := by
  unfold DEC_0_3__B
  try dsimp only
  repeat' first
    | (intro _ _; try dsimp only)
    | (apply lowF_andThen)
    | (simp [b0_2_B_C_D_E_H_L_iHL_A_Read8, b0_2_B_C_D_E_H_L_iHL_A_Write8,
        b3_5_B_C_D_E_H_L_iHL_A_Read8, b3_5_B_C_D_E_H_L_iHL_A_Write8, b4_iBC_iDE_Read8,
        b4_iBC_iDE_Write8, iBC_iDE_Read8, iBC_iDE_Write8, b4_5_BC_DE_HL_SP_Write16]; done)
    | split_ifs

@[simp] theorem HALT_7__6_lowF (N : Nat) (cpu : Cpu δ) :
    (HALT_7__6 N cpu).state.F &&& 0x0F = cpu.F &&& 0x0F := by
  unfold HALT_7__6
  try dsimp only
  repeat' first
    | (intro _ _; try dsimp only)
    | (apply lowF_andThen)
    | (simp [b0_2_B_C_D_E_H_L_iHL_A_Read8, b0_2_B_C_D_E_H_L_iHL_A_Write8,
        b3_5_B_C_D_E_H_L_iHL_A_Read8, b3_5_B_C_D_E_H_L_iHL_A_Write8, b4_iBC_iDE_Read8,
        b4_iBC_iDE_Write8, iBC_iDE_Read8, iBC_iDE_Write8, b4_5_BC_DE_HL_SP_Write16]; done)
    | split_ifs

@[simp] theorem INC_0_3__3_lowF (N : Nat) (cpu : Cpu δ) :
    (INC_0_3__3 N cpu).state.F &&& 0x0F = cpu.F &&& 0x0F := by
  unfold INC_0_3__3
  try dsimp only
  repeat' first
    | (intro _ _; try dsimp only)
    | (apply lowF_andThen)
    | (simp [b0_2_B_C_D_E_H_L_iHL_A_Read8, b0_2_B_C_D_E_H_L_iHL_A_Write8,
        b3_5_B_C_D_E_H_L_iHL_A_Read8, b3_5_B_C_D_E_H_L_iHL_A_Write8, b4_iBC_iDE_Read8,
        b4_iBC_iDE_Write8, iBC_iDE_Read8, iBC_iDE_Write8, b4_5_BC_DE_HL_SP_Write16]; done)
    | split_ifs

@[simp] theorem INC_0_3__4__0_3__C_lowF (N : Nat) (cpu : Cpu δ) :
    (INC_0_3__4__0_3__C N cpu).state.F &&& 0x0F = cpu.F &&& 0x0F := by
  unfold INC_0_3__4__0_3__C
  try dsimp only
  repeat' first
    | (intro _ _; try dsimp only)
    | (apply lowF_andThen)
    | (simp [b0_2_B_C_D_E_H_L_iHL_A_Read8, b0_2_B_C_D_E_H_L_iHL_A_Write8,
        b3_5_B_C_D_E_H_L_iHL_A_Read8, b3_5_B_C_D_E_H_L_iHL_A_Write8, b4_iBC_iDE_Read8,
        b4_iBC_iDE_Write8, iBC_iDE_Read8, iBC_iDE_Write8, b4_5_BC_DE_HL_SP_Write16]; done)
    | split_ifs

@[simp] theorem IllegalOpcode_lowF (N : Nat) (cpu : Cpu δ) :
    (IllegalOpcode N cpu).state.F &&& 0x0F = cpu.F &&& 0x0F := by
  unfold IllegalOpcode
  try dsimp only
  repeat' first
    | (intro _ _; try dsimp only)
    | (apply lowF_andThen)
    | (simp [b0_2_B_C_D_E_H_L_iHL_A_Read8, b0_2_B_C_D_E_H_L_iHL_A_Write8,
        b3_5_B_C_D_E_H_L_iHL_A_Read8, b3_5_B_C_D_E_H_L_iHL_A_Write8, b4_iBC_iDE_Read8,
        b4_iBC_iDE_Write8, iBC_iDE_Read8, iBC_iDE_Write8, b4_5_BC_DE_HL_SP_Write16]; done)
    | split_ifs

@[simp] theorem JP_E__9_lowF (N : Nat) (cpu : Cpu δ) :
    (JP_E__9 N cpu).state.F &&& 0x0F = cpu.F &&& 0x0F := by
  unfold JP_E__9
  try dsimp only
  repeat' first
    | (intro _ _; try dsimp only)
    | (apply lowF_andThen)
    | (simp [b0_2_B_C_D_E_H_L_iHL_A_Read8, b0_2_B_C_D_E_H_L_iHL_A_Write8,
        b3_5_B_C_D_E_H_L_iHL_A_Read8, b3_5_B_C_D_E_H_L_iHL_A_Write8, b4_iBC_iDE_Read8,
        b4_iBC_iDE_Write8, iBC_iDE_Read8, iBC_iDE_Write8, b4_5_BC_DE_HL_SP_Write16]; done)
    | split_ifs

@[simp] theorem JR_1__8_lowF (N : Nat) (cpu : Cpu δ) :
    (JR_1__8 N cpu).state.F &&& 0x0F = cpu.F &&& 0x0F := by
  unfold JR_1__8
  try dsimp only
  repeat' first
    | (intro _ _; try dsimp only)
    | (apply lowF_andThen)
    | (simp [b0_2_B_C_D_E_H_L_iHL_A_Read8, b0_2_B_C_D_E_H_L_iHL_A_Write8,
        b3_5_B_C_D_E_H_L_iHL_A_Read8, b3_5_B_C_D_E_H_L_iHL_A_Write8, b4_iBC_iDE_Read8,
        b4_iBC_iDE_Write8, iBC_iDE_Read8, iBC_iDE_Write8, b4_5_BC_DE_HL_SP_Write16]; done)
    | split_ifs

@[simp] theorem JR_2_3__0__2_3__8_lowF (N : Nat) (cpu : Cpu δ) :
    (JR_2_3__0__2_3__8 N cpu).state.F &&& 0x0F = cpu.F &&& 0x0F := by
  unfold JR_2_3__0__2_3__8
  try dsimp only
  repeat' first
    | (intro _ _; try dsimp only)
    | (apply lowF_andThen)
    | (simp [b0_2_B_C_D_E_H_L_iHL_A_Read8, b0_2_B_C_D_E_H_L_iHL_A_Write8,
        b3_5_B_C_D_E_H_L_iHL_A_Read8, b3_5_B_C_D_E_H_L_iHL_A_Write8, b4_iBC_iDE_Read8,
        b4_iBC_iDE_Write8, iBC_iDE_Read8, iBC_iDE_Write8, b4_5_BC_DE_HL_SP_Write16]; done)
    | split_ifs

@[simp] theorem LDD_3__2_lowF (N : Nat) (cpu : Cpu δ) :
    (LDD_3__2 N cpu).state.F &&& 0x0F = cpu.F &&& 0x0F := by
  unfold LDD_3__2
  try dsimp only
  repeat' first
    | (intro _ _; try dsimp only)
    | (apply lowF_andThen)
    | (simp [b0_2_B_C_D_E_H_L_iHL_A_Read8, b0_2_B_C_D_E_H_L_iHL_A_Write8,
        b3_5_B_C_D_E_H_L_iHL_A_Read8, b3_5_B_C_D_E_H_L_iHL_A_Write8, b4_iBC_iDE_Read8,
        b4_iBC_iDE_Write8, iBC_iDE_Read8, iBC_iDE_Write8, b4_5_BC_DE_HL_SP_Write16]; done)
    | split_ifs

@[simp] theorem LDD_3__A_lowF (N : Nat) (cpu : Cpu δ) :
    (LDD_3__A N cpu).state.F &&& 0x0F = cpu.F &&& 0x0F := by
  unfold LDD_3__A
  try dsimp only
  repeat' first
    | (intro _ _; try dsimp only)
    | (apply lowF_andThen)
    | (simp [b0_2_B_C_D_E_H_L_iHL_A_Read8, b0_2_B_C_D_E_H_L_iHL_A_Write8,
        b3_5_B_C_D_E_H_L_iHL_A_Read8, b3_5_B_C_D_E_H_L_iHL_A_Write8, b4_iBC_iDE_Read8,
        b4_iBC_iDE_Write8, iBC_iDE_Read8, iBC_iDE_Write8, b4_5_BC_DE_HL_SP_Write16]; done)
    | split_ifs

@[simp] theorem LDH_F__0_lowF (N : Nat) (cpu : Cpu δ) :
    (LDH_F__0 N cpu).state.F &&& 0x0F = cpu.F &&& 0x0F := by
  unfold LDH_F__0
  refine lowF_andThen cpu _ _ (by simp) fun v s => ?_
  exact lowF_andThen s _ _ (by simp) fun v2 s2 => rfl

@[simp] theorem LDI_2__2_lowF (N : Nat) (cpu : Cpu δ) :
    (LDI_2__2 N cpu).state.F &&& 0x0F = cpu.F &&& 0x0F := by
  unfold LDI_2__2
  try dsimp only
  repeat' first
    | (intro _ _; try dsimp only)
    | (apply lowF_andThen)
    | (simp [b0_2_B_C_D_E_H_L_iHL_A_Read8, b0_2_B_C_D_E_H_L_iHL_A_Write8,
        b3_5_B_C_D_E_H_L_iHL_A_Read8, b3_5_B_C_D_E_H_L_iHL_A_Write8, b4_iBC_iDE_Read8,
        b4_iBC_iDE_Write8, iBC_iDE_Read8, iBC_iDE_Write8, b4_5_BC_DE_HL_SP_Write16]; done)
    | split_ifs

@[simp] theorem LDI_2__A_lowF (N : Nat) (cpu : Cpu δ) :
    (LDI_2__A N cpu).state.F &&& 0x0F = cpu.F &&& 0x0F := by
  unfold LDI_2__A
  try dsimp only
  repeat' first
    | (intro _ _; try dsimp only)
    | (apply lowF_andThen)
    | (simp [b0_2_B_C_D_E_H_L_iHL_A_Read8, b0_2_B_C_D_E_H_L_iHL_A_Write8,
        b3_5_B_C_D_E_H_L_iHL_A_Read8, b3_5_B_C_D_E_H_L_iHL_A_Write8, b4_iBC_iDE_Read8,
        b4_iBC_iDE_Write8, iBC_iDE_Read8, iBC_iDE_Write8, b4_5_BC_DE_HL_SP_Write16]; done)
    | split_ifs

@[simp] theorem LD_0_1__2_lowF (N : Nat) (cpu : Cpu δ) :
    (LD_0_1__2 N cpu).state.F &&& 0x0F = cpu.F &&& 0x0F := by
  unfold LD_0_1__2
  try dsimp only
  repeat' first
    | (intro _ _; try dsimp only)
    | (apply lowF_andThen)
    | (simp [b0_2_B_C_D_E_H_L_iHL_A_Read8, b0_2_B_C_D_E_H_L_iHL_A_Write8,
        b3_5_B_C_D_E_H_L_iHL_A_Read8, b3_5_B_C_D_E_H_L_iHL_A_Write8, b4_iBC_iDE_Read8,
        b4_iBC_iDE_Write8, iBC_iDE_Read8, iBC_iDE_Write8, b4_5_BC_DE_HL_SP_Write16]; done)
    | split_ifs

@[simp] theorem LD_0_1__A_lowF (N : Nat) (cpu : Cpu δ) :
    (LD_0_1__A N cpu).state.F &&& 0x0F = cpu.F &&& 0x0F := by
  unfold LD_0_1__A
  try dsimp only
  repeat' first
    | (intro _ _; try dsimp only)
    | (apply lowF_andThen)
    | (simp [b0_2_B_C_D_E_H_L_iHL_A_Read8, b0_2_B_C_D_E_H_L_iHL_A_Write8,
        b3_5_B_C_D_E_H_L_iHL_A_Read8, b3_5_B_C_D_E_H_L_iHL_A_Write8, b4_iBC_iDE_Read8,
        b4_iBC_iDE_Write8, iBC_iDE_Read8, iBC_iDE_Write8, b4_5_BC_DE_HL_SP_Write16]; done)
    | split_ifs

@[simp] theorem LD_0_3__1_lowF (N : Nat) (cpu : Cpu δ) :
    (LD_0_3__1 N cpu).state.F &&& 0x0F = cpu.F &&& 0x0F := by
  unfold LD_0_3__1
  try dsimp only
  repeat' first
    | (intro _ _; try dsimp only)
    | (apply lowF_andThen)
    | (simp [b0_2_B_C_D_E_H_L_iHL_A_Read8, b0_2_B_C_D_E_H_L_iHL_A_Write8,
        b3_5_B_C_D_E_H_L_iHL_A_Read8, b3_5_B_C_D_E_H_L_iHL_A_Write8, b4_iBC_iDE_Read8,
        b4_iBC_iDE_Write8, iBC_iDE_Read8, iBC_iDE_Write8, b4_5_BC_DE_HL_SP_Write16]; done)
    | split_ifs

@[simp] theorem LD_0_3__6__0_3__E_lowF (N : Nat) (cpu : Cpu δ) :
    (LD_0_3__6__0_3__E N cpu).state.F &&& 0x0F = cpu.F &&& 0x0F := by
  unfold LD_0_3__6__0_3__E
  try dsimp only
  repeat' first
    | (intro _ _; try dsimp only)
    | (apply lowF_andThen)
    | (simp [b0_2_B_C_D_E_H_L_iHL_A_Read8, b0_2_B_C_D_E_H_L_iHL_A_Write8,
        b3_5_B_C_D_E_H_L_iHL_A_Read8, b3_5_B_C_D_E_H_L_iHL_A_Write8, b4_iBC_iDE_Read8,
        b4_iBC_iDE_Write8, iBC_iDE_Read8, iBC_iDE_Write8, b4_5_BC_DE_HL_SP_Write16]; done)
    | split_ifs

@[simp] theorem LD_4_7__0_F__NO_7__6_lowF (N : Nat) (cpu : Cpu δ) :
    (LD_4_7__0_F__NO_7__6 N cpu).state.F &&& 0x0F = cpu.F &&& 0x0F := by
  unfold LD_4_7__0_F__NO_7__6
  try dsimp only
  repeat' first
    | (intro _ _; try dsimp only)
    | (apply lowF_andThen)
    | (simp [b0_2_B_C_D_E_H_L_iHL_A_Read8, b0_2_B_C_D_E_H_L_iHL_A_Write8,
        b3_5_B_C_D_E_H_L_iHL_A_Read8, b3_5_B_C_D_E_H_L_iHL_A_Write8, b4_iBC_iDE_Read8,
        b4_iBC_iDE_Write8, iBC_iDE_Read8, iBC_iDE_Write8, b4_5_BC_DE_HL_SP_Write16]; done)
    | split_ifs

@[simp] theorem LD_F__A_lowF (N : Nat) (cpu : Cpu δ) :
    (LD_F__A N cpu).state.F &&& 0x0F = cpu.F &&& 0x0F := by
  unfold LD_F__A
  try dsimp only
  repeat' first
    | (intro _ _; try dsimp only)
    | (apply lowF_andThen)
    | (simp [b0_2_B_C_D_E_H_L_iHL_A_Read8, b0_2_B_C_D_E_H_L_iHL_A_Write8,
        b3_5_B_C_D_E_H_L_iHL_A_Read8, b3_5_B_C_D_E_H_L_iHL_A_Write8, b4_iBC_iDE_Read8,
        b4_iBC_iDE_Write8, iBC_iDE_Read8, iBC_iDE_Write8, b4_5_BC_DE_HL_SP_Write16]; done)
    | split_ifs

@[simp] theorem NOP_0__0_lowF (N : Nat) (cpu : Cpu δ) :
    (NOP_0__0 N cpu).state.F &&& 0x0F = cpu.F &&& 0x0F := by
  unfold NOP_0__0
  try dsimp only
  repeat' first
    | (intro _ _; try dsimp only)
    | (apply lowF_andThen)
    | (simp [b0_2_B_C_D_E_H_L_iHL_A_Read8, b0_2_B_C_D_E_H_L_iHL_A_Write8,
        b3_5_B_C_D_E_H_L_iHL_A_Read8, b3_5_B_C_D_E_H_L_iHL_A_Write8, b4_iBC_iDE_Read8,
        b4_iBC_iDE_Write8, iBC_iDE_Read8, iBC_iDE_Write8, b4_5_BC_DE_HL_SP_Write16]; done)
    | split_ifs

@[simp] theorem OR_B__0_7_lowF (N : Nat) (cpu : Cpu δ) :
    (OR_B__0_7 N cpu).state.F &&& 0x0F = cpu.F &&& 0x0F := by
  unfold OR_B__0_7
  try dsimp only
  repeat' first
    | (intro _ _; try dsimp only)
    | (apply lowF_andThen)
    | (simp [b0_2_B_C_D_E_H_L_iHL_A_Read8, b0_2_B_C_D_E_H_L_iHL_A_Write8,
        b3_5_B_C_D_E_H_L_iHL_A_Read8, b3_5_B_C_D_E_H_L_iHL_A_Write8, b4_iBC_iDE_Read8,
        b4_iBC_iDE_Write8, iBC_iDE_Read8, iBC_iDE_Write8, b4_5_BC_DE_HL_SP_Write16]; done)
    | split_ifs

@[simp] theorem OR_F_6_lowF (N : Nat) (cpu : Cpu δ) :
    (OR_F_6 N cpu).state.F &&& 0x0F = cpu.F &&& 0x0F := by
  unfold OR_F_6
  try dsimp only
  repeat' first
    | (intro _ _; try dsimp only)
    | (apply lowF_andThen)
    | (simp [b0_2_B_C_D_E_H_L_iHL_A_Read8, b0_2_B_C_D_E_H_L_iHL_A_Write8,
        b3_5_B_C_D_E_H_L_iHL_A_Read8, b3_5_B_C_D_E_H_L_iHL_A_Write8, b4_iBC_iDE_Read8,
        b4_iBC_iDE_Write8, iBC_iDE_Read8, iBC_iDE_Write8, b4_5_BC_DE_HL_SP_Write16]; done)
    | split_ifs

@[simp] theorem RET_C_D__0__C_D__8_lowF (N : Nat) (cpu : Cpu δ) :
    (RET_C_D__0__C_D__8 N cpu).state.F &&& 0x0F = cpu.F &&& 0x0F := by
  unfold RET_C_D__0__C_D__8
  try dsimp only
  repeat' first
    | (intro _ _; try dsimp only)
    | (apply lowF_andThen)
    | (simp [b0_2_B_C_D_E_H_L_iHL_A_Read8, b0_2_B_C_D_E_H_L_iHL_A_Write8,
        b3_5_B_C_D_E_H_L_iHL_A_Read8, b3_5_B_C_D_E_H_L_iHL_A_Write8, b4_iBC_iDE_Read8,
        b4_iBC_iDE_Write8, iBC_iDE_Read8, iBC_iDE_Write8, b4_5_BC_DE_HL_SP_Write16]; done)
    | split_ifs

@[simp] theorem RL_CB_1__0_7_lowF (N : Nat) (cpu : Cpu δ) :
    (RL_CB_1__0_7 N cpu).state.F &&& 0x0F = cpu.F &&& 0x0F := by
  unfold RL_CB_1__0_7
  try dsimp only
  repeat' first
    | (intro _ _; try dsimp only)
    | (apply lowF_andThen)
    | (simp [b0_2_B_C_D_E_H_L_iHL_A_Read8, b0_2_B_C_D_E_H_L_iHL_A_Write8,
        b3_5_B_C_D_E_H_L_iHL_A_Read8, b3_5_B_C_D_E_H_L_iHL_A_Write8, b4_iBC_iDE_Read8,
        b4_iBC_iDE_Write8, iBC_iDE_Read8, iBC_iDE_Write8, b4_5_BC_DE_HL_SP_Write16]; done)
    | split_ifs

@[simp] theorem RR_1__F_lowF (N : Nat) (cpu : Cpu δ) :
    (RR_1__F N cpu).state.F &&& 0x0F = cpu.F &&& 0x0F := by
  unfold RR_1__F
  try dsimp only
  repeat' first
    | (intro _ _; try dsimp only)
    | (apply lowF_andThen)
    | (simp [b0_2_B_C_D_E_H_L_iHL_A_Read8, b0_2_B_C_D_E_H_L_iHL_A_Write8,
        b3_5_B_C_D_E_H_L_iHL_A_Read8, b3_5_B_C_D_E_H_L_iHL_A_Write8, b4_iBC_iDE_Read8,
        b4_iBC_iDE_Write8, iBC_iDE_Read8, iBC_iDE_Write8, b4_5_BC_DE_HL_SP_Write16]; done)
    | split_ifs

@[simp] theorem RR_CB_1__8_F_lowF (N : Nat) (cpu : Cpu δ) :
    (RR_CB_1__8_F N cpu).state.F &&& 0x0F = cpu.F &&& 0x0F := by
  unfold RR_CB_1__8_F
  try dsimp only
  repeat' first
    | (intro _ _; try dsimp only)
    | (apply lowF_andThen)
    | (simp [b0_2_B_C_D_E_H_L_iHL_A_Read8, b0_2_B_C_D_E_H_L_iHL_A_Write8,
        b3_5_B_C_D_E_H_L_iHL_A_Read8, b3_5_B_C_D_E_H_L_iHL_A_Write8, b4_iBC_iDE_Read8,
        b4_iBC_iDE_Write8, iBC_iDE_Read8, iBC_iDE_Write8, b4_5_BC_DE_HL_SP_Write16]; done)
    | split_ifs

@[simp] theorem SRL_CB_3__8_F_lowF (N : Nat) (cpu : Cpu δ) :
    (SRL_CB_3__8_F N cpu).state.F &&& 0x0F = cpu.F &&& 0x0F := by
  unfold SRL_CB_3__8_F
  try dsimp only
  repeat' first
    | (intro _ _; try dsimp only)
    | (apply lowF_andThen)
    | (simp [b0_2_B_C_D_E_H_L_iHL_A_Read8, b0_2_B_C_D_E_H_L_iHL_A_Write8,
        b3_5_B_C_D_E_H_L_iHL_A_Read8, b3_5_B_C_D_E_H_L_iHL_A_Write8, b4_iBC_iDE_Read8,
        b4_iBC_iDE_Write8, iBC_iDE_Read8, iBC_iDE_Write8, b4_5_BC_DE_HL_SP_Write16]; done)
    | split_ifs

@[simp] theorem STOP_1__0_lowF (N : Nat) (cpu : Cpu δ) :
    (STOP_1__0 N cpu).state.F &&& 0x0F = cpu.F &&& 0x0F := by
  unfold STOP_1__0
  try dsimp only
  repeat' first
    | (intro _ _; try dsimp only)
    | (apply lowF_andThen)
    | (simp [b0_2_B_C_D_E_H_L_iHL_A_Read8, b0_2_B_C_D_E_H_L_iHL_A_Write8,
        b3_5_B_C_D_E_H_L_iHL_A_Read8, b3_5_B_C_D_E_H_L_iHL_A_Write8, b4_iBC_iDE_Read8,
        b4_iBC_iDE_Write8, iBC_iDE_Read8, iBC_iDE_Write8, b4_5_BC_DE_HL_SP_Write16]; done)
    | split_ifs

@[simp] theorem SUB_D__6_lowF (N : Nat) (cpu : Cpu δ) :
    (SUB_D__6 N cpu).state.F &&& 0x0F = cpu.F &&& 0x0F := by
  unfold SUB_D__6
  try dsimp only
  repeat' first
    | (intro _ _; try dsimp only)
    | (apply lowF_andThen)
    | (simp [b0_2_B_C_D_E_H_L_iHL_A_Read8, b0_2_B_C_D_E_H_L_iHL_A_Write8,
        b3_5_B_C_D_E_H_L_iHL_A_Read8, b3_5_B_C_D_E_H_L_iHL_A_Write8, b4_iBC_iDE_Read8,
        b4_iBC_iDE_Write8, iBC_iDE_Read8, iBC_iDE_Write8, b4_5_BC_DE_HL_SP_Write16]; done)
    | split_ifs

@[simp] theorem XOR_A__8_F_lowF (N : Nat) (cpu : Cpu δ) :
    (XOR_A__8_F N cpu).state.F &&& 0x0F = cpu.F &&& 0x0F := by
  unfold XOR_A__8_F
  try dsimp only
  repeat' first
    | (intro _ _; try dsimp only)
    | (apply lowF_andThen)
    | (simp [b0_2_B_C_D_E_H_L_iHL_A_Read8, b0_2_B_C_D_E_H_L_iHL_A_Write8,
        b3_5_B_C_D_E_H_L_iHL_A_Read8, b3_5_B_C_D_E_H_L_iHL_A_Write8, b4_iBC_iDE_Read8,
        b4_iBC_iDE_Write8, iBC_iDE_Read8, iBC_iDE_Write8, b4_5_BC_DE_HL_SP_Write16]; done)
    | split_ifs

@[simp] theorem XOR_E__E_lowF (N : Nat) (cpu : Cpu δ) :
    (XOR_E__E N cpu).state.F &&& 0x0F = cpu.F &&& 0x0F := by
  unfold XOR_E__E
  try dsimp only
  repeat' first
    | (intro _ _; try dsimp only)
    | (apply lowF_andThen)
    | (simp [b0_2_B_C_D_E_H_L_iHL_A_Read8, b0_2_B_C_D_E_H_L_iHL_A_Write8,
        b3_5_B_C_D_E_H_L_iHL_A_Read8, b3_5_B_C_D_E_H_L_iHL_A_Write8, b4_iBC_iDE_Read8,
        b4_iBC_iDE_Write8, iBC_iDE_Read8, iBC_iDE_Write8, b4_5_BC_DE_HL_SP_Write16]; done)
    | split_ifs

@[simp] theorem case_C3_lowF (cpu : Cpu δ) :
    (case_C3 cpu).state.F &&& 0x0F = cpu.F &&& 0x0F := by
  unfold case_C3
  try dsimp only
  repeat' first
    | (intro _ _; try dsimp only)
    | (apply lowF_andThen)
    | (simp [b0_2_B_C_D_E_H_L_iHL_A_Read8, b0_2_B_C_D_E_H_L_iHL_A_Write8,
        b3_5_B_C_D_E_H_L_iHL_A_Read8, b3_5_B_C_D_E_H_L_iHL_A_Write8, b4_iBC_iDE_Read8,
        b4_iBC_iDE_Write8, iBC_iDE_Read8, iBC_iDE_Write8, b4_5_BC_DE_HL_SP_Write16]; done)
    | split_ifs

@[simp] theorem case_C9_lowF (cpu : Cpu δ) :
    (case_C9 cpu).state.F &&& 0x0F = cpu.F &&& 0x0F := by
  unfold case_C9
  try dsimp only
  repeat' first
    | (intro _ _; try dsimp only)
    | (apply lowF_andThen)
    | (simp [b0_2_B_C_D_E_H_L_iHL_A_Read8, b0_2_B_C_D_E_H_L_iHL_A_Write8,
        b3_5_B_C_D_E_H_L_iHL_A_Read8, b3_5_B_C_D_E_H_L_iHL_A_Write8, b4_iBC_iDE_Read8,
        b4_iBC_iDE_Write8, iBC_iDE_Read8, iBC_iDE_Write8, b4_5_BC_DE_HL_SP_Write16]; done)
    | split_ifs

@[simp] theorem case_CD_lowF (cpu : Cpu δ) :
    (case_CD cpu).state.F &&& 0x0F = cpu.F &&& 0x0F := by
  unfold case_CD
  try dsimp only
  repeat' first
    | (intro _ _; try dsimp only)
    | (apply lowF_andThen)
    | (simp [b0_2_B_C_D_E_H_L_iHL_A_Read8, b0_2_B_C_D_E_H_L_iHL_A_Write8,
        b3_5_B_C_D_E_H_L_iHL_A_Read8, b3_5_B_C_D_E_H_L_iHL_A_Write8, b4_iBC_iDE_Read8,
        b4_iBC_iDE_Write8, iBC_iDE_Read8, iBC_iDE_Write8, b4_5_BC_DE_HL_SP_Write16]; done)
    | split_ifs

@[simp] theorem case_E0_lowF (cpu : Cpu δ) :
    (case_E0 cpu).state.F &&& 0x0F = cpu.F &&& 0x0F := by
  unfold case_E0
  refine lowF_andThen cpu _ _ (by simp) fun v s => ?_
  exact lowF_andThen s _ _ (by simp) fun v2 s2 => rfl

@[simp] theorem case_EA_lowF (cpu : Cpu δ) :
    (case_EA cpu).state.F &&& 0x0F = cpu.F &&& 0x0F := by
  unfold case_EA
  try dsimp only
  repeat' first
    | (intro _ _; try dsimp only)
    | (apply lowF_andThen)
    | (simp [b0_2_B_C_D_E_H_L_iHL_A_Read8, b0_2_B_C_D_E_H_L_iHL_A_Write8,
        b3_5_B_C_D_E_H_L_iHL_A_Read8, b3_5_B_C_D_E_H_L_iHL_A_Write8, b4_iBC_iDE_Read8,
        b4_iBC_iDE_Write8, iBC_iDE_Read8, iBC_iDE_Write8, b4_5_BC_DE_HL_SP_Write16]; done)
    | split_ifs

@[simp] theorem case_F3_lowF (cpu : Cpu δ) :
    (case_F3 cpu).state.F &&& 0x0F = cpu.F &&& 0x0F := by
  unfold case_F3
  try dsimp only
  repeat' first
    | (intro _ _; try dsimp only)
    | (apply lowF_andThen)
    | (simp [b0_2_B_C_D_E_H_L_iHL_A_Read8, b0_2_B_C_D_E_H_L_iHL_A_Write8,
        b3_5_B_C_D_E_H_L_iHL_A_Read8, b3_5_B_C_D_E_H_L_iHL_A_Write8, b4_iBC_iDE_Read8,
        b4_iBC_iDE_Write8, iBC_iDE_Read8, iBC_iDE_Write8, b4_5_BC_DE_HL_SP_Write16]; done)
    | split_ifs

end Cpu

namespace Cpu
open MemoryBus
variable {δ : Type}

theorem OPCODE_state (cycles : Nat) (name : Cpu δ → Outcome (Cpu δ) Unit) (cpu : Cpu δ) :
    (OPCODE cycles name cpu).state = (name cpu).state := by
  unfold OPCODE
  cases name cpu <;> rfl

/-- POP into BC, DE or HL keeps F; only the fourth pair, AF, writes it. -/
theorem case_C1_D1_E1_F1_lowF (opcode : Nat) (cpu : Cpu δ)
    (h : (opcode >>> 4) &&& 0x3 ≠ 3) :
    (case_C1_D1_E1_F1 opcode cpu).state.F &&& 0x0F = cpu.F &&& 0x0F := by
  have h3 : (opcode >>> 4) &&& 0x3 < 4 :=
    Nat.lt_of_le_of_lt Nat.and_le_right (by norm_num)
  unfold case_C1_D1_E1_F1
  dsimp only
  generalize (opcode >>> 4) &&& 0x3 = k at h h3
  match k, h, h3 with
  | 0, _, _ => exact lowF_andThen cpu _ _ (by simp) fun v s => rfl
  | 1, _, _ => exact lowF_andThen cpu _ _ (by simp) fun v s => rfl
  | 2, _, _ => exact lowF_andThen cpu _ _ (by simp) fun v s => rfl
  | 3, h, _ => exact absurd rfl h
  | k + 4, _, h3 => exact absurd h3 (by omega)

theorem case_C5_D5_E5_F5_lowF (opcode : Nat) (cpu : Cpu δ) :
    (case_C5_D5_E5_F5 opcode cpu).state.F &&& 0x0F = cpu.F &&& 0x0F := by
  unfold case_C5_D5_E5_F5
  dsimp only
  split <;> exact lowF_andThen cpu _ _ (by simp) fun v s => rfl

set_option maxRecDepth 8000 in
theorem extendedCases_lowF :
    ∀ p ∈ (extendedCases (δ := δ)), ∀ s, (p.2 s).state.F &&& 0x0F = s.F &&& 0x0F := by
  unfold extendedCases
  repeat' first
    | exact List.forall_mem_nil _
    | refine List.forall_mem_cons.2 ⟨?_, ?_⟩
  all_goals
    intro s
    simp [OPCODE_state]

theorem case_CB_lowF (cpu : Cpu δ) :
    (case_CB cpu).state.F &&& 0x0F = cpu.F &&& 0x0F := by
  unfold case_CB
  refine lowF_andThen cpu _ _ (by simp) fun opcode s => ?_
  cases hl : (extendedCases (δ := δ)).lookup opcode with
  | none =>
    show (unknownOpcode 0xCB { s with PC := toUint16 ((s.PC : Int) - 1) }).state.F &&& 0x0F
      = s.F &&& 0x0F
    rw [unknownOpcode_F]
  | some body => exact extendedCases_lowF (opcode, body) (lookup_mem _ _ _ hl) s

set_option linter.unusedTactic false in
set_option maxRecDepth 8000 in
theorem primaryCases_lowF :
    ∀ p ∈ (primaryCases (δ := δ)), p.1 ≠ 0xF1 →
      ∀ s, (p.2 s).state.F &&& 0x0F = s.F &&& 0x0F := by
  unfold primaryCases
  repeat' first
    | exact List.forall_mem_nil _
    | refine List.forall_mem_cons.2 ⟨?_, ?_⟩
  all_goals
    intro h s
    dsimp only at h ⊢
    first
      | (simp [OPCODE_state, case_CB_lowF, case_C5_D5_E5_F5_lowF]; done)
      | exact case_C1_D1_E1_F1_lowF _ s (by decide)
      | exact absurd rfl h

/-- Every body of the outer `switch` but that of 0xF1 keeps the low four bits of F, and so
does the `default`. -/
theorem ExecuteOpcode_lowF (opcode : Nat) (cpu : Cpu δ) (hne : opcode ≠ 0xF1) :
    (ExecuteOpcode opcode cpu).state.F &&& 0x0F = cpu.F &&& 0x0F := by
  unfold ExecuteOpcode
  cases hl : (primaryCases (δ := δ)).lookup opcode with
  | none =>
    show (unknownOpcode opcode cpu).state.F &&& 0x0F = cpu.F &&& 0x0F
    rw [unknownOpcode_F]
  | some body => exact primaryCases_lowF (opcode, body) (lookup_mem _ _ _ hl) hne cpu

theorem ExecuteSingleInstruction_lowF (cpu : Cpu δ)
    (hne : ∀ cpu1, cpu.Fetch8 ≠ .ok 0xF1 cpu1) :
    cpu.ExecuteSingleInstruction.state.F &&& 0x0F = cpu.F &&& 0x0F := by
  unfold ExecuteSingleInstruction
  cases hf : cpu.Fetch8 with
  | thrown e s =>
    have h := Fetch8_F cpu
    rw [hf] at h
    show s.F &&& 0x0F = cpu.F &&& 0x0F
    rw [show s.F = cpu.F from h]
  | ok opcode s =>
    have h := Fetch8_F cpu
    rw [hf] at h
    show (ExecuteOpcode opcode s).state.F &&& 0x0F = cpu.F &&& 0x0F
    have hop : opcode ≠ 0xF1 := by
      intro he
      rw [he] at hf
      exact hne s hf
    rw [ExecuteOpcode_lowF opcode s hop, show s.F = cpu.F from h]

end Cpu

/-! ## The LCD on the bus: OAM and DMA -/

namespace Lcd
open MemoryBus
variable {δ γ : Type}

theorem IsOamOrDma_iff (a : Nat) :
    IsOamOrDma a = true ↔ (0xFE00 ≤ a ∧ a ≤ 0xFE9F) ∨ a = 0xFF46 := by
  simp only [IsOamOrDma, Bool.or_eq_true, IsAddressInRange_iff, kOamBase, kOamSize,
    beq_iff_eq]
  omega

theorem IsOamOrDma_oam (i : Nat) (hi : i < 160) : IsOamOrDma (0xFE00 + i) = true := by
  rw [IsOamOrDma_iff]
  omega

theorem IsOamOrDma_dma : IsOamOrDma 0xFF46 = true := by decide

theorem IsOamOrDma_not_ram (a : Nat) (h : IsOamOrDma a = true) : IsBusOwnedRam a = false := by
  rw [IsOamOrDma_iff] at h
  cases hr : IsBusOwnedRam a with
  | false => rfl
  | true =>
    rw [IsBusOwnedRam_iff] at hr
    omega

theorem oam_ranges (i : Nat) (hi : i < 160) :
    IsAddressInRange (0xFE00 + i) kVramBase kVramSize = false ∧
    IsAddressInRange (0xFE00 + i) kOamBase kOamSize = true ∧
    0xFE00 + i - kOamBase = i := by
  refine ⟨?_, ?_, ?_⟩
  · cases h : IsAddressInRange (0xFE00 + i) kVramBase kVramSize with
    | false => rfl
    | true =>
      rw [IsAddressInRange_iff] at h
      simp only [kVramBase, kVramSize] at h
      omega
  · rw [IsAddressInRange_iff]
    simp only [kOamBase, kOamSize]
    omega
  · simp only [kOamBase]
    omega

theorem HandleRequest_read_oam (lcd : Lcd) (i v : Nat) (hi : i < 160) :
    HandleRequest .Read (0xFE00 + i) v lcd = (true, lcd.m_oam i, lcd, []) := by
  obtain ⟨h1, h2, h3⟩ := oam_ranges i hi
  unfold HandleRequest ServiceMemoryRangeRequest
  simp only [h1, h2, h3, Bool.false_eq_true, if_false, if_true]

theorem HandleRequest_write_oam (lcd : Lcd) (i v : Nat) (hi : i < 160) :
    HandleRequest .Write (0xFE00 + i) v lcd
      = (true, v, { lcd with m_oam := Function.update lcd.m_oam i v }, []) := by
  obtain ⟨h1, h2, h3⟩ := oam_ranges i hi
  unfold HandleRequest ServiceMemoryRangeRequest
  simp only [h1, h2, h3, Bool.false_eq_true, if_false, if_true]

theorem HandleRequest_read_dma (lcd : Lcd) (v : Nat) :
    HandleRequest .Read 0xFF46 v lcd = (true, 0, lcd, []) := rfl

theorem HandleRequest_write_dma (lcd : Lcd) (v : Nat) :
    HandleRequest .Write 0xFF46 v lcd = (true, v, lcd, dmaTransfers v) := rfl

/-- A Read of an OAM address or of the DMA register is handled by the LCD and leaves it as
it was. -/
theorem HandleRequest_read_OamOrDma (lcd : Lcd) (a v : Nat) (h : IsOamOrDma a = true) :
    (HandleRequest .Read a v lcd).1 = true ∧ (HandleRequest .Read a v lcd).2.2.1 = lcd := by
  rw [IsOamOrDma_iff] at h
  rcases h with h | h
  · have hr : ∃ i, i < 160 ∧ a = 0xFE00 + i := ⟨a - 0xFE00, by omega, by omega⟩
    rcases hr with ⟨i, hi, rfl⟩
    rw [HandleRequest_read_oam lcd i v hi]
    exact ⟨rfl, rfl⟩
  · subst h
    exact ⟨rfl, rfl⟩

theorem asDevice_claims (lcd : Lcd) (a : Nat) (h : IsOamOrDma a = true) :
    claims a (asDevice lcd : IMemoryBusDevice (Lcd ⊕ γ)) = true :=
  (HandleRequest_read_OamOrDma lcd a 0 h).1

theorem asDevice_probed (lcd : Lcd) (a : Nat) (h : IsOamOrDma a = true) :
    probed a (asDevice lcd : IMemoryBusDevice (Lcd ⊕ γ)) = asDevice lcd := by
  unfold probed asDevice
  dsimp only
  rw [(HandleRequest_read_OamOrDma lcd a 0 h).2]

theorem asDevice_served_read (lcd : Lcd) (a : Nat) (h : IsOamOrDma a = true) :
    served .Read a 0 (asDevice lcd : IMemoryBusDevice (Lcd ⊕ γ)) = asDevice lcd :=
  asDevice_probed lcd a h

theorem asDevice_servedByte_read_oam (lcd : Lcd) (i : Nat) (hi : i < 160) :
    servedByte .Read (0xFE00 + i) 0 (asDevice lcd : IMemoryBusDevice (Lcd ⊕ γ))
      = lcd.m_oam i := by
  unfold servedByte asDevice
  dsimp only
  rw [HandleRequest_read_oam lcd i 0 hi]

theorem asDevice_served_write_oam (lcd : Lcd) (i v : Nat) (hi : i < 160) :
    served .Write (0xFE00 + i) v (asDevice lcd : IMemoryBusDevice (Lcd ⊕ γ))
      = asDevice { lcd with m_oam := Function.update lcd.m_oam i v } := by
  unfold served asDevice
  dsimp only
  rw [HandleRequest_write_oam lcd i v hi]

theorem asDevice_served_write_dma (lcd : Lcd) (v : Nat) :
    served .Write 0xFF46 v (asDevice lcd : IMemoryBusDevice (Lcd ⊕ γ)) = asDevice lcd := rfl

/-- The bus an access to OAM or to the DMA register leaves still has the LCD attached. -/
theorem AttachedAt_after (k : Nat) (lcd lcd1 : Lcd) (bus : MemoryBus (Lcd ⊕ γ)) (a : Nat)
    (hA : AttachedAt k lcd bus) (devices : List (IMemoryBusDevice (Lcd ⊕ γ)))
    (cache : Nat → Int)
    (hL : devices = bus.m_devicesUnsafe.set k (asDevice lcd1) ∨
      devices = (probedFrom a 0 bus.m_devicesUnsafe).set k (asDevice lcd1))
    (hc : cache = bus.m_deviceIndexAtAddress ∨
      cache = Function.update bus.m_deviceIndexAtAddress a (k : Int)) :
    AttachedAt k lcd1
      { bus with m_devicesUnsafe := devices, m_deviceIndexAtAddress := cache } := by
  obtain ⟨h1, h2, h3⟩ := hA
  have hlt : k < bus.m_devicesUnsafe.length := (List.getElem?_eq_some.1 h1).1
  refine ⟨?_, ?_, ?_⟩
  · show devices[k]? = some (asDevice lcd1)
    rcases hL with hL | hL
    · rw [hL, List.getElem?_set_self hlt]
    · rw [hL, List.getElem?_set_self (by rw [probedFrom_length]; exact hlt)]
  · intro j d hj hd
    have hd1 : devices[j]? = some d := hd
    rcases hL with hL | hL
    · rw [hL, List.getElem?_set_ne (fun e => hj e.symm)] at hd1
      exact h2 j d hj hd1
    · rw [hL, List.getElem?_set_ne (fun e => hj e.symm), probedFrom_getElem?] at hd1
      cases hd0 : bus.m_devicesUnsafe[j]? with
      | none => rw [hd0] at hd1; cases hd1
      | some d0 =>
        rw [hd0] at hd1
        simp only [Option.map_some', Nat.zero_le, if_true, Option.some.injEq] at hd1
        rw [← hd1]
        exact h2 j d0 hj hd0
  · intro a1 ha1
    show cache a1 = MemoryDeviceStatus.Unknown ∨ cache a1 = (k : Int)
    rcases hc with hc | hc
    · rw [hc]
      exact h3 a1 ha1
    · rw [hc]
      by_cases e : a1 = a
      · rw [e, Function.update_same]
        exact Or.inr rfl
      · rw [Function.update_noteq e]
        exact h3 a1 ha1

/-- A write to OAM or to the DMA register on a bus the LCD is attached to reaches the LCD
and nothing else. -/
theorem Write8_OamOrDma (k : Nat) (lcd lcd1 : Lcd) (bus : MemoryBus (Lcd ⊕ γ)) (a x : Nat)
    (hA : AttachedAt k lcd bus) (ha : IsOamOrDma a = true)
    (hs : served .Write a x (asDevice lcd : IMemoryBusDevice (Lcd ⊕ γ)) = asDevice lcd1) :
    ∃ bus1, bus.Write8 a x = .ok () bus1 ∧ AttachedAt k lcd1 bus1 ∧ sameMemory bus1 bus ∧
      bus1.m_deviceIndexAtAddress a = (k : Int) := by
  have hram := IsOamOrDma_not_ram a ha
  rcases hA.2.2 a ha with hunk | hk
  · have hw := Write8_first_claimed bus a k x (asDevice lcd) hram hunk hA.1
      (asDevice_claims lcd a ha) (fun j d hj hd => hA.2.1 j d hj hd d.state a ha)
    rw [asDevice_probed lcd a ha, hs] at hw
    exact ⟨_, hw, AttachedAt_after k lcd lcd1 bus a hA _ _ (Or.inr rfl) (Or.inr rfl),
      ⟨⟨rfl, rfl, rfl⟩, rfl, rfl⟩, Function.update_same _ _ _⟩
  · have hw := Write8_cached bus a k x (asDevice lcd) hram hk hA.1
    rw [hs] at hw
    exact ⟨_, hw, AttachedAt_after k lcd lcd1 bus a hA _ _ (Or.inl rfl) (Or.inl rfl),
      ⟨⟨rfl, rfl, rfl⟩, rfl, rfl⟩, hk⟩

/-- A read of OAM on a bus the LCD is attached to returns the byte of the LCD. -/
theorem Read8_oam (k : Nat) (lcd : Lcd) (bus : MemoryBus (Lcd ⊕ γ)) (i : Nat) (t : Bool)
    (hA : AttachedAt k lcd bus) (hi : i < 160) :
    ∃ bus1, bus.Read8 (0xFE00 + i) t = .ok (lcd.m_oam i, true) bus1 ∧
      AttachedAt k lcd bus1 ∧ sameMemory bus1 bus := by
  have ha := IsOamOrDma_oam i hi
  have hram := IsOamOrDma_not_ram _ ha
  rcases hA.2.2 _ ha with hunk | hk
  · have hr := Read8_first_claimed bus (0xFE00 + i) k t (asDevice lcd) hram hunk hA.1
      (asDevice_claims lcd _ ha) (fun j d hj hd => hA.2.1 j d hj hd d.state _ ha)
    rw [asDevice_probed lcd _ ha, asDevice_served_read lcd _ ha,
      asDevice_servedByte_read_oam lcd i hi] at hr
    exact ⟨_, hr, AttachedAt_after k lcd lcd bus (0xFE00 + i) hA _ _ (Or.inr rfl) (Or.inr rfl),
      ⟨⟨rfl, rfl, rfl⟩, rfl, rfl⟩⟩
  · have hr := Read8_cached bus (0xFE00 + i) k t (asDevice lcd) hram hk hA.1
    rw [asDevice_served_read lcd _ ha, asDevice_servedByte_read_oam lcd i hi] at hr
    exact ⟨_, hr, AttachedAt_after k lcd lcd bus (0xFE00 + i) hA _ _ (Or.inl rfl) (Or.inl rfl),
      ⟨⟨rfl, rfl, rfl⟩, rfl, rfl⟩⟩

theorem dmaCopy_oam (k : Nat) (lcd : Lcd) (bus : MemoryBus (Lcd ⊕ γ)) (source i : Nat)
    (hA : AttachedAt k lcd bus) (hi : i < 160) (hs : IsBusOwnedRam source = true) :
    ∃ bus1, dmaCopy bus (source, 0xFE00 + i) = .ok () bus1 ∧
      AttachedAt k { lcd with m_oam := Function.update lcd.m_oam i (bus.ramByte source) } bus1 ∧
      sameMemory bus1 bus := by
  obtain ⟨bus1, hw, hA1, hm, _⟩ := Write8_OamOrDma k lcd _ bus (0xFE00 + i) (bus.ramByte source)
    hA (IsOamOrDma_oam i hi) (asDevice_served_write_oam lcd i (bus.ramByte source) hi)
  refine ⟨bus1, ?_, hA1, hm⟩
  unfold dmaCopy
  rw [Read8_ram bus source true hs]
  exact hw

theorem foldl_update_apply (g : Nat → Nat) (L : List Nat) :
    ∀ (m : Nat → Nat) (j : Nat),
      (L.foldl (fun m i => Function.update m i (g i)) m) j = if j ∈ L then g j else m j := by
  induction L with
  | nil => intro m j; simp
  | cons i L ih =>
    intro m j
    rw [List.foldl_cons, ih]
    by_cases hj : j ∈ L
    · rw [if_pos hj, if_pos (List.mem_cons_of_mem _ hj)]
    · rw [if_neg hj]
      by_cases e : j = i
      · rw [e, Function.update_same, if_pos (List.mem_cons_self _ _)]
      · rw [Function.update_noteq e, if_neg]
        intro h
        rcases List.mem_cons.1 h with h | h
        · exact e h
        · exact hj h

/-- The DMA loop over the indices of `L`: every copy reads a RAM array of the bus and writes
the byte into the OAM of the LCD. -/
theorem dmaCopies_oam (k : Nat) (source : Nat → Nat) (L : List Nat) :
    ∀ (lcd : Lcd) (bus : MemoryBus (Lcd ⊕ γ)), AttachedAt k lcd bus →
      (∀ i ∈ L, i < 160 ∧ IsBusOwnedRam (source i) = true) →
      ∃ bus1, dmaCopies (L.map fun i => (source i, 0xFE00 + i)) bus = .ok () bus1 ∧
        AttachedAt k
          { lcd with m_oam :=
              L.foldl (fun m i => Function.update m i (bus.ramByte (source i))) lcd.m_oam }
          bus1 ∧
        sameMemory bus1 bus := by
  induction L with
  | nil =>
    intro lcd bus hA _
    exact ⟨bus, rfl, hA, sameMemory_refl bus⟩
  | cons i L ih =>
    intro lcd bus hA hL
    obtain ⟨hi, hs⟩ := hL i (List.mem_cons_self _ _)
    obtain ⟨bus1, h1, hA1, hm1⟩ := dmaCopy_oam k lcd bus (source i) i hA hi hs
    obtain ⟨bus2, h2, hA2, hm2⟩ := ih _ bus1 hA1 fun j hj => hL j (List.mem_cons_of_mem _ hj)
    have hg : (fun (m : Nat → Nat) j => Function.update m j (bus1.ramByte (source j)))
        = fun m j => Function.update m j (bus.ramByte (source j)) := by
      funext m j
      rw [ramByte_congr hm1.1]
    rw [hg] at hA2
    refine ⟨bus2, ?_, hA2, sameMemory_trans hm2 hm1⟩
    show (dmaCopy bus (source i, 0xFE00 + i)).andThen _ = _
    rw [h1]
    exact h2

theorem dmaTransfers_eq (v : Nat) (hv : (v <<< 8) + 159 < 65536) :
    dmaTransfers v = (List.range 160).map fun i => ((v <<< 8) + i, 0xFE00 + i) := by
  unfold dmaTransfers
  apply List.map_congr_left
  intro i hi
  have hi : i < 160 := by simpa using hi
  have e : toUint16 (((v <<< 8) + i : Nat) : Int) = (v <<< 8) + i := by
    unfold toUint16
    omega
  rw [e]

theorem copiesOfWrite_dma (k : Nat) (lcd : Lcd) (bus : MemoryBus (Lcd ⊕ γ)) (v : Nat)
    (hA : AttachedAt k lcd bus) (hk : bus.m_deviceIndexAtAddress 0xFF46 = (k : Int)) :
    copiesOfWrite bus 0xFF46 v = dmaTransfers v := by
  have hge : bus.m_deviceIndexAtAddress 0xFF46 ≥ 0 := by rw [hk]; omega
  unfold copiesOfWrite
  rw [if_neg (by decide), if_pos hge, hk, Int.toNat_ofNat, hA.1]
  rfl

/-- A write of `v` to the DMA register on a bus the LCD is attached to, with the source
range in the RAM arrays of the bus: the write returns, the OAM of the LCD holds the source
bytes and the bus holds the bytes and registers it held. -/
theorem busWrite8_dma (k : Nat) (lcd : Lcd) (bus : MemoryBus (Lcd ⊕ γ)) (v : Nat)
    (hA : AttachedAt k lcd bus)
    (hsrc : ∀ i, i < 160 → IsBusOwnedRam ((v <<< 8) + i) = true) :
    ∃ bus1 lcd1, busWrite8 bus 0xFF46 v = .ok () bus1 ∧ AttachedAt k lcd1 bus1 ∧
      sameMemory bus1 bus ∧ ∀ i, i < 160 → lcd1.m_oam i = bus.ramByte ((v <<< 8) + i) := by
  have hv : (v <<< 8) + 159 < 65536 := by
    have h := hsrc 159 (by norm_num)
    rw [IsBusOwnedRam_iff] at h
    omega
  obtain ⟨bus0, hw, hA0, hm0, hk0⟩ := Write8_OamOrDma k lcd lcd bus 0xFF46 v hA IsOamOrDma_dma
    (asDevice_served_write_dma lcd v)
  obtain ⟨bus1, hc, hA1, hm1⟩ := dmaCopies_oam k (fun i => (v <<< 8) + i) (List.range 160)
    lcd bus0 hA0 fun i hi => ⟨List.mem_range.1 hi, hsrc i (List.mem_range.1 hi)⟩
  refine ⟨bus1, _, ?_, hA1, sameMemory_trans hm1 hm0, fun i hi => ?_⟩
  · unfold busWrite8
    rw [hw]
    show dmaCopies (copiesOfWrite bus0 0xFF46 v) bus0 = _
    rw [copiesOfWrite_dma k lcd bus0 v hA0 hk0, dmaTransfers_eq v hv]
    exact hc
  · show (List.foldl (fun m i => Function.update m i (bus0.ramByte ((v <<< 8) + i)))
      lcd.m_oam (List.range 160)) i = bus.ramByte ((v <<< 8) + i)
    rw [foldl_update_apply (fun i => bus0.ramByte ((v <<< 8) + i)), if_pos (List.mem_range.2 hi),
      ramByte_congr hm0.1]

end Lcd

namespace Sample
open MemoryBus

theorem dmaBus_attached : Lcd.AttachedAt 0 lcd dmaBus := by
  have hd : dmaBus.m_devicesUnsafe = [Lcd.asDevice lcd] := rfl
  refine ⟨rfl, fun j d hj h => ?_, fun a _ => Or.inl rfl⟩
  rw [hd] at h
  cases j with
  | zero => exact absurd rfl hj
  | succ j => simp at h

theorem dmaBus_source (i : Nat) (hi : i < 160) :
    IsBusOwnedRam ((0xC1 <<< 8) + i) = true ∧ dmaBus.ramByte ((0xC1 <<< 8) + i) = i := by
  have e : (0xC1 <<< 8 : Nat) = 0xC100 := by decide
  have h1 : IsAddressInRange (0xC100 + i) kVramBase kVramSize = false := by
    cases h : IsAddressInRange (0xC100 + i) kVramBase kVramSize with
    | false => rfl
    | true =>
      rw [IsAddressInRange_iff] at h
      simp only [kVramBase, kVramSize] at h
      omega
  have h2 : IsAddressInRange (0xC100 + i) kWorkMemoryBase kWorkMemorySize = true := by
    rw [IsAddressInRange_iff]
    simp only [kWorkMemoryBase, kWorkMemorySize]
    omega
  rw [e]
  refine ⟨?_, ?_⟩
  · rw [IsBusOwnedRam_iff]
    omega
  · unfold ramByte
    rw [if_neg (by rw [h1]; decide), if_pos h2]
    have hw : ∀ offset, dmaBus.m_workMemory offset
        = if 0x100 ≤ offset ∧ offset ≤ 0x19F then offset - 0x100 else 0xFD := fun _ => rfl
    rw [hw]
    simp only [kWorkMemoryBase]
    rw [if_pos (by omega)]
    omega

end Sample

open MemoryBus Cpu

/-! ## The LCD: the pixel and its colour index -/

namespace Lcd
open MemoryBus
variable {δ : Type}

/-- The background layer of a pixel: the luminosity of the colour index the tile lookup
finds for the pixel, in the words of the tile lookup of the spec. -/
theorem backgroundLuminosity_colorIndex (lcd : Lcd) (bus : MemoryBus δ) (screenX n : Nat)
    (hn : lcd.m_scanLine = (n : Int)) :
    backgroundLuminosity lcd bus screenX =
      .ok (lcd.GetLuminosityForColorIndex lcd.BGP
        (specColorIndex bus
          (specTileRowAddress lcd
            (specTileMapByte lcd bus ((lcd.SCX + screenX) % 256) ((lcd.SCY + n) % 256) % 256)
            ((lcd.SCY + n) % 256))
          ((lcd.SCX + screenX) % 256))) bus := by
  rw [backgroundLuminosity_reads lcd bus screenX n hn,
    tileReads_vram bus _ _ _ (by split_ifs <;> omega) (by split_ifs <;> omega)
      (fun t => by
        have := specTileRowAddress_range lcd (t % 256) ((lcd.SCY + n) % 256)
          (Nat.mod_lt _ (by norm_num))
        omega)]
  rfl

/-- The window layer of a pixel it covers: the luminosity of the colour index that the two
lookups return for the window coordinates of the pixel. -/
theorem windowLuminosity_colorIndex (lcd : Lcd) (bus : MemoryBus δ) (screenX current : Nat)
    (hw : toSint16 ((screenX : Int) - ((lcd.WX : Int) - 7)) ≥ 0 ∧
      toSint16 ((screenX : Int) - ((lcd.WX : Int) - 7)) < 160 ∧
      toSint16 (lcd.m_scanLine - (lcd.WY : Int)) ≥ 0 ∧
      toSint16 (lcd.m_scanLine - (lcd.WY : Int)) < 144) :
    ∃ t c,
      GetTileIndexAtXY bus (if lcd.LCDC &&& Bit6 != 0 then 0x9C00 else 0x9800)
        (toSint16 ((screenX : Int) - ((lcd.WX : Int) - 7)))
        (toSint16 (lcd.m_scanLine - (lcd.WY : Int))) = .ok t bus ∧
      GetTileDataPixelColorIndex bus 0x9000 (toSint8 t)
        (toSint16 ((screenX : Int) - ((lcd.WX : Int) - 7)))
        (toSint16 (lcd.m_scanLine - (lcd.WY : Int))) = .ok c bus ∧
      c < 4 ∧
      windowLuminosity lcd bus screenX current =
        .ok (lcd.GetLuminosityForColorIndex lcd.BGP c) bus := by
  obtain ⟨hx0, hx1, hy0, hy1⟩ := hw
  obtain ⟨wx, hwx⟩ := Int.eq_ofNat_of_zero_le hx0
  obtain ⟨wy, hwy⟩ := Int.eq_ofNat_of_zero_le hy0
  have ha : 0x8000 ≤ (if lcd.LCDC &&& Bit6 != 0 then 0x9C00 else 0x9800) + wy / 8 * 32 + wx / 8 ∧
      (if lcd.LCDC &&& Bit6 != 0 then 0x9C00 else 0x9800) + wy / 8 * 32 + wx / 8 < 0xA000 := by
    split_ifs <;> omega
  have h1 : GetTileIndexAtXY bus (if lcd.LCDC &&& Bit6 != 0 then 0x9C00 else 0x9800)
      (wx : Int) (wy : Int)
      = .ok (toUint8 (bus.ramByte
          ((if lcd.LCDC &&& Bit6 != 0 then 0x9C00 else 0x9800) + wy / 8 * 32 + wx / 8))) bus := by
    rw [GetTileIndexAtXY_read bus _ _ _ (by split_ifs <;> norm_num) (by omega) (by omega),
      busRead8_ramByte bus _ ha.1 ha.2]
    rfl
  have hR := toSint8_toUint8_range (bus.ramByte
    ((if lcd.LCDC &&& Bit6 != 0 then 0x9C00 else 0x9800) + wy / 8 * 32 + wx / 8))
  have h2 := GetTileDataPixelColorIndex_reads bus 0x9000
    (toSint8 (toUint8 (bus.ramByte
      ((if lcd.LCDC &&& Bit6 != 0 then 0x9C00 else 0x9800) + wy / 8 * 32 + wx / 8)))) wx wy
    ((0x9000 : Int) + toSint8 (toUint8 (bus.ramByte
      ((if lcd.LCDC &&& Bit6 != 0 then 0x9C00 else 0x9800) + wy / 8 * 32 + wx / 8))) * 16 +
        ((wy % 8 : Nat) : Int) * 2).toNat (by omega) (by omega)
  rw [busRead8_ramByte bus _ (by omega) (by omega)] at h2
  simp only [Outcome.andThen] at h2
  rw [busRead8_ramByte bus _ (by omega) (by omega)] at h2
  simp only [Outcome.andThen] at h2
  refine ⟨_, _, by rw [hwx, hwy]; exact h1, by rw [hwx, hwy]; exact h2, ?_, ?_⟩
  · cases (bus.ramByte _).testBit (7 - wx % 8) <;>
      cases (bus.ramByte _).testBit (7 - wx % 8) <;> decide
  · unfold windowLuminosity
    dsimp only
    rw [if_pos ⟨hx0, hx1, hy0, hy1⟩, hwx, hwy, h1]
    simp only [Outcome.andThen]
    rw [h2]

/-- The window layer of a pixel it does not cover leaves the luminosity as it is. -/
theorem windowLuminosity_uncovered (lcd : Lcd) (bus : MemoryBus δ) (screenX current : Nat)
    (hw : ¬ (toSint16 ((screenX : Int) - ((lcd.WX : Int) - 7)) ≥ 0 ∧
      toSint16 ((screenX : Int) - ((lcd.WX : Int) - 7)) < 160 ∧
      toSint16 (lcd.m_scanLine - (lcd.WY : Int)) ≥ 0 ∧
      toSint16 (lcd.m_scanLine - (lcd.WY : Int)) < 144)) :
    windowLuminosity lcd bus screenX current = .ok current bus := by
  unfold windowLuminosity
  dsimp only
  rw [if_neg hw]

end Lcd

/-! # The claims -/

open MemoryBus Cpu

section Claims

variable {δ : Type}

/-- Claim C1: for every address a in 0xE000..0xFDFF and every bus state, Read8(a) equals
Read8(a - 0x2000); after Write8(a, v), Read8(a - 0x2000) returns v; and after
Write8(a - 0x2000, v), Read8(a) returns v. -/
theorem echo_region_aliases_work_ram (bus : MemoryBus δ) (a : Nat)
    (h1 : 0xE000 ≤ a) (h2 : a ≤ 0xFDFF) :
    (∀ t, Read8 bus a t = Read8 bus (a - 0x2000) t) ∧
    (∀ v t, ∃ bus1, Write8 bus a v = .ok () bus1 ∧
      Read8 bus1 (a - 0x2000) t = .ok (v, true) bus1) ∧
    (∀ v t, ∃ bus1, Write8 bus (a - 0x2000) v = .ok () bus1 ∧
      Read8 bus1 a t = .ok (v, true) bus1) := by
  have ha : IsBusOwnedRam a = true := by rw [IsBusOwnedRam_iff]; omega
  have hb : IsBusOwnedRam (a - 0x2000) = true := by rw [IsBusOwnedRam_iff]; omega
  have hs : ramSlot a = ramSlot (a - 0x2000) := by
    unfold ramSlot
    simp only [IsAddressInRange_iff, kEchoBase, kEchoSize]
    split_ifs <;> omega
  refine ⟨fun t => ?_, fun v t => ?_, fun v t => ?_⟩
  · rw [Read8_ram bus a t ha, Read8_ram bus _ t hb]
    have e : a - 0x2000 - 0xC000 = a - 0xE000 := by omega
    unfold ramByte
    simp only [IsAddressInRange_iff, kVramBase, kVramSize, kWorkMemoryBase, kWorkMemorySize,
      kEchoBase, kEchoSize]
    rw [if_neg (by omega), if_neg (by omega), if_pos (by omega), if_neg (by omega),
      if_pos (by omega), e]
  · refine ⟨ramStore bus a v, Write8_ram bus a v ha, ?_⟩
    rw [Read8_ram _ _ t hb, ramByte_ramStore _ _ _ _ ha hb, if_pos hs]
  · refine ⟨ramStore bus (a - 0x2000) v, Write8_ram bus _ v hb, ?_⟩
    rw [Read8_ram _ _ t ha, ramByte_ramStore _ _ _ _ hb ha, if_pos hs.symm]

/-- Witness of C1 at a = 0xE000 on the sample bus: Write8(0xC000, 0xAB) makes Read8(0xE000)
return 0xAB. -/
theorem echo_region_aliases_work_ram_witness :
    (0xE000 ≤ 0xE000 ∧ 0xE000 ≤ 0xFDFF) ∧
    ∃ bus1, Write8 Sample.bus 0xC000 0xAB = .ok () bus1 ∧
      Read8 bus1 0xE000 true = .ok (0xAB, true) bus1 :=
  ⟨by decide,
    (echo_region_aliases_work_ram Sample.bus 0xE000 (by decide) (by decide)).2.2 0xAB true⟩

/-- Claim C2: for every 16-bit x and every address a with a and (a + 1) mod 2^16 in bus-owned
RAM, Write16(a, x) returns and a following Read16(a) returns x, the low byte being stored
at a and the high byte at a + 1. -/
theorem Write16_then_Read16 (bus : MemoryBus δ) (a x : Nat) (hx : x < 65536)
    (h1 : IsBusOwnedRam a = true) (h2 : IsBusOwnedRam ((a + 1) % 65536) = true) :
    ∃ bus1, Write16 bus a x = .ok () bus1 ∧ Read16 bus1 a = .ok x bus1 ∧
      Read8 bus1 a = .ok (x % 256, true) bus1 ∧
      Read8 bus1 ((a + 1) % 65536) = .ok (x / 256, true) bus1 :=
  Write16_Read16_ram bus a x hx h1 h2

/-- Witness of C2 at a = 0xDFFF, where a is the last byte of work RAM and a + 1 the first
byte of the echo region. -/
theorem Write16_then_Read16_witness :
    (0xBEEF < 65536 ∧ IsBusOwnedRam 0xDFFF = true ∧ IsBusOwnedRam 0xE000 = true) ∧
    ∃ bus1, Write16 Sample.bus 0xDFFF 0xBEEF = .ok () bus1 ∧
      Read16 bus1 0xDFFF = .ok 0xBEEF bus1 ∧
      Read8 bus1 0xDFFF = .ok (0xEF, true) bus1 ∧
      Read8 bus1 0xE000 = .ok (0xBE, true) bus1 :=
  ⟨by decide, Write16_then_Read16 Sample.bus 0xDFFF 0xBEEF (by decide) (by decide) (by decide)⟩

/-- Claim C3: for every 16-bit x and every SP with (SP - 2) and (SP - 1) mod 2^16 in bus-owned
RAM, Push16(x) returns with SP decreased by 2 and x stored little-endian at the new SP, and
a following Pop16() returns x and leaves SP at its value before the push. -/
theorem Push16_then_Pop16 (cpu : Cpu δ) (x : Nat) (hx : x < 65536) (hsp : cpu.SP < 65536)
    (h1 : IsBusOwnedRam (toUint16 ((cpu.SP : Int) - 2)) = true)
    (h2 : IsBusOwnedRam (toUint16 ((cpu.SP : Int) - 1)) = true) :
    ∃ cpu1, Push16 cpu x = .ok () cpu1 ∧ cpu1.SP + 2 = cpu.SP ∧
      cpu1.m_pMemory.Read8 cpu1.SP = .ok (x % 256, true) cpu1.m_pMemory ∧
      cpu1.m_pMemory.Read8 (cpu1.SP + 1) = .ok (x / 256, true) cpu1.m_pMemory ∧
      ∃ cpu2, Pop16 cpu1 = .ok x cpu2 ∧ cpu2.SP = cpu.SP := by
  obtain ⟨bus1, hpush, hge, hr1, hr2, hr16, hlo, hhi⟩ := Push16_ram cpu x hx hsp h1 h2
  refine ⟨{ cpu with SP := cpu.SP - 2, m_pMemory := bus1 }, hpush, ?_, hlo, hhi, ?_⟩
  · show cpu.SP - 2 + 2 = cpu.SP
    omega
  · have hpop := Pop16_ram { cpu with SP := cpu.SP - 2, m_pMemory := bus1 } hr1 hr2
    simp only [Read16_ram_value hr1 hr2 hr16] at hpop
    have e4 : (cpu.SP - 2 + 2) % 65536 = cpu.SP := by omega
    rw [e4] at hpop
    exact ⟨_, hpop, rfl⟩

/-- Witness of C3 on the sample CPU: SP = 0xFFFE, x = 0xBEEF. -/
theorem Push16_then_Pop16_witness :
    (0xBEEF < 65536 ∧ Sample.cpu.SP < 65536 ∧ IsBusOwnedRam 0xFFFC = true ∧
      IsBusOwnedRam 0xFFFD = true) ∧
    ∃ cpu1, Push16 Sample.cpu 0xBEEF = .ok () cpu1 ∧ cpu1.SP + 2 = 0xFFFE ∧
      cpu1.m_pMemory.Read8 cpu1.SP = .ok (0xEF, true) cpu1.m_pMemory ∧
      cpu1.m_pMemory.Read8 (cpu1.SP + 1) = .ok (0xBE, true) cpu1.m_pMemory ∧
      ∃ cpu2, Pop16 cpu1 = .ok 0xBEEF cpu2 ∧ cpu2.SP = 0xFFFE :=
  ⟨by decide,
    Push16_then_Pop16 Sample.cpu 0xBEEF (by decide) (by decide) (by decide) (by decide)⟩

/-- Claim C4: CALL nn (bytes CD lo hi at PC0) with the two bytes below SP0 in bus-owned RAM
returns, leaving PC = nn, SP = SP0 - 2 and the low and high byte of the 16-bit return address
PC0 + 3 at SP0 - 2 and SP0 - 1; if the byte then fetched at nn is RET (C9), executing it
returns and leaves PC = PC0 + 3 (as a 16-bit value) and SP = SP0. -/
theorem CALL_nn_then_RET (cpu : Cpu δ) (nn : Nat) (f0 f1 f2 : Bool)
    (bus1 bus2 bus3 : MemoryBus δ) (hsp : cpu.SP < 65536)
    (h0 : cpu.m_pMemory.Read8 cpu.PC = .ok (0xCD, f0) bus1)
    (h1 : bus1.Read8 ((cpu.PC + 1) % 65536) = .ok (nn % 256, f1) bus2)
    (h2 : bus2.Read8 ((cpu.PC + 2) % 65536) = .ok (nn / 256, f2) bus3)
    (hs1 : IsBusOwnedRam (toUint16 ((cpu.SP : Int) - 2)) = true)
    (hs2 : IsBusOwnedRam (toUint16 ((cpu.SP : Int) - 1)) = true) :
    ∃ cycles cpu1, cpu.ExecuteSingleInstruction = .ok cycles cpu1 ∧
      cpu1.PC = nn ∧ cpu1.SP + 2 = cpu.SP ∧
      cpu1.m_pMemory.Read8 cpu1.SP = .ok ((cpu.PC + 3) % 65536 % 256, true) cpu1.m_pMemory ∧
      cpu1.m_pMemory.Read8 (cpu1.SP + 1)
        = .ok ((cpu.PC + 3) % 65536 / 256, true) cpu1.m_pMemory ∧
      ∀ (f : Bool) (bus5 : MemoryBus δ), cpu1.m_pMemory.Read8 nn = .ok (0xC9, f) bus5 →
        ∃ cycles2 cpu2, cpu1.ExecuteSingleInstruction = .ok cycles2 cpu2 ∧
          cpu2.PC = (cpu.PC + 3) % 65536 ∧ cpu2.SP = cpu.SP := by
  have hf0 := Fetch8_ok cpu _ _ _ h0
  have e12 : ((cpu.PC + 1) % 65536 + 1) % 65536 = (cpu.PC + 2) % 65536 := by omega
  have hf16 := Fetch16_ok { cpu with m_pMemory := bus1, PC := (cpu.PC + 1) % 65536 }
    (nn % 256) (nn / 256) f1 f2 bus2 bus3 h1 (by rw [e12]; exact h2)
  have hmk : Make16 (nn / 256) (nn % 256) = nn := by
    rw [Make16_eq_add _ _ (Nat.mod_lt _ (by decide))]; omega
  have e3 : ((cpu.PC + 1) % 65536 + 2) % 65536 = (cpu.PC + 3) % 65536 := by omega
  obtain ⟨bus4, hpush, hge, hr1, hr2, hr16, hlo, hhi⟩ :=
    Push16_ram { cpu with m_pMemory := bus3, PC := (cpu.PC + 3) % 65536 } ((cpu.PC + 3) % 65536)
      (Nat.mod_lt _ (by decide)) hsp hs1 hs2
  simp only at hpush hge hr1 hr2 hr16 hlo hhi
  refine ⟨12, { cpu with m_pMemory := bus4, PC := nn, SP := cpu.SP - 2 }, ?_, rfl, ?_, hlo, hhi, ?_⟩
  · simp only [ExecuteSingleInstruction, hf0, Outcome.andThen, ExecuteOpcode_CD, case_CD, hf16,
      hmk, e3, Call, hpush]
  · show cpu.SP - 2 + 2 = cpu.SP
    omega
  · intro f bus5 h5
    simp only at h5
    have hsame := Read8_ok_sameRam h5
    have hf5 := Fetch8_ok { cpu with m_pMemory := bus4, PC := nn, SP := cpu.SP - 2 } _ _ _ h5
    have hv : Make16 (ramByte bus5 ((cpu.SP - 2 + 1) % 65536)) (ramByte bus5 (cpu.SP - 2))
        = (cpu.PC + 3) % 65536 := by
      rw [ramByte_congr hsame, ramByte_congr hsame]
      exact Read16_ram_value hr1 hr2 hr16
    have hpop := Pop16_ram
      { cpu with m_pMemory := bus5, PC := (nn + 1) % 65536, SP := cpu.SP - 2 } hr1 hr2
    simp only [hv] at hpop
    have e4 : (cpu.SP - 2 + 2) % 65536 = cpu.SP := by omega
    refine ⟨8, { cpu with m_pMemory := bus5, PC := (cpu.PC + 3) % 65536, SP := cpu.SP }, ?_,
      rfl, rfl⟩
    simp only [ExecuteSingleInstruction, hf5, Outcome.andThen, ExecuteOpcode_C9, case_C9, Ret,
      hpop, e4]


/-- Witness of C4 on the sample machine: PC0 = 0x0100, SP0 = 0xFFFE, nn = 0x1234 gives
PC = 0x1234, SP = 0xFFFC, memory[0xFFFC..0xFFFD] = 03 01; the RET at 0x1234 then gives
PC = 0x0103 and SP = 0xFFFE. -/
theorem CALL_nn_then_RET_witness :
    (Sample.cpu.PC = 0x0100 ∧ Sample.cpu.SP = 0xFFFE ∧
      IsBusOwnedRam 0xFFFC = true ∧ IsBusOwnedRam 0xFFFD = true) ∧
    (∃ cycles cpu1, Sample.cpu.ExecuteSingleInstruction = .ok cycles cpu1 ∧
      cpu1.PC = 0x1234 ∧ cpu1.SP + 2 = 0xFFFE ∧
      cpu1.m_pMemory.Read8 cpu1.SP = .ok (0x03, true) cpu1.m_pMemory ∧
      cpu1.m_pMemory.Read8 (cpu1.SP + 1) = .ok (0x01, true) cpu1.m_pMemory ∧
      ∀ (f : Bool) (bus5 : MemoryBus Unit), cpu1.m_pMemory.Read8 0x1234 = .ok (0xC9, f) bus5 →
        ∃ cycles2 cpu2, cpu1.ExecuteSingleInstruction = .ok cycles2 cpu2 ∧
          cpu2.PC = 0x0103 ∧ cpu2.SP = 0xFFFE) ∧
    (Sample.cpu.ExecuteSingleInstruction.state.SP = 0xFFFC ∧
      Sample.cpu.ExecuteSingleInstruction.state.ExecuteSingleInstruction.state.PC = 0x0103 ∧
      Sample.cpu.ExecuteSingleInstruction.state.ExecuteSingleInstruction.state.SP = 0xFFFE) :=
  ⟨by decide,
    CALL_nn_then_RET Sample.cpu 0x1234 true true true
      (Sample.bus.Read8 0x0100).state
      ((Sample.bus.Read8 0x0100).state.Read8 0x0101).state
      (((Sample.bus.Read8 0x0100).state.Read8 0x0101).state.Read8 0x0102).state
      (by decide) rfl rfl rfl (by decide) (by decide),
    by decide⟩

/-- Claim C5, evaluated at its failing input: POP AF (0xF1) with the bytes FF 12 on the
stack returns with A = 0x12 and F = 0xFF, so the low four bits of F are 0xF and not zero. -/
theorem POP_AF_keeps_low_nibble_of_stack_byte :
    ((Sample.bus.Write16 0xFFFC 0x12FF).state.Read8 0xFFFC).value? = some (0xFF, true) ∧
    ({ Sample.cpuAt 0x0156 0x01 with
        SP := 0xFFFC, m_pMemory := (Sample.bus.Write16 0xFFFC 0x12FF).state }
      : Cpu Unit).ExecuteSingleInstruction.value? = some 12 ∧
    ({ Sample.cpuAt 0x0156 0x01 with
        SP := 0xFFFC, m_pMemory := (Sample.bus.Write16 0xFFFC 0x12FF).state }
      : Cpu Unit).ExecuteSingleInstruction.state.F = 0xFF ∧
    ({ Sample.cpuAt 0x0156 0x01 with
        SP := 0xFFFC, m_pMemory := (Sample.bus.Write16 0xFFFC 0x12FF).state }
      : Cpu Unit).ExecuteSingleInstruction.state.F &&& 0x0F = 0x0F := by
  decide

/-- Claim C6: after Reset, from any prior state, PC = 0x0100, AF = 0x01B0 (A = 0x01,
F = 0xB0), BC = 0x0013, DE = 0x00D8, HL = 0x014D, IME = true, halted = false and
stopped = false. -/
theorem Reset_registers (cpu : Cpu δ) :
    cpu.Reset.PC = 0x0100 ∧ cpu.Reset.AF = 0x01B0 ∧ cpu.Reset.A = 0x01 ∧ cpu.Reset.F = 0xB0 ∧
    cpu.Reset.BC = 0x0013 ∧ cpu.Reset.DE = 0x00D8 ∧ cpu.Reset.HL = 0x014D ∧
    cpu.Reset.IME = true ∧ cpu.Reset.m_cpuHalted = false ∧ cpu.Reset.m_cpuStopped = false := by
  refine ⟨rfl, ?_, rfl, rfl, ?_, ?_, ?_, rfl, rfl, rfl⟩ <;>
    (simp only [Cpu.AF, Cpu.BC, Cpu.DE, Cpu.HL, Cpu.Reset, Cpu.setAF, Cpu.setBC, Cpu.setDE,
      Cpu.setHL]; decide)

/-- Claim C7: ADD A,n (0xC6) with old accumulator A and operand x returns, leaving the
accumulator (A + x) mod 256, Z set iff that result is 0, N = 0, H set iff
(A & 0xF) + (x & 0xF) > 0xF, and C set iff A + x > 0xFF. -/
theorem ADD_A_n_result (cpu : Cpu δ) (x : Nat) (f0 f1 : Bool) (bus1 bus2 : MemoryBus δ)
    (h0 : cpu.m_pMemory.Read8 cpu.PC = .ok (0xC6, f0) bus1)
    (h1 : bus1.Read8 ((cpu.PC + 1) % 65536) = .ok (x, f1) bus2) :
    ∃ cpu1, cpu.ExecuteSingleInstruction = .ok 8 cpu1 ∧
      cpu1.A = (cpu.A + x) % 256 ∧
      cpu1.GetFlagValue .Zero = decide ((cpu.A + x) % 256 = 0) ∧
      cpu1.GetFlagValue .Subtract = false ∧
      cpu1.GetFlagValue .HalfCarry = decide ((cpu.A &&& 0xF) + (x &&& 0xF) > 0xF) ∧
      cpu1.GetFlagValue .Carry = decide (cpu.A + x > 0xFF) := by
  have hf0 := Fetch8_ok cpu _ _ _ h0
  have hf1 := Fetch8_ok { cpu with m_pMemory := bus1, PC := (cpu.PC + 1) % 65536 } _ _ _ h1
  refine ⟨?w, ?h1, ?h2⟩
  case h1 =>
    simp only [ExecuteSingleInstruction, hf0, Outcome.andThen, ExecuteOpcode_C6, OPCODE, ADD_C_6,
      hf1, ADD]
    exact rfl
  case h2 =>
    refine ⟨?_, SetFlagsForAdd_flags _ cpu.A x⟩
    simp only [SetFlagsForAdd_A]
    unfold toUint8; omega

/-- Witness of C7 on the sample machine (ADD A,0x01 at 0x0150): A = 0x0F gives H = 1, C = 0,
Z = 0, and A = 0xFF gives A = 0x00 with Z = 1, H = 1, C = 1. -/
theorem ADD_A_n_result_witness :
    (∃ cpu1, (Sample.cpuAt 0x0150 0x0F).ExecuteSingleInstruction = .ok 8 cpu1 ∧
      cpu1.A = 0x10 ∧
      cpu1.GetFlagValue .Zero = false ∧
      cpu1.GetFlagValue .Subtract = false ∧
      cpu1.GetFlagValue .HalfCarry = true ∧
      cpu1.GetFlagValue .Carry = false) ∧
    (∃ cpu1, (Sample.cpuAt 0x0150 0xFF).ExecuteSingleInstruction = .ok 8 cpu1 ∧
      cpu1.A = 0x00 ∧
      cpu1.GetFlagValue .Zero = true ∧
      cpu1.GetFlagValue .Subtract = false ∧
      cpu1.GetFlagValue .HalfCarry = true ∧
      cpu1.GetFlagValue .Carry = true) :=
  ⟨ADD_A_n_result (Sample.cpuAt 0x0150 0x0F) 0x01 true true
      (Sample.bus.Read8 0x0150).state ((Sample.bus.Read8 0x0150).state.Read8 0x0151).state
      rfl rfl,
    ADD_A_n_result (Sample.cpuAt 0x0150 0xFF) 0x01 true true
      (Sample.bus.Read8 0x0150).state ((Sample.bus.Read8 0x0150).state.Read8 0x0151).state
      rfl rfl⟩

/-- Claim C8: SUB A,n (0xD6) with old accumulator A and operand x returns, leaving the
accumulator (A - x) mod 256, Z set iff that result is 0, N = 1, H set iff
(A & 0xF) >= (x & 0xF), and C set iff A >= x. -/
theorem SUB_A_n_result (cpu : Cpu δ) (x : Nat) (f0 f1 : Bool) (bus1 bus2 : MemoryBus δ)
    (hA : cpu.A < 256) (hx : x < 256)
    (h0 : cpu.m_pMemory.Read8 cpu.PC = .ok (0xD6, f0) bus1)
    (h1 : bus1.Read8 ((cpu.PC + 1) % 65536) = .ok (x, f1) bus2) :
    ∃ cpu1, cpu.ExecuteSingleInstruction = .ok 8 cpu1 ∧
      cpu1.A = (cpu.A + 256 - x) % 256 ∧
      cpu1.GetFlagValue .Zero = decide ((cpu.A + 256 - x) % 256 = 0) ∧
      cpu1.GetFlagValue .Subtract = true ∧
      cpu1.GetFlagValue .HalfCarry = decide ((cpu.A &&& 0xF) ≥ (x &&& 0xF)) ∧
      cpu1.GetFlagValue .Carry = decide (cpu.A ≥ x) :=
  SUB_D6_exec cpu x f0 f1 bus1 bus2 hA hx h0 h1

/-- Witness of C8 on the sample machine (SUB 0x01 at 0x0152) with A = 0x42. -/
theorem SUB_A_n_result_witness :
    ((Sample.cpuAt 0x0152 0x42).A < 256 ∧ 0x01 < 256) ∧
    ∃ cpu1, (Sample.cpuAt 0x0152 0x42).ExecuteSingleInstruction = .ok 8 cpu1 ∧
      cpu1.A = 0x41 ∧
      cpu1.GetFlagValue .Zero = false ∧
      cpu1.GetFlagValue .Subtract = true ∧
      cpu1.GetFlagValue .HalfCarry = true ∧
      cpu1.GetFlagValue .Carry = true :=
  ⟨by decide,
    SUB_A_n_result (Sample.cpuAt 0x0152 0x42) 0x01 true true
      (Sample.bus.Read8 0x0152).state ((Sample.bus.Read8 0x0152).state.Read8 0x0153).state
      (by decide) (by decide) rfl rfl⟩

/-- Counterexample to C9 as stated: on the sample machine SUB 0x01 with A = 0x10 does not
leave A = 0x0F with H = 0, N = 1 and C = 0, because it leaves C = 1. -/
theorem SUB_0x10_0x01_not_carry_clear :
    (Sample.cpuAt 0x0152 0x10).ExecuteSingleInstruction.value? = some 8 ∧
    (Sample.cpuAt 0x0152 0x10).ExecuteSingleInstruction.state.GetFlagValue .Carry = true ∧
    ¬ ((Sample.cpuAt 0x0152 0x10).ExecuteSingleInstruction.state.A = 0x0F ∧
      (Sample.cpuAt 0x0152 0x10).ExecuteSingleInstruction.state.GetFlagValue .HalfCarry = false ∧
      (Sample.cpuAt 0x0152 0x10).ExecuteSingleInstruction.state.GetFlagValue .Subtract = true ∧
      (Sample.cpuAt 0x0152 0x10).ExecuteSingleInstruction.state.GetFlagValue .Carry = false) := by
  decide

/-- Claim C9 as amended: SUB A,n executed with A = 0x10 and n = 0x01 returns and leaves
A = 0x0F with H = 0, N = 1 and C = 1. -/
theorem SUB_0x10_0x01_result (cpu : Cpu δ) (f0 f1 : Bool) (bus1 bus2 : MemoryBus δ)
    (hA : cpu.A = 0x10)
    (h0 : cpu.m_pMemory.Read8 cpu.PC = .ok (0xD6, f0) bus1)
    (h1 : bus1.Read8 ((cpu.PC + 1) % 65536) = .ok (0x01, f1) bus2) :
    ∃ cpu1, cpu.ExecuteSingleInstruction = .ok 8 cpu1 ∧
      cpu1.A = 0x0F ∧
      cpu1.GetFlagValue .HalfCarry = false ∧
      cpu1.GetFlagValue .Subtract = true ∧
      cpu1.GetFlagValue .Carry = true := by
  obtain ⟨cpu1, hex, hAr, _, hN, hH, hC⟩ :=
    SUB_D6_exec cpu 0x01 f0 f1 bus1 bus2 (by rw [hA]; decide) (by decide) h0 h1
  rw [hA] at hAr hH hC
  exact ⟨cpu1, hex, hAr, hH, hN, hC⟩

/-- Witness of the amended C9 on the sample machine. -/
theorem SUB_0x10_0x01_result_witness :
    (Sample.cpuAt 0x0152 0x10).A = 0x10 ∧
    ∃ cpu1, (Sample.cpuAt 0x0152 0x10).ExecuteSingleInstruction = .ok 8 cpu1 ∧
      cpu1.A = 0x0F ∧
      cpu1.GetFlagValue .HalfCarry = false ∧
      cpu1.GetFlagValue .Subtract = true ∧
      cpu1.GetFlagValue .Carry = true :=
  ⟨rfl,
    SUB_0x10_0x01_result (Sample.cpuAt 0x0152 0x10) true true
      (Sample.bus.Read8 0x0152).state ((Sample.bus.Read8 0x0152).state.Read8 0x0153).state
      rfl rfl rfl⟩

/-- Claim C10, evaluated at its failing input: with A = 0x10 and operand 0x01, CP n (0xFE)
returns with A unchanged, Z = 0, N = 1, H = 1 and C = 0, while SUB n (0xD6) from the same A
and operand leaves Z = 0, N = 1, H = 0 and C = 1. -/
theorem CP_flags_differ_from_SUB_flags :
    (Sample.cpuAt 0x0154 0x10).ExecuteSingleInstruction.value? = some 8 ∧
    (Sample.cpuAt 0x0154 0x10).ExecuteSingleInstruction.state.A = 0x10 ∧
    (Sample.cpuAt 0x0154 0x10).ExecuteSingleInstruction.state.GetFlagValue .Zero = false ∧
    (Sample.cpuAt 0x0154 0x10).ExecuteSingleInstruction.state.GetFlagValue .Subtract = true ∧
    (Sample.cpuAt 0x0154 0x10).ExecuteSingleInstruction.state.GetFlagValue .HalfCarry = true ∧
    (Sample.cpuAt 0x0154 0x10).ExecuteSingleInstruction.state.GetFlagValue .Carry = false ∧
    (Sample.cpuAt 0x0152 0x10).ExecuteSingleInstruction.value? = some 8 ∧
    (Sample.cpuAt 0x0152 0x10).ExecuteSingleInstruction.state.GetFlagValue .Zero = false ∧
    (Sample.cpuAt 0x0152 0x10).ExecuteSingleInstruction.state.GetFlagValue .Subtract = true ∧
    (Sample.cpuAt 0x0152 0x10).ExecuteSingleInstruction.state.GetFlagValue .HalfCarry = false ∧
    (Sample.cpuAt 0x0152 0x10).ExecuteSingleInstruction.state.GetFlagValue .Carry = true := by
  decide

/-- Claim C11, evaluated at its failing input: ADC A,0xFF (bytes CE FF) with A = 0x01 and
the carry flag set returns with A = 0x01, the value (A + x + c) mod 256, but with the carry
flag clear, although A + x + c = 0x101 > 0xFF. -/
theorem ADC_0xFF_with_carry_loses_carry :
    (Sample.cpuAt 0x0158 0x01).GetFlagValue .Carry = true ∧
    (Sample.cpuAt 0x0158 0x01).ExecuteSingleInstruction.value? = some 8 ∧
    (Sample.cpuAt 0x0158 0x01).ExecuteSingleInstruction.state.A = (0x01 + 0xFF + 1) % 256 ∧
    (Sample.cpuAt 0x0158 0x01).ExecuteSingleInstruction.state.GetFlagValue .Carry = false ∧
    0x01 + 0xFF + 1 > 0xFF := by
  decide

/-- Claim C12: for every INC r8 opcode (0x04, 0x0C, ..., 0x3C) and DEC r8 opcode (0x05, 0x0D,
..., 0x3D), with the operand selected by opcode bits 3-5 (the byte in memory at HL for 0x34
and 0x35) holding old, the instruction returns; the operand becomes (old + 1) mod 256 resp.
(old - 1) mod 256; Z is set iff the new value is 0; N is 0 for INC and 1 for DEC; H is set
iff (old & 0xF) + 1 > 0xF for INC and iff (old & 0xF) >= 1 for DEC; and the carry flag keeps
its previous value. -/
theorem INC_DEC_r8_result (cpu : Cpu δ) (opcode old : Nat) (f0 : Bool) (bus1 : MemoryBus δ)
    (hop : opcode ∈ [0x04, 0x0C, 0x14, 0x1C, 0x24, 0x2C, 0x34, 0x3C,
      0x05, 0x0D, 0x15, 0x1D, 0x25, 0x2D, 0x35, 0x3D])
    (h0 : cpu.m_pMemory.Read8 cpu.PC = .ok (opcode, f0) bus1)
    (hram : b3_5 opcode = 6 → IsBusOwnedRam cpu.HL = true)
    (hold : (B_C_D_E_H_L_iHL_A_Read8 (b3_5 opcode) cpu).value? = some old) :
    ∃ cycles cpu1, cpu.ExecuteSingleInstruction = .ok cycles cpu1 ∧
      (opcode % 2 = 0 →
        (B_C_D_E_H_L_iHL_A_Read8 (b3_5 opcode) cpu1).value? = some ((old + 1) % 256) ∧
        cpu1.GetFlagValue .Zero = decide ((old + 1) % 256 = 0) ∧
        cpu1.GetFlagValue .Subtract = false ∧
        cpu1.GetFlagValue .HalfCarry = decide ((old &&& 0xF) + 1 > 0xF)) ∧
      (opcode % 2 = 1 →
        (B_C_D_E_H_L_iHL_A_Read8 (b3_5 opcode) cpu1).value? = some ((old + 255) % 256) ∧
        cpu1.GetFlagValue .Zero = decide ((old + 255) % 256 = 0) ∧
        cpu1.GetFlagValue .Subtract = true ∧
        cpu1.GetFlagValue .HalfCarry = decide ((old &&& 0xF) ≥ 1)) ∧
      cpu1.GetFlagValue .Carry = cpu.GetFlagValue .Carry := by
  have hf0 := Fetch8_ok cpu _ _ _ h0
  have hsame : sameRam bus1 cpu.m_pMemory := Read8_ok_sameRam h0
  have hN := b3_5_lt opcode
  have hopnd : operand8 (b3_5 opcode) { cpu with m_pMemory := bus1, PC := (cpu.PC + 1) % 65536 }
      = old := by
    rw [operand8_after_fetch _ _ _ _ hsame]
    exact operand8_of_value _ _ _ hN hram hold
  have hdisp :
      (opcode % 2 = 0 ∧ ∃ c, ∀ s : Cpu δ,
        ExecuteOpcode opcode s = OPCODE c (INC_0_3__4__0_3__C opcode) s) ∨
      (opcode % 2 = 1 ∧ ∃ c, ∀ s : Cpu δ,
        ExecuteOpcode opcode s = OPCODE c (DEC_0_3__5__0_3__D opcode) s) := by
    simp only [List.mem_cons, List.mem_singleton, List.not_mem_nil, or_false] at hop
    rcases hop with rfl | rfl | rfl | rfl | rfl | rfl | rfl | rfl |
      rfl | rfl | rfl | rfl | rfl | rfl | rfl | rfl <;>
      first
        | exact Or.inl ⟨rfl, _, fun _ => rfl⟩
        | exact Or.inr ⟨rfl, _, fun _ => rfl⟩
  have hl1 : GetLow4 1 = 1 := by decide
  rcases hdisp with ⟨hpar, c, hex⟩ | ⟨hpar, c, hex⟩
  · have hI := INC_exec opcode { cpu with m_pMemory := bus1, PC := (cpu.PC + 1) % 65536 } hram
    rw [hopnd] at hI
    obtain ⟨hZ, hNf, hH, hC⟩ := SetFlagsForAdd_ZNH_flags
      (setOperand8 (b3_5 opcode) { cpu with m_pMemory := bus1, PC := (cpu.PC + 1) % 65536 }
        ((old + 1) % 256)) old 1
    refine ⟨c, ?w, ?h1, ?h2, ?h3, ?h4⟩
    case h1 =>
      simp only [ExecuteSingleInstruction, hf0, Outcome.andThen, hex, OPCODE, hI]
      exact rfl
    case h2 =>
      intro _
      refine ⟨?_, hZ, hNf, ?_⟩
      · rw [SetFlagsForAdd_eq_F]
        exact Read8_after_store _ _ _ _ hN hram
      · rw [hH, hl1]
        rfl
    case h3 => intro h; omega
    case h4 =>
      rw [hC]
      exact GetFlagValue_of_F_eq (setOperand8_F _ _ _ hN) _
  · have hD := DEC_exec opcode { cpu with m_pMemory := bus1, PC := (cpu.PC + 1) % 65536 } hram
    rw [hopnd] at hD
    obtain ⟨hZ, hNf, hH, hC⟩ := SetFlagsForSub_one_flags
      (setOperand8 (b3_5 opcode) { cpu with m_pMemory := bus1, PC := (cpu.PC + 1) % 65536 }
        ((old + 255) % 256)) old
    refine ⟨c, ?wD, ?d1, ?d2, ?d3, ?d4⟩
    case d1 =>
      simp only [ExecuteSingleInstruction, hf0, Outcome.andThen, hex, OPCODE, hD]
      exact rfl
    case d2 => intro h; omega
    case d3 =>
      intro _
      refine ⟨?_, hZ, hNf, ?_⟩
      · rw [SetFlagsForSub_eq_F]
        exact Read8_after_store _ _ _ _ hN hram
      · rw [hH, hl1]
        rfl
    case d4 =>
      rw [hC]
      exact GetFlagValue_of_F_eq (setOperand8_F _ _ _ hN) _

/-- Witness of C12 on the sample machine: INC B (0x04 at 0x015A) with B = 0x0F, and
DEC (HL) (0x35 at 0x015B) with HL = 0xC000 holding 0xFD. -/
theorem INC_DEC_r8_result_witness :
    (∃ cycles cpu1,
      ({ Sample.cpuAt 0x015A 0x00 with B := 0x0F } : Cpu Unit).ExecuteSingleInstruction
        = .ok cycles cpu1 ∧
      cpu1.B = 0x10 ∧ cpu1.GetFlagValue .Zero = false ∧ cpu1.GetFlagValue .Subtract = false ∧
      cpu1.GetFlagValue .HalfCarry = true ∧ cpu1.GetFlagValue .Carry = true) ∧
    (∃ cycles cpu1,
      ({ Sample.cpuAt 0x015B 0x00 with H := 0xC0, L := 0x00 } : Cpu Unit).ExecuteSingleInstruction
        = .ok cycles cpu1 ∧
      (B_C_D_E_H_L_iHL_A_Read8 6 cpu1).value? = some 0xFC ∧ cpu1.GetFlagValue .Zero = false ∧
      cpu1.GetFlagValue .Subtract = true ∧ cpu1.GetFlagValue .HalfCarry = true ∧
      cpu1.GetFlagValue .Carry = true) := by
  constructor
  · obtain ⟨cycles, cpu1, hex, hinc, _, hC⟩ :=
      INC_DEC_r8_result ({ Sample.cpuAt 0x015A 0x00 with B := 0x0F } : Cpu Unit) 0x04 0x0F true
        (Sample.bus.Read8 0x015A).state (by decide) rfl (by decide) (by decide)
    obtain ⟨hv, hZ, hN, hH⟩ := hinc (by decide)
    exact ⟨cycles, cpu1, hex, Option.some.inj hv, hZ, hN, hH, hC⟩
  · obtain ⟨cycles, cpu1, hex, _, hdec, hC⟩ :=
      INC_DEC_r8_result ({ Sample.cpuAt 0x015B 0x00 with H := 0xC0, L := 0x00 } : Cpu Unit)
        0x35 0xFD true (Sample.bus.Read8 0x015B).state (by decide) rfl (by decide) (by decide)
    obtain ⟨hv, hZ, hN, hH⟩ := hdec (by decide)
    exact ⟨cycles, cpu1, hex, hv, hZ, hN, hH, hC⟩

/-- Claim C13, evaluated at its failing input: JR with displacement byte 0x80 (bytes 18 80)
fetched at PC0 = 0x015C returns with PC = 0x01DE = PC0 + 2 + 128, not with
PC = 0x00DE = PC0 + 2 - 128. -/
theorem JR_0x80_jumps_forward :
    (Sample.cpuAt 0x015C 0x00).ExecuteSingleInstruction.value? = some 8 ∧
    (Sample.cpuAt 0x015C 0x00).ExecuteSingleInstruction.state.PC = 0x015C + 2 + 128 ∧
    (Sample.cpuAt 0x015C 0x00).ExecuteSingleInstruction.state.PC ≠ 0x015C + 2 - 128 := by
  decide

/-- Claim C14: for the conditional relative jumps 0x20, 0x28, 0x30, 0x38 (condition NZ, Z, NC,
C chosen by opcode bits 3-4) fetched at PC0 with displacement byte d, the instruction returns;
when the condition is false, PC = PC0 + 2 (as a 16-bit value), the cycle count is 8 and no
register, flag or memory byte other than PC changes; when the condition is true,
PC = (PC0 + 2 + signed(d)) mod 2^16. -/
theorem JR_cc_result (cpu : Cpu δ) (opcode d : Nat) (f0 f1 : Bool) (bus1 bus2 : MemoryBus δ)
    (hop : opcode ∈ [0x20, 0x28, 0x30, 0x38]) (hd : d < 256)
    (h0 : cpu.m_pMemory.Read8 cpu.PC = .ok (opcode, f0) bus1)
    (h1 : bus1.Read8 ((cpu.PC + 1) % 65536) = .ok (d, f1) bus2) :
    ∃ cycles cpu1, cpu.ExecuteSingleInstruction = .ok cycles cpu1 ∧
      b3_4_NZ_Z_NC_C_Eval opcode cpu =
        (if opcode = 0x20 then !cpu.GetFlagValue .Zero
         else if opcode = 0x28 then cpu.GetFlagValue .Zero
         else if opcode = 0x30 then !cpu.GetFlagValue .Carry
         else cpu.GetFlagValue .Carry) ∧
      (b3_4_NZ_Z_NC_C_Eval opcode cpu = false →
        cycles = 8 ∧ cpu1 = { cpu with PC := (cpu.PC + 2) % 65536, m_pMemory := bus2 } ∧
        ∀ a, IsBusOwnedRam a = true →
          (bus2.Read8 a).value? = (cpu.m_pMemory.Read8 a).value?) ∧
      (b3_4_NZ_Z_NC_C_Eval opcode cpu = true →
        (cpu1.PC : Int)
          = ((cpu.PC : Int) + 2 + (if d < 128 then (d : Int) else (d : Int) - 256)) % 65536) := by
  have hf0 := Fetch8_ok cpu _ _ _ h0
  have hf1 := Fetch8_ok { cpu with m_pMemory := bus1, PC := (cpu.PC + 1) % 65536 } _ _ _ h1
  have e2 : ((cpu.PC + 1) % 65536 + 1) % 65536 = (cpu.PC + 2) % 65536 := by omega
  have hsame : sameRam bus2 cpu.m_pMemory :=
    sameRam_trans (Read8_ok_sameRam h1) (Read8_ok_sameRam h0)
  have hdisp : toSint8 d = (if d < 128 then (d : Int) else (d : Int) - 256) := by
    unfold toSint8
    split_ifs <;> omega
  have hex : ExecuteOpcode opcode { cpu with m_pMemory := bus1, PC := (cpu.PC + 1) % 65536 }
      = OPCODE 8 (JR_2_3__0__2_3__8 opcode)
          { cpu with m_pMemory := bus1, PC := (cpu.PC + 1) % 65536 } := by
    simp only [List.mem_cons, List.mem_singleton, List.not_mem_nil, or_false] at hop
    rcases hop with rfl | rfl | rfl | rfl <;> rfl
  by_cases hcond : b3_4_NZ_Z_NC_C_Eval opcode cpu = true
  · refine ⟨8, { cpu with m_pMemory := bus2, PC := toUint16 (((cpu.PC + 2) % 65536 : Nat) + toSint8 d) }, ?_, ?_, ?_, ?_⟩
    · have hc2 := hcond
      simp only [b3_4_NZ_Z_NC_C_Eval, NZ_Z_NC_C_Eval, GetFlagValue] at hc2
      simp only [ExecuteSingleInstruction, hf0, Outcome.andThen, hex, OPCODE, JR_2_3__0__2_3__8,
        hf1, e2, b3_4_NZ_Z_NC_C_Eval, NZ_Z_NC_C_Eval, GetFlagValue, hc2, if_true]
    · simp only [List.mem_cons, List.mem_singleton, List.not_mem_nil, or_false] at hop
      rcases hop with rfl | rfl | rfl | rfl <;> rfl
    · intro h; rw [h] at hcond; exact absurd hcond (by decide)
    · intro _
      show ((toUint16 (((cpu.PC + 2) % 65536 : Nat) + toSint8 d) : Nat) : Int) = _
      rw [hdisp]
      unfold toUint16
      split_ifs <;> omega
  · have hcf : b3_4_NZ_Z_NC_C_Eval opcode cpu = false := by
      cases h : b3_4_NZ_Z_NC_C_Eval opcode cpu
      · rfl
      · exact absurd h hcond
    refine ⟨8, { cpu with m_pMemory := bus2, PC := (cpu.PC + 2) % 65536 }, ?_, ?_, ?_, ?_⟩
    · have hc2 := hcf
      simp only [b3_4_NZ_Z_NC_C_Eval, NZ_Z_NC_C_Eval, GetFlagValue] at hc2
      simp only [ExecuteSingleInstruction, hf0, Outcome.andThen, hex, OPCODE, JR_2_3__0__2_3__8,
        hf1, e2, b3_4_NZ_Z_NC_C_Eval, NZ_Z_NC_C_Eval, GetFlagValue, hc2]
      rfl
    · simp only [List.mem_cons, List.mem_singleton, List.not_mem_nil, or_false] at hop
      rcases hop with rfl | rfl | rfl | rfl <;> rfl
    · intro _
      exact ⟨rfl, rfl, fun a ha => Read8_value_congr hsame a true ha⟩
    · intro h; exact absurd h hcond

/-- Witness of C14 on the sample machine: with Z = 0 the bytes 28 05 (JR Z,+5) at
PC0 = 0x015E leave PC at PC0 + 2 = 0x0160, not at 0x0165, and return 8 cycles. -/
theorem JR_cc_result_witness :
    (({ Sample.cpuAt 0x015E 0x00 with F := 0x00 } : Cpu Unit).GetFlagValue .Zero = false) ∧
    ({ Sample.cpuAt 0x015E 0x00 with F := 0x00 } : Cpu Unit).ExecuteSingleInstruction
      = .ok 8 { Sample.cpuAt 0x0160 0x00 with F := 0x00, m_pMemory := ((Sample.bus.Read8 0x015E).state.Read8 0x015F).state } := by
  refine ⟨by decide, ?_⟩
  obtain ⟨cycles, cpu1, hex, _, hnot, _⟩ :=
    JR_cc_result ({ Sample.cpuAt 0x015E 0x00 with F := 0x00 } : Cpu Unit) 0x28 0x05 true true
      (Sample.bus.Read8 0x015E).state ((Sample.bus.Read8 0x015E).state.Read8 0x015F).state
      (by decide) (by decide) rfl rfl
  obtain ⟨hc, hs, _⟩ := hnot (by decide)
  rw [hex, hc, hs]
  rfl

set_option maxRecDepth 4000 in
/-- Claim C15: for every opcode in 0x40-0x7F except 0x76, with v the 8-bit source selected by
opcode bits 0-2 from {B,C,D,E,H,L,(HL),A} (for slot 6 the byte the memory serves at HL), the
instruction returns; the destination selected by opcode bits 3-5 holds v afterwards (for
slot 6 the memory byte at HL); PC has advanced by 1; F and SP are unchanged; every other
register is unchanged; and every byte of bus-owned memory other than the destination is
unchanged. -/
theorem LD_r8_r8_result (cpu : Cpu δ) (opcode v : Nat) (f0 f1 : Bool) (bus1 bus2 : MemoryBus δ)
    (hlo : 0x40 ≤ opcode) (hhi : opcode ≤ 0x7F) (hne : opcode ≠ 0x76)
    (h0 : cpu.m_pMemory.Read8 cpu.PC = .ok (opcode, f0) bus1)
    (hmem : b0_2 opcode = 6 → bus1.Read8 cpu.HL = .ok (v, f1) bus2)
    (hreg : b0_2 opcode ≠ 6 →
      v = B_C_D_E_H_L_iHL_A_GetReg8 (b0_2 opcode) cpu ∧ bus2 = bus1)
    (hdst : b3_5 opcode = 6 → IsBusOwnedRam cpu.HL = true) :
    ∃ cycles cpu1, cpu.ExecuteSingleInstruction = .ok cycles cpu1 ∧
      cpu1.PC = (cpu.PC + 1) % 65536 ∧ cpu1.F = cpu.F ∧ cpu1.SP = cpu.SP ∧
      (b3_5 opcode ≠ 6 →
        B_C_D_E_H_L_iHL_A_GetReg8 (b3_5 opcode) cpu1 = v ∧
        ∀ a, cpu1.m_pMemory.ramByte a = cpu.m_pMemory.ramByte a) ∧
      (b3_5 opcode = 6 →
        (cpu1.Read8 cpu.HL).value? = some v ∧
        ∀ a, IsBusOwnedRam a = true → ramSlot a ≠ ramSlot cpu.HL →
          cpu1.m_pMemory.ramByte a = cpu.m_pMemory.ramByte a) ∧
      (∀ r, r < 8 → r ≠ 6 → r ≠ b3_5 opcode →
        B_C_D_E_H_L_iHL_A_GetReg8 r cpu1 = B_C_D_E_H_L_iHL_A_GetReg8 r cpu) := by
  have hf0 := Fetch8_ok cpu _ _ _ h0
  have hs1 : sameRam bus1 cpu.m_pMemory := Read8_ok_sameRam h0
  have hN := b3_5_lt opcode
  have hN0 := b0_2_lt opcode
  have hb0 := b0_2_eq_mod opcode
  have hb3 := b3_5_eq_div opcode
  have hs2 : sameRam bus2 cpu.m_pMemory := by
    by_cases h6 : b0_2 opcode = 6
    · exact sameRam_trans (Read8_ok_sameRam (hmem h6)) hs1
    · rw [(hreg h6).2]
      exact hs1
  have hread : B_C_D_E_H_L_iHL_A_Read8 (b0_2 opcode)
      { cpu with m_pMemory := bus1, PC := (cpu.PC + 1) % 65536 }
      = .ok v { cpu with m_pMemory := bus2, PC := (cpu.PC + 1) % 65536 } := by
    by_cases h6 : b0_2 opcode = 6
    · have hsrc := hmem h6
      rw [h6]
      show Cpu.Read8 { cpu with m_pMemory := bus1, PC := (cpu.PC + 1) % 65536 } cpu.HL = _
      simp only [Cpu.Read8, hsrc]
    · rw [Read8_reg _ _ hN0 h6, (hreg h6).2, (hreg h6).1]
      rfl
  have hdisp : ∃ c, ∀ s : Cpu δ,
      ExecuteOpcode opcode s = OPCODE c (LD_4_7__0_F__NO_7__6 opcode) s := by
    interval_cases opcode <;> first
      | exact absurd rfl hne
      | exact ⟨_, fun _ => rfl⟩
  obtain ⟨c, hex⟩ := hdisp
  have hL := LD_exec opcode _ _ v hread hdst
  refine ⟨c, ?w, ?h1, ?h2, ?h3, ?h4, ?h5, ?h6, ?h7⟩
  case h1 =>
    simp only [ExecuteSingleInstruction, hf0, Outcome.andThen, hex, OPCODE, hL]
    exact rfl
  case h2 => exact setOperand8_PC _ _ _ hN
  case h3 => exact setOperand8_F _ _ _ hN
  case h4 => exact setOperand8_SP _ _ _ hN
  case h5 =>
    intro h6
    refine ⟨GetReg8_setOperand8_self _ _ _ hN h6, fun a => ?_⟩
    rw [setOperand8_memory _ _ _ hN h6]
    exact ramByte_congr hs2 a
  case h6 =>
    intro h6
    have hmem : (setOperand8 (b3_5 opcode)
        ({ cpu with m_pMemory := bus2, PC := (cpu.PC + 1) % 65536 } : Cpu δ) v).m_pMemory
        = ramStore bus2 cpu.HL v := by
      rw [h6]; rfl
    refine ⟨?_, fun a ha hslot => ?_⟩
    · rw [Cpu_Read8_ram _ _ (hdst h6), hmem, ramByte_ramStore _ _ _ _ (hdst h6) (hdst h6),
        if_pos rfl]
      rfl
    · rw [hmem, ramByte_ramStore _ _ _ _ (hdst h6) ha, if_neg (Ne.symm hslot)]
      exact ramByte_congr hs2 a
  case h7 =>
    intro r hr hr6 hrn
    rw [GetReg8_setOperand8_ne _ _ _ _ hN hr hr6 hrn]
    rfl

/-- Witness of C15 on the sample machine: LD B,C (0x41 at 0x0160) with C = 0x13, LD (HL),B
(0x70 at 0x0161) with B = 0x42 and HL = 0xC000, and LD A,(HL) (0x7E at 0x016B) with HL = 0x0100,
where the cartridge holds 0xCD. -/
theorem LD_r8_r8_result_witness :
    (∃ cycles cpu1,
      ({ Sample.cpuAt 0x0160 0x00 with C := 0x13 } : Cpu Unit).ExecuteSingleInstruction
        = .ok cycles cpu1 ∧
      cpu1.B = 0x13 ∧ cpu1.C = 0x13 ∧ cpu1.PC = 0x0161 ∧ cpu1.F = 0xB0 ∧ cpu1.SP = 0xFFFE) ∧
    (∃ cycles cpu1,
      ({ Sample.cpuAt 0x0161 0x00 with B := 0x42, H := 0xC0, L := 0x00 }
        : Cpu Unit).ExecuteSingleInstruction = .ok cycles cpu1 ∧
      (cpu1.Read8 0xC000).value? = some 0x42 ∧ cpu1.B = 0x42 ∧ cpu1.PC = 0x0162) ∧
    (∃ cycles cpu1,
      ({ Sample.cpuAt 0x016B 0x00 with H := 0x01, L := 0x00 }
        : Cpu Unit).ExecuteSingleInstruction = .ok cycles cpu1 ∧
      cpu1.A = 0xCD ∧ cpu1.H = 0x01 ∧ cpu1.PC = 0x016C) := by
  refine ⟨?_, ?_, ?_⟩
  · obtain ⟨cycles, cpu1, hex, hPC, hF, hSP, hreg, _, hoth⟩ :=
      LD_r8_r8_result ({ Sample.cpuAt 0x0160 0x00 with C := 0x13 } : Cpu Unit) 0x41 0x13
        true true (Sample.bus.Read8 0x0160).state (Sample.bus.Read8 0x0160).state
        (by decide) (by decide) (by decide) rfl (fun h => absurd h (by decide))
        (fun _ => ⟨rfl, rfl⟩) (by decide)
    exact ⟨cycles, cpu1, hex, (hreg (by decide)).1,
      hoth 1 (by decide) (by decide) (by decide), hPC, hF, hSP⟩
  · obtain ⟨cycles, cpu1, hex, hPC, _, _, _, hmem, hoth⟩ :=
      LD_r8_r8_result ({ Sample.cpuAt 0x0161 0x00 with B := 0x42, H := 0xC0, L := 0x00 }
        : Cpu Unit) 0x70 0x42
        true true (Sample.bus.Read8 0x0161).state (Sample.bus.Read8 0x0161).state
        (by decide) (by decide) (by decide) rfl (fun h => absurd h (by decide))
        (fun _ => ⟨rfl, rfl⟩) (by decide)
    exact ⟨cycles, cpu1, hex, (hmem (by decide)).1,
      hoth 0 (by decide) (by decide) (by decide), hPC⟩
  · obtain ⟨cycles, cpu1, hex, hPC, _, _, hreg, _, hoth⟩ :=
      LD_r8_r8_result ({ Sample.cpuAt 0x016B 0x00 with H := 0x01, L := 0x00 }
        : Cpu Unit) 0x7E 0xCD
        true true (Sample.bus.Read8 0x016B).state
        ((Sample.bus.Read8 0x016B).state.Read8 0x0100).state
        (by decide) (by decide) (by decide) rfl (fun _ => rfl)
        (fun h => absurd rfl h) (by decide)
    exact ⟨cycles, cpu1, hex, (hreg (by decide)).1,
      hoth 4 (by decide) (by decide) (by decide), hPC⟩

set_option maxRecDepth 4000 in
/-- Claim C16: for the CB-prefixed opcodes 0x10-0x17 (RL), 0x18-0x1F (RR) and 0x38-0x3F (SRL),
with the operand selected by bits 0-2 of the second byte (the byte in memory at HL for slot 6)
holding old and c the carry flag on entry as 0 or 1, the instruction returns; the operand
becomes ((old << 1) | c) mod 256 for RL, (old >> 1) | (c << 7) for RR and old >> 1 for SRL;
Z is set iff the new value is 0; N and H are cleared; the carry flag becomes bit 7 of old for
RL and bit 0 of old for RR and SRL. -/
theorem CB_RL_RR_SRL_result (cpu : Cpu δ) (sub old : Nat) (f0 f1 : Bool)
    (bus1 bus2 : MemoryBus δ)
    (hsub : (0x10 ≤ sub ∧ sub ≤ 0x1F) ∨ (0x38 ≤ sub ∧ sub ≤ 0x3F))
    (h0 : cpu.m_pMemory.Read8 cpu.PC = .ok (0xCB, f0) bus1)
    (h1 : bus1.Read8 ((cpu.PC + 1) % 65536) = .ok (sub, f1) bus2)
    (hram : b0_2 sub = 6 → IsBusOwnedRam cpu.HL = true)
    (hold : (B_C_D_E_H_L_iHL_A_Read8 (b0_2 sub) cpu).value? = some old)
    (hlt : old < 256) :
    ∃ cycles cpu1, cpu.ExecuteSingleInstruction = .ok cycles cpu1 ∧
      (sub ≤ 0x17 →
        (B_C_D_E_H_L_iHL_A_Read8 (b0_2 sub) cpu1).value?
          = some (((old <<< 1) ||| (if cpu.GetFlagValue .Carry = true then 1 else 0)) % 256) ∧
        cpu1.GetFlagValue .Zero = decide
          (((old <<< 1) ||| (if cpu.GetFlagValue .Carry = true then 1 else 0)) % 256 = 0) ∧
        cpu1.GetFlagValue .Carry = old.testBit 7) ∧
      (0x18 ≤ sub ∧ sub ≤ 0x1F →
        (B_C_D_E_H_L_iHL_A_Read8 (b0_2 sub) cpu1).value?
          = some ((old >>> 1) ||| ((if cpu.GetFlagValue .Carry = true then 1 else 0) <<< 7)) ∧
        cpu1.GetFlagValue .Zero = decide
          ((old >>> 1) ||| ((if cpu.GetFlagValue .Carry = true then 1 else 0) <<< 7) = 0) ∧
        cpu1.GetFlagValue .Carry = old.testBit 0) ∧
      (0x38 ≤ sub →
        (B_C_D_E_H_L_iHL_A_Read8 (b0_2 sub) cpu1).value? = some (old >>> 1) ∧
        cpu1.GetFlagValue .Zero = decide (old >>> 1 = 0) ∧
        cpu1.GetFlagValue .Carry = old.testBit 0) ∧
      cpu1.GetFlagValue .Subtract = false ∧
      cpu1.GetFlagValue .HalfCarry = false := by
  have hf0 := Fetch8_ok cpu _ _ _ h0
  have hf1 := Fetch8_ok { cpu with m_pMemory := bus1, PC := (cpu.PC + 1) % 65536 } _ _ _ h1
  have hsame : sameRam bus2 cpu.m_pMemory :=
    sameRam_trans (Read8_ok_sameRam h1) (Read8_ok_sameRam h0)
  have hN := b0_2_lt sub
  obtain ⟨cpu2, hcpu2⟩ : ∃ cpu2 : Cpu δ, cpu2 =
      { cpu with m_pMemory := bus2, PC := ((cpu.PC + 1) % 65536 + 1) % 65536 } := ⟨_, rfl⟩
  have hf1b : Fetch8 { cpu with m_pMemory := bus1, PC := (cpu.PC + 1) % 65536 }
      = .ok sub cpu2 := by rw [hf1, hcpu2]
  have hopnd : operand8 (b0_2 sub) cpu2 = old := by
    rw [hcpu2, operand8_after_fetch _ _ _ _ hsame]
    exact operand8_of_value _ _ _ hN hram hold
  have hram2 : b0_2 sub = 6 → IsBusOwnedRam cpu2.HL = true := by
    rw [hcpu2]; exact hram
  have hcar : cpu2.GetFlagValue .Carry = cpu.GetFlagValue .Carry := by
    rw [hcpu2]; rfl
  have hdisp :
      (sub ≤ 0x17 ∧ ∃ c, (extendedCases (δ := δ)).lookup sub
        = some (OPCODE c (RL_CB_1__0_7 sub))) ∨
      ((0x18 ≤ sub ∧ sub ≤ 0x1F) ∧ ∃ c, (extendedCases (δ := δ)).lookup sub
        = some (OPCODE c (RR_CB_1__8_F sub))) ∨
      (0x38 ≤ sub ∧ ∃ c, (extendedCases (δ := δ)).lookup sub
        = some (OPCODE c (SRL_CB_3__8_F sub))) := by
    rcases hsub with ⟨ha, hb⟩ | ⟨ha, hb⟩
    · by_cases hc : sub ≤ 0x17
      · refine Or.inl ⟨hc, ?_⟩
        interval_cases sub <;> exact ⟨_, rfl⟩
      · refine Or.inr (Or.inl ⟨⟨by omega, hb⟩, ?_⟩)
        interval_cases sub <;> first | omega | exact ⟨_, rfl⟩
    · refine Or.inr (Or.inr ⟨ha, ?_⟩)
      interval_cases sub <;> exact ⟨_, rfl⟩
  rcases hdisp with ⟨hr, c, hex⟩ | ⟨hr, c, hex⟩ | ⟨hr, c, hex⟩
  · have hE := RL_exec sub cpu2 hram2
    rw [hopnd] at hE
    obtain ⟨hZ, hNf, hH, hC⟩ := RL_flags cpu2 old
    have hv := RL_value cpu2 old
    rw [hcar] at hv
    have hFin : ∀ p, (setOperand8 (b0_2 sub) (cpu2.RL old).2 (cpu2.RL old).1).GetFlagValue p
        = (cpu2.RL old).2.GetFlagValue p :=
      fun p => GetFlagValue_of_F_eq (setOperand8_F _ _ _ hN) p
    refine ⟨c, ?w, ?h1, ?h2, ?h3, ?h4, ?h5, ?h6⟩
    case h1 =>
      simp only [ExecuteSingleInstruction, hf0, Outcome.andThen, ExecuteOpcode_CB, case_CB,
        hf1b, hex, OPCODE, hE]
      exact rfl
    case h2 =>
      intro _
      refine ⟨?_, ?_, ?_⟩
      · rw [RL_eq_F, ← hv]
        exact Read8_after_flags_store _ _ _ _ hN hram2
      · rw [hFin, hZ, hv]
      · rw [hFin, hC]
    case h3 => intro h; omega
    case h4 => intro h; omega
    case h5 => rw [hFin, hNf]
    case h6 => rw [hFin, hH]
  · have hE := RR_exec sub cpu2 hram2
    rw [hopnd] at hE
    obtain ⟨hZ, hNf, hH, hC⟩ := RR_flags cpu2 old
    have hv := RR_value cpu2 old hlt
    rw [hcar] at hv
    have hFin : ∀ p, (setOperand8 (b0_2 sub) (cpu2.RR old).2 (cpu2.RR old).1).GetFlagValue p
        = (cpu2.RR old).2.GetFlagValue p :=
      fun p => GetFlagValue_of_F_eq (setOperand8_F _ _ _ hN) p
    refine ⟨c, ?wR, ?r1, ?r2, ?r3, ?r4, ?r5, ?r6⟩
    case r1 =>
      simp only [ExecuteSingleInstruction, hf0, Outcome.andThen, ExecuteOpcode_CB, case_CB,
        hf1b, hex, OPCODE, hE]
      exact rfl
    case r2 => intro h; omega
    case r3 =>
      intro _
      refine ⟨?_, ?_, ?_⟩
      · rw [RR_eq_F, ← hv]
        exact Read8_after_flags_store _ _ _ _ hN hram2
      · rw [hFin, hZ, hv]
      · rw [hFin, hC]
    case r4 => intro h; omega
    case r5 => rw [hFin, hNf]
    case r6 => rw [hFin, hH]
  · have hE := SRL_exec sub cpu2 hram2
    rw [hopnd] at hE
    obtain ⟨hZ, hNf, hH, hC⟩ := SRL_flags
      (setOperand8 (b0_2 sub) cpu2 (old >>> 1)) old (old >>> 1)
    refine ⟨c, ?wS, ?s1, ?s2, ?s3, ?s4, ?s5, ?s6⟩
    case s1 =>
      simp only [ExecuteSingleInstruction, hf0, Outcome.andThen, ExecuteOpcode_CB, case_CB,
        hf1b, hex, OPCODE, hE]
      exact rfl
    case s2 => intro h; omega
    case s3 => intro h; omega
    case s4 =>
      intro _
      refine ⟨?_, hZ, hC⟩
      rw [SRL_flags_eq_F]
      exact Read8_after_store _ _ _ _ hN hram2
    case s5 => exact hNf
    case s6 => exact hH

/-- Witness of C16 on the sample machine: RL B (CB 10 at 0x0162) with B = 0x80 and the carry
set, RR (HL) (CB 1E at 0x0164) and SRL (HL) (CB 3E at 0x0170) with HL = 0xC000 holding
0xFD and the carry set. -/
theorem CB_RL_RR_SRL_result_witness :
    (∃ cycles cpu1,
      ({ Sample.cpuAt 0x0162 0x00 with B := 0x80 } : Cpu Unit).ExecuteSingleInstruction
        = .ok cycles cpu1 ∧
      cpu1.B = 0x01 ∧ cpu1.GetFlagValue .Zero = false ∧ cpu1.GetFlagValue .Carry = true ∧
      cpu1.GetFlagValue .Subtract = false ∧ cpu1.GetFlagValue .HalfCarry = false) ∧
    (∃ cycles cpu1,
      ({ Sample.cpuAt 0x0164 0x00 with H := 0xC0, L := 0x00 } : Cpu Unit).ExecuteSingleInstruction
        = .ok cycles cpu1 ∧
      (B_C_D_E_H_L_iHL_A_Read8 6 cpu1).value? = some 0xFE ∧
      cpu1.GetFlagValue .Zero = false ∧ cpu1.GetFlagValue .Carry = true) ∧
    (∃ cycles cpu1,
      ({ Sample.cpuAt 0x0170 0x00 with H := 0xC0, L := 0x00 } : Cpu Unit).ExecuteSingleInstruction
        = .ok cycles cpu1 ∧
      (B_C_D_E_H_L_iHL_A_Read8 6 cpu1).value? = some 0x7E ∧
      cpu1.GetFlagValue .Zero = false ∧ cpu1.GetFlagValue .Carry = true) := by
  refine ⟨?_, ?_, ?_⟩
  · obtain ⟨cycles, cpu1, hex, hrl, _, _, hN, hH⟩ :=
      CB_RL_RR_SRL_result ({ Sample.cpuAt 0x0162 0x00 with B := 0x80 } : Cpu Unit) 0x10 0x80
        true true (Sample.bus.Read8 0x0162).state
        ((Sample.bus.Read8 0x0162).state.Read8 0x0163).state
        (by decide) rfl rfl (by decide) (by decide) (by decide)
    obtain ⟨hv, hZ, hC⟩ := hrl (by decide)
    exact ⟨cycles, cpu1, hex, Option.some.inj hv, hZ, hC, hN, hH⟩
  · obtain ⟨cycles, cpu1, hex, _, hrr, _, _, _⟩ :=
      CB_RL_RR_SRL_result ({ Sample.cpuAt 0x0164 0x00 with H := 0xC0, L := 0x00 } : Cpu Unit)
        0x1E 0xFD true true (Sample.bus.Read8 0x0164).state
        ((Sample.bus.Read8 0x0164).state.Read8 0x0165).state
        (by decide) rfl rfl (by decide) (by decide) (by decide)
    obtain ⟨hv, hZ, hC⟩ := hrr (by decide)
    exact ⟨cycles, cpu1, hex, hv, hZ, hC⟩
  · obtain ⟨cycles, cpu1, hex, _, _, hsrl, _, _⟩ :=
      CB_RL_RR_SRL_result ({ Sample.cpuAt 0x0170 0x00 with H := 0xC0, L := 0x00 } : Cpu Unit)
        0x3E 0xFD true true (Sample.bus.Read8 0x0170).state
        ((Sample.bus.Read8 0x0170).state.Read8 0x0171).state
        (by decide) rfl rfl (by decide) (by decide) (by decide)
    obtain ⟨hv, hZ, hC⟩ := hsrl (by decide)
    exact ⟨cycles, cpu1, hex, hv, hZ, hC⟩

/-- Claim C17: ADD HL,r16 (opcodes 0x09, 0x19, 0x29, 0x39 with r = BC, DE, HL, SP by opcode
bits 4-5) returns with HL = (HL + r) mod 2^16, Z unchanged, N = 0, H set iff
(HL & 0xFFF) + (r & 0xFFF) > 0xFFF and C set iff HL + r > 0xFFFF, r being read before HL is
written (so for ADD HL,HL r is the old HL). -/
theorem ADD_HL_r16_result (cpu : Cpu δ) (opcode : Nat) (f0 : Bool) (bus1 : MemoryBus δ)
    (hop : opcode ∈ [0x09, 0x19, 0x29, 0x39])
    (h0 : cpu.m_pMemory.Read8 cpu.PC = .ok (opcode, f0) bus1) :
    ∃ cpu1, cpu.ExecuteSingleInstruction = .ok 8 cpu1 ∧
      b4_5_BC_DE_HL_SP_Read16 opcode cpu =
        (if opcode = 0x09 then cpu.BC else if opcode = 0x19 then cpu.DE
         else if opcode = 0x29 then cpu.HL else cpu.SP) ∧
      cpu1.HL = (cpu.HL + b4_5_BC_DE_HL_SP_Read16 opcode cpu) % 65536 ∧
      cpu1.GetFlagValue .Zero = cpu.GetFlagValue .Zero ∧
      cpu1.GetFlagValue .Subtract = false ∧
      cpu1.GetFlagValue .HalfCarry =
        decide ((cpu.HL &&& 0xFFF) + (b4_5_BC_DE_HL_SP_Read16 opcode cpu &&& 0xFFF) > 0xFFF) ∧
      cpu1.GetFlagValue .Carry =
        decide (cpu.HL + b4_5_BC_DE_HL_SP_Read16 opcode cpu > 0xFFFF) := by
  have hf0 := Fetch8_ok cpu _ _ _ h0
  have hex : ExecuteOpcode opcode { cpu with m_pMemory := bus1, PC := (cpu.PC + 1) % 65536 }
      = OPCODE 8 (ADD_0_3__9 opcode)
          { cpu with m_pMemory := bus1, PC := (cpu.PC + 1) % 65536 } := by
    simp only [List.mem_cons, List.mem_singleton, List.not_mem_nil, or_false] at hop
    rcases hop with rfl | rfl | rfl | rfl <;> rfl
  have hr : b4_5_BC_DE_HL_SP_Read16 opcode
      { cpu with m_pMemory := bus1, PC := (cpu.PC + 1) % 65536 }
      = b4_5_BC_DE_HL_SP_Read16 opcode cpu := by
    unfold b4_5_BC_DE_HL_SP_Read16 BC_DE_HL_SP_Read16
    split <;> rfl
  refine ⟨?w, ?h1, ?h2⟩
  case h1 =>
    simp only [ExecuteSingleInstruction, hf0, Outcome.andThen, hex, OPCODE, ADD_0_3__9, hr]
    exact rfl
  case h2 =>
    refine ⟨?_, ?_, ?_, ?_, ?_, ?_⟩
    · simp only [List.mem_cons, List.mem_singleton, List.not_mem_nil, or_false] at hop
      rcases hop with rfl | rfl | rfl | rfl <;> rfl
    · have := HL_setHL ({ cpu with m_pMemory := bus1, PC := (cpu.PC + 1) % 65536 } : Cpu δ)
        (toUint16 ((cpu.HL + b4_5_BC_DE_HL_SP_Read16 opcode cpu : Nat) : Int)) (toUint16_lt _)
      rw [toUint16_natCast] at this
      exact this
    · simp only [GetFlagValue_SetFlagValue]
      simp only [reduceCtorEq, if_false]
      rfl
    · simp only [GetFlagValue_SetFlagValue]
      simp
    · simp only [GetFlagValue_SetFlagValue]
      simp [GetLow12, Cpu.HL]
    · simp only [GetFlagValue_SetFlagValue]
      simp [Cpu.HL]

/-- Witness of C17 on the sample machine: ADD HL,HL (0x29 at 0x0166) with HL = 0x8800 leaves
HL = 0x1000 with N = 0, H = 1 and C = 1, and Z as it was. -/
theorem ADD_HL_r16_result_witness :
    ∃ cpu1, ({ Sample.cpuAt 0x0166 0x00 with H := 0x88, L := 0x00 } : Cpu Unit).ExecuteSingleInstruction
        = .ok 8 cpu1 ∧
      cpu1.HL = 0x1000 ∧ cpu1.GetFlagValue .Zero = true ∧ cpu1.GetFlagValue .Subtract = false ∧
      cpu1.GetFlagValue .HalfCarry = true ∧ cpu1.GetFlagValue .Carry = true := by
  obtain ⟨cpu1, hex, _, hHL, hZ, hN, hH, hC⟩ :=
    ADD_HL_r16_result ({ Sample.cpuAt 0x0166 0x00 with H := 0x88, L := 0x00 } : Cpu Unit) 0x29 true
      (Sample.bus.Read8 0x0166).state (by decide) rfl
  exact ⟨cpu1, hex, hHL, hZ, hN, hH, hC⟩

/-- Claim C18: ExecuteSingleInstruction fails with the illegal-opcode error if and only if
the opcode byte fetched at PC is one of 0xD3, 0xDB, 0xDD, 0xE3, 0xE4, 0xEB, 0xEC, 0xED,
0xF2, 0xF4, 0xFC, 0xFD. -/
theorem IllegalOpcode_iff_fetched_opcode_illegal (cpu : Cpu δ) :
    (∃ N s, cpu.ExecuteSingleInstruction = .thrown (.IllegalOpcode N) s) ↔
    ∃ opcode f bus1, cpu.m_pMemory.Read8 cpu.PC = .ok (opcode, f) bus1 ∧
      opcode ∈ [0xD3, 0xDB, 0xDD, 0xE3, 0xE4, 0xEB, 0xEC, 0xED, 0xF2, 0xF4, 0xFC, 0xFD] := by
  constructor
  · rintro ⟨N, s, h⟩
    cases hr : cpu.m_pMemory.Read8 cpu.PC with
    | thrown e bus1 =>
      rw [ExecuteSingleInstruction, Fetch8_thrown cpu e bus1 hr] at h
      have he := NoDispatchError_not_thrown (bus_Read8_noDispatchError cpu.m_pMemory cpu.PC true) hr
      cases h
      cases he
    | ok r bus1 =>
      obtain ⟨opcode, f⟩ := r
      refine ⟨opcode, f, bus1, rfl, ?_⟩
      rw [ExecuteSingleInstruction, Fetch8_ok cpu opcode f bus1 hr] at h
      by_contra hni
      have h2 : ExecuteOpcode opcode
          { cpu with m_pMemory := bus1, PC := (cpu.PC + 1) % 65536 }
          = .thrown (.IllegalOpcode N) s := h
      cases hl : (primaryCases (δ := δ)).lookup opcode with
      | none =>
        unfold ExecuteOpcode at h2
        rw [hl] at h2
        exact unknownOpcode_not_illegal _ _ _ _ h2
      | some body =>
        by_cases hcb : opcode = 0xCB
        · subst hcb
          rw [ExecuteOpcode_CB] at h2
          cases hr2 : bus1.Read8 ((cpu.PC + 1) % 65536) with
          | thrown e bus2 =>
            have hF := Fetch8_thrown
              { cpu with m_pMemory := bus1, PC := (cpu.PC + 1) % 65536 } e bus2 hr2
            have he := NoDispatchError_not_thrown
              (bus_Read8_noDispatchError bus1 ((cpu.PC + 1) % 65536) true) hr2
            unfold case_CB at h2
            rw [hF] at h2
            cases h2
            cases he
          | ok r2 bus2 =>
            obtain ⟨sub, f1⟩ := r2
            have hF := Fetch8_ok
              { cpu with m_pMemory := bus1, PC := (cpu.PC + 1) % 65536 } sub f1 bus2 hr2
            rw [case_CB_of_fetch _ _ _ hF] at h2
            cases hl2 : (extendedCases (δ := δ)).lookup sub with
            | none =>
              rw [hl2] at h2
              exact unknownOpcode_not_illegal _ _ _ _ h2
            | some body2 =>
              rw [hl2] at h2
              have he := NoDispatchError_not_thrown
                (extendedCases_noDispatchError (sub, body2) (lookup_mem _ _ _ hl2) _) h2
              cases he
        · have he := NoDispatchError_not_thrown
            (ExecuteOpcode_regular opcode body hl hni hcb _) h2
          cases he
  · rintro ⟨opcode, f, bus1, h0, hmem⟩
    refine ⟨opcode, { cpu with m_pMemory := bus1, PC := (cpu.PC + 1) % 65536 }, ?_⟩
    rw [ExecuteSingleInstruction, Fetch8_ok cpu opcode f bus1 h0]
    exact ExecuteOpcode_illegal opcode hmem _

/-- Claim C20, evaluated at failing inputs: CALL nn (CD 34 12 at 0x0100) returns 12 cycles,
not 24; RET (C9 at 0x1234) returns 8, not 16; JP nn (C3 34 12 at 0x016C) returns 12, not 16;
JR e8 (18 80 at 0x015C) returns 8, not 12; a taken JR Z (28 05 at 0x015E with Z set)
returns 8, not 12. -/
theorem CALL_RET_JP_JR_cycles_differ_from_DMG_table :
    (Sample.cpuAt 0x0100 0x01).ExecuteSingleInstruction.value? = some 12 ∧
    (Sample.cpuAt 0x1234 0x01).ExecuteSingleInstruction.value? = some 8 ∧
    (Sample.cpuAt 0x016C 0x01).ExecuteSingleInstruction.value? = some 12 ∧
    (Sample.cpuAt 0x015C 0x01).ExecuteSingleInstruction.value? = some 8 ∧
    (Sample.cpuAt 0x015E 0x01).GetFlagValue .Zero = true ∧
    (Sample.cpuAt 0x015E 0x01).ExecuteSingleInstruction.value? = some 8 ∧
    (Sample.cpuAt 0x015E 0x01).ExecuteSingleInstruction.state.PC = 0x015E + 2 + 5 := by
  decide

/-- Claim C20, amended: whenever ExecuteSingleInstruction returns, the cycle count is the
constant tabulated beside the case label of the fetched opcode, whether or not a branch is
taken: 4 for NOP and register-to-register LD, 8 for the 8-bit loads through (HL), 8 for JR e8
and for JR cc, 12 for JP nn, 12 for CALL nn, 8 for RET, and for the CB-prefixed RL, RR and
SRL 8 on a register and 16 for RL (HL) and SRL (HL). -/
theorem cycle_count_is_table_constant (cpu cpu1 : Cpu δ) (opcode cycles : Nat) (f0 : Bool)
    (bus1 : MemoryBus δ)
    (h0 : cpu.m_pMemory.Read8 cpu.PC = .ok (opcode, f0) bus1)
    (hex : cpu.ExecuteSingleInstruction = .ok cycles cpu1) :
    (opcode = 0x00 → cycles = 4) ∧
    (0x40 ≤ opcode ∧ opcode ≤ 0x7F ∧ opcode ≠ 0x76 →
      cycles = if b0_2 opcode = 6 ∨ b3_5 opcode = 6 then 8 else 4) ∧
    (opcode = 0x18 → cycles = 8) ∧
    (opcode ∈ [0x20, 0x28, 0x30, 0x38] → cycles = 8) ∧
    (opcode = 0xC3 → cycles = 12) ∧
    (opcode = 0xCD → cycles = 12) ∧
    (opcode = 0xC9 → cycles = 8) ∧
    (opcode = 0xCB → ∀ sub f1 bus2,
      bus1.Read8 ((cpu.PC + 1) % 65536) = .ok (sub, f1) bus2 →
      (0x10 ≤ sub ∧ sub ≤ 0x1F) ∨ (0x38 ≤ sub ∧ sub ≤ 0x3F) → sub ≠ 0x1E →
      cycles = if b0_2 sub = 6 then 16 else 8) := by
  rw [ExecuteSingleInstruction, Fetch8_ok cpu opcode f0 bus1 h0] at hex
  have h2 : ExecuteOpcode opcode { cpu with m_pMemory := bus1, PC := (cpu.PC + 1) % 65536 }
      = .ok cycles cpu1 := hex
  refine ⟨?_, ?_, ?_, ?_, ?_, ?_, ?_, ?_⟩
  · rintro rfl
    exact OPCODE_cycles 4 (NOP_0__0 0x00) h2
  · rintro ⟨hlo, hhi, hne⟩
    rw [LD_block_table opcode hlo hhi hne] at h2
    exact OPCODE_cycles _ _ h2
  · rintro rfl
    exact OPCODE_cycles 8 (JR_1__8 0x18) h2
  · intro hop
    simp only [List.mem_cons, List.mem_singleton, List.not_mem_nil, or_false] at hop
    rcases hop with rfl | rfl | rfl | rfl
    · exact OPCODE_cycles 8 (JR_2_3__0__2_3__8 0x20) h2
    · exact OPCODE_cycles 8 (JR_2_3__0__2_3__8 0x28) h2
    · exact OPCODE_cycles 8 (JR_2_3__0__2_3__8 0x30) h2
    · exact OPCODE_cycles 8 (JR_2_3__0__2_3__8 0x38) h2
  · rintro rfl
    exact case_C3_cycles h2
  · rintro rfl
    exact case_CD_cycles h2
  · rintro rfl
    exact case_C9_cycles h2
  · rintro rfl sub f1 bus2 h1 hsub hne
    have hF := Fetch8_ok
      { cpu with m_pMemory := bus1, PC := (cpu.PC + 1) % 65536 } sub f1 bus2 h1
    obtain ⟨name, hl⟩ := CB_block_table (δ := δ) sub hsub hne
    rw [ExecuteOpcode_CB, case_CB_of_fetch _ _ _ hF, hl] at h2
    exact OPCODE_cycles _ _ h2

/-- Witness of C20 (amended) on the sample machine: CALL nn at 0x0100 returns 12 cycles, JR Z
at 0x015E returns 8 with Z set (taken) and with Z clear (not taken), LD A,(HL) at 0x016B
returns 8 and RL B (CB 10 at 0x0162) returns 8. -/
theorem cycle_count_is_table_constant_witness :
    (Sample.cpuAt 0x0100 0x01).ExecuteSingleInstruction.value?.getD 0 = 12 ∧
    (Sample.cpuAt 0x015E 0x01).ExecuteSingleInstruction.value?.getD 0 = 8 ∧
    ({ Sample.cpuAt 0x015E 0x01 with F := 0x00 }
      : Cpu Unit).ExecuteSingleInstruction.value?.getD 0 = 8 ∧
    (Sample.cpuAt 0x016B 0x01).ExecuteSingleInstruction.value?.getD 0 = 8 ∧
    (Sample.cpuAt 0x0162 0x01).ExecuteSingleInstruction.value?.getD 0 = 8 :=
  ⟨(cycle_count_is_table_constant (Sample.cpuAt 0x0100 0x01)
      (Sample.cpuAt 0x0100 0x01).ExecuteSingleInstruction.state 0xCD _ true
      (Sample.bus.Read8 0x0100).state rfl rfl).2.2.2.2.2.1 rfl,
   (cycle_count_is_table_constant (Sample.cpuAt 0x015E 0x01)
      (Sample.cpuAt 0x015E 0x01).ExecuteSingleInstruction.state 0x28 _ true
      (Sample.bus.Read8 0x015E).state rfl rfl).2.2.2.1 (by decide),
   (cycle_count_is_table_constant ({ Sample.cpuAt 0x015E 0x01 with F := 0x00 } : Cpu Unit)
      ({ Sample.cpuAt 0x015E 0x01 with F := 0x00 } : Cpu Unit).ExecuteSingleInstruction.state
      0x28 _ true (Sample.bus.Read8 0x015E).state rfl rfl).2.2.2.1 (by decide),
   (cycle_count_is_table_constant (Sample.cpuAt 0x016B 0x01)
      (Sample.cpuAt 0x016B 0x01).ExecuteSingleInstruction.state 0x7E _ true
      (Sample.bus.Read8 0x016B).state rfl rfl).2.1 (by decide),
   (cycle_count_is_table_constant (Sample.cpuAt 0x0162 0x01)
      (Sample.cpuAt 0x0162 0x01).ExecuteSingleInstruction.state 0xCB _ true
      (Sample.bus.Read8 0x0162).state rfl rfl).2.2.2.2.2.2.2 rfl 0x10 true
      ((Sample.bus.Read8 0x0162).state.Read8 0x0163).state rfl (by decide) (by decide)⟩

/-- Claim C23, evaluated at its failing input: on a reset bus with no device, a debugger read
caches 0x0100 as Unset; after the cartridge, which claims 0x0100, is attached, the entry is
still Unset, not Unknown, and a read of 0x0100 is not delegated to the cartridge: SafeRead8
reports failure with the byte 0xFF and Read8 fails as for an unmapped register. -/
theorem AddDevice_keeps_stale_Unset_entry :
    (Sample.bareBus.SafeRead8 0x0100).state.m_deviceIndexAtAddress 0x0100
      = MemoryDeviceStatus.Unset ∧
    Sample.lateCartridgeBus.m_deviceIndexAtAddress 0x0100 = MemoryDeviceStatus.Unset ∧
    Sample.lateCartridgeBus.m_deviceIndexAtAddress 0x0100 ≠ MemoryDeviceStatus.Unknown ∧
    claims 0x0100 Sample.cartridge = true ∧
    (Sample.lateCartridgeBus.SafeRead8 0x0100).value? = some (false, 0xFF) ∧
    (Sample.lateCartridgeBus.Read8 0x0100).value? = none ∧
    (Sample.bus.Read8 0x0100).value? = some (0xCD, true) := by
  decide

/-- Claim C23, amended: AddDevice appends the device and leaves every cache entry as it was.
An address outside the bus-owned RAM whose entry is Unset stays with the registers and one
whose entry names a device stays with that device, whether or not the new device claims it;
an address whose entry is still Unknown is probed at its next access, the new device
included, and is delegated to the new device when it alone claims the address. -/
theorem AddDevice_leaves_cache_unchanged (bus : MemoryBus δ) (pDevice : IMemoryBusDevice δ) :
    (AddDevice bus pDevice).m_deviceIndexAtAddress = bus.m_deviceIndexAtAddress ∧
    (AddDevice bus pDevice).m_devicesUnsafe = bus.m_devicesUnsafe ++ [pDevice] ∧
    (∀ (address : Nat) (t : Bool), IsBusOwnedRam address = false →
      bus.m_deviceIndexAtAddress address = MemoryDeviceStatus.Unset →
      Read8 (AddDevice bus pDevice) address t
        = ReadMemoryMappedRegister (AddDevice bus pDevice) address t) ∧
    (∀ (address i : Nat) (t : Bool) (D : IMemoryBusDevice δ),
      IsBusOwnedRam address = false →
      bus.m_deviceIndexAtAddress address = (i : Int) → bus.m_devicesUnsafe[i]? = some D →
      Read8 (AddDevice bus pDevice) address t
        = .ok (servedByte .Read address 0 D, true)
            { AddDevice bus pDevice with m_devicesUnsafe :=
                (AddDevice bus pDevice).m_devicesUnsafe.set i (served .Read address 0 D) }) ∧
    (∀ (address : Nat) (t : Bool), IsBusOwnedRam address = false →
      bus.m_deviceIndexAtAddress address = MemoryDeviceStatus.Unknown →
      (∀ (j : Nat) (p : IMemoryBusDevice δ), bus.m_devicesUnsafe[j]? = some p →
        claims address p = false) →
      claims address pDevice = true →
      Read8 (AddDevice bus pDevice) address t
        = .ok (servedByte .Read address 0 (probed address pDevice), true)
            { AddDevice bus pDevice with
              m_devicesUnsafe :=
                (probedFrom address 0 (AddDevice bus pDevice).m_devicesUnsafe).set
                  bus.m_devicesUnsafe.length (served .Read address 0 (probed address pDevice))
              m_deviceIndexAtAddress :=
                Function.update bus.m_deviceIndexAtAddress address
                  (bus.m_devicesUnsafe.length : Int) }) := by
  refine ⟨rfl, rfl, ?_, ?_, ?_⟩
  · intro address t hram hk
    exact Read8_unset (AddDevice bus pDevice) address t hram hk
  · intro address i t D hram hk hD
    exact Read8_cached (AddDevice bus pDevice) address i t D hram hk
      (AddDevice_getElem?_old bus pDevice D i hD)
  · intro address t hram hunk hnone hclaim
    exact Read8_first_claimed (AddDevice bus pDevice) address bus.m_devicesUnsafe.length t
      pDevice hram hunk (AddDevice_getElem?_new bus pDevice) hclaim
      (by
        intro j p hj hp
        rcases AddDevice_getElem?_cases bus pDevice p j hp with h | ⟨h, _⟩
        · exact hnone j p h
        · exact absurd h hj)

/-- Witness of C23 (amended): the late cartridge bus keeps the Unset entry of 0x0100 and reads
it as a register, while 0x0101, whose entry is still Unknown, is delegated to the cartridge
at its first read. -/
theorem AddDevice_leaves_cache_unchanged_witness :
    Read8 Sample.lateCartridgeBus 0x0100 false
      = ReadMemoryMappedRegister Sample.lateCartridgeBus 0x0100 false ∧
    (Read8 Sample.lateCartridgeBus 0x0101 true).value? = some (0x34, true) :=
  ⟨(AddDevice_leaves_cache_unchanged (Sample.bareBus.SafeRead8 0x0100).state
      Sample.cartridge).2.2.1 0x0100 false (by decide) (by decide),
   congrArg Outcome.value?
     ((AddDevice_leaves_cache_unchanged (Sample.bareBus.SafeRead8 0x0100).state
      Sample.cartridge).2.2.2.2 0x0101 true (by decide) (by decide)
      (by intro j p hp; cases hp) (by decide))⟩

/-- Claim C25: in every LCD state reachable from `Reset` by iterations of the loop of `Update`
(with any bus) and by calls of `HandleRequest` (any read or write), the low two bits of STAT
are the last reported mode `m_lastMode`, which is 0 after `Reset`; and a write to STAT
(0xFF41) leaves the low two bits, and the last mode, as they are. -/
theorem STAT_low_bits_are_last_mode (lcd0 lcd : Lcd) (value : Nat) (h : Lcd.Reachable lcd) :
    ((lcd.STAT &&& 3 : Nat) : Int) = lcd.m_lastMode ∧
    lcd0.Reset.m_lastMode = 0 ∧ lcd0.Reset.STAT &&& 3 = 0 ∧
    (Lcd.HandleRequest .Write 0xFF41 value lcd).2.2.1.STAT &&& 3 = lcd.STAT &&& 3 ∧
    (Lcd.HandleRequest .Write 0xFF41 value lcd).2.2.1.m_lastMode = lcd.m_lastMode := by
  refine ⟨h.invariant.2.2, rfl, ?_, ?_, rfl⟩
  · rw [(Lcd.Reset_fields lcd0).2.2.1]
    rfl
  exact Lcd.and_3_eq_of_testBit _ _ fun i hi =>
    (Lcd.HandleRequest_fields .Write 0xFF41 value lcd).2.2.2.2 i (by omega)

/-- The property of C25 at the sample LCD after Reset, a write of 0x78 to STAT and one
iteration of the loop, for a further write of 0xFF to STAT. -/
theorem STAT_low_bits_are_last_mode_witness :
    Lcd.Reachable Sample.steppedLcd ∧
    (((Sample.steppedLcd.STAT &&& 3 : Nat) : Int) = Sample.steppedLcd.m_lastMode ∧
      Sample.blankLcd.Reset.m_lastMode = 0 ∧ Sample.blankLcd.Reset.STAT &&& 3 = 0 ∧
      (Lcd.HandleRequest .Write 0xFF41 0xFF Sample.steppedLcd).2.2.1.STAT &&& 3 =
        Sample.steppedLcd.STAT &&& 3 ∧
      (Lcd.HandleRequest .Write 0xFF41 0xFF Sample.steppedLcd).2.2.1.m_lastMode =
        Sample.steppedLcd.m_lastMode) :=
  ⟨Lcd.Reachable.update _ Sample.bus
      (Lcd.Reachable.request .Write 0xFF41 0x78 _ (Lcd.Reachable.reset Sample.blankLcd)),
    STAT_low_bits_are_last_mode Sample.blankLcd Sample.steppedLcd 0xFF
      (Lcd.Reachable.update _ Sample.bus
        (Lcd.Reachable.request .Write 0xFF41 0x78 _ (Lcd.Reachable.reset Sample.blankLcd)))⟩

/-- Claim C26: an iteration of the loop of `Update` taken with LCDC bit 7 set, from any
reachable LCD state and with any bus, returns and leaves the bus as it is; the phase it runs
is `m_nextState` and the next one follows it in the cycle ReadingOam, ReadingOamAndVram,
HBlank, ReadingOam; the scanline changes only on a ReadingOam step (to the next line, or from
153 to 0); and the mode the step reports (the last mode, which is also the low two bits of
STAT) is 1 exactly when the scanline after the step is in 144..153, and otherwise 2, 3 or 0
for ReadingOam, ReadingOamAndVram or HBlank. -/
theorem enabled_step_phase_scanline_mode (lcd : Lcd) (bus : MemoryBus δ)
    (hr : Lcd.Reachable lcd) (hen : (lcd.LCDC &&& Bit7 != 0) = true) :
    ∃ events lcd1, lcd.UpdateStep bus = .ok events (lcd1, bus) ∧
      lcd1.m_nextState =
        (match lcd.m_nextState with
         | .ReadingOam => .ReadingOamAndVram
         | .ReadingOamAndVram => .HBlank
         | .HBlank => .ReadingOam) ∧
      (lcd.m_nextState ≠ .ReadingOam → lcd1.m_scanLine = lcd.m_scanLine) ∧
      (lcd.m_nextState = .ReadingOam →
        lcd1.m_scanLine = if lcd.m_scanLine = 153 then 0 else lcd.m_scanLine + 1) ∧
      ((lcd1.STAT &&& 3 : Nat) : Int) = lcd1.m_lastMode ∧
      (lcd1.m_lastMode = 1 ↔ 144 ≤ lcd1.m_scanLine ∧ lcd1.m_scanLine ≤ 153) ∧
      (lcd1.m_scanLine < 144 →
        lcd1.m_lastMode =
          match lcd.m_nextState with
          | .ReadingOam => 2
          | .ReadingOamAndVram => 3
          | .HBlank => 0) := by
  obtain ⟨h1, h2, _⟩ := hr.invariant
  obtain ⟨events, lcd1, hstep, n1, n2, _, _, _, n6, n7, _⟩ :=
    Lcd.UpdateStep_enabled_summary lcd bus hen h1 h2
  have hle : lcd1.m_scanLine ≤ 153 := by
    rw [n2]; split_ifs <;> omega
  refine ⟨events, lcd1, hstep, n1, ?_, ?_, n7, ?_, ?_⟩
  · intro hs
    rw [n2, if_neg hs]
  · intro hs
    rw [n2, if_pos hs]
  · rw [n6]
    constructor
    · intro hm
      refine ⟨?_, hle⟩
      by_contra hlt
      rw [if_neg hlt] at hm
      cases hs : lcd.m_nextState <;> rw [hs] at hm <;> simp at hm
    · intro hge
      rw [if_pos hge.1]
  · intro hlt
    rw [n6, if_neg (by omega)]

/-- The property of C26 at the sample LCD after Reset, with the sample bus. -/
theorem enabled_step_phase_scanline_mode_witness :
    Lcd.Reachable Sample.lcd ∧ (Sample.lcd.LCDC &&& Bit7 != 0) = true ∧
    ∃ events lcd1, Sample.lcd.UpdateStep Sample.bus = .ok events (lcd1, Sample.bus) ∧
      lcd1.m_nextState =
        (match Sample.lcd.m_nextState with
         | .ReadingOam => .ReadingOamAndVram
         | .ReadingOamAndVram => .HBlank
         | .HBlank => .ReadingOam) ∧
      (Sample.lcd.m_nextState ≠ .ReadingOam → lcd1.m_scanLine = Sample.lcd.m_scanLine) ∧
      (Sample.lcd.m_nextState = .ReadingOam →
        lcd1.m_scanLine =
          if Sample.lcd.m_scanLine = 153 then 0 else Sample.lcd.m_scanLine + 1) ∧
      ((lcd1.STAT &&& 3 : Nat) : Int) = lcd1.m_lastMode ∧
      (lcd1.m_lastMode = 1 ↔ 144 ≤ lcd1.m_scanLine ∧ lcd1.m_scanLine ≤ 153) ∧
      (lcd1.m_scanLine < 144 →
        lcd1.m_lastMode =
          match Sample.lcd.m_nextState with
          | .ReadingOam => 2
          | .ReadingOamAndVram => 3
          | .HBlank => 0) :=
  ⟨Lcd.Reachable.reset Sample.blankLcd, rfl,
    enabled_step_phase_scanline_mode Sample.lcd Sample.bus
      (Lcd.Reachable.reset Sample.blankLcd) rfl⟩

/-- Claim C30: for every LCD state with LCDC bit 7 clear, and any bus, one iteration of the
loop of `Update` returns with no event (so no interrupt is signalled) and leaves the last
mode and the low two bits of STAT equal to 1, LY = 0 and the next state ReadingOam; when the
LCD was enabled at the iteration before, every pixel of the 160 x 144 frame buffer becomes
0xFFFF00FF, and otherwise the frame buffer is left as it is. -/
theorem disabled_step_resets_and_blanks (lcd : Lcd) (bus : MemoryBus δ)
    (h : (lcd.LCDC &&& Bit7 != 0) = false) :
    ∃ lcd1, lcd.UpdateStep bus = .ok [] (lcd1, bus) ∧
      lcd1.m_lastMode = 1 ∧ lcd1.STAT &&& 3 = 1 ∧ lcd1.LY = 0 ∧
      lcd1.m_nextState = .ReadingOam ∧
      (lcd.m_wasLcdEnabledLastUpdate = true →
        ∀ x y, x < 160 → y < 144 → lcd1.m_pFrameBuffer x y = 0xFFFF00FF) ∧
      (lcd.m_wasLcdEnabledLastUpdate = false → lcd1.m_pFrameBuffer = lcd.m_pFrameBuffer) := by
  obtain ⟨lcd1, hstep, d1, _, d3, _, _, d6, d7, _, _, d10, _, d12⟩ :=
    Lcd.UpdateStep_disabled_summary lcd bus h
  exact ⟨lcd1, hstep, d6, d7, d3, d1, d10, d12⟩

/-- The property of C30 at the sample LCD switched off after Reset. -/
theorem disabled_step_resets_and_blanks_witness :
    (Sample.disabledLcd.LCDC &&& Bit7 != 0) = false ∧
    ∃ lcd1, Sample.disabledLcd.UpdateStep Sample.bus = .ok [] (lcd1, Sample.bus) ∧
      lcd1.m_lastMode = 1 ∧ lcd1.STAT &&& 3 = 1 ∧ lcd1.LY = 0 ∧
      lcd1.m_nextState = .ReadingOam ∧
      (Sample.disabledLcd.m_wasLcdEnabledLastUpdate = true →
        ∀ x y, x < 160 → y < 144 → lcd1.m_pFrameBuffer x y = 0xFFFF00FF) ∧
      (Sample.disabledLcd.m_wasLcdEnabledLastUpdate = false →
        lcd1.m_pFrameBuffer = Sample.disabledLcd.m_pFrameBuffer) :=
  ⟨rfl, disabled_step_resets_and_blanks Sample.disabledLcd Sample.bus rfl⟩

/-- Counterexample to C27: from the sample LCD after Reset with STAT bit 6 set, STAT bit 5
clear and LYC = 1, the next iteration reports mode 2 after mode 0 and signals IF bit 1, for
the coincidence of LY with LYC, though STAT bit 5 is clear. -/
theorem coincidence_signals_STAT_without_mode_enable :
    Lcd.Reachable Sample.coincidenceLcd ∧
    (Sample.coincidenceLcd.LCDC &&& Bit7 != 0) = true ∧
    Sample.coincidenceLcd.m_lastMode = 0 ∧
    Sample.coincidenceLcd.STAT.testBit 5 = false ∧
    ∃ events lcd1, Sample.coincidenceLcd.UpdateStep Sample.bus =
        .ok events (lcd1, Sample.bus) ∧
      lcd1.m_lastMode = 2 ∧ Lcd.signals events Bit1 = true := by
  refine ⟨Lcd.Reachable.request .Write 0xFF45 1 _
    (Lcd.Reachable.request .Write 0xFF41 0x40 _ (Lcd.Reachable.reset Sample.blankLcd)),
    rfl, rfl, rfl, ?_⟩
  have hs : Sample.coincidenceLcd.m_nextState = .ReadingOam := rfl
  have hsl : Sample.coincidenceLcd.m_scanLine = 0 := rfl
  obtain ⟨events, lcd1, hstep, _, n2, _, _, _, n6, _, _, _, _, n11, _⟩ :=
    Lcd.UpdateStep_enabled_summary Sample.coincidenceLcd Sample.bus rfl
      (by rw [hsl]; norm_num) (by rw [hsl]; norm_num)
  rw [if_pos hs, hsl] at n2
  have n6b : lcd1.m_lastMode = 2 := by rw [n6, n2, hs]; rfl
  refine ⟨events, lcd1, hstep, n6b, ?_⟩
  rw [n11]
  have hc : decide (toUint8 ((Sample.coincidenceLcd.LY : Int) + 1) =
      Sample.coincidenceLcd.LYC) = true := rfl
  have h6 : Sample.coincidenceLcd.STAT.testBit 6 = true := rfl
  rw [hc, h6, hs]
  rfl

/-- Claim C27, amended: an iteration of the loop of `Update` taken with LCDC bit 7 set, from
any reachable LCD state, with `m` the mode it reports and `m0` the mode reported before,
signals IF bit 0 exactly when `m` differs from `m0` and `m` is 1 (so once on entering line 144
and not again on lines 145 to 153).  When it is not the ReadingOam step that wraps the
scanline from 153 to 0, it signals IF bit 1 exactly when it is a ReadingOam step that leaves
LY equal to LYC with STAT bit 6 set (the coincidence), or `m` differs from `m0` and (`m` = 0
and STAT bit 3) or (`m` = 1 and STAT bit 4) or (`m` = 2 and STAT bit 5); on the wrapping step
it signals IF bit 1 whenever that condition on the mode holds (the coincidence there is left
open).  From Reset with a value written to STAT that has bit 4 set, 429 iterations return
and leave LY = 143, and the next one brings LY to 144, signals bit 0 and bit 1 and leaves the
low two bits of STAT equal to 1. -/
theorem enabled_step_signals (lcd0 lcd : Lcd) (bus : MemoryBus δ) (v : Nat)
    (hr : Lcd.Reachable lcd) (hen : (lcd.LCDC &&& Bit7 != 0) = true)
    (hv : v.testBit 4 = true) :
    (∃ events lcd1, lcd.UpdateStep bus = .ok events (lcd1, bus) ∧
      (Lcd.signals events Bit0 = true ↔
        lcd1.m_lastMode ≠ lcd.m_lastMode ∧ lcd1.m_lastMode = 1) ∧
      (¬ (lcd.m_nextState = .ReadingOam ∧ lcd.m_scanLine = 153) →
        (Lcd.signals events Bit1 = true ↔
          (lcd.m_nextState = .ReadingOam ∧ lcd1.LY = lcd.LYC ∧
            lcd.STAT.testBit 6 = true) ∨
          (lcd1.m_lastMode ≠ lcd.m_lastMode ∧
            ((lcd1.m_lastMode = 0 ∧ lcd.STAT.testBit 3 = true) ∨
             (lcd1.m_lastMode = 1 ∧ lcd.STAT.testBit 4 = true) ∨
             (lcd1.m_lastMode = 2 ∧ lcd.STAT.testBit 5 = true))))) ∧
      (lcd.m_nextState = .ReadingOam ∧ lcd.m_scanLine = 153 →
        lcd1.m_lastMode ≠ lcd.m_lastMode ∧
          ((lcd1.m_lastMode = 0 ∧ lcd.STAT.testBit 3 = true) ∨
           (lcd1.m_lastMode = 1 ∧ lcd.STAT.testBit 4 = true) ∨
           (lcd1.m_lastMode = 2 ∧ lcd.STAT.testBit 5 = true)) →
        Lcd.signals events Bit1 = true)) ∧
    (∃ events s events1 lcd1,
      Lcd.UpdateSteps 429 ((Lcd.HandleRequest .Write 0xFF41 v lcd0.Reset).2.2.1, bus) =
        .ok events s ∧
      s.1.LY = 143 ∧ s.1.UpdateStep s.2 = .ok events1 (lcd1, bus) ∧ lcd1.LY = 144 ∧
      Lcd.signals events1 Bit0 = true ∧ Lcd.signals events1 Bit1 = true ∧
      lcd1.STAT &&& 3 = 1) := by
  constructor
  · obtain ⟨h1, h2, _⟩ := hr.invariant
    obtain ⟨events, lcd1, hstep, _, _, n3, _, _, _, _, _, _, n10, n11, _⟩ :=
      Lcd.UpdateStep_enabled_summary lcd bus hen h1 h2
    refine ⟨events, lcd1, hstep, ?_, ?_, ?_⟩
    · rw [n10]
      simp
    · intro hnw
      have hLY : lcd.m_nextState = .ReadingOam →
          lcd1.LY = toUint8 ((lcd.LY : Int) + 1) := by
        intro hs
        rw [n3, if_pos hs, if_neg (fun h153 => hnw ⟨hs, h153⟩)]
      rw [n11]
      simp only [Bool.or_eq_true, Bool.and_eq_true, decide_eq_true_eq]
      constructor
      · rintro (⟨⟨hs, hc⟩, h6⟩ | hm)
        · exact Or.inl ⟨hs, by rw [hLY hs]; exact hc, h6⟩
        · exact Or.inr (by tauto)
      · rintro (⟨hs, hc, h6⟩ | hm)
        · exact Or.inl ⟨⟨hs, by rw [← hLY hs]; exact hc⟩, h6⟩
        · exact Or.inr (by tauto)
    · intro _ hm
      rw [n11]
      simp only [Bool.or_eq_true, Bool.and_eq_true, decide_eq_true_eq]
      exact Or.inr (by tauto)
  · obtain ⟨r1, r2, r3, r4, r5, r6, r7⟩ := Lcd.Reset_write_STAT_fields lcd0 v
    obtain ⟨events, lcdA, hsteps, a1, a2, a3, _, a5, a6, a8⟩ :=
      Lcd.UpdateSteps_lines bus 143 (Lcd.HandleRequest .Write 0xFF41 v lcd0.Reset).2.2.1
        (by rw [r5]; rfl) r1 (by rw [r2]; norm_num) (by rw [r2]; norm_num)
        (by rw [r3]; norm_num)
    rw [r2] at a2
    rw [r3] at a3
    rw [r2] at a6
    obtain ⟨events1, lcd1, hstep, b1, b2, b3, b4⟩ :=
      Lcd.UpdateStep_enters_VBlank lcdA bus (by rw [a5, r5]; rfl) a1 (by rw [a2]; rfl)
        (by rw [a3]) (by rw [a6]; rfl)
        (by rw [a8 4 (by norm_num) (by norm_num), r7 4 (by norm_num) (by norm_num), hv])
    exact ⟨events, (lcdA, bus), events1, lcd1, hsteps, by rw [a3], hstep, b1, b2, b3, b4⟩

/-- The property of C27 (amended) at the sample LCD after Reset, with the sample bus, for
the value 0x10 written to STAT. -/
theorem enabled_step_signals_witness :
    Lcd.Reachable Sample.lcd ∧ (Sample.lcd.LCDC &&& Bit7 != 0) = true ∧
    (0x10 : Nat).testBit 4 = true ∧
    ((∃ events lcd1, Sample.lcd.UpdateStep Sample.bus = .ok events (lcd1, Sample.bus) ∧
      (Lcd.signals events Bit0 = true ↔
        lcd1.m_lastMode ≠ Sample.lcd.m_lastMode ∧ lcd1.m_lastMode = 1) ∧
      (¬ (Sample.lcd.m_nextState = .ReadingOam ∧ Sample.lcd.m_scanLine = 153) →
        (Lcd.signals events Bit1 = true ↔
          (Sample.lcd.m_nextState = .ReadingOam ∧ lcd1.LY = Sample.lcd.LYC ∧
            Sample.lcd.STAT.testBit 6 = true) ∨
          (lcd1.m_lastMode ≠ Sample.lcd.m_lastMode ∧
            ((lcd1.m_lastMode = 0 ∧ Sample.lcd.STAT.testBit 3 = true) ∨
             (lcd1.m_lastMode = 1 ∧ Sample.lcd.STAT.testBit 4 = true) ∨
             (lcd1.m_lastMode = 2 ∧ Sample.lcd.STAT.testBit 5 = true))))) ∧
      (Sample.lcd.m_nextState = .ReadingOam ∧ Sample.lcd.m_scanLine = 153 →
        lcd1.m_lastMode ≠ Sample.lcd.m_lastMode ∧
          ((lcd1.m_lastMode = 0 ∧ Sample.lcd.STAT.testBit 3 = true) ∨
           (lcd1.m_lastMode = 1 ∧ Sample.lcd.STAT.testBit 4 = true) ∨
           (lcd1.m_lastMode = 2 ∧ Sample.lcd.STAT.testBit 5 = true)) →
        Lcd.signals events Bit1 = true)) ∧
    (∃ events s events1 lcd1,
      Lcd.UpdateSteps 429
          ((Lcd.HandleRequest .Write 0xFF41 0x10 Sample.blankLcd.Reset).2.2.1, Sample.bus) =
        .ok events s ∧
      s.1.LY = 143 ∧ s.1.UpdateStep s.2 = .ok events1 (lcd1, Sample.bus) ∧ lcd1.LY = 144 ∧
      Lcd.signals events1 Bit0 = true ∧ Lcd.signals events1 Bit1 = true ∧
      lcd1.STAT &&& 3 = 1)) :=
  ⟨Lcd.Reachable.reset Sample.blankLcd, rfl, by decide,
    enabled_step_signals Sample.blankLcd Sample.lcd Sample.bus 0x10
      (Lcd.Reachable.reset Sample.blankLcd) rfl (by decide)⟩

/-- Claim C28 fails on the code: from the sample LCD after Reset with STAT bit 6 set (LYC is
0), 459 iterations of the loop return and leave LY = 153 with ReadingOam next; the next
iteration wraps LY to 0, which equals LYC, but leaves STAT bit 2 clear and does not signal
IF bit 1, because LY is compared with LYC before the wrap, as 154. -/
theorem wrap_to_LY_0_misses_LYC_0 :
    ∃ events s events1 lcd1,
      Lcd.UpdateSteps 459 (Sample.lyc0Lcd, Sample.bus) = .ok events s ∧
      s.1.m_nextState = .ReadingOam ∧ s.1.LY = 153 ∧ (s.1.LCDC &&& Bit7 != 0) = true ∧
      s.1.UpdateStep s.2 = .ok events1 (lcd1, Sample.bus) ∧
      lcd1.LY = 0 ∧ lcd1.LYC = 0 ∧ lcd1.STAT.testBit 6 = true ∧
      lcd1.STAT.testBit 2 = false ∧ Lcd.signals events1 Bit1 = false := by
  have r2 : Sample.lyc0Lcd.m_scanLine = 0 := rfl
  have r3 : Sample.lyc0Lcd.LY = 0 := rfl
  obtain ⟨events, lcdA, hsteps, a1, a2, a3, a4, a5, _, a8⟩ :=
    Lcd.UpdateSteps_lines Sample.bus 153 Sample.lyc0Lcd rfl rfl
      (by rw [r2]; norm_num) (by rw [r2]; norm_num) (by rw [r3]; norm_num)
  rw [r2] at a2
  rw [r3] at a3
  have hen : (lcdA.LCDC &&& Bit7 != 0) = true := by rw [a5]; rfl
  obtain ⟨events1, lcd1, hstep, b1, b2, _, b4, b5, b6⟩ :=
    Lcd.UpdateStep_wraps lcdA Sample.bus hen a1 (by rw [a2]; rfl) (by rw [a3])
      (by rw [a4]; rfl) (by rw [a8 5 (by norm_num) (by norm_num)]; rfl)
  refine ⟨events, (lcdA, Sample.bus), events1, lcd1, hsteps, a1, by rw [a3], hen, hstep,
    b1, b2, ?_, b5, b6⟩
  rw [b4, a8 6 (by norm_num) (by norm_num)]
  rfl

/-- Claim C29 fails on the code: from the sample LCD switched off after Reset, one iteration
later, and switched on again, the first iteration, a ReadingOam step, starts scanline 0 with
LY = 1, because the disabled branch sets the scanline to -1 but LY to 0; and 462 iterations
return and leave LY = 154, which a read of 0xFF44 returns. -/
theorem LY_is_one_ahead_after_reenable :
    Sample.reenabledLcd.m_nextState = .ReadingOam ∧
    (∃ events lcd1, Sample.reenabledLcd.UpdateStep Sample.bus =
        .ok events (lcd1, Sample.bus) ∧
      lcd1.m_scanLine = 0 ∧ lcd1.LY = 1) ∧
    (∃ events s, Lcd.UpdateSteps 462 (Sample.reenabledLcd, Sample.bus) = .ok events s ∧
      s.1.m_scanLine = 153 ∧ s.1.LY = 154 ∧
      (Lcd.HandleRequest .Read 0xFF44 0 s.1).1 = true ∧
      (Lcd.HandleRequest .Read 0xFF44 0 s.1).2.1 = 154) := by
  have r2 : Sample.reenabledLcd.m_scanLine = -1 := rfl
  have r3 : Sample.reenabledLcd.LY = 0 := rfl
  refine ⟨rfl, ?_, ?_⟩
  · obtain ⟨events, lcd1, hstep, _, n2, n3, _⟩ :=
      Lcd.UpdateStep_enabled_summary Sample.reenabledLcd Sample.bus rfl
        (by rw [r2]) (by rw [r2]; norm_num)
    have hs : Sample.reenabledLcd.m_nextState = .ReadingOam := rfl
    rw [if_pos hs, r2] at n2
    rw [if_pos hs, r2, r3] at n3
    exact ⟨events, lcd1, hstep, by rw [n2]; rfl, by rw [n3]; rfl⟩
  · obtain ⟨events, lcdA, hsteps, _, a2, a3, _⟩ :=
      Lcd.UpdateSteps_lines Sample.bus 154 Sample.reenabledLcd rfl rfl
        (by rw [r2]) (by rw [r2]; norm_num) (by rw [r3]; norm_num)
    rw [r2] at a2
    rw [r3] at a3
    refine ⟨events, (lcdA, Sample.bus), hsteps, by rw [a2]; rfl, by rw [a3], rfl, ?_⟩
    show lcdA.LY = 154
    rw [a3]

/-- Claim C31: for every value `v` and every LCD state, with `s` its STAT, a Write request to
0xFF41 is handled, leaves the byte slot as it is and sets STAT to `(v & 0x78) | (s & 0x07)`,
every other field of the LCD staying as it is and no bus copy being made: bits 3 to 6 of the
new STAT are those of `v`, bits 0 to 2 those of `s`, bit 7 is clear; and a Read request to
0xFF41 that follows is handled and returns that value, leaving the LCD as it is. -/
theorem STAT_write_takes_bits_3_to_6 (lcd : Lcd) (v w : Nat) :
    Lcd.HandleRequest .Write 0xFF41 v lcd =
      (true, v, { lcd with STAT := (v &&& 0x78) ||| (lcd.STAT &&& 0x07) }, []) ∧
    (((v &&& 0x78) ||| (lcd.STAT &&& 0x07)).testBit 3 = v.testBit 3 ∧
     ((v &&& 0x78) ||| (lcd.STAT &&& 0x07)).testBit 4 = v.testBit 4 ∧
     ((v &&& 0x78) ||| (lcd.STAT &&& 0x07)).testBit 5 = v.testBit 5 ∧
     ((v &&& 0x78) ||| (lcd.STAT &&& 0x07)).testBit 6 = v.testBit 6) ∧
    (((v &&& 0x78) ||| (lcd.STAT &&& 0x07)).testBit 0 = lcd.STAT.testBit 0 ∧
     ((v &&& 0x78) ||| (lcd.STAT &&& 0x07)).testBit 1 = lcd.STAT.testBit 1 ∧
     ((v &&& 0x78) ||| (lcd.STAT &&& 0x07)).testBit 2 = lcd.STAT.testBit 2) ∧
    ((v &&& 0x78) ||| (lcd.STAT &&& 0x07)).testBit 7 = false ∧
    Lcd.HandleRequest .Read 0xFF41 w
        { lcd with STAT := (v &&& 0x78) ||| (lcd.STAT &&& 0x07) } =
      (true, (v &&& 0x78) ||| (lcd.STAT &&& 0x07),
        { lcd with STAT := (v &&& 0x78) ||| (lcd.STAT &&& 0x07) }, []) := by
  have e : Lcd.HandleRequest .Write 0xFF41 v lcd =
      (true, v, { lcd with STAT := toUint8 (((v &&& (Bit6 ||| Bit5 ||| Bit4 ||| Bit3)) |||
          (lcd.STAT &&& (Bit2 ||| Bit1 ||| Bit0)) : Nat) : Int) }, []) := rfl
  have hb : ∀ i, ((v &&& 0x78) ||| (lcd.STAT &&& 0x07)).testBit i =
      ((v.testBit i && (0x78 : Nat).testBit i) || (lcd.STAT.testBit i && (0x07 : Nat).testBit i)) := by
    intro i
    rw [Nat.testBit_or, Nat.testBit_and, Nat.testBit_and]
  have m : ∀ i, i < 8 → (0x78 : Nat).testBit i = decide (3 ≤ i ∧ i < 7) ∧
      (0x07 : Nat).testBit i = decide (i < 3) := by
    intro i hi
    interval_cases i <;> exact ⟨by decide, by decide⟩
  have hv : ∀ i, 3 ≤ i → i < 7 →
      ((v &&& 0x78) ||| (lcd.STAT &&& 0x07)).testBit i = v.testBit i := by
    intro i h3 h7
    rw [hb, (m i (by omega)).1, (m i (by omega)).2]
    simp [h3, h7, show ¬ i < 3 by omega]
  have hs : ∀ i, i < 3 →
      ((v &&& 0x78) ||| (lcd.STAT &&& 0x07)).testBit i = lcd.STAT.testBit i := by
    intro i h3
    rw [hb, (m i (by omega)).1, (m i (by omega)).2]
    simp [h3, show ¬ 3 ≤ i by omega]
  have h7 : ((v &&& 0x78) ||| (lcd.STAT &&& 0x07)).testBit 7 = false := by
    rw [hb, (m 7 (by norm_num)).1, (m 7 (by norm_num)).2]
    simp
  exact ⟨by rw [e, Lcd.stat_write_value],
    ⟨hv 3 (by norm_num) (by norm_num), hv 4 (by norm_num) (by norm_num),
      hv 5 (by norm_num) (by norm_num), hv 6 (by norm_num) (by norm_num)⟩,
    ⟨hs 0 (by norm_num), hs 1 (by norm_num), hs 2 (by norm_num)⟩, h7, rfl⟩

section
variable {γ : Type}

/-- Claim C32: on a bus with the LCD attached at index `k` as the only device that claims
0xFE00-0xFE9F and 0xFF46, and for every `v` whose source range (v << 8) .. (v << 8) + 0x9F
lies in the RAM arrays of the bus: `Write8(0xFF46, v)`, the copies of the DMA case included,
returns, and for every i in 0..0x9F a `Read8(0xFE00 + i)` on the bus it leaves returns the
byte that `Read8((v << 8) + i)` returned before the write, and `Read8((v << 8) + i)` still
returns that byte afterwards. -/
theorem DMA_write_copies_source_into_OAM (bus : MemoryBus (Lcd ⊕ γ)) (k v : Nat) (lcd : Lcd)
    (hlcd : Lcd.AttachedAt k lcd bus)
    (hsrc : ∀ i, i < 160 → IsBusOwnedRam ((v <<< 8) + i) = true) :
    ∃ bus1, Lcd.busWrite8 bus 0xFF46 v = .ok () bus1 ∧
      ∀ i, i < 160 →
        bus.Read8 ((v <<< 8) + i) = .ok (bus.ramByte ((v <<< 8) + i), true) bus ∧
        (∃ bus2, bus1.Read8 (0xFE00 + i) = .ok (bus.ramByte ((v <<< 8) + i), true) bus2) ∧
        bus1.Read8 ((v <<< 8) + i) = .ok (bus.ramByte ((v <<< 8) + i), true) bus1 := by
  obtain ⟨bus1, lcd1, hw, hA1, hm, hoam⟩ := Lcd.busWrite8_dma k lcd bus v hlcd hsrc
  refine ⟨bus1, hw, fun i hi => ⟨Read8_ram bus _ true (hsrc i hi), ?_, ?_⟩⟩
  · obtain ⟨bus2, hr, _, _⟩ := Lcd.Read8_oam k lcd1 bus1 i true hA1 hi
    rw [hoam i hi] at hr
    exact ⟨bus2, hr⟩
  · rw [Read8_ram bus1 _ true (hsrc i hi), ramByte_congr hm.1]

/-- The property of C32 at the sample bus with the LCD as its only device and the bytes
0x00..0x9F at 0xC100..0xC19F, for v = 0xC1: OAM holds 0x00..0x9F afterwards. -/
theorem DMA_write_copies_source_into_OAM_witness :
    Lcd.AttachedAt 0 Sample.lcd Sample.dmaBus ∧
    (∀ i, i < 160 → IsBusOwnedRam ((0xC1 <<< 8) + i) = true) ∧
    (∀ i, i < 160 → Sample.dmaBus.ramByte ((0xC1 <<< 8) + i) = i) ∧
    ∃ bus1, Lcd.busWrite8 Sample.dmaBus 0xFF46 0xC1 = .ok () bus1 ∧
      ∀ i, i < 160 →
        Sample.dmaBus.Read8 ((0xC1 <<< 8) + i)
          = .ok (Sample.dmaBus.ramByte ((0xC1 <<< 8) + i), true) Sample.dmaBus ∧
        (∃ bus2, bus1.Read8 (0xFE00 + i)
          = .ok (Sample.dmaBus.ramByte ((0xC1 <<< 8) + i), true) bus2) ∧
        bus1.Read8 ((0xC1 <<< 8) + i)
          = .ok (Sample.dmaBus.ramByte ((0xC1 <<< 8) + i), true) bus1 :=
  ⟨Sample.dmaBus_attached, fun i hi => (Sample.dmaBus_source i hi).1,
    fun i hi => (Sample.dmaBus_source i hi).2,
    DMA_write_copies_source_into_OAM Sample.dmaBus 0 0xC1 Sample.lcd Sample.dmaBus_attached
      fun i hi => (Sample.dmaBus_source i hi).1⟩

end

/-- Claim C33: for every BGP value and every colour index `k` in 0..3,
`GetLuminosityForColorIndex` returns `(3 - shade) * 0x55` with `shade = (BGP >> 2k) & 3`, that
is 0xFF, 0xAA, 0x55 or 0x00 for shade 0, 1, 2 or 3; and the pixel `RenderScanline` writes at
a screen column (current scanline `n` not negative, any bus) is `0xFF000000 | (L << 16) |
(L << 8) | L`, where `L` is that luminosity for the colour index of the pixel: the colour
index the two tile lookups return for the window coordinates where the window is enabled
(LCDC bit 5) and covers the pixel; otherwise, with the background enabled (LCDC bit 0), the
colour index of the background pixel at ((SCX + x) mod 256, (SCY + n) mod 256); and `L` is
0xFF when neither layer is drawn. -/
theorem luminosity_is_shade_of_BGP (lcd : Lcd) (bus : MemoryBus δ)
    (paletteRegister k screenX n : Nat) (hk : k < 4) (hn : lcd.m_scanLine = (n : Int)) :
    lcd.GetLuminosityForColorIndex paletteRegister k =
      (3 - ((lcd.BGP >>> (2 * k)) &&& 3)) * 0x55 ∧
    (((lcd.BGP >>> (2 * k)) &&& 3 = 0 ∧
        lcd.GetLuminosityForColorIndex paletteRegister k = 0xFF) ∨
     ((lcd.BGP >>> (2 * k)) &&& 3 = 1 ∧
        lcd.GetLuminosityForColorIndex paletteRegister k = 0xAA) ∨
     ((lcd.BGP >>> (2 * k)) &&& 3 = 2 ∧
        lcd.GetLuminosityForColorIndex paletteRegister k = 0x55) ∨
     ((lcd.BGP >>> (2 * k)) &&& 3 = 3 ∧
        lcd.GetLuminosityForColorIndex paletteRegister k = 0x00)) ∧
    ∃ L, Lcd.renderPixel lcd bus screenX =
        .ok (0xFF000000 ||| (L <<< 16) ||| (L <<< 8) ||| L) bus ∧
      (((lcd.LCDC &&& Bit5 != 0) = true ∧
          toSint16 ((screenX : Int) - ((lcd.WX : Int) - 7)) ≥ 0 ∧
          toSint16 ((screenX : Int) - ((lcd.WX : Int) - 7)) < 160 ∧
          toSint16 (lcd.m_scanLine - (lcd.WY : Int)) ≥ 0 ∧
          toSint16 (lcd.m_scanLine - (lcd.WY : Int)) < 144) →
        ∃ t c,
          Lcd.GetTileIndexAtXY bus (if lcd.LCDC &&& Bit6 != 0 then 0x9C00 else 0x9800)
            (toSint16 ((screenX : Int) - ((lcd.WX : Int) - 7)))
            (toSint16 (lcd.m_scanLine - (lcd.WY : Int))) = .ok t bus ∧
          Lcd.GetTileDataPixelColorIndex bus 0x9000 (toSint8 t)
            (toSint16 ((screenX : Int) - ((lcd.WX : Int) - 7)))
            (toSint16 (lcd.m_scanLine - (lcd.WY : Int))) = .ok c bus ∧
          c < 4 ∧ L = (3 - ((lcd.BGP >>> (2 * c)) &&& 3)) * 0x55) ∧
      (¬ ((lcd.LCDC &&& Bit5 != 0) = true ∧
          toSint16 ((screenX : Int) - ((lcd.WX : Int) - 7)) ≥ 0 ∧
          toSint16 ((screenX : Int) - ((lcd.WX : Int) - 7)) < 160 ∧
          toSint16 (lcd.m_scanLine - (lcd.WY : Int)) ≥ 0 ∧
          toSint16 (lcd.m_scanLine - (lcd.WY : Int)) < 144) →
        ((lcd.LCDC &&& Bit0 != 0) = true →
          L = (3 - ((lcd.BGP >>> (2 *
            Lcd.specColorIndex bus
              (Lcd.specTileRowAddress lcd
                (Lcd.specTileMapByte lcd bus ((lcd.SCX + screenX) % 256)
                  ((lcd.SCY + n) % 256) % 256)
                ((lcd.SCY + n) % 256))
              ((lcd.SCX + screenX) % 256))) &&& 3)) * 0x55) ∧
        ((lcd.LCDC &&& Bit0 != 0) = false → L = 0xFF)) := by
  obtain ⟨hlt, hL⟩ := Lcd.GetLuminosityForColorIndex_eq lcd paletteRegister k hk
  refine ⟨hL, ?_, ?_⟩
  · rw [hL]
    generalize (lcd.BGP >>> (2 * k)) &&& 3 = shade at hlt
    interval_cases shade <;> simp
  · have hbg : ∃ Lb, (if lcd.LCDC &&& Bit0 != 0 then Lcd.backgroundLuminosity lcd bus screenX
        else .ok 0xFF bus) = .ok Lb bus ∧
        ((lcd.LCDC &&& Bit0 != 0) = true →
          Lb = (3 - ((lcd.BGP >>> (2 *
            Lcd.specColorIndex bus
              (Lcd.specTileRowAddress lcd
                (Lcd.specTileMapByte lcd bus ((lcd.SCX + screenX) % 256)
                  ((lcd.SCY + n) % 256) % 256)
                ((lcd.SCY + n) % 256))
              ((lcd.SCX + screenX) % 256))) &&& 3)) * 0x55) ∧
        ((lcd.LCDC &&& Bit0 != 0) = false → Lb = 0xFF) := by
      by_cases h0 : (lcd.LCDC &&& Bit0 != 0) = true
      · rw [if_pos h0, Lcd.backgroundLuminosity_colorIndex lcd bus screenX n hn]
        refine ⟨_, rfl, fun _ => ?_, fun hf => ?_⟩
        · exact (Lcd.GetLuminosityForColorIndex_eq lcd lcd.BGP _
            (Lcd.specColorIndex_lt bus _ _)).2
        · rw [h0] at hf
          cases hf
      · rw [if_neg h0]
        exact ⟨0xFF, rfl, fun ht => absurd ht h0, fun _ => rfl⟩
    obtain ⟨Lb, hLb, hb1, hb0⟩ := hbg
    by_cases hw : (lcd.LCDC &&& Bit5 != 0) = true ∧
        toSint16 ((screenX : Int) - ((lcd.WX : Int) - 7)) ≥ 0 ∧
        toSint16 ((screenX : Int) - ((lcd.WX : Int) - 7)) < 160 ∧
        toSint16 (lcd.m_scanLine - (lcd.WY : Int)) ≥ 0 ∧
        toSint16 (lcd.m_scanLine - (lcd.WY : Int)) < 144
    · obtain ⟨t, c, ht, hc, hc4, hwl⟩ :=
        Lcd.windowLuminosity_colorIndex lcd bus screenX Lb hw.2
      refine ⟨lcd.GetLuminosityForColorIndex lcd.BGP c, ?_, fun _ => ?_, fun hnw => absurd hw hnw⟩
      · unfold Lcd.renderPixel
        rw [hLb]
        simp only [Outcome.andThen]
        rw [if_pos hw.1, hwl]
      · exact ⟨t, c, ht, hc, hc4, (Lcd.GetLuminosityForColorIndex_eq lcd lcd.BGP c hc4).2⟩
    · refine ⟨Lb, ?_, fun hy => absurd hy hw, fun _ => ⟨hb1, hb0⟩⟩
      unfold Lcd.renderPixel
      rw [hLb]
      simp only [Outcome.andThen]
      by_cases h5 : (lcd.LCDC &&& Bit5 != 0) = true
      · rw [if_pos h5, Lcd.windowLuminosity_uncovered lcd bus screenX Lb
          (fun hc => hw ⟨h5, hc⟩)]
      · rw [if_neg h5]

/-- The property of C33 at the sample LCD after Reset (BGP = 0xFC, LCDC = 0x91: background
drawn, window off), colour index 2, screen column 5 of scanline 0, with the sample bus, whose
video RAM holds 0xFD everywhere: the pixel has colour index 3, shade 3 and luminosity 0. -/
theorem luminosity_is_shade_of_BGP_witness :
    (2 : Nat) < 4 ∧ Sample.lcd.m_scanLine = ((0 : Nat) : Int) ∧
    Lcd.renderPixel Sample.lcd Sample.bus 5 = .ok 0xFF000000 Sample.bus ∧
    (Sample.lcd.GetLuminosityForColorIndex 0 2 =
      (3 - ((Sample.lcd.BGP >>> (2 * 2)) &&& 3)) * 0x55 ∧
    (((Sample.lcd.BGP >>> (2 * 2)) &&& 3 = 0 ∧
        Sample.lcd.GetLuminosityForColorIndex 0 2 = 0xFF) ∨
     ((Sample.lcd.BGP >>> (2 * 2)) &&& 3 = 1 ∧
        Sample.lcd.GetLuminosityForColorIndex 0 2 = 0xAA) ∨
     ((Sample.lcd.BGP >>> (2 * 2)) &&& 3 = 2 ∧
        Sample.lcd.GetLuminosityForColorIndex 0 2 = 0x55) ∨
     ((Sample.lcd.BGP >>> (2 * 2)) &&& 3 = 3 ∧
        Sample.lcd.GetLuminosityForColorIndex 0 2 = 0x00)) ∧
    ∃ L, Lcd.renderPixel Sample.lcd Sample.bus 5 =
        .ok (0xFF000000 ||| (L <<< 16) ||| (L <<< 8) ||| L) Sample.bus ∧
      (((Sample.lcd.LCDC &&& Bit5 != 0) = true ∧
          toSint16 (((5 : Nat) : Int) - ((Sample.lcd.WX : Int) - 7)) ≥ 0 ∧
          toSint16 (((5 : Nat) : Int) - ((Sample.lcd.WX : Int) - 7)) < 160 ∧
          toSint16 (Sample.lcd.m_scanLine - (Sample.lcd.WY : Int)) ≥ 0 ∧
          toSint16 (Sample.lcd.m_scanLine - (Sample.lcd.WY : Int)) < 144) →
        ∃ t c,
          Lcd.GetTileIndexAtXY Sample.bus
            (if Sample.lcd.LCDC &&& Bit6 != 0 then 0x9C00 else 0x9800)
            (toSint16 (((5 : Nat) : Int) - ((Sample.lcd.WX : Int) - 7)))
            (toSint16 (Sample.lcd.m_scanLine - (Sample.lcd.WY : Int))) = .ok t Sample.bus ∧
          Lcd.GetTileDataPixelColorIndex Sample.bus 0x9000 (toSint8 t)
            (toSint16 (((5 : Nat) : Int) - ((Sample.lcd.WX : Int) - 7)))
            (toSint16 (Sample.lcd.m_scanLine - (Sample.lcd.WY : Int))) = .ok c Sample.bus ∧
          c < 4 ∧ L = (3 - ((Sample.lcd.BGP >>> (2 * c)) &&& 3)) * 0x55) ∧
      (¬ ((Sample.lcd.LCDC &&& Bit5 != 0) = true ∧
          toSint16 (((5 : Nat) : Int) - ((Sample.lcd.WX : Int) - 7)) ≥ 0 ∧
          toSint16 (((5 : Nat) : Int) - ((Sample.lcd.WX : Int) - 7)) < 160 ∧
          toSint16 (Sample.lcd.m_scanLine - (Sample.lcd.WY : Int)) ≥ 0 ∧
          toSint16 (Sample.lcd.m_scanLine - (Sample.lcd.WY : Int)) < 144) →
        ((Sample.lcd.LCDC &&& Bit0 != 0) = true →
          L = (3 - ((Sample.lcd.BGP >>> (2 *
            Lcd.specColorIndex Sample.bus
              (Lcd.specTileRowAddress Sample.lcd
                (Lcd.specTileMapByte Sample.lcd Sample.bus ((Sample.lcd.SCX + 5) % 256)
                  ((Sample.lcd.SCY + 0) % 256) % 256)
                ((Sample.lcd.SCY + 0) % 256))
              ((Sample.lcd.SCX + 5) % 256))) &&& 3)) * 0x55) ∧
        ((Sample.lcd.LCDC &&& Bit0 != 0) = false → L = 0xFF))) :=
  ⟨by decide, rfl, rfl,
    luminosity_is_shade_of_BGP Sample.lcd Sample.bus 0 2 5 0 (by decide) rfl⟩

/-- Claim C34: for a background pixel at tile-map coordinates `(bx, y)`, both in 0..255, with
video RAM holding bytes: `GetTileIndexAtXY`, called as `RenderScanline` calls it, returns the
tile-map byte `t = VRAM[base + (y / 8) * 32 + (bx / 8)]` with base 0x9C00 if LCDC bit 3 is set
and 0x9800 otherwise; `GetTileDataPixelColorIndex`, called as `RenderScanline` calls it,
returns `(bit p of VRAM[T + 1]) * 2 + (bit p of VRAM[T])` with `p = 7 - (bx % 8)` and `T` the
tile row address (0x8000 + t * 16 + (y % 8) * 2 when LCDC bit 4 is set; 0x9000 + s * 16 +
(y % 8) * 2 otherwise, with s = t - 256 for t in 128..255 and s = t otherwise), a value in
0..3; both leave the bus as it is.  The coordinates `RenderScanline` passes for screen column
`screenX` on scanline `n` are `((SCX + screenX) % 256, (SCY + n) % 256)`, and the luminosity of
the background there is that of this colour index. -/
theorem background_tile_lookup (lcd : Lcd) (bus : MemoryBus δ) (bx y screenX n : Nat)
    (hbx : bx < 256) (hy : y < 256) (hbyte : ∀ a, bus.m_vram a < 256)
    (hn : lcd.m_scanLine = (n : Int)) :
    Lcd.GetTileIndexAtXY bus (if lcd.LCDC &&& Bit3 != 0 then 0x9C00 else 0x9800) (bx : Int)
        (y : Int) = .ok (Lcd.specTileMapByte lcd bus bx y) bus ∧
    Lcd.GetTileDataPixelColorIndex bus (if lcd.LCDC &&& Bit4 != 0 then 0x8000 else 0x9000)
        (if lcd.LCDC &&& Bit4 != 0 then (Lcd.specTileMapByte lcd bus bx y : Int)
         else if (Lcd.specTileMapByte lcd bus bx y : Int) > 127
           then (Lcd.specTileMapByte lcd bus bx y : Int) - 256
           else (Lcd.specTileMapByte lcd bus bx y : Int))
        (bx : Int) (y : Int) =
      .ok (Lcd.specColorIndex bus
        (Lcd.specTileRowAddress lcd (Lcd.specTileMapByte lcd bus bx y) y) bx) bus ∧
    Lcd.specColorIndex bus
      (Lcd.specTileRowAddress lcd (Lcd.specTileMapByte lcd bus bx y) y) bx < 4 ∧
    Lcd.backgroundLuminosity lcd bus screenX =
      .ok (lcd.GetLuminosityForColorIndex lcd.BGP
        (Lcd.specColorIndex bus
          (Lcd.specTileRowAddress lcd
            (Lcd.specTileMapByte lcd bus ((lcd.SCX + screenX) % 256) ((lcd.SCY + n) % 256))
            ((lcd.SCY + n) % 256))
          ((lcd.SCX + screenX) % 256))) bus := by
  obtain ⟨h1, h2⟩ := Lcd.background_lookup lcd bus bx y hbx hy hbyte
  exact ⟨h1, h2, Lcd.specColorIndex_lt bus _ bx,
    Lcd.backgroundLuminosity_eq lcd bus screenX n hbyte hn⟩

/-- The property of C34 at the sample LCD after Reset and the sample bus (video RAM filled
with 0xFD), for the coordinates (3, 10) and for screen column 3 of scanline 0. -/
theorem background_tile_lookup_witness :
    (3 : Nat) < 256 ∧ (10 : Nat) < 256 ∧ (∀ a, Sample.bus.m_vram a < 256) ∧
    Sample.lcd.m_scanLine = ((0 : Nat) : Int) ∧
    (Lcd.GetTileIndexAtXY Sample.bus
        (if Sample.lcd.LCDC &&& Bit3 != 0 then 0x9C00 else 0x9800) ((3 : Nat) : Int)
        ((10 : Nat) : Int) = .ok (Lcd.specTileMapByte Sample.lcd Sample.bus 3 10) Sample.bus ∧
    Lcd.GetTileDataPixelColorIndex Sample.bus
        (if Sample.lcd.LCDC &&& Bit4 != 0 then 0x8000 else 0x9000)
        (if Sample.lcd.LCDC &&& Bit4 != 0
         then (Lcd.specTileMapByte Sample.lcd Sample.bus 3 10 : Int)
         else if (Lcd.specTileMapByte Sample.lcd Sample.bus 3 10 : Int) > 127
           then (Lcd.specTileMapByte Sample.lcd Sample.bus 3 10 : Int) - 256
           else (Lcd.specTileMapByte Sample.lcd Sample.bus 3 10 : Int))
        ((3 : Nat) : Int) ((10 : Nat) : Int) =
      .ok (Lcd.specColorIndex Sample.bus
        (Lcd.specTileRowAddress Sample.lcd (Lcd.specTileMapByte Sample.lcd Sample.bus 3 10) 10)
        3) Sample.bus ∧
    Lcd.specColorIndex Sample.bus
      (Lcd.specTileRowAddress Sample.lcd (Lcd.specTileMapByte Sample.lcd Sample.bus 3 10) 10)
      3 < 4 ∧
    Lcd.backgroundLuminosity Sample.lcd Sample.bus 3 =
      .ok (Sample.lcd.GetLuminosityForColorIndex Sample.lcd.BGP
        (Lcd.specColorIndex Sample.bus
          (Lcd.specTileRowAddress Sample.lcd
            (Lcd.specTileMapByte Sample.lcd Sample.bus ((Sample.lcd.SCX + 3) % 256)
              ((Sample.lcd.SCY + 0) % 256))
            ((Sample.lcd.SCY + 0) % 256))
          ((Sample.lcd.SCX + 3) % 256))) Sample.bus) :=
  ⟨by decide, by decide, fun _ => show (0xFD : Nat) < 256 by decide, rfl,
    background_tile_lookup Sample.lcd Sample.bus 3 10 3 0 (by decide) (by decide)
      (fun _ => show (0xFD : Nat) < 256 by decide) rfl⟩

/-- Claim C35: `SetFlagValue` sets the addressed bit of F to the given value, leaves the
other seven bits of F and every other register as they were, and leaves F a byte; and from
a CPU state with F & 0x0F = 0, the body of the instruction switch for every opcode other
than 0xF1 (POP AF), the bodies behind the 0xCB prefix included, ends with F & 0x0F = 0,
whether it returns or throws, and so does `ExecuteSingleInstruction` when the opcode it
fetches is not 0xF1. -/
theorem low_nibble_of_F_stays_zero (cpu : Cpu δ) (opcode : Nat)
    (hF : cpu.F &&& 0x0F = 0) (hne : opcode ≠ 0xF1)
    (hfetch : cpu.Fetch8.value? ≠ some 0xF1) :
    (∀ (c : Cpu δ) (p : FlagBitIndex) (v : Bool),
      (c.SetFlagValue p v).F.testBit p.toNat = v ∧
      (∀ i, i < 8 → i ≠ p.toNat → (c.SetFlagValue p v).F.testBit i = c.F.testBit i) ∧
      (c.SetFlagValue p v).F < 256 ∧
      c.SetFlagValue p v = { c with F := (c.SetFlagValue p v).F }) ∧
    (ExecuteOpcode opcode cpu).state.F &&& 0x0F = 0 ∧
    cpu.ExecuteSingleInstruction.state.F &&& 0x0F = 0 := by
  refine ⟨fun c p v => ⟨?_, fun i hi hne => ?_, ?_, rfl⟩, ?_, ?_⟩
  · rw [SetFlagValue_F_testBit, if_pos rfl]
  · rw [SetFlagValue_F_testBit, if_neg hne]
    simp [hi]
  · unfold SetFlagValue
    dsimp only
    split_ifs <;> (unfold toUint8; omega)
  · rw [ExecuteOpcode_lowF opcode cpu hne, hF]
  · rw [ExecuteSingleInstruction_lowF cpu fun cpu1 h => hfetch (by rw [h]; rfl), hF]

/-- The property of C35 at the sample CPU in front of `ADD A,0x01` with A = 0x0F, where
F = 0xB0. -/
theorem low_nibble_of_F_stays_zero_witness :
    (Sample.cpuAt 0x0150 0x0F).F &&& 0x0F = 0 ∧ (0xC6 : Nat) ≠ 0xF1 ∧
    (Sample.cpuAt 0x0150 0x0F).Fetch8.value? = some 0xC6 ∧
    (Sample.cpuAt 0x0150 0x0F).Fetch8.value? ≠ some 0xF1 ∧
    (∀ (c : Cpu Unit) (p : FlagBitIndex) (v : Bool),
      (c.SetFlagValue p v).F.testBit p.toNat = v ∧
      (∀ i, i < 8 → i ≠ p.toNat → (c.SetFlagValue p v).F.testBit i = c.F.testBit i) ∧
      (c.SetFlagValue p v).F < 256 ∧
      c.SetFlagValue p v = { c with F := (c.SetFlagValue p v).F }) ∧
    (ExecuteOpcode 0xC6 (Sample.cpuAt 0x0150 0x0F)).state.F &&& 0x0F = 0 ∧
    (Sample.cpuAt 0x0150 0x0F).ExecuteSingleInstruction.state.F &&& 0x0F = 0 :=
  ⟨by decide, by decide, by decide, by decide,
    low_nibble_of_F_stays_zero (Sample.cpuAt 0x0150 0x0F) 0xC6 (by decide) (by decide)
      (by decide)⟩

/-- Claim C37: on a CPU whose halted or stopped flag is set, whatever the bus holds (IF and
IE included): after any number of iterations of the loop of `Update`, PC, SP, the registers
A, F, B, C, D, E, H, L, IME and the halted and stopped flags are what they were, and the bus
holds the same RAM bytes and registers; an iteration that returns consumes 4 cycles and
adds 1 to the opcode counter (modulo 2^32); an iteration returns whenever the two debugger
reads at the head of the loop (`Peek8` and `DebugOpcode`) return, so no instruction is
executed; HALT (0x76) leaves the halted flag set and STOP (0x10) the stopped flag, and
`Reset` clears both. -/
theorem halted_or_stopped_cpu_only_idles (cpu : Cpu δ)
    (hh : cpu.m_cpuHalted = true ∨ cpu.m_cpuStopped = true) :
    (∀ keycodes : List Nat,
      (cpu.UpdateIterations keycodes).PC = cpu.PC ∧
      (cpu.UpdateIterations keycodes).SP = cpu.SP ∧
      (cpu.UpdateIterations keycodes).A = cpu.A ∧
      (cpu.UpdateIterations keycodes).F = cpu.F ∧
      (cpu.UpdateIterations keycodes).B = cpu.B ∧
      (cpu.UpdateIterations keycodes).C = cpu.C ∧
      (cpu.UpdateIterations keycodes).D = cpu.D ∧
      (cpu.UpdateIterations keycodes).E = cpu.E ∧
      (cpu.UpdateIterations keycodes).H = cpu.H ∧
      (cpu.UpdateIterations keycodes).L = cpu.L ∧
      (cpu.UpdateIterations keycodes).IME = cpu.IME ∧
      (cpu.UpdateIterations keycodes).m_cpuHalted = cpu.m_cpuHalted ∧
      (cpu.UpdateIterations keycodes).m_cpuStopped = cpu.m_cpuStopped ∧
      sameMemory (cpu.UpdateIterations keycodes).m_pMemory cpu.m_pMemory) ∧
    (∀ keycode : Nat,
      (∀ cycles cpu1, cpu.UpdateIteration keycode = .ok cycles cpu1 →
        cycles = 4 ∧
        cpu1.m_totalOpcodesExecuted = (cpu.m_totalOpcodesExecuted + 1) % 2 ^ 32) ∧
      (∀ opcode cpuA cpuB, cpu.Peek8 = .ok opcode cpuA →
        cpuA.DebugOpcode opcode = .ok () cpuB →
        ∃ cpu1, cpu.UpdateIteration keycode = .ok 4 cpu1)) ∧
    (∀ c : Cpu δ, (ExecuteOpcode 0x76 c).state.m_cpuHalted = true) ∧
    (∀ c : Cpu δ, (ExecuteOpcode 0x10 c).state.m_cpuStopped = true) ∧
    (∀ c : Cpu δ, c.Reset.m_cpuHalted = false ∧ c.Reset.m_cpuStopped = false) := by
  refine ⟨fun keycodes => ?_, fun keycode => ⟨fun cycles cpu1 h => ?_,
    fun opcode cpuA cpuB hpeek hdebug =>
      UpdateIteration_halted_returns cpu cpuA cpuB keycode opcode hh hpeek hdebug⟩,
    fun c => ?_, fun c => rfl, fun c => ⟨rfl, rfl⟩⟩
  · rcases UpdateIterations_halted keycodes cpu hh with ⟨b, d, n, hb, h⟩
    rw [h]
    exact ⟨rfl, rfl, rfl, rfl, rfl, rfl, rfl, rfl, rfl, rfl, rfl, rfl, rfl, hb⟩
  · rcases UpdateIteration_halted cpu keycode hh with ⟨b, _, ⟨d, h1⟩ | ⟨e, h1⟩⟩
    · rw [h1] at h
      cases h
      exact ⟨rfl, rfl⟩
    · rw [h1] at h
      cases h
  · show (OPCODE 4 (HALT_7__6 0x76) c).state.m_cpuHalted = true
    unfold OPCODE HALT_7__6
    dsimp only
    split_ifs <;> rfl

/-- The property of C37 at the sample CPU halted in front of the byte at 0x0103. -/
theorem halted_or_stopped_cpu_only_idles_witness :
    (Sample.haltedCpu.m_cpuHalted = true ∨ Sample.haltedCpu.m_cpuStopped = true) ∧
    Sample.haltedCpu.Peek8 = .ok (Sample.romByte 0x0103) Sample.haltedCpu.Peek8.state ∧
    (∀ keycodes : List Nat,
      (Sample.haltedCpu.UpdateIterations keycodes).PC = Sample.haltedCpu.PC ∧
      (Sample.haltedCpu.UpdateIterations keycodes).SP = Sample.haltedCpu.SP ∧
      (Sample.haltedCpu.UpdateIterations keycodes).A = Sample.haltedCpu.A ∧
      (Sample.haltedCpu.UpdateIterations keycodes).F = Sample.haltedCpu.F ∧
      (Sample.haltedCpu.UpdateIterations keycodes).B = Sample.haltedCpu.B ∧
      (Sample.haltedCpu.UpdateIterations keycodes).C = Sample.haltedCpu.C ∧
      (Sample.haltedCpu.UpdateIterations keycodes).D = Sample.haltedCpu.D ∧
      (Sample.haltedCpu.UpdateIterations keycodes).E = Sample.haltedCpu.E ∧
      (Sample.haltedCpu.UpdateIterations keycodes).H = Sample.haltedCpu.H ∧
      (Sample.haltedCpu.UpdateIterations keycodes).L = Sample.haltedCpu.L ∧
      (Sample.haltedCpu.UpdateIterations keycodes).IME = Sample.haltedCpu.IME ∧
      (Sample.haltedCpu.UpdateIterations keycodes).m_cpuHalted = Sample.haltedCpu.m_cpuHalted ∧
      (Sample.haltedCpu.UpdateIterations keycodes).m_cpuStopped
        = Sample.haltedCpu.m_cpuStopped ∧
      sameMemory (Sample.haltedCpu.UpdateIterations keycodes).m_pMemory
        Sample.haltedCpu.m_pMemory) ∧
    (∀ keycode : Nat,
      (∀ cycles cpu1, Sample.haltedCpu.UpdateIteration keycode = .ok cycles cpu1 →
        cycles = 4 ∧
        cpu1.m_totalOpcodesExecuted
          = (Sample.haltedCpu.m_totalOpcodesExecuted + 1) % 2 ^ 32) ∧
      (∀ opcode cpuA cpuB, Sample.haltedCpu.Peek8 = .ok opcode cpuA →
        cpuA.DebugOpcode opcode = .ok () cpuB →
        ∃ cpu1, Sample.haltedCpu.UpdateIteration keycode = .ok 4 cpu1)) ∧
    (∀ c : Cpu Unit, (ExecuteOpcode 0x76 c).state.m_cpuHalted = true) ∧
    (∀ c : Cpu Unit, (ExecuteOpcode 0x10 c).state.m_cpuStopped = true) ∧
    (∀ c : Cpu Unit, c.Reset.m_cpuHalted = false ∧ c.Reset.m_cpuStopped = false) :=
  ⟨Or.inl rfl, rfl, halted_or_stopped_cpu_only_idles Sample.haltedCpu (Or.inl rfl)⟩

/-- Claim C38: for every LCD state whose current scanline is not negative (whatever LCDC, SCX,
SCY, WX and WY hold) and every screen column, the background layer reads the bus, whatever
bus it is, at exactly three addresses: a tile-map address in 0x9800-0x9FFF and, for whatever
byte is read there, two tile-data addresses in 0x8000-0x97FF; the window layer reads nothing
or likewise; three such reads are served from video RAM and leave the bus as it is; so the
pixel is computed, and `RenderScanline` returns, with the bus unchanged, on every bus. -/
theorem render_reads_only_VRAM (lcd : Lcd) (screenX current : Nat)
    (h0 : 0 ≤ lcd.m_scanLine) :
    (∃ a d g, 0x9800 ≤ a ∧ a ≤ 0x9FFF ∧ (∀ t : Nat, 0x8000 ≤ d t ∧ d t + 1 ≤ 0x97FF) ∧
      ∀ bus : MemoryBus δ, Lcd.backgroundLuminosity lcd bus screenX = Lcd.tileReads bus a d g) ∧
    ((∀ bus : MemoryBus δ, Lcd.windowLuminosity lcd bus screenX current = .ok current bus) ∨
      ∃ a d g, 0x9800 ≤ a ∧ a ≤ 0x9FFF ∧ (∀ t : Nat, 0x8000 ≤ d t ∧ d t + 1 ≤ 0x97FF) ∧
        ∀ bus : MemoryBus δ,
          Lcd.windowLuminosity lcd bus screenX current = Lcd.tileReads bus a d g) ∧
    (∀ (bus : MemoryBus δ) (a : Nat) (d : Nat → Nat) (g : Nat → Nat → Nat → Nat),
      0x9800 ≤ a → a ≤ 0x9FFF → (∀ t : Nat, 0x8000 ≤ d t ∧ d t + 1 ≤ 0x97FF) →
      Lcd.tileReads bus a d g =
        .ok (g (bus.ramByte a) (bus.ramByte (d (bus.ramByte a)))
          (bus.ramByte (d (bus.ramByte a) + 1))) bus) ∧
    (∀ bus : MemoryBus δ, ∃ pixel, Lcd.renderPixel lcd bus screenX = .ok pixel bus) ∧
    (∀ bus : MemoryBus δ, ∃ fb, Lcd.RenderScanline (lcd, bus) =
      .ok (Lcd.renderEvents lcd) ({ lcd with m_pFrameBuffer := fb }, bus)) := by
  obtain ⟨n, hn⟩ := Int.eq_ofNat_of_zero_le h0
  refine ⟨⟨_, _, _, ?_, ?_, ?_, fun bus => Lcd.backgroundLuminosity_reads lcd bus screenX n hn⟩,
    ?_, ?_, ?_, ?_⟩
  · split_ifs <;> omega
  · split_ifs <;> omega
  · intro t
    have := Lcd.specTileRowAddress_range lcd (t % 256) ((lcd.SCY + n) % 256)
      (Nat.mod_lt _ (by norm_num))
    exact this
  · rcases Lcd.windowLuminosity_reads (δ := δ) lcd screenX current with
      hno | ⟨a, d, g, ha1, ha2, hd, _, hreads⟩
    · exact Or.inl hno
    · exact Or.inr ⟨a, d, g, ha1, ha2, hd, hreads⟩
  · intro bus a d g ha1 ha2 hd
    exact Lcd.tileReads_vram bus a d g (by omega) (by omega)
      (fun t => by have := hd t; omega)
  · intro bus
    exact Lcd.renderPixel_ok lcd bus screenX h0
  · intro bus
    obtain ⟨fb, hfb, _⟩ := Lcd.RenderScanline_ok lcd bus h0
    exact ⟨fb, hfb⟩

/-- The property of C38 at the sample LCD after Reset (scanline 0), screen column 7. -/
theorem render_reads_only_VRAM_witness :
    0 ≤ Sample.lcd.m_scanLine ∧
    ((∃ a d g, 0x9800 ≤ a ∧ a ≤ 0x9FFF ∧ (∀ t : Nat, 0x8000 ≤ d t ∧ d t + 1 ≤ 0x97FF) ∧
      ∀ bus : MemoryBus Unit,
        Lcd.backgroundLuminosity Sample.lcd bus 7 = Lcd.tileReads bus a d g) ∧
    ((∀ bus : MemoryBus Unit, Lcd.windowLuminosity Sample.lcd bus 7 0xFF = .ok 0xFF bus) ∨
      ∃ a d g, 0x9800 ≤ a ∧ a ≤ 0x9FFF ∧ (∀ t : Nat, 0x8000 ≤ d t ∧ d t + 1 ≤ 0x97FF) ∧
        ∀ bus : MemoryBus Unit,
          Lcd.windowLuminosity Sample.lcd bus 7 0xFF = Lcd.tileReads bus a d g) ∧
    (∀ (bus : MemoryBus Unit) (a : Nat) (d : Nat → Nat) (g : Nat → Nat → Nat → Nat),
      0x9800 ≤ a → a ≤ 0x9FFF → (∀ t : Nat, 0x8000 ≤ d t ∧ d t + 1 ≤ 0x97FF) →
      Lcd.tileReads bus a d g =
        .ok (g (bus.ramByte a) (bus.ramByte (d (bus.ramByte a)))
          (bus.ramByte (d (bus.ramByte a) + 1))) bus) ∧
    (∀ bus : MemoryBus Unit, ∃ pixel, Lcd.renderPixel Sample.lcd bus 7 = .ok pixel bus) ∧
    (∀ bus : MemoryBus Unit, ∃ fb, Lcd.RenderScanline (Sample.lcd, bus) =
      .ok (Lcd.renderEvents Sample.lcd) ({ Sample.lcd with m_pFrameBuffer := fb }, bus))) :=
  ⟨by decide, render_reads_only_VRAM Sample.lcd 7 0xFF (by decide)⟩

end Claims
end GBEmu
